import Mathlib

/-!
# AT21CS01 / AT21CS11 single-wire EEPROM driver

A shallow embedding of `src/AT21CS.cpp` (with `Status.h`, `Config.h`,
`CommandTable.h` and `AT21CS.h`).

* Machine integers are natural numbers; a cast to `uint8_t`, `uint16_t` or
  `uint32_t` is written as an explicit `% 256`, `% 65536` or `% 4294967296`.
* The hardware is a `World`: the chronological trace of everything the driver
  did to the platform (pin writes, pin reads, delays, clock reads) together with
  the answers of the platform, each a function of the trace so far.  Any
  deterministic line behaviour is such a function.
* A member function of `Driver` becomes a function taking the driver record and
  the world and returning a `Ret`: the `Status`, the values of the reference
  parameters, the driver afterwards and the world afterwards.
* `waitReady` polls in a `while (true)` loop; its model takes a bound on the
  number of polls and returns `none` when the bound is used up.
-/

namespace AT21CS

/-! ## Status.h -/

/-- Error codes for all fallible driver operations (`enum class Err`). -/
inductive Err where
  | OK
  | NOT_INITIALIZED
  | INVALID_STATE
  | INVALID_CONFIG
  | INVALID_PARAM
  | NOT_PRESENT
  | DISCOVERY_FAILED
  | NACK_DEVICE_ADDRESS
  | NACK_MEMORY_ADDRESS
  | NACK_DATA
  | BUSY_TIMEOUT
  | UNSUPPORTED_COMMAND
  | CRC_MISMATCH
  | PART_MISMATCH
  | IO_ERROR
  deriving DecidableEq, Repr

/-- Status structure returned by all fallible APIs. -/
structure Status where
  code : Err
  detail : Int
  msg : String
  deriving DecidableEq, Repr

/-- The member `ok()`: true when the code is `Err::OK`. -/
def Status.ok (s : Status) : Bool := s.code == Err.OK

/-- The successful status value `Status::Ok()`. -/
def Status.Ok : Status := { code := Err.OK, detail := 0, msg := "OK" }

/-- The error status value `Status::Error(err, message, detailCode)`. -/
def Status.Error (err : Err) (message : String) (detailCode : Int) : Status :=
  { code := err, detail := detailCode, msg := message }

/-! ## Config.h -/

/-- Supported device variants. -/
inductive PartType where
  | UNKNOWN
  | AT21CS01
  | AT21CS11
  deriving DecidableEq, Repr

/-- Communication speed profile. -/
inductive SpeedMode where
  | HIGH_SPEED
  | STANDARD_SPEED
  deriving DecidableEq, Repr

/-- Driver configuration, with the defaults of `struct Config`.  The fields
`addressBits`, `offlineThreshold` and `discoveryRetries` are `uint8_t` and
`writeTimeoutMs` is `uint32_t` in the source. -/
structure Config where
  sioPin : Int := -1
  presencePin : Int := -1
  presenceActiveHigh : Bool := true
  addressBits : Nat := 0
  offlineThreshold : Nat := 5
  writeTimeoutMs : Nat := 6
  discoveryRetries : Nat := 2
  expectedPart : PartType := PartType.UNKNOWN
  startupSpeed : SpeedMode := SpeedMode.HIGH_SPEED
  deriving DecidableEq, Repr

/-! ## CommandTable.h -/

namespace cmd

def OPCODE_EEPROM : Nat := 0x0A
def OPCODE_SECURITY : Nat := 0x0B
def OPCODE_MANUFACTURER_ID : Nat := 0x0C
def OPCODE_STANDARD_SPEED : Nat := 0x0D
def OPCODE_HIGH_SPEED : Nat := 0x0E
def OPCODE_ROM_ZONE : Nat := 0x07
def OPCODE_FREEZE_ROM : Nat := 0x01
def OPCODE_LOCK_SECURITY : Nat := 0x02

def EEPROM_SIZE : Nat := 128
def SECURITY_SIZE : Nat := 32
def PAGE_SIZE : Nat := 8

def SECURITY_USER_MIN : Nat := 0x10
def SECURITY_USER_MAX : Nat := 0x1F
def SECURITY_SERIAL_START : Nat := 0x00
def SECURITY_SERIAL_SIZE : Nat := 8
def SECURITY_PRODUCT_ID : Nat := 0xA0

def MANUFACTURER_ID_AT21CS01 : Nat := 0x00D200
def MANUFACTURER_ID_AT21CS11 : Nat := 0x00D380

def ROM_ZONE_REGISTER_COUNT : Nat := 4
def ROM_ZONE_REGISTERS : List Nat := [0x01, 0x02, 0x04, 0x08]
def ROM_ZONE_ROM_VALUE : Nat := 0xFF

def FREEZE_ROM_ADDR : Nat := 0x55
def FREEZE_ROM_DATA : Nat := 0xAA

def LOCK_SECURITY_ADDRESS : Nat := 0x60

end cmd

/-! ## The platform -/

/-- Pin modes of the Arduino core that the driver uses. -/
inductive PinMode where
  | INPUT
  | OUTPUT_OPEN_DRAIN
  deriving DecidableEq, Repr

/-- One interaction of the driver with the platform. -/
inductive Event where
  /-- Pin setup: `pinMode`, or `gpio_config` on the ESP32 build. -/
  | pinMode (pin : Nat) (mode : PinMode)
  /-- Driving a pin: `digitalWrite`, or `gpio_set_level` on the ESP32 build. -/
  | write (pin : Nat) (high : Bool)
  /-- Sampling a pin (`digitalRead` / `gpio_get_level`) with the level seen. -/
  | read (pin : Nat) (high : Bool)
  /-- The busy wait `delayMicroseconds(us)`. -/
  | delayUs (us : Nat)
  /-- Reading the clock `millis()` with the value seen. -/
  | millis (now : Nat)
  deriving DecidableEq, Repr

/-- The hardware seen from the driver.  `trace` lists the events so far, oldest
first.  The other fields are the platform's answers as functions of the trace:
the level of a pin, the millisecond clock, and whether the next ESP32 GPIO call
made by `_configurePins` returns `ESP_OK` (on the Arduino build these calls
return nothing and `gpioOk` is constantly `true`). -/
structure World where
  trace : List Event
  level : List Event → Nat → Bool
  clock : List Event → Nat
  gpioOk : List Event → Bool

/-- Append one event to the trace. -/
def World.emit (w : World) (e : Event) : World :=
  { w with trace := w.trace ++ [e] }

/-- The call `pinMode(pin, mode)`. -/
def pinMode (pin : Nat) (mode : PinMode) (w : World) : World :=
  w.emit (Event.pinMode pin mode)

/-- The call `digitalWrite(pin, value)`. -/
def digitalWrite (pin : Nat) (high : Bool) (w : World) : World :=
  w.emit (Event.write pin high)

/-- The call `digitalRead(pin)`: true for a high level. -/
def digitalRead (pin : Nat) (w : World) : Bool × World :=
  let v := w.level w.trace pin
  (v, w.emit (Event.read pin v))

/-- The call `delayMicroseconds(us)`. -/
def delayMicroseconds (us : Nat) (w : World) : World :=
  w.emit (Event.delayUs us)

/-- The call `millis()`, a `uint32_t`. -/
def millis (w : World) : Nat × World :=
  let t := w.clock w.trace % 4294967296
  (t, w.emit (Event.millis t))

/-! ## Helpers of the anonymous namespace -/

/-- The test `static_cast<int32_t>(now - deadline) >= 0` on `uint32_t` values:
the difference modulo 2^32 has its sign bit clear. -/
def deadlinePassed (now deadline : Nat) : Bool :=
  decide ((now + 4294967296 - deadline % 4294967296) % 4294967296 < 2147483648)

/-- The overload `incrementWrap(uint8_t&)`: add one unless at `UINT8_MAX`. -/
def incrementWrap8 (value : Nat) : Nat :=
  if value ≠ 255 then value + 1 else value

/-- The overload `incrementWrap(uint32_t&)`: add one unless at `UINT32_MAX`. -/
def incrementWrap32 (value : Nat) : Nat :=
  if value ≠ 4294967295 then value + 1 else value

/-! ## AT21CS.h -/

/-- Driver runtime state machine (`enum class DriverState`). -/
inductive DriverState where
  | UNINIT
  | PROBING
  | INIT_CONFIG
  | READY
  | BUSY
  | DEGRADED
  | OFFLINE
  | RECOVERING
  | SLEEPING
  | FAULT
  deriving DecidableEq, Repr

/-- Factory serial number payload from the Security register. -/
structure SerialNumberInfo where
  bytes : List Nat
  productIdOk : Bool
  crcOk : Bool
  deriving DecidableEq, Repr

/-- Microsecond constants of one speed grade. -/
structure TimingProfile where
  bitUs : Nat
  low0Us : Nat
  low1Us : Nat
  readLowUs : Nat
  readSampleUs : Nat
  htssUs : Nat
  deriving DecidableEq, Repr

def HIGH_SPEED_TIMING : TimingProfile :=
  { bitUs := 12, low0Us := 8, low1Us := 2, readLowUs := 1, readSampleUs := 3, htssUs := 150 }

def STANDARD_SPEED_TIMING : TimingProfile :=
  { bitUs := 60, low0Us := 32, low1Us := 6, readLowUs := 6, readSampleUs := 14, htssUs := 600 }

def RESET_LOW_US : Nat := 150
def DISCHARGE_LOW_US : Nat := 150
def RESET_RECOVERY_US : Nat := 10
def DISCOVERY_REQUEST_US : Nat := 1
def DISCOVERY_STROBE_DELAY_US : Nat := 8
def DISCOVERY_STROBE_US : Nat := 2
def DISCOVERY_SAMPLE_DELAY_US : Nat := 1

/-- The data members of `class Driver`, with their in-class initial values. -/
structure Driver where
  _config : Config := {}
  _initialized : Bool := false
  _driverState : DriverState := DriverState.UNINIT
  _detectedPart : PartType := PartType.UNKNOWN
  _speedMode : SpeedMode := SpeedMode.HIGH_SPEED
  _timing : TimingProfile := HIGH_SPEED_TIMING
  _lastOkMs : Nat := 0
  _lastErrorMs : Nat := 0
  _lastError : Status := Status.Ok
  _consecutiveFailures : Nat := 0
  _totalFailures : Nat := 0
  _totalSuccess : Nat := 0
  _lastTickMs : Nat := 0
  deriving DecidableEq, Repr

/-- What a member function leaves behind: the returned `Status`, the values of
its reference (output) parameters, the driver and the world. -/
structure Ret (α : Type) where
  st : Status
  out : α
  drv : Driver
  world : World

namespace Driver

/-- The accessor `state()`. -/
def state (d : Driver) : DriverState := d._driverState

/-- The accessor `isOnline()`. -/
def isOnline (d : Driver) : Bool :=
  d._driverState != DriverState.UNINIT && d._driverState != DriverState.OFFLINE &&
    d._driverState != DriverState.FAULT

def lastOkMs (d : Driver) : Nat := d._lastOkMs
def lastErrorMs (d : Driver) : Nat := d._lastErrorMs
def lastError (d : Driver) : Status := d._lastError
def consecutiveFailures (d : Driver) : Nat := d._consecutiveFailures
def totalFailures (d : Driver) : Nat := d._totalFailures
def totalSuccess (d : Driver) : Nat := d._totalSuccess
def detectedPart (d : Driver) : PartType := d._detectedPart
def speedMode (d : Driver) : SpeedMode := d._speedMode

/-- The pin number `static_cast<uint8_t>(_config.sioPin)` used on the line. -/
def sio (d : Driver) : Nat := (d._config.sioPin % 256).toNat

/-! ### GPIO and the physical bit layer -/

/-- The member `_setSpeedMode`. -/
def _setSpeedMode (mode : SpeedMode) (d : Driver) : Driver :=
  { d with
    _speedMode := mode
    _timing := if mode = SpeedMode.STANDARD_SPEED then STANDARD_SPEED_TIMING else HIGH_SPEED_TIMING }

/-- The member `_resetHealth`. -/
def _resetHealth (d : Driver) : Driver :=
  { d with
    _lastOkMs := 0
    _lastErrorMs := 0
    _lastError := Status.Ok
    _consecutiveFailures := 0
    _totalFailures := 0
    _totalSuccess := 0 }

/-- The member `_configurePins`.  Both builds perform the same calls in the same
order; on the ESP32 build each can fail, which `World.gpioOk` decides. -/
def _configurePins (d : Driver) (w : World) : Status × World :=
  let ok1 := w.gpioOk w.trace
  let w := pinMode d.sio PinMode.OUTPUT_OPEN_DRAIN w
  if !ok1 then
    (Status.Error Err.INVALID_CONFIG "Failed to configure sioPin" d._config.sioPin, w)
  else
    let ok2 := w.gpioOk w.trace
    let w := digitalWrite d.sio true w
    if !ok2 then
      (Status.Error Err.INVALID_CONFIG "Failed to release sioPin" d._config.sioPin, w)
    else if d._config.presencePin ≥ 0 then
      let ok3 := w.gpioOk w.trace
      let w := pinMode (d._config.presencePin % 256).toNat PinMode.INPUT w
      if !ok3 then
        (Status.Error Err.INVALID_CONFIG "Failed to configure presencePin" d._config.presencePin, w)
      else
        (Status.Ok, w)
    else
      (Status.Ok, w)

/-- The member `_releaseLine`: let the open-drain line go high. -/
def _releaseLine (d : Driver) (w : World) : World := digitalWrite d.sio true w

/-- The member `_lineLow`: pull the line low. -/
def _lineLow (d : Driver) (w : World) : World := digitalWrite d.sio false w

/-- The member `_readLine`: true for a high line. -/
def _readLine (d : Driver) (w : World) : Bool × World := digitalRead d.sio w

/-- The member `driveLow`. -/
def driveLow (lowUs : Nat) (d : Driver) (w : World) : World :=
  delayMicroseconds lowUs (d._lineLow w)

/-- The member `releaseLine`. -/
def releaseLine (d : Driver) (w : World) : World := d._releaseLine w

/-- The member `readLine`. -/
def readLine (d : Driver) (w : World) : Bool × World := d._readLine w

/-- The member `txBit0`. -/
def txBit0 (d : Driver) (w : World) : World :=
  let w := d._lineLow w
  let w := delayMicroseconds d._timing.low0Us w
  let w := d._releaseLine w
  if d._timing.bitUs > d._timing.low0Us then
    delayMicroseconds (d._timing.bitUs - d._timing.low0Us) w
  else w

/-- The member `txBit1`. -/
def txBit1 (d : Driver) (w : World) : World :=
  let w := d._lineLow w
  let w := delayMicroseconds d._timing.low1Us w
  let w := d._releaseLine w
  if d._timing.bitUs > d._timing.low1Us then
    delayMicroseconds (d._timing.bitUs - d._timing.low1Us) w
  else w

/-- The member `rxBit`: the sampled line level. -/
def rxBit (d : Driver) (w : World) : Bool × World :=
  let w := d._lineLow w
  let w := delayMicroseconds d._timing.readLowUs w
  let w := d._releaseLine w
  let w := if d._timing.readSampleUs > 0 then delayMicroseconds d._timing.readSampleUs w else w
  let (bit, w) := d._readLine w
  let elapsed := (d._timing.readLowUs + d._timing.readSampleUs) % 65536
  let w := if d._timing.bitUs > elapsed then delayMicroseconds (d._timing.bitUs - elapsed) w else w
  (bit, w)

/-! ### Byte transaction layer -/

/-- One pass of the loop of `txByte`: send bit number `bit` of `value`. -/
def txByteBit (d : Driver) (value : Nat) (w : World) (bit : Nat) : World :=
  if (value >>> bit) &&& 1 ≠ 0 then d.txBit1 w else d.txBit0 w

/-- The member `txByte`: bits 7 down to 0, then the acknowledge slot; true when
the slot was sampled low.  The ESP32 critical section around the loop has no
effect on the driver or the line and is left out. -/
def txByte (value : Nat) (d : Driver) (w : World) : Bool × World :=
  let w := [7, 6, 5, 4, 3, 2, 1, 0].foldl (d.txByteBit value) w
  let (bit, w) := d.rxBit w
  (!bit, w)

/-- One pass of the loop of `rxByte`: sample bit number `bit` into `value`. -/
def rxByteBit (d : Driver) (acc : Nat × World) (bit : Nat) : Nat × World :=
  let (b, w) := d.rxBit acc.2
  if b then ((acc.1 ||| ((1 <<< bit) % 256)) % 256, w) else (acc.1, w)

/-- The member `rxByte`: eight sampled bits, most significant first, then the
acknowledge (a 0 bit) or not-acknowledge (a 1 bit) of the driver. -/
def rxByte (ack : Bool) (d : Driver) (w : World) : Nat × World :=
  let (value, w) := [7, 6, 5, 4, 3, 2, 1, 0].foldl d.rxByteBit (0, w)
  let w := if ack then d.txBit0 w else d.txBit1 w
  (value, w)

/-- The member `_sendStart`. -/
def _sendStart (d : Driver) (w : World) : World :=
  delayMicroseconds d._timing.htssUs (d._releaseLine w)

/-- The member `_sendStop`. -/
def _sendStop (d : Driver) (w : World) : World :=
  delayMicroseconds d._timing.htssUs (d._releaseLine w)

/-- The member `_deviceAddress`. -/
def _deviceAddress (opcode : Nat) (read : Bool) (d : Driver) : Nat :=
  let rw := if read then 1 else 0
  ((opcode <<< 4) ||| ((d._config.addressBits &&& 7) <<< 1) ||| rw) % 256

/-! ### Protocol operations -/

/-- The member `_resetAndDiscoverRaw`. -/
def _resetAndDiscoverRaw (d : Driver) (w : World) : Ret Unit :=
  let w := d.driveLow DISCHARGE_LOW_US w
  let w := d.releaseLine w
  let w := delayMicroseconds RESET_RECOVERY_US w
  let w := d._lineLow w
  let w := delayMicroseconds DISCOVERY_REQUEST_US w
  let w := d._releaseLine w
  let w := delayMicroseconds DISCOVERY_STROBE_DELAY_US w
  let w := d._lineLow w
  let w := delayMicroseconds DISCOVERY_STROBE_US w
  let w := d._releaseLine w
  let w := delayMicroseconds DISCOVERY_SAMPLE_DELAY_US w
  let (lvl, w) := d._readLine w
  let present := !lvl
  let w := delayMicroseconds HIGH_SPEED_TIMING.htssUs w
  if !present then
    ⟨Status.Error Err.DISCOVERY_FAILED "Discovery response not detected" 0, (), d, w⟩
  else
    ⟨Status.Ok, (), d._setSpeedMode SpeedMode.HIGH_SPEED, w⟩

/-- The member `_addressOnlyRaw`; the output is the reference parameter `ack`. -/
def _addressOnlyRaw (opcode : Nat) (read : Bool) (d : Driver) (w : World) : Ret Bool :=
  let w := d._sendStart w
  let (ack, w) := d.txByte (d._deviceAddress opcode read) w
  let w := d._sendStop w
  ⟨Status.Ok, ack, d, w⟩

/-- The receive loop of `_readRandomRaw`: `n` bytes are still to come, the next
one is stored at index `i` of the buffer. -/
def _readRandomLoop (d : Driver) (len : Nat) : Nat → Nat → List Nat → World → List Nat × World
  | 0, _, data, w => (data, w)
  | n + 1, i, data, w =>
    let (v, w) := d.rxByte (decide (i + 1 < len)) w
    _readRandomLoop d len n (i + 1) (data.set i v) w

/-- The member `_readRandomRaw`; the output is the buffer `data`. -/
def _readRandomRaw (opcode address : Nat) (data : List Nat) (len : Nat) (d : Driver)
    (w : World) : Ret (List Nat) :=
  let w := d._sendStart w
  let (ack, w) := d.txByte (d._deviceAddress opcode false) w
  if !ack then
    ⟨Status.Error Err.NACK_DEVICE_ADDRESS "Device address NACK" 0, data, d, d._sendStop w⟩
  else
    let (ack, w) := d.txByte address w
    if !ack then
      ⟨Status.Error Err.NACK_MEMORY_ADDRESS "Memory address NACK" 0, data, d, d._sendStop w⟩
    else
      let w := d._sendStart w
      let (ack, w) := d.txByte (d._deviceAddress opcode true) w
      if !ack then
        ⟨Status.Error Err.NACK_DEVICE_ADDRESS "Device address NACK" 0, data, d, d._sendStop w⟩
      else
        let (data, w) := d._readRandomLoop len len 0 data w
        ⟨Status.Ok, data, d, d._sendStop w⟩

/-- The transmit loop of `_writeRaw`: `n` bytes are still to go, the next one is
`data[i]`.  The result is the index of the first byte that was not
acknowledged, if any. -/
def _writeRawLoop (d : Driver) (data : List Nat) : Nat → Nat → World → Option Nat × World
  | 0, _, w => (none, w)
  | n + 1, i, w =>
    let (ack, w) := d.txByte (data.getD i 0) w
    if !ack then (some i, w) else _writeRawLoop d data n (i + 1) w

/-- The member `_writeRaw`. -/
def _writeRaw (opcode address : Nat) (data : List Nat) (len : Nat) (d : Driver)
    (w : World) : Ret Unit :=
  let w := d._sendStart w
  let (ack, w) := d.txByte (d._deviceAddress opcode false) w
  if !ack then
    ⟨Status.Error Err.NACK_DEVICE_ADDRESS "Device address NACK" 0, (), d, d._sendStop w⟩
  else
    let (ack, w) := d.txByte address w
    if !ack then
      ⟨Status.Error Err.NACK_MEMORY_ADDRESS "Memory address NACK" 0, (), d, d._sendStop w⟩
    else
      match d._writeRawLoop data len 0 w with
      | (some i, w) => ⟨Status.Error Err.NACK_DATA "Data byte NACK" i, (), d, d._sendStop w⟩
      | (none, w) => ⟨Status.Ok, (), d, d._sendStop w⟩

/-- The member `_readManufacturerIdRaw`; the output is `manufacturerId`. -/
def _readManufacturerIdRaw (manufacturerId : Nat) (d : Driver) (w : World) : Ret Nat :=
  let w := d._sendStart w
  let (ack, w) := d.txByte (d._deviceAddress cmd.OPCODE_MANUFACTURER_ID true) w
  if !ack then
    ⟨Status.Error Err.NACK_DEVICE_ADDRESS "Manufacturer ID command NACK" 0, manufacturerId, d,
      d._sendStop w⟩
  else
    let (b0, w) := d.rxByte true w
    let (b1, w) := d.rxByte true w
    let (b2, w) := d.rxByte false w
    let w := d._sendStop w
    ⟨Status.Ok, (b0 <<< 16) ||| (b1 <<< 8) ||| b2, d, w⟩

/-- The member `_readCurrentAddressRaw`; the output is `value`. -/
def _readCurrentAddressRaw (value : Nat) (d : Driver) (w : World) : Ret Nat :=
  let w := d._sendStart w
  let (ack, w) := d.txByte (d._deviceAddress cmd.OPCODE_EEPROM true) w
  if !ack then
    ⟨Status.Error Err.NACK_DEVICE_ADDRESS "Current address read NACK" 0, value, d, d._sendStop w⟩
  else
    let (v, w) := d.rxByte false w
    ⟨Status.Ok, v, d, d._sendStop w⟩

/-! ### Validation helpers -/

def _isZoneIndexValid (zoneIndex : Nat) : Bool := decide (zoneIndex < cmd.ROM_ZONE_REGISTER_COUNT)

def _isEepromAddressValid (address : Nat) : Bool := decide (address < cmd.EEPROM_SIZE)

def _isSecurityAddressValid (address : Nat) : Bool := decide (address < cmd.SECURITY_SIZE)

def _isSecurityUserAddressValid (address : Nat) : Bool :=
  decide (address ≥ cmd.SECURITY_USER_MIN) && decide (address ≤ cmd.SECURITY_USER_MAX)

/-! ### Health tracking -/

/-- The member `_trackIo`: the single outcome-classification routine. -/
def _trackIo (st : Status) (d : Driver) (w : World) : Ret Unit :=
  if !d._initialized then
    ⟨st, (), d, w⟩
  else
    let (nowMs, w) := millis w
    if st.ok then
      let d := { d with
        _lastOkMs := nowMs
        _lastError := Status.Ok
        _consecutiveFailures := 0
        _totalSuccess := incrementWrap32 d._totalSuccess }
      let d := if d._driverState ≠ DriverState.SLEEPING then
        { d with _driverState := DriverState.READY } else d
      ⟨st, (), d, w⟩
    else
      let d := { d with
        _lastErrorMs := nowMs
        _lastError := st
        _totalFailures := incrementWrap32 d._totalFailures
        _consecutiveFailures := incrementWrap8 d._consecutiveFailures }
      if st.code = Err.PART_MISMATCH ∨ st.code = Err.INVALID_CONFIG then
        ⟨st, (), { d with _driverState := DriverState.FAULT }, w⟩
      else if d._consecutiveFailures ≥ d._config.offlineThreshold then
        ⟨st, (), { d with _driverState := DriverState.OFFLINE }, w⟩
      else
        ⟨st, (), { d with _driverState := DriverState.DEGRADED }, w⟩

/-- The member `_checkInitialized`. -/
def _checkInitialized (d : Driver) : Status :=
  if !d._initialized then
    Status.Error Err.NOT_INITIALIZED "begin() must succeed before this operation" 0
  else
    Status.Ok

/-- The retry loop that `begin`, `recover`, `resetAndDiscover` and `isPresent`
each spell out: at most `attempts` calls of `_resetAndDiscoverRaw`, stopping at
the first one that succeeds; `discovery` is the status held before the next
attempt. -/
def _discoverLoop : Nat → Status → Driver → World → Ret Unit
  | 0, discovery, d, w => ⟨discovery, (), d, w⟩
  | n + 1, _, d, w =>
    let r := d._resetAndDiscoverRaw w
    if r.st.ok then r else _discoverLoop n r.st r.drv r.world

/-- The static member `crc8_31`, inner loop body: one shift of the register. -/
def crc8_31Shift (crc : Nat) : Nat :=
  if crc &&& 0x80 ≠ 0 then ((crc <<< 1) ^^^ 0x31) % 256 else (crc <<< 1) % 256

/-- The static member `crc8_31`, outer loop body for `data[i]`. -/
def crc8_31Byte (data : List Nat) (crc : Nat) (i : Nat) : Nat :=
  crc8_31Shift^[8] (crc ^^^ data.getD i 0)

/-- The static member `crc8_31`. -/
def crc8_31 (data : List Nat) (len : Nat) : Nat :=
  (List.range len).foldl (crc8_31Byte data) 0

/-! ### Lifecycle -/

/-- The end of `begin` (the source from `_detectedPart = detected` on): the
vendor ID has been classified as `detected` and has passed the checks against
`expectedPart` and `startupSpeed`; the startup speed is selected and the driver
becomes ready. -/
def beginStartup (detected : PartType) (d : Driver) (w : World) : Ret Unit :=
  let d := { d with _detectedPart := detected, _driverState := DriverState.INIT_CONFIG }
  if d._config.startupSpeed = SpeedMode.STANDARD_SPEED then
    let a := d._addressOnlyRaw cmd.OPCODE_STANDARD_SPEED false w
    if !a.st.ok then
      ⟨a.st, (), { a.drv with _driverState := DriverState.OFFLINE }, a.world⟩
    else if !a.out then
      ⟨Status.Error Err.NACK_DEVICE_ADDRESS "Standard Speed command NACK during begin()" 0, (),
        { a.drv with _driverState := DriverState.FAULT }, a.world⟩
    else
      let d := a.drv._setSpeedMode SpeedMode.STANDARD_SPEED
      let (now, w) := millis a.world
      ⟨Status.Ok, (),
        { d with
          _initialized := true
          _driverState := DriverState.READY
          _lastOkMs := now
          _lastTickMs := now
          _lastError := Status.Ok }, w⟩
  else
    let d := d._setSpeedMode SpeedMode.HIGH_SPEED
    let (now, w) := millis w
    ⟨Status.Ok, (),
      { d with
        _initialized := true
        _driverState := DriverState.READY
        _lastOkMs := now
        _lastTickMs := now
        _lastError := Status.Ok }, w⟩

/-- The middle of `begin` (the source from `uint32_t manufacturerId = 0` up to
the check of the startup speed): discovery has succeeded; the vendor ID is read
and classified and checked against the configuration. -/
def beginIdentify (d : Driver) (w : World) : Ret Unit :=
  let m := d._readManufacturerIdRaw 0 w
  if !m.st.ok then
    ⟨m.st, (), { m.drv with _driverState := DriverState.OFFLINE }, m.world⟩
  else
    let d := m.drv
    let w := m.world
    let manufacturerId := m.out
    let classified : Option PartType :=
      if manufacturerId = cmd.MANUFACTURER_ID_AT21CS01 then some PartType.AT21CS01
      else if manufacturerId = cmd.MANUFACTURER_ID_AT21CS11 then some PartType.AT21CS11
      else none
    match classified with
    | none =>
      ⟨Status.Error Err.PART_MISMATCH "Unknown manufacturer ID" manufacturerId, (),
        { d with _driverState := DriverState.FAULT }, w⟩
    | some detected =>
      if d._config.expectedPart ≠ PartType.UNKNOWN ∧ d._config.expectedPart ≠ detected then
        ⟨Status.Error Err.PART_MISMATCH "Detected part does not match expectedPart" 0, (),
          { d with _driverState := DriverState.FAULT }, w⟩
      else if d._config.startupSpeed = SpeedMode.STANDARD_SPEED ∧
          detected = PartType.AT21CS11 then
        ⟨Status.Error Err.INVALID_CONFIG "AT21CS11 does not support Standard Speed" 0, (),
          { d with _driverState := DriverState.FAULT }, w⟩
      else
        d.beginStartup detected w

/-- The member `begin`: parameter validation, reset of the driver, pin setup
and the discovery attempts; it continues with `beginIdentify` and
`beginStartup`, which hold the rest of the source function. -/
def begin (config : Config) (d : Driver) (w : World) : Ret Unit :=
  if config.sioPin < 0 then
    ⟨Status.Error Err.INVALID_CONFIG "sioPin must be >= 0" 0, (),
      { d with _driverState := DriverState.FAULT }, w⟩
  else if config.sioPin > 63 then
    ⟨Status.Error Err.INVALID_CONFIG "sioPin must be <= 63" 0, (),
      { d with _driverState := DriverState.FAULT }, w⟩
  else if config.presencePin > 63 then
    ⟨Status.Error Err.INVALID_CONFIG "presencePin must be <= 63" 0, (),
      { d with _driverState := DriverState.FAULT }, w⟩
  else if config.addressBits > 0x07 then
    ⟨Status.Error Err.INVALID_CONFIG "addressBits must be in range 0..7" 0, (),
      { d with _driverState := DriverState.FAULT }, w⟩
  else if config.offlineThreshold = 0 then
    ⟨Status.Error Err.INVALID_CONFIG "offlineThreshold must be > 0" 0, (),
      { d with _driverState := DriverState.FAULT }, w⟩
  else if config.writeTimeoutMs = 0 then
    ⟨Status.Error Err.INVALID_CONFIG "writeTimeoutMs must be > 0" 0, (),
      { d with _driverState := DriverState.FAULT }, w⟩
  else
    let d := { d with
      _config := config
      _initialized := false
      _driverState := DriverState.UNINIT
      _detectedPart := PartType.UNKNOWN }
    let d := d._setSpeedMode SpeedMode.HIGH_SPEED
    let d := d._resetHealth
    let (st, w) := d._configurePins w
    if !st.ok then
      ⟨st, (), { d with _driverState := DriverState.FAULT }, w⟩
    else
      let d := { d with _driverState := DriverState.PROBING }
      let attempts := (d._config.discoveryRetries + 1) % 256
      let r := _discoverLoop attempts (Status.Error Err.DISCOVERY_FAILED "Discovery failed" 0) d w
      if !r.st.ok then
        ⟨Status.Error Err.NOT_PRESENT "Device did not respond to reset/discovery" 0, (),
          { r.drv with _driverState := DriverState.OFFLINE }, r.world⟩
      else
        r.drv.beginIdentify r.world

/-- The member `tick`. -/
def tick (nowMs : Nat) (d : Driver) : Driver :=
  if !d._initialized then d else { d with _lastTickMs := nowMs }

/-- The member `end`. -/
def «end» (d : Driver) (w : World) : Driver × World :=
  let w := if d._config.sioPin ≥ 0 then d._releaseLine w else w
  let d := { d with
    _initialized := false
    _driverState := DriverState.UNINIT
    _detectedPart := PartType.UNKNOWN }
  let d := d._setSpeedMode SpeedMode.HIGH_SPEED
  (d._resetHealth, w)

/-! ### Diagnostics and recovery -/

/-- The member `probe`. -/
def probe (d : Driver) (w : World) : Ret Unit :=
  let st := d._checkInitialized
  if !st.ok then ⟨st, (), d, w⟩
  else
    let previous := d._driverState
    let d := { d with _driverState := DriverState.PROBING }
    let r := d._resetAndDiscoverRaw w
    ⟨r.st, (), { r.drv with _driverState := previous }, r.world⟩

/-- The member `recover`. -/
def recover (d : Driver) (w : World) : Ret Unit :=
  let st := d._checkInitialized
  if !st.ok then ⟨st, (), d, w⟩
  else
    let d := { d with _driverState := DriverState.RECOVERING }
    let attempts := (d._config.discoveryRetries + 1) % 256
    let r := _discoverLoop attempts (Status.Error Err.DISCOVERY_FAILED "Discovery failed" 0) d w
    if !r.st.ok then r.drv._trackIo r.st r.world
    else
      let m := r.drv._readManufacturerIdRaw 0 r.world
      if !m.st.ok then m.drv._trackIo m.st m.world
      else
        let manufacturerId := m.out
        let classified : Option PartType :=
          if manufacturerId = cmd.MANUFACTURER_ID_AT21CS01 then some PartType.AT21CS01
          else if manufacturerId = cmd.MANUFACTURER_ID_AT21CS11 then some PartType.AT21CS11
          else none
        match classified with
        | none =>
          m.drv._trackIo (Status.Error Err.PART_MISMATCH "Unknown manufacturer ID" manufacturerId)
            m.world
        | some part =>
          let d : Driver := { m.drv with _detectedPart := part }
          if d._config.expectedPart ≠ PartType.UNKNOWN ∧
              d._config.expectedPart ≠ d._detectedPart then
            d._trackIo
              (Status.Error Err.PART_MISMATCH "Detected part does not match expectedPart" 0)
              m.world
          else
            d._trackIo Status.Ok m.world

/-- The member `resetAndDiscover`. -/
def resetAndDiscover (d : Driver) (w : World) : Ret Unit :=
  let st := d._checkInitialized
  if !st.ok then ⟨st, (), d, w⟩
  else
    let d := { d with _driverState := DriverState.PROBING }
    let attempts := (d._config.discoveryRetries + 1) % 256
    let r := _discoverLoop attempts (Status.Error Err.DISCOVERY_FAILED "Discovery failed" 0) d w
    r.drv._trackIo r.st r.world

/-- The member `isPresent`; the output is `present`. -/
def isPresent (d : Driver) (w : World) : Ret Bool :=
  let st := d._checkInitialized
  if !st.ok then ⟨st, false, d, w⟩
  else
    let gate : Bool × World :=
      if d._config.presencePin ≥ 0 then
        let (level, w) := digitalRead (d._config.presencePin % 256).toNat w
        (if d._config.presenceActiveHigh then level else !level, w)
      else
        (true, w)
    if !gate.1 then ⟨Status.Ok, false, d, gate.2⟩
    else
      let d := { d with _driverState := DriverState.PROBING }
      let attempts := (d._config.discoveryRetries + 1) % 256
      let r := _discoverLoop attempts (Status.Error Err.DISCOVERY_FAILED "Discovery failed" 0) d
        gate.2
      if r.st.ok then
        let t := r.drv._trackIo Status.Ok r.world
        ⟨t.st, true, t.drv, t.world⟩
      else
        let t := r.drv._trackIo r.st r.world
        ⟨t.st, false, t.drv, t.world⟩

/-! ### Busy poll -/

/-- The `while (true)` loop of `waitReady`, cut off after `fuel` polls. -/
def waitReadyLoop (deadline : Nat) : Nat → Driver → World → Option (Ret Unit)
  | 0, _, _ => none
  | fuel + 1, d, w =>
    let a := d._addressOnlyRaw cmd.OPCODE_EEPROM false w
    if !a.st.ok then some (a.drv._trackIo a.st a.world)
    else if a.out then some (a.drv._trackIo Status.Ok a.world)
    else
      let (now, w) := millis a.world
      if deadlinePassed now deadline then
        some (a.drv._trackIo
          (Status.Error Err.BUSY_TIMEOUT "Timed out waiting for write cycle completion" 0) w)
      else
        waitReadyLoop deadline fuel a.drv (delayMicroseconds 100 w)

/-- The member `waitReady`; `fuel` bounds the number of polls. -/
def waitReady (fuel : Nat) (timeoutMs : Nat) (d : Driver) (w : World) : Option (Ret Unit) :=
  let st := d._checkInitialized
  if !st.ok then some ⟨st, (), d, w⟩
  else
    let d := { d with _driverState := DriverState.BUSY }
    let (now, w) := millis w
    let deadline := (now + timeoutMs) % 4294967296
    waitReadyLoop deadline fuel d w

/-! ### EEPROM data area

A buffer pointer is an `Option (List Nat)`: `none` is `nullptr`, `some bytes` a
buffer holding `bytes`, which must have room for the `len` bytes of the call. -/

/-- The member `readCurrentAddress`; the output is `value`. -/
def readCurrentAddress (value : Nat) (d : Driver) (w : World) : Ret Nat :=
  let st := d._checkInitialized
  if !st.ok then ⟨st, value, d, w⟩
  else
    let r := d._readCurrentAddressRaw value w
    let t := r.drv._trackIo r.st r.world
    ⟨t.st, r.out, t.drv, t.world⟩

/-- The member `readEeprom`; the output is the buffer `data`. -/
def readEeprom (address : Nat) (data : Option (List Nat)) (len : Nat) (d : Driver)
    (w : World) : Ret (Option (List Nat)) :=
  let st := d._checkInitialized
  if !st.ok then ⟨st, data, d, w⟩
  else if !_isEepromAddressValid address then
    ⟨Status.Error Err.INVALID_PARAM "EEPROM address out of range" 0, data, d, w⟩
  else
    match data with
    | none => ⟨Status.Error Err.INVALID_PARAM "Invalid EEPROM read buffer/length" 0, none, d, w⟩
    | some buf =>
      if len = 0 ∨ len > cmd.EEPROM_SIZE then
        ⟨Status.Error Err.INVALID_PARAM "Invalid EEPROM read buffer/length" 0, data, d, w⟩
      else
        let r := d._readRandomRaw cmd.OPCODE_EEPROM address buf len w
        let t := r.drv._trackIo r.st r.world
        ⟨t.st, some r.out, t.drv, t.world⟩

/-- The member `writeEepromPage`; `fuel` bounds the polls of the write-ready wait. -/
def writeEepromPage (fuel : Nat) (address : Nat) (data : Option (List Nat)) (len : Nat)
    (d : Driver) (w : World) : Option (Ret Unit) :=
  let st := d._checkInitialized
  if !st.ok then some ⟨st, (), d, w⟩
  else if !_isEepromAddressValid address then
    some ⟨Status.Error Err.INVALID_PARAM "EEPROM address out of range" 0, (), d, w⟩
  else
    match data with
    | none => some ⟨Status.Error Err.INVALID_PARAM "EEPROM page write length must be 1..8" 0, (), d, w⟩
    | some bytes =>
      if len = 0 ∨ len > cmd.PAGE_SIZE then
        some ⟨Status.Error Err.INVALID_PARAM "EEPROM page write length must be 1..8" 0, (), d, w⟩
      else
        let r := d._writeRaw cmd.OPCODE_EEPROM address bytes len w
        if !r.st.ok then some (r.drv._trackIo r.st r.world)
        else r.drv.waitReady fuel r.drv._config.writeTimeoutMs r.world

/-- The member `writeEepromByte`. -/
def writeEepromByte (fuel : Nat) (address value : Nat) (d : Driver) (w : World) :
    Option (Ret Unit) :=
  d.writeEepromPage fuel address (some [value]) 1 w

/-! ### Security register -/

/-- The member `readSecurity`; the output is the buffer `data`. -/
def readSecurity (address : Nat) (data : Option (List Nat)) (len : Nat) (d : Driver)
    (w : World) : Ret (Option (List Nat)) :=
  let st := d._checkInitialized
  if !st.ok then ⟨st, data, d, w⟩
  else if !_isSecurityAddressValid address then
    ⟨Status.Error Err.INVALID_PARAM "Security address out of range" 0, data, d, w⟩
  else
    match data with
    | none => ⟨Status.Error Err.INVALID_PARAM "Invalid security read buffer/length" 0, none, d, w⟩
    | some buf =>
      if len = 0 ∨ len > cmd.SECURITY_SIZE then
        ⟨Status.Error Err.INVALID_PARAM "Invalid security read buffer/length" 0, data, d, w⟩
      else
        let r := d._readRandomRaw cmd.OPCODE_SECURITY address buf len w
        let t := r.drv._trackIo r.st r.world
        ⟨t.st, some r.out, t.drv, t.world⟩

/-- The member `writeSecurityUserPage`; `fuel` bounds the polls of the
write-ready wait. -/
def writeSecurityUserPage (fuel : Nat) (address : Nat) (data : Option (List Nat)) (len : Nat)
    (d : Driver) (w : World) : Option (Ret Unit) :=
  let st := d._checkInitialized
  if !st.ok then some ⟨st, (), d, w⟩
  else if !_isSecurityUserAddressValid address then
    some ⟨Status.Error Err.INVALID_PARAM "Security writes are allowed only in 0x10..0x1F" 0, (),
      d, w⟩
  else
    match data with
    | none =>
      some ⟨Status.Error Err.INVALID_PARAM "Security page write length must be 1..8" 0, (), d, w⟩
    | some bytes =>
      if len = 0 ∨ len > cmd.PAGE_SIZE then
        some ⟨Status.Error Err.INVALID_PARAM "Security page write length must be 1..8" 0, (), d, w⟩
      else
        let r := d._writeRaw cmd.OPCODE_SECURITY address bytes len w
        if !r.st.ok then some (r.drv._trackIo r.st r.world)
        else r.drv.waitReady fuel r.drv._config.writeTimeoutMs r.world

/-- The member `writeSecurityUserByte`. -/
def writeSecurityUserByte (fuel : Nat) (address value : Nat) (d : Driver) (w : World) :
    Option (Ret Unit) :=
  d.writeSecurityUserPage fuel address (some [value]) 1 w

/-- The member `lockSecurityRegister`. -/
def lockSecurityRegister (fuel : Nat) (d : Driver) (w : World) : Option (Ret Unit) :=
  let st := d._checkInitialized
  if !st.ok then some ⟨st, (), d, w⟩
  else
    let r := d._writeRaw cmd.OPCODE_LOCK_SECURITY cmd.LOCK_SECURITY_ADDRESS [0x00] 1 w
    if !r.st.ok then some (r.drv._trackIo r.st r.world)
    else r.drv.waitReady fuel r.drv._config.writeTimeoutMs r.world

/-- The member `isSecurityLocked`; the output is `locked`. -/
def isSecurityLocked (d : Driver) (w : World) : Ret Bool :=
  let st := d._checkInitialized
  if !st.ok then ⟨st, false, d, w⟩
  else
    let a := d._addressOnlyRaw cmd.OPCODE_LOCK_SECURITY true w
    if !a.st.ok then
      let t := a.drv._trackIo a.st a.world
      ⟨t.st, false, t.drv, t.world⟩
    else
      let t := a.drv._trackIo Status.Ok a.world
      ⟨t.st, !a.out, t.drv, t.world⟩

/-! ### IDs -/

/-- The member `readSerialNumber`; the output is `serial`. -/
def readSerialNumber (serial : SerialNumberInfo) (d : Driver) (w : World) :
    Ret SerialNumberInfo :=
  let r := d.readSecurity cmd.SECURITY_SERIAL_START (some serial.bytes) cmd.SECURITY_SERIAL_SIZE w
  let bytes := r.out.getD serial.bytes
  if !r.st.ok then ⟨r.st, { serial with bytes := bytes }, r.drv, r.world⟩
  else
    let productIdOk := decide (bytes.getD 0 0 = cmd.SECURITY_PRODUCT_ID)
    let crc := crc8_31 bytes (cmd.SECURITY_SERIAL_SIZE - 1)
    let crcOk := decide (crc = bytes.getD (cmd.SECURITY_SERIAL_SIZE - 1) 0)
    let serial : SerialNumberInfo := { bytes := bytes, productIdOk := productIdOk, crcOk := crcOk }
    if !productIdOk then
      ⟨Status.Error Err.PART_MISMATCH "Serial product ID is not 0xA0" 0, serial, r.drv, r.world⟩
    else if !crcOk then
      ⟨Status.Error Err.CRC_MISMATCH "Serial number CRC check failed" 0, serial, r.drv, r.world⟩
    else
      ⟨Status.Ok, serial, r.drv, r.world⟩

/-- The member `readManufacturerId`; the output is `manufacturerId`. -/
def readManufacturerId (manufacturerId : Nat) (d : Driver) (w : World) : Ret Nat :=
  let st := d._checkInitialized
  if !st.ok then ⟨st, manufacturerId, d, w⟩
  else
    let r := d._readManufacturerIdRaw manufacturerId w
    let t := r.drv._trackIo r.st r.world
    ⟨t.st, r.out, t.drv, t.world⟩

/-- The member `detectPart`; the output is `part`. -/
def detectPart (d : Driver) (w : World) : Ret PartType :=
  let r := d.readManufacturerId 0 w
  if !r.st.ok then ⟨r.st, PartType.UNKNOWN, r.drv, r.world⟩
  else if r.out = cmd.MANUFACTURER_ID_AT21CS01 then
    ⟨Status.Ok, PartType.AT21CS01, r.drv, r.world⟩
  else if r.out = cmd.MANUFACTURER_ID_AT21CS11 then
    ⟨Status.Ok, PartType.AT21CS11, r.drv, r.world⟩
  else
    ⟨Status.Error Err.PART_MISMATCH "Unknown manufacturer ID" r.out, PartType.UNKNOWN, r.drv,
      r.world⟩

/-! ### ROM zones and freeze -/

/-- The member `readRomZoneRegister`; the output is `value`. -/
def readRomZoneRegister (zoneIndex : Nat) (value : Nat) (d : Driver) (w : World) : Ret Nat :=
  let st := d._checkInitialized
  if !st.ok then ⟨st, value, d, w⟩
  else if !_isZoneIndexValid zoneIndex then
    ⟨Status.Error Err.INVALID_PARAM "zoneIndex must be in range 0..3" 0, value, d, w⟩
  else
    let zoneRegisterAddress := cmd.ROM_ZONE_REGISTERS.getD zoneIndex 0
    let r := d._readRandomRaw cmd.OPCODE_ROM_ZONE zoneRegisterAddress [value] 1 w
    let t := r.drv._trackIo r.st r.world
    ⟨t.st, r.out.getD 0 value, t.drv, t.world⟩

/-- The member `isZoneRom`; the output is `isRom`. -/
def isZoneRom (zoneIndex : Nat) (d : Driver) (w : World) : Ret Bool :=
  let r := d.readRomZoneRegister zoneIndex 0 w
  if !r.st.ok then ⟨r.st, false, r.drv, r.world⟩
  else ⟨Status.Ok, decide (r.out = cmd.ROM_ZONE_ROM_VALUE), r.drv, r.world⟩

/-- The member `setZoneRom`. -/
def setZoneRom (fuel : Nat) (zoneIndex : Nat) (d : Driver) (w : World) : Option (Ret Unit) :=
  let st := d._checkInitialized
  if !st.ok then some ⟨st, (), d, w⟩
  else if !_isZoneIndexValid zoneIndex then
    some ⟨Status.Error Err.INVALID_PARAM "zoneIndex must be in range 0..3" 0, (), d, w⟩
  else
    let zoneRegisterAddress := cmd.ROM_ZONE_REGISTERS.getD zoneIndex 0
    let r := d._writeRaw cmd.OPCODE_ROM_ZONE zoneRegisterAddress [cmd.ROM_ZONE_ROM_VALUE] 1 w
    if !r.st.ok then some (r.drv._trackIo r.st r.world)
    else r.drv.waitReady fuel r.drv._config.writeTimeoutMs r.world

/-- The member `freezeRomZones`. -/
def freezeRomZones (fuel : Nat) (d : Driver) (w : World) : Option (Ret Unit) :=
  let st := d._checkInitialized
  if !st.ok then some ⟨st, (), d, w⟩
  else
    let r := d._writeRaw cmd.OPCODE_FREEZE_ROM cmd.FREEZE_ROM_ADDR [cmd.FREEZE_ROM_DATA] 1 w
    if !r.st.ok then some (r.drv._trackIo r.st r.world)
    else r.drv.waitReady fuel r.drv._config.writeTimeoutMs r.world

/-- The member `areRomZonesFrozen`; the output is `frozen`. -/
def areRomZonesFrozen (d : Driver) (w : World) : Ret Bool :=
  let st := d._checkInitialized
  if !st.ok then ⟨st, false, d, w⟩
  else
    let a := d._addressOnlyRaw cmd.OPCODE_FREEZE_ROM true w
    if !a.st.ok then
      let t := a.drv._trackIo a.st a.world
      ⟨t.st, false, t.drv, t.world⟩
    else
      let t := a.drv._trackIo Status.Ok a.world
      ⟨t.st, !a.out, t.drv, t.world⟩

/-! ### Speed mode control -/

/-- The member `setHighSpeed`. -/
def setHighSpeed (d : Driver) (w : World) : Ret Unit :=
  let st := d._checkInitialized
  if !st.ok then ⟨st, (), d, w⟩
  else
    let a := d._addressOnlyRaw cmd.OPCODE_HIGH_SPEED false w
    if !a.st.ok then a.drv._trackIo a.st a.world
    else if !a.out then
      a.drv._trackIo (Status.Error Err.NACK_DEVICE_ADDRESS "High-Speed command NACK" 0) a.world
    else
      (a.drv._setSpeedMode SpeedMode.HIGH_SPEED)._trackIo Status.Ok a.world

/-- The member `isHighSpeed`; the output is `enabled`. -/
def isHighSpeed (d : Driver) (w : World) : Ret Bool :=
  let st := d._checkInitialized
  if !st.ok then ⟨st, false, d, w⟩
  else
    let a := d._addressOnlyRaw cmd.OPCODE_HIGH_SPEED true w
    if !a.st.ok then
      let t := a.drv._trackIo a.st a.world
      ⟨t.st, false, t.drv, t.world⟩
    else
      let t := a.drv._trackIo Status.Ok a.world
      ⟨t.st, a.out, t.drv, t.world⟩

/-- The member `setStandardSpeed`. -/
def setStandardSpeed (d : Driver) (w : World) : Ret Unit :=
  let st := d._checkInitialized
  if !st.ok then ⟨st, (), d, w⟩
  else
    let a := d._addressOnlyRaw cmd.OPCODE_STANDARD_SPEED false w
    if !a.st.ok then a.drv._trackIo a.st a.world
    else if !a.out then
      if a.drv._detectedPart = PartType.AT21CS11 then
        a.drv._trackIo
          (Status.Error Err.UNSUPPORTED_COMMAND "AT21CS11 does not support Standard Speed" 0)
          a.world
      else
        a.drv._trackIo (Status.Error Err.NACK_DEVICE_ADDRESS "Standard Speed command NACK" 0)
          a.world
    else
      (a.drv._setSpeedMode SpeedMode.STANDARD_SPEED)._trackIo Status.Ok a.world

/-- The member `isStandardSpeed`; the output is `enabled`. -/
def isStandardSpeed (d : Driver) (w : World) : Ret Bool :=
  let st := d._checkInitialized
  if !st.ok then ⟨st, false, d, w⟩
  else if d._detectedPart = PartType.AT21CS11 then
    ⟨Status.Error Err.UNSUPPORTED_COMMAND "AT21CS11 does not support Standard Speed" 0, false, d, w⟩
  else
    let a := d._addressOnlyRaw cmd.OPCODE_STANDARD_SPEED true w
    if !a.st.ok then
      let t := a.drv._trackIo a.st a.world
      ⟨t.st, false, t.drv, t.world⟩
    else
      let t := a.drv._trackIo Status.Ok a.world
      ⟨t.st, a.out, t.drv, t.world⟩

end Driver

/-! ## Calls of the public interface -/

/-- A call of a fallible public member function other than `begin`, with the
values of its arguments. -/
inductive Call where
  | probe
  | recover
  | resetAndDiscover
  | isPresent
  | waitReady (timeoutMs : Nat)
  | readCurrentAddress (value : Nat)
  | readEeprom (address : Nat) (data : Option (List Nat)) (len : Nat)
  | writeEepromByte (address value : Nat)
  | writeEepromPage (address : Nat) (data : Option (List Nat)) (len : Nat)
  | readSecurity (address : Nat) (data : Option (List Nat)) (len : Nat)
  | writeSecurityUserByte (address value : Nat)
  | writeSecurityUserPage (address : Nat) (data : Option (List Nat)) (len : Nat)
  | lockSecurityRegister
  | isSecurityLocked
  | readSerialNumber (serial : SerialNumberInfo)
  | readManufacturerId (manufacturerId : Nat)
  | detectPart
  | readRomZoneRegister (zoneIndex value : Nat)
  | isZoneRom (zoneIndex : Nat)
  | setZoneRom (zoneIndex : Nat)
  | freezeRomZones
  | areRomZonesFrozen
  | setHighSpeed
  | isHighSpeed
  | setStandardSpeed
  | isStandardSpeed
  deriving DecidableEq, Repr

/-- Drop the output values of a result. -/
def Ret.forget {α : Type} (r : Ret α) : Ret Unit := ⟨r.st, (), r.drv, r.world⟩

/-- Perform a call: the status, the driver and the world it leaves, or `none`
when a write-ready wait is still polling after `fuel` polls. -/
def Call.run (fuel : Nat) (c : Call) (d : Driver) (w : World) : Option (Ret Unit) :=
  match c with
  | Call.probe => some (d.probe w)
  | Call.recover => some (d.recover w)
  | Call.resetAndDiscover => some (d.resetAndDiscover w)
  | Call.isPresent => some (d.isPresent w).forget
  | Call.waitReady timeoutMs => d.waitReady fuel timeoutMs w
  | Call.readCurrentAddress value => some (d.readCurrentAddress value w).forget
  | Call.readEeprom address data len => some (d.readEeprom address data len w).forget
  | Call.writeEepromByte address value => d.writeEepromByte fuel address value w
  | Call.writeEepromPage address data len => d.writeEepromPage fuel address data len w
  | Call.readSecurity address data len => some (d.readSecurity address data len w).forget
  | Call.writeSecurityUserByte address value => d.writeSecurityUserByte fuel address value w
  | Call.writeSecurityUserPage address data len => d.writeSecurityUserPage fuel address data len w
  | Call.lockSecurityRegister => d.lockSecurityRegister fuel w
  | Call.isSecurityLocked => some (d.isSecurityLocked w).forget
  | Call.readSerialNumber serial => some (d.readSerialNumber serial w).forget
  | Call.readManufacturerId manufacturerId => some (d.readManufacturerId manufacturerId w).forget
  | Call.detectPart => some (d.detectPart w).forget
  | Call.readRomZoneRegister zoneIndex value => some (d.readRomZoneRegister zoneIndex value w).forget
  | Call.isZoneRom zoneIndex => some (d.isZoneRom zoneIndex w).forget
  | Call.setZoneRom zoneIndex => d.setZoneRom fuel zoneIndex w
  | Call.freezeRomZones => d.freezeRomZones fuel w
  | Call.areRomZonesFrozen => some (d.areRomZonesFrozen w).forget
  | Call.setHighSpeed => some (d.setHighSpeed w)
  | Call.isHighSpeed => some (d.isHighSpeed w).forget
  | Call.setStandardSpeed => some (d.setStandardSpeed w)
  | Call.isStandardSpeed => some (d.isStandardSpeed w).forget

/-- Perform the calls of a list one after the other: the statuses they
returned, oldest first, and the driver and world at the end. -/
def runCalls (fuel : Nat) : List Call → Driver → World → Option (List Status × Driver × World)
  | [], d, w => some ([], d, w)
  | c :: cs, d, w =>
    match c.run fuel d w with
    | none => none
    | some r =>
      match runCalls fuel cs r.drv r.world with
      | none => none
      | some (sts, d2, w2) => some (r.st :: sts, d2, w2)

/-- The result `r` is a refusal with error `code` that touched nothing: the
driver is `d` and the world is `w`, as before the call. -/
def Ret.refused {α : Type} (r : Ret α) (code : Err) (d : Driver) (w : World) : Prop :=
  r.st.code = code ∧ r.drv = d ∧ r.world = w

/-- The same for a call that may poll: it did return, and with a refusal. -/
def refusedOpt (x : Option (Ret Unit)) (code : Err) (d : Driver) (w : World) : Prop :=
  ∃ r, x = some r ∧ r.refused code d w

/-! ## Concrete drivers and lines used in the examples -/

/-- The number of pin samples in a trace. -/
def reads (h : List Event) : Nat :=
  (h.filter fun e => match e with
    | Event.read _ _ => true
    | _ => false).length

/-- A line on which the sampled level is always low: every byte the driver
sends is acknowledged and every byte it receives is `0x00`. -/
def ackWorld : World :=
  { trace := [], level := fun _ _ => false, clock := fun _ => 0, gpioOk := fun _ => true }

/-- A line with nothing attached: the pull-up keeps it high whenever sampled. -/
def deafWorld : World :=
  { trace := [], level := fun _ _ => true, clock := fun _ => 0, gpioOk := fun _ => true }

/-- A line with an AT21CS01 attached: the discovery pulse and every byte are
answered, and the three bytes read first are `0x00 0xD2 0x00` (samples 10, 11,
13 and 16 are high); every later byte reads `0x00`. -/
def bootWorld : World :=
  { trace := []
    level := fun h _ => decide (reads h ∈ [10, 11, 13, 16])
    clock := fun _ => 0
    gpioOk := fun _ => true }

/-- A configuration that passes validation: data line on pin 4, defaults
otherwise. -/
def pin4Config : Config := { sioPin := 4 }

/-- The driver as `begin pin4Config` leaves it on `bootWorld`. -/
def readyDriver : Driver :=
  { _config := pin4Config
    _initialized := true
    _driverState := DriverState.READY
    _detectedPart := PartType.AT21CS01 }

/-! ## The wire image of a transaction

What a transaction looks like on the line, written down independently of the
driver code, to compare the driver against. -/

/-- The world `w` after the further events `es`. -/
def World.after (w : World) (es : List Event) : World :=
  { w with trace := w.trace ++ es }

/-- The events of one transmitted bit: the line is pulled low for the short
pulse (a 1) or the long pulse (a 0) and released for the rest of the bit
period. -/
def bitImage (d : Driver) (one : Bool) : List Event :=
  let low := if one then d._timing.low1Us else d._timing.low0Us
  [Event.write d.sio false, Event.delayUs low, Event.write d.sio true] ++
    (if d._timing.bitUs > low then [Event.delayUs (d._timing.bitUs - low)] else [])

/-- The events of one sampled bit slot in which the line read `lvl`. -/
def slotImage (d : Driver) (lvl : Bool) : List Event :=
  [Event.write d.sio false, Event.delayUs d._timing.readLowUs, Event.write d.sio true] ++
    (if d._timing.readSampleUs > 0 then [Event.delayUs d._timing.readSampleUs] else []) ++
    [Event.read d.sio lvl] ++
    (if d._timing.bitUs > (d._timing.readLowUs + d._timing.readSampleUs) % 65536 then
      [Event.delayUs (d._timing.bitUs - (d._timing.readLowUs + d._timing.readSampleUs) % 65536)]
    else [])

/-- The events of one transmitted byte `v`, most significant bit first, with
the acknowledge slot reading `lvl` (low is an acknowledge). -/
def byteImage (d : Driver) (v : Nat) (lvl : Bool) : List Event :=
  ([7, 6, 5, 4, 3, 2, 1, 0].flatMap fun b => bitImage d (decide ((v >>> b) &&& 1 ≠ 0))) ++
    slotImage d lvl

/-- The events of a start or a stop condition. -/
def guardImage (d : Driver) : List Event :=
  [Event.write d.sio true, Event.delayUs d._timing.htssUs]

/-- The events of one transaction that transmits the bytes `sent`, each paired
with the level read in its acknowledge slot, between a start and a stop. -/
def frameImage (d : Driver) (sent : List (Nat × Bool)) : List Event :=
  guardImage d ++ (sent.flatMap fun p => byteImage d p.1 p.2) ++ guardImage d

/-- The bytes `data[0] .. data[len-1]` of a buffer, as the driver indexes it. -/
def bufferBytes (data : List Nat) (len : Nat) : List Nat :=
  (List.range len).map fun i => data.getD i 0

/-- The world `w2` is `w` after some further events: the platform's answers are
the same functions and the trace of `w` is the beginning of the trace of `w2`. -/
def World.reaches (w w2 : World) : Prop := ∃ es, w2 = w.after es

/-- What `begin(config)` leaves in `r`, started in world `w`, once `config`
has passed the parameter checks: the configuration is stored, the platform was
used, the health record is reset, and either the call succeeded (OK, READY,
initialized, a recognised part, the requested speed mode, high speed for an
AT21CS11) or it failed (not OK, not initialized, FAULT or OFFLINE, and an
INVALID_CONFIG then comes from a GPIO call of the pin setup that the platform
refused or from the speed check that follows discovery). -/
def BeginPassed (config : Config) (w : World) (r : Ret Unit) : Prop :=
  r.drv._config = config ∧
  (∃ es, es ≠ [] ∧ r.world = w.after es) ∧
  r.drv._consecutiveFailures = 0 ∧
  r.drv._totalFailures = 0 ∧
  r.drv._totalSuccess = 0 ∧
  r.drv._lastError = Status.Ok ∧
  ((r.st = Status.Ok ∧
      r.drv._initialized = true ∧
      r.drv._driverState = DriverState.READY ∧
      (r.drv._detectedPart = PartType.AT21CS01 ∨ r.drv._detectedPart = PartType.AT21CS11) ∧
      r.drv._speedMode = config.startupSpeed ∧
      (r.drv._detectedPart = PartType.AT21CS11 → r.drv._speedMode = SpeedMode.HIGH_SPEED)) ∨
    (r.st.code ≠ Err.OK ∧
      r.drv._initialized = false ∧
      (r.drv._driverState = DriverState.FAULT ∨ r.drv._driverState = DriverState.OFFLINE) ∧
      (r.st.code = Err.INVALID_CONFIG →
        ((∃ h, w.gpioOk h = false) ∧
          (r.st.msg = "Failed to configure sioPin" ∨
            r.st.msg = "Failed to release sioPin" ∨
            r.st.msg = "Failed to configure presencePin")) ∨
        r.st.msg = "AT21CS11 does not support Standard Speed")))

/-! ## How a call touches the health record -/

/-- The driver `e` has the configuration, the initialization flag and the
health record of `d`; only the lifecycle state, the detected part, the speed
mode and the timing may differ. -/
def Driver.sameHealth (d e : Driver) : Prop :=
  e._config = d._config ∧ e._initialized = d._initialized ∧ e._lastOkMs = d._lastOkMs ∧
  e._lastErrorMs = d._lastErrorMs ∧ e._lastError = d._lastError ∧
  e._consecutiveFailures = d._consecutiveFailures ∧ e._totalFailures = d._totalFailures ∧
  e._totalSuccess = d._totalSuccess ∧ e._lastTickMs = d._lastTickMs

/-- The call that started with driver `d` in world `w` and left `r` went
through `_trackIo` exactly once, with the outcome `st`: up to that point it
left the health record alone, changed the lifecycle state at most to PROBING,
BUSY or RECOVERING, and only added events; what it left is what `_trackIo`
left. -/
def TrackedOnce {α : Type} (d : Driver) (w : World) (st : Status) (r : Ret α) : Prop :=
  ∃ (e : Driver) (w2 : World), d.sameHealth e ∧
    (e._driverState = d._driverState ∨ e._driverState = DriverState.PROBING ∨
      e._driverState = DriverState.BUSY ∨ e._driverState = DriverState.RECOVERING) ∧
    w.reaches w2 ∧ r.drv = (e._trackIo st w2).drv ∧ r.world = (e._trackIo st w2).world

/-- The call that started with driver `d` in world `w` and left `r` did not go
through `_trackIo`: the health record and the lifecycle state are those of `d`
and events were only added. -/
def Untracked {α : Type} (d : Driver) (w : World) (r : Ret α) : Prop :=
  d.sameHealth r.drv ∧ r.drv._driverState = d._driverState ∧ w.reaches r.world

/-- The error codes of the wire: no presence pulse, a byte that was not
acknowledged, or a write cycle that did not end in time. -/
def Err.isWire (e : Err) : Prop :=
  e = Err.DISCOVERY_FAILED ∨ e = Err.NACK_DEVICE_ADDRESS ∨ e = Err.NACK_MEMORY_ADDRESS ∨
    e = Err.NACK_DATA ∨ e = Err.BUSY_TIMEOUT

/-- What every call `c` on an initialized driver `d` in world `w` leaves in
`r`.  Either the call went through `_trackIo` once, with an outcome that it
returned (or with OK, when the identity check made afterwards by
`readSerialNumber` or `detectPart` failed with PART_MISMATCH or CRC_MISMATCH);
or it did not go through `_trackIo`: it was refused with INVALID_PARAM or
UNSUPPORTED_COMMAND, or it is `probe`, or it is `isPresent` with a presence pin
that reports absence. -/
def CallShape (c : Call) (d : Driver) (w : World) (r : Ret Unit) : Prop :=
  (∃ st, TrackedOnce d w st r ∧
    (r.st = st ∨ (st = Status.Ok ∧
      (r.st.code = Err.PART_MISMATCH ∨ r.st.code = Err.CRC_MISMATCH)))) ∨
  (Untracked d w r ∧
    (r.st.code = Err.INVALID_PARAM ∨ r.st.code = Err.UNSUPPORTED_COMMAND ∨ c = Call.probe ∨
      (c = Call.isPresent ∧ d._config.presencePin ≥ 0 ∧ r.st = Status.Ok)))

instance Err.isWire_decidable (e : Err) : Decidable e.isWire :=
  inferInstanceAs (Decidable (e = Err.DISCOVERY_FAILED ∨ e = Err.NACK_DEVICE_ADDRESS ∨
    e = Err.NACK_MEMORY_ADDRESS ∨ e = Err.NACK_DATA ∨ e = Err.BUSY_TIMEOUT))

/-- A line on which the first five samples are high and every later one is
low: the device leaves five bytes without acknowledge and then answers. -/
def nackFiveWorld : World :=
  { trace := [], level := fun h _ => decide (reads h < 5), clock := fun _ => 0,
    gpioOk := fun _ => true }

/-- Five reads of one byte at EEPROM address 0. -/
def fiveReads : List Call := List.replicate 5 (Call.readEeprom 0 (some [0]) 1)

/-- A line with an AT21CS01 that has been discovered before: every byte is
acknowledged and the three bytes read first are `0x00 0xD2 0x00` (samples 9,
10, 12 and 15 are high); every later byte reads `0x00`. -/
def partWorld : World :=
  { trace := []
    level := fun h _ => decide (reads h ∈ [9, 10, 12, 15])
    clock := fun _ => 0
    gpioOk := fun _ => true }

/-- An identity payload buffer holding zeros. -/
def blankSerial : SerialNumberInfo :=
  { bytes := [0, 0, 0, 0, 0, 0, 0, 0], productIdOk := false, crcOk := false }

/-- A line on which every byte is acknowledged and the eight bytes read first
are `00 00 00 00 00 00 00 01` (only sample 66 is high). -/
def badSerialWorld : World :=
  { trace := [], level := fun h _ => decide (reads h = 66), clock := fun _ => 0,
    gpioOk := fun _ => true }

/-- A line on which every byte is acknowledged and the eight bytes read first
are `A0 00 00 00 00 00 00 00` (samples 3 and 5 are high). -/
def productOnlyWorld : World :=
  { trace := [], level := fun h _ => decide (reads h ∈ [3, 5]), clock := fun _ => 0,
    gpioOk := fun _ => true }

/-! ## Polynomials over GF(2)

The reference for `crc8_31`, from the words of the specification: a number is
read as the polynomial over GF(2) whose coefficient of `x^i` is bit `i`. -/

/-- The bytes of `M`, first byte most significant, as one number: the
coefficient vector of the message polynomial `M(x)`. -/
def msgNat (M : List Nat) : Nat := M.foldl (fun acc b => acc * 256 + b) 0

/-- The polynomial `p` over GF(2) has the bits of `a` as its coefficients. -/
def IsPoly (a : Nat) (p : Polynomial (ZMod 2)) : Prop :=
  ∀ i, p.coeff i = if a.testBit i then 1 else 0

/-! ## The point of `begin` and `recover` after discovery -/

/-- The driver and the world at the point of `begin(config)` where a discovery
attempt has just succeeded (the source line `uint32_t manufacturerId = 0`), or
`none` when `begin` returns before that point. -/
def beginDiscovered (config : Config) (d : Driver) (w : World) : Option (Driver × World) :=
  if config.sioPin < 0 then none
  else if config.sioPin > 63 then none
  else if config.presencePin > 63 then none
  else if config.addressBits > 0x07 then none
  else if config.offlineThreshold = 0 then none
  else if config.writeTimeoutMs = 0 then none
  else
    let d := { d with
      _config := config
      _initialized := false
      _driverState := DriverState.UNINIT
      _detectedPart := PartType.UNKNOWN }
    let d := d._setSpeedMode SpeedMode.HIGH_SPEED
    let d := d._resetHealth
    let (st, w) := d._configurePins w
    if !st.ok then none
    else
      let d := { d with _driverState := DriverState.PROBING }
      let attempts := (d._config.discoveryRetries + 1) % 256
      let r := Driver._discoverLoop attempts
        (Status.Error Err.DISCOVERY_FAILED "Discovery failed" 0) d w
      if !r.st.ok then none else some (r.drv, r.world)

/-- The driver and the world at the point of `recover()` where a discovery
attempt has just succeeded, or `none` when `recover` returns before that
point. -/
def recoverDiscovered (d : Driver) (w : World) : Option (Driver × World) :=
  let st := d._checkInitialized
  if !st.ok then none
  else
    let d := { d with _driverState := DriverState.RECOVERING }
    let attempts := (d._config.discoveryRetries + 1) % 256
    let r := Driver._discoverLoop attempts
      (Status.Error Err.DISCOVERY_FAILED "Discovery failed" 0) d w
    if !r.st.ok then none else some (r.drv, r.world)

/-! ## An ideal device on the line

The memory device as the round-trip property assumes it: it follows the
single-wire bit protocol, acknowledges every byte, stores every data byte it
receives at the address pointer and sends back what it stores.  It is the
environment of the driver, not code of the driver: it reads the events that the
driver puts on the line and answers when the driver samples the line.

The device comes in two kinds, told apart by `pageWrap`.  A paged device keeps
a sequential write inside the 8-byte page of its start address, the pointer
wrapping to the start of the page (the example sketch announces its page write
with "page wraps"); a linear device moves the pointer on through the whole
area. -/

/-- Where the device is in a transaction. -/
inductive DevicePhase where
  /-- Waiting for a start condition. -/
  | idle
  /-- Receiving the device address byte. -/
  | devAddr
  /-- Receiving the memory address byte. -/
  | memAddr
  /-- Receiving data bytes to store. -/
  | dataIn
  /-- Sending data bytes. -/
  | dataOut
  /-- A byte was sent; the next slot carries the ACK or NACK of the master. -/
  | masterAck
  deriving DecidableEq, Repr

/-- The state of the ideal device.  `low` and `lowUs` follow the pulse the
master is driving; `driving` says that the device answers in the current slot
and `out` is the level the released line then shows; `shift` and `count`
collect the bits of the byte in progress; `security` selects the memory area
and `pointer` is the address pointer; `pageWrap` is the kind of the device. -/
structure Device where
  phase : DevicePhase := DevicePhase.idle
  ackPending : Bool := false
  low : Bool := false
  lowUs : Nat := 0
  driving : Bool := false
  out : Bool := true
  shift : Nat := 0
  count : Nat := 0
  security : Bool := false
  pointer : Nat := 0
  eeprom : Nat → Nat := fun _ => 0xFF
  securityReg : Nat → Nat := fun _ => 0xFF
  pageWrap : Bool := true

/-- The address pointer after a data byte was stored at `p`: the next address
of the 8-byte page, wrapping to its start, in a paged device, and the next
address in a linear one. -/
def nextPointer (wrap : Bool) (p : Nat) : Nat :=
  if wrap then p / 8 * 8 + (p + 1) % 8 else p + 1

namespace Device

/-- The byte under the address pointer: the 128-byte EEPROM array or the
32-byte security register, the pointer rolling over at the end of the area. -/
def cell (S : Device) : Nat :=
  if S.security then S.securityReg (S.pointer % 32) else S.eeprom (S.pointer % 128)

/-- Store `v` under the address pointer; the lower half of the security
register is read-only. -/
def store (S : Device) (v : Nat) : Device :=
  if S.security then
    if S.pointer % 32 ≥ 16 then
      { S with securityReg := Function.update S.securityReg (S.pointer % 32) v }
    else S
  else { S with eeprom := Function.update S.eeprom (S.pointer % 128) v }

/-- The device has received the byte `v`: it will acknowledge it in the next
slot.  A device address byte selects the area (opcode 0xA or 0xB in bits 7:4)
and the direction (bit 0); any other opcode is acknowledged and ignored. -/
def byteIn (S : Device) (v : Nat) : Device :=
  match S.phase with
  | DevicePhase.devAddr =>
    if v / 16 = cmd.OPCODE_EEPROM ∨ v / 16 = cmd.OPCODE_SECURITY then
      { S with
        security := decide (v / 16 = cmd.OPCODE_SECURITY)
        ackPending := true
        shift := 0
        count := 0
        phase := if v % 2 = 1 then DevicePhase.dataOut else DevicePhase.memAddr }
    else
      { S with ackPending := true, shift := 0, count := 0, phase := DevicePhase.idle }
  | DevicePhase.memAddr =>
    { S with pointer := v, ackPending := true, shift := 0, count := 0, phase := DevicePhase.dataIn }
  | DevicePhase.dataIn =>
    { S.store v with
      pointer := nextPointer S.pageWrap S.pointer
      ackPending := true
      shift := 0
      count := 0 }
  | _ => S

/-- The end of a slot in which the master sent the bit `b`. -/
def bitIn (S : Device) (b : Bool) : Device :=
  match S.phase with
  | DevicePhase.devAddr | DevicePhase.memAddr | DevicePhase.dataIn =>
    if S.count + 1 = 8 then
      byteIn S (S.shift * 2 + (if b then 1 else 0))
    else
      { S with shift := S.shift * 2 + (if b then 1 else 0), count := S.count + 1 }
  | DevicePhase.masterAck =>
    if b then { S with phase := DevicePhase.idle }
    else { S with phase := DevicePhase.dataOut, count := 0 }
  | _ => S

/-- A start or stop condition: the line has been high for 150 us or more. -/
def started (S : Device) : Device :=
  { S with
    phase := DevicePhase.devAddr
    ackPending := false
    lowUs := 0
    driving := false
    out := true
    shift := 0
    count := 0 }

/-- The device sees one event on the line attached to `pin`.  A low pulse
shorter than 8 us is a 1 bit, a longer one a 0 bit, one of 150 us or more a
reset. -/
def step (pin : Nat) (S : Device) : Event → Device
  | Event.write q false =>
    if q ≠ pin ∨ S.low then S
    else if S.ackPending then
      { S with low := true, lowUs := 0, driving := true, out := false }
    else if S.phase = DevicePhase.dataOut then
      { S with
        low := true
        lowUs := 0
        driving := true
        out := decide ((S.cell >>> (7 - S.count)) &&& 1 ≠ 0) }
    else
      { S with low := true, lowUs := 0, driving := false, out := true }
  | Event.write q true =>
    if q ≠ pin ∨ !S.low then S
    else if S.lowUs ≥ 150 then
      { S with
        phase := DevicePhase.idle
        ackPending := false
        low := false
        lowUs := 0
        driving := false
        out := true
        shift := 0
        count := 0 }
    else if S.driving then
      if S.ackPending then
        { S with low := false, lowUs := 0, driving := false, ackPending := false }
      else if S.count + 1 = 8 then
        { S with
          low := false
          lowUs := 0
          driving := false
          phase := DevicePhase.masterAck
          count := 0
          pointer := S.pointer + 1 }
      else
        { S with low := false, lowUs := 0, driving := false, count := S.count + 1 }
    else
      bitIn { S with low := false, lowUs := 0 } (decide (S.lowUs < 8))
  | Event.delayUs us =>
    if S.low then { S with lowUs := S.lowUs + us }
    else if us ≥ 150 then S.started
    else S
  | _ => S

/-- The device after the events `es`. -/
def run (pin : Nat) (S : Device) (es : List Event) : Device := es.foldl (step pin) S

end Device

/-- The world of a driver whose line on `pin` has the ideal device attached:
the device was in state `dev` when the trace was empty, the trace so far is
`trace`, and a sample of the line shows the level the device answers with. -/
def deviceWorld (pin : Nat) (dev : Device) (trace : List Event) (clock : List Event → Nat) :
    World :=
  { trace := trace
    level := fun h q => if q = pin then (Device.run pin dev h).out else true
    clock := clock
    gpioOk := fun _ => true }

/-- The events of a sampled bit slot up to the sample. -/
def slotHead (d : Driver) : List Event :=
  [Event.write d.sio false, Event.delayUs d._timing.readLowUs, Event.write d.sio true] ++
    (if d._timing.readSampleUs > 0 then [Event.delayUs d._timing.readSampleUs] else [])

/-- The line of the world `w`, on `pin`, is answered by the ideal device that
was in state `dev` when the trace was empty. -/
def Linked (pin : Nat) (dev : Device) (w : World) : Prop :=
  ∀ h, w.level h pin = (Device.run pin dev h).out

namespace Device

/-- The device after the acknowledge slot of a byte it has received. -/
def acked (S : Device) : Device :=
  { S with low := false, lowUs := 0, driving := false, ackPending := false, out := false }

/-- The bit the device sends in the next slot of the byte it is sending: the
line stays high for a 1. -/
def outBit (S : Device) : Bool := decide ((S.cell >>> (7 - S.count)) &&& 1 ≠ 0)

/-- The device after the slot in which it sent `outBit`. -/
def sent (S : Device) : Device :=
  if S.count + 1 = 8 then
    { S with
      low := false
      lowUs := 0
      driving := false
      out := S.outBit
      phase := DevicePhase.masterAck
      count := 0
      pointer := S.pointer + 1 }
  else
    { S with low := false, lowUs := 0, driving := false, out := S.outBit, count := S.count + 1 }

/-- What the driver assembles from the bits the device sends, one slot for each
bit position of `bits`, starting from `acc`. -/
def collect : Device → Nat → List Nat → Nat
  | _, acc, [] => acc
  | S, acc, bit :: bits =>
    collect S.sent (if S.outBit then (acc ||| ((1 <<< bit) % 256)) % 256 else acc) bits

end Device

/-- What the driver assembles from the bits of the byte `c`, sent most
significant bit first from bit `7 - k` on, one slot for each bit position of
`bits`, starting from `acc`. -/
def assemble (c : Nat) : Nat → List Nat → Nat → Nat
  | acc, [], _ => acc
  | acc, bit :: bits, k =>
    assemble c (if decide ((c >>> (7 - k)) &&& 1 ≠ 0) then (acc ||| ((1 <<< bit) % 256)) % 256
      else acc) bits (k + 1)

namespace Device

/-- The device is between two slots of a byte that starts now: the line is
released, nothing is pending and no bit of the byte has been handled. -/
def Ready (S : Device) (ph : DevicePhase) : Prop :=
  S.phase = ph ∧ S.ackPending = false ∧ S.low = false ∧ S.lowUs = 0 ∧ S.driving = false ∧
    S.count = 0 ∧ S.shift = 0

/-- The device is ready in phase `ph`, with area `sec` selected, address
pointer `ptr` and memory contents `ee` and `sr`. -/
def Is (S : Device) (ph : DevicePhase) (sec : Bool) (ptr : Nat) (ee sr : Nat → Nat) : Prop :=
  S.Ready ph ∧ S.security = sec ∧ S.pointer = ptr ∧ S.eeprom = ee ∧ S.securityReg = sr

end Device

/-- The memory `mem` of `size` bytes after the bytes `vs` have been stored from
address `p` on, the address rolling over at the end. -/
def writeMem (size : Nat) : (Nat → Nat) → Nat → List Nat → (Nat → Nat)
  | mem, _, [] => mem
  | mem, p, v :: vs => writeMem size (Function.update mem (p % size) v) (p + 1) vs

/-- The buffer `buf` after the bytes `cs` have been stored from index `i` on. -/
def fillFrom : List Nat → Nat → List Nat → List Nat
  | buf, _, [] => buf
  | buf, i, c :: cs => fillFrom (buf.set i c) (i + 1) cs

/-- The byte of the memory area `sec` at address `p`, in a device with memory
contents `ee` and `sr`. -/
def cellAt (sec : Bool) (ee sr : Nat → Nat) (p : Nat) : Nat :=
  if sec then sr (p % 32) else ee (p % 128)

/-- The world of the ready driver with a paged device attached, blank (every
byte 0xFF) and idle. -/
def pagedWorld : World := deviceWorld 4 {} [] (fun _ => 0)

/-! ## Lifecycle states a caller can observe -/

/-- The lifecycle states that are not transitional: UNINIT, READY, DEGRADED,
OFFLINE and FAULT. -/
def DriverState.stable (s : DriverState) : Prop :=
  s = DriverState.UNINIT ∨ s = DriverState.READY ∨ s = DriverState.DEGRADED ∨
    s = DriverState.OFFLINE ∨ s = DriverState.FAULT

/-! ## The acknowledge slot and the poll deadline -/

/-- The level the line shows when the driver samples the acknowledge slot of
the byte `v`, sent as the first byte of a transaction that starts in world
`w`: high when nothing pulls the line low, that is, when the byte is not
acknowledged. -/
def ackSample (d : Driver) (v : Nat) (w : World) : Bool :=
  w.level (w.trace ++ guardImage d ++
    ([7, 6, 5, 4, 3, 2, 1, 0].flatMap fun b => bitImage d (decide ((v >>> b) &&& 1 ≠ 0))) ++
    slotHead d) d.sio

/-- The value of the integer `x` as a signed 32-bit number (two's complement):
what `static_cast<int32_t>` makes of a 32-bit difference. -/
def asInt32 (x : Int) : Int :=
  if x % 4294967296 < 2147483648 then x % 4294967296 else x % 4294967296 - 4294967296

/-! ## Discovery attempts -/

/-- The world after `n` reset-and-discover attempts in a row, made from the
world `w`. -/
def Driver.attemptsWorld (d : Driver) (n : Nat) (w : World) : World :=
  (fun w => (d._resetAndDiscoverRaw w).world)^[n] w

/-- The driver and the world at the point of `begin(config)` where the
discovery attempts start (the source line `_driverState = DriverState::PROBING`),
or `none` when `begin` returns before that point. -/
def beginProbing (config : Config) (d : Driver) (w : World) : Option (Driver × World) :=
  if config.sioPin < 0 then none
  else if config.sioPin > 63 then none
  else if config.presencePin > 63 then none
  else if config.addressBits > 0x07 then none
  else if config.offlineThreshold = 0 then none
  else if config.writeTimeoutMs = 0 then none
  else
    let d := { d with
      _config := config
      _initialized := false
      _driverState := DriverState.UNINIT
      _detectedPart := PartType.UNKNOWN }
    let d := d._setSpeedMode SpeedMode.HIGH_SPEED
    let d := d._resetHealth
    let (st, w) := d._configurePins w
    if !st.ok then none
    else some ({ d with _driverState := DriverState.PROBING }, w)

/-! ## The detected part after `begin` -/

/-- What `begin(config)` leaves in `r` of the detected part: it is UNKNOWN,
unless the call succeeded, or failed at the Standard Speed command that follows
the classification of an AT21CS01 (state FAULT). -/
def BeginPart (config : Config) (r : Ret Unit) : Prop :=
  r.drv._detectedPart = PartType.UNKNOWN ∨ r.st = Status.Ok ∨
    (r.st = Status.Error Err.NACK_DEVICE_ADDRESS "Standard Speed command NACK during begin()" 0 ∧
      r.drv._driverState = DriverState.FAULT ∧ r.drv._detectedPart = PartType.AT21CS01 ∧
      config.startupSpeed = SpeedMode.STANDARD_SPEED)

/-- A line with an AT21CS01 attached that does not acknowledge the Standard
Speed command: as `bootWorld`, and sample 26, the acknowledge slot of the
first byte sent after the vendor ID, is high as well. -/
def nackSpeedWorld : World :=
  { trace := []
    level := fun h _ => decide (reads h ∈ [10, 11, 13, 16, 26])
    clock := fun _ => 0
    gpioOk := fun _ => true }

/-! ## Bytes on the wire -/

/-- The bytes of a write transaction in which the first `k` of `bytes` were
acknowledged (the line read low in their acknowledge slots) and the next one,
if there is one, was not; no byte after that one is part of it. -/
def writeFrame (bytes : List Nat) (k : Nat) : List (Nat × Bool) :=
  (bytes.take k).map (fun b => (b, false)) ++
    (if k < bytes.length then [(bytes.getD k 0, true)] else [])

/-- The byte whose bits are the levels `lvls`, the first level the most
significant bit, a high level a 1. -/
def levelsByte (lvls : List Bool) : Nat :=
  lvls.foldl (fun acc l => acc * 2 + (if l then 1 else 0)) 0

/-- What the loop of `rxByte` makes of the accumulator `acc` when the slots for
the bit positions `bits` sample the levels `lvls`. -/
def orLevels : Nat → List Bool → List Nat → Nat
  | acc, l :: lvls, b :: bits =>
    orLevels (if l then (acc ||| ((1 <<< b) % 256)) % 256 else acc) lvls bits
  | acc, _, _ => acc

/-! ## The page-splitting helper of the examples (`LoadCellMap.h`) -/

/-- The `while (offset < len)` loop of `lcmap::writeEepromBytesPaged`, cut off
after `fuel` passes.  `writeEepromPage` stands for the call
`driver.writeEepromPage(address, &data[offset], chunk)`, acting on a state `σ`;
it gets the start address, the buffer from `offset` on and the chunk length. -/
def writeEepromBytesPagedLoop {σ : Type}
    (writeEepromPage : Nat → List Nat → Nat → σ → Option (Status × σ))
    (address : Nat) (data : List Nat) (len : Nat) : Nat → Nat → σ → Option (Status × σ)
  | 0, offset, s => if offset < len then none else some (Status.Ok, s)
  | fuel + 1, offset, s =>
    if offset < len then
      let currentAddress := (address + offset) % 65536
      let remaining := len - offset
      let pageOffset := (currentAddress % cmd.PAGE_SIZE) % 256
      let chunk := cmd.PAGE_SIZE - pageOffset
      let chunk := if chunk > remaining then remaining else chunk
      match writeEepromPage (currentAddress % 256) (data.drop offset) chunk s with
      | none => none
      | some (st, s) =>
        if !st.ok then some (st, s)
        else writeEepromBytesPagedLoop writeEepromPage address data len fuel (offset + chunk) s
    else some (Status.Ok, s)

/-- The function `lcmap::writeEepromBytesPaged(driver, address, data, len)`.
The loop gets `len` passes, which it never uses up. -/
def writeEepromBytesPaged {σ : Type}
    (writeEepromPage : Nat → List Nat → Nat → σ → Option (Status × σ))
    (address : Nat) (data : Option (List Nat)) (len : Nat) (s : σ) : Option (Status × σ) :=
  match data with
  | none => some (Status.Error Err.INVALID_PARAM "Invalid EEPROM write buffer/length" 0, s)
  | some bytes =>
    if len = 0 ∨ len > cmd.EEPROM_SIZE then
      some (Status.Error Err.INVALID_PARAM "Invalid EEPROM write buffer/length" 0, s)
    else if (address + len) % 65536 > cmd.EEPROM_SIZE then
      some (Status.Error Err.INVALID_PARAM "EEPROM write range out of bounds" 0, s)
    else writeEepromBytesPagedLoop writeEepromPage address bytes len len 0 s

/-- A recorder in the place of `driver.writeEepromPage`: it notes the start
address and the `len` bytes of each call and answers call number `n` (counted
from 0) with `answer n`. -/
def logPage (answer : Nat → Status) (address : Nat) (data : List Nat) (len : Nat)
    (log : List (Nat × List Nat)) : Option (Status × List (Nat × List Nat)) :=
  some (answer log.length, log ++ [(address, data.take len)])

/-- The calls `calls` write consecutive chunks of `bytes` from `address` on:
each chunk is not empty, starts where the one before ended, holds the next
bytes of `bytes` and stays inside one 8-byte page. -/
def chunksFrom : Nat → List Nat → List (Nat × List Nat) → Prop
  | _, _, [] => True
  | address, bytes, c :: rest =>
    c.1 = address ∧ c.2 ≠ [] ∧ c.1 % 8 + c.2.length ≤ 8 ∧ c.2 = bytes.take c.2.length ∧
    chunksFrom (address + c.2.length) (bytes.drop c.2.length) rest

/-! # Theorems -/

set_option maxRecDepth 100000

/-! ## The platform layer only appends to the trace -/

theorem World.after_after (w : World) (a b : List Event) :
    (w.after a).after b = w.after (a ++ b) := by
  simp [World.after, List.append_assoc]

theorem World.after_nil (w : World) : w.after [] = w := by
  simp [World.after]

theorem World.after_trace (w : World) (a : List Event) : (w.after a).trace = w.trace ++ a := rfl

theorem World.after_ne (w : World) (a : List Event) (h : a ≠ []) : w.after a ≠ w := by
  intro h2
  have h3 := congrArg World.trace h2
  simp [World.after] at h3
  exact h h3

theorem emit_eq_after (w : World) (e : Event) : w.emit e = w.after [e] := rfl

namespace Driver

theorem txByteBit_image (d : Driver) (v b : Nat) (w : World) :
    d.txByteBit v w b = w.after (bitImage d (decide ((v >>> b) &&& 1 ≠ 0))) := by
  unfold txByteBit bitImage txBit0 txBit1
  by_cases h : (v >>> b) &&& 1 ≠ 0
  · simp only [h, if_true, _lineLow, _releaseLine, digitalWrite, delayMicroseconds,
      emit_eq_after, World.after_after, decide_True]
    split_ifs <;> simp_all [World.after_after]
  · simp only [h, if_false, _lineLow, _releaseLine, digitalWrite, delayMicroseconds,
      emit_eq_after, World.after_after, decide_False]
    split_ifs <;> simp_all [World.after_after]

theorem txBit0_image (d : Driver) (w : World) : d.txBit0 w = w.after (bitImage d false) := by
  unfold bitImage txBit0
  simp only [_lineLow, _releaseLine, digitalWrite, delayMicroseconds, emit_eq_after,
    World.after_after]
  split_ifs <;> simp_all [World.after_after]

theorem txBit1_image (d : Driver) (w : World) : d.txBit1 w = w.after (bitImage d true) := by
  unfold bitImage txBit1
  simp only [_lineLow, _releaseLine, digitalWrite, delayMicroseconds, emit_eq_after,
    World.after_after]
  split_ifs <;> simp_all [World.after_after]

theorem rxBit_image (d : Driver) (w : World) :
    ∃ lvl, d.rxBit w = (lvl, w.after (slotImage d lvl)) := by
  refine ⟨w.level (w.trace ++ ([Event.write d.sio false, Event.delayUs d._timing.readLowUs,
    Event.write d.sio true] ++
    (if d._timing.readSampleUs > 0 then [Event.delayUs d._timing.readSampleUs] else []))) d.sio,
    ?_⟩
  unfold rxBit slotImage
  simp only [_lineLow, _releaseLine, _readLine, digitalRead, digitalWrite, delayMicroseconds,
    emit_eq_after, World.after_after]
  split_ifs <;> simp [World.after, List.append_assoc]

theorem txByte_image (d : Driver) (v : Nat) (w : World) :
    ∃ lvl, d.txByte v w = (!lvl, w.after (byteImage d v lvl)) := by
  obtain ⟨lvl, h⟩ := rxBit_image d ([7, 6, 5, 4, 3, 2, 1, 0].foldl (d.txByteBit v) w)
  refine ⟨lvl, ?_⟩
  unfold txByte
  simp only [h]
  simp [List.foldl, txByteBit_image, World.after_after, byteImage, List.flatMap,
    List.append_assoc]

theorem sendStart_image (d : Driver) (w : World) : d._sendStart w = w.after (guardImage d) := by
  simp [_sendStart, guardImage, _releaseLine, digitalWrite, delayMicroseconds, emit_eq_after,
    World.after_after]

theorem sendStop_image (d : Driver) (w : World) : d._sendStop w = w.after (guardImage d) := by
  simp [_sendStop, guardImage, _releaseLine, digitalWrite, delayMicroseconds, emit_eq_after,
    World.after_after]

end Driver

namespace Driver

theorem writeRawLoop_image (d : Driver) (data : List Nat) :
    ∀ (n i : Nat) (w : World), ∃ sent : List (Nat × Bool),
      sent.map Prod.fst <+: (List.range' i n).map (fun k => data.getD k 0) ∧
      (d._writeRawLoop data n i w).2 = w.after (sent.flatMap fun p => byteImage d p.1 p.2) ∧
      ((d._writeRawLoop data n i w).1 = none → sent.length = n) ∧
      (∀ j, (d._writeRawLoop data n i w).1 = some j → i ≤ j ∧ j < i + n ∧ sent.length = j - i + 1) := by
  intro n
  induction n with
  | zero =>
    intro i w
    exact ⟨[], by simp, by simp [_writeRawLoop, World.after_nil], by simp, by simp [_writeRawLoop]⟩
  | succ n ih =>
    intro i w
    obtain ⟨lvl, h⟩ := txByte_image d (data.getD i 0) w
    cases lvl with
    | true =>
      have e : d._writeRawLoop data (n + 1) i w =
          (some i, w.after (byteImage d (data.getD i 0) true)) := by
        simp only [_writeRawLoop, h]; rfl
      rw [e]
      refine ⟨[(data.getD i 0, true)], ?_, ?_, ?_, ?_⟩
      · simp only [List.range'_succ, List.map_cons]
        exact List.prefix_cons_inj _ |>.mpr (List.nil_prefix)
      · simp [List.flatMap]
      · simp
      · simp
    | false =>
      have e : d._writeRawLoop data (n + 1) i w =
          d._writeRawLoop data n (i + 1) (w.after (byteImage d (data.getD i 0) false)) := by
        simp only [_writeRawLoop, h]; rfl
      rw [e]
      obtain ⟨sent, h1, h2, h3, h4⟩ := ih (i + 1) (w.after (byteImage d (data.getD i 0) false))
      refine ⟨(data.getD i 0, false) :: sent, ?_, ?_, ?_, ?_⟩
      · simp only [List.range'_succ, List.map_cons]
        exact List.prefix_cons_inj _ |>.mpr h1
      · rw [h2, World.after_after]; simp [List.flatMap]
      · intro hn
        simp [h3 hn]
      · intro j hj
        have := h4 j hj
        simp only [List.length_cons]
        omega

theorem writeRaw_image (opcode address : Nat) (data : List Nat) (len : Nat) (d : Driver)
    (w : World) :
    ∃ sent : List (Nat × Bool),
      sent ≠ [] ∧
      sent.map Prod.fst <+: (d._deviceAddress opcode false :: address :: bufferBytes data len) ∧
      (d._writeRaw opcode address data len w).world = w.after (frameImage d sent) ∧
      (d._writeRaw opcode address data len w).drv = d ∧
      (((d._writeRaw opcode address data len w).st = Status.Ok ∧ sent.length = len + 2) ∨
       ((d._writeRaw opcode address data len w).st.code = Err.NACK_DEVICE_ADDRESS ∧
          sent.length = 1) ∨
       ((d._writeRaw opcode address data len w).st.code = Err.NACK_MEMORY_ADDRESS ∧
          sent.length = 2) ∨
       (∃ j, j < len ∧ (d._writeRaw opcode address data len w).st.code = Err.NACK_DATA ∧
          (d._writeRaw opcode address data len w).st.detail = j ∧ sent.length = j + 3)) := by
  obtain ⟨l0, h0⟩ := txByte_image d (d._deviceAddress opcode false) (w.after (guardImage d))
  cases l0 with
  | true =>
    have e : d._writeRaw opcode address data len w =
        ⟨Status.Error Err.NACK_DEVICE_ADDRESS "Device address NACK" 0, (), d,
          w.after (frameImage d [(d._deviceAddress opcode false, true)])⟩ := by
      simp only [_writeRaw, sendStart_image, sendStop_image, h0]
      simp [frameImage, World.after_after, List.flatMap]
    rw [e]
    exact ⟨[(d._deviceAddress opcode false, true)], by simp, by simp, rfl, rfl,
      Or.inr (Or.inl ⟨rfl, rfl⟩)⟩
  | false =>
    obtain ⟨l1, h1⟩ := txByte_image d address
      ((w.after (guardImage d)).after (byteImage d (d._deviceAddress opcode false) false))
    cases l1 with
    | true =>
      have e : d._writeRaw opcode address data len w =
          ⟨Status.Error Err.NACK_MEMORY_ADDRESS "Memory address NACK" 0, (), d,
            w.after (frameImage d [(d._deviceAddress opcode false, false), (address, true)])⟩ := by
        simp only [_writeRaw, sendStart_image, sendStop_image, h0, h1]
        simp [frameImage, World.after_after, List.flatMap]
      rw [e]
      exact ⟨[(d._deviceAddress opcode false, false), (address, true)], by simp, by simp, rfl,
        rfl, Or.inr (Or.inr (Or.inl ⟨rfl, rfl⟩))⟩
    | false =>
      obtain ⟨sent, s1, s2, s3, s4⟩ := writeRawLoop_image d data len 0
        (((w.after (guardImage d)).after (byteImage d (d._deviceAddress opcode false) false)).after
          (byteImage d address false))
      have e : d._writeRaw opcode address data len w =
          match (d._writeRawLoop data len 0
            (((w.after (guardImage d)).after
              (byteImage d (d._deviceAddress opcode false) false)).after
                (byteImage d address false))).1 with
          | some i => ⟨Status.Error Err.NACK_DATA "Data byte NACK" i, (), d,
              w.after (frameImage d
                ((d._deviceAddress opcode false, false) :: (address, false) :: sent))⟩
          | none => ⟨Status.Ok, (), d,
              w.after (frameImage d
                ((d._deviceAddress opcode false, false) :: (address, false) :: sent))⟩ := by
        simp only [_writeRaw, sendStart_image, sendStop_image, h0, h1]
        generalize hq : d._writeRawLoop data len 0
            (((w.after (guardImage d)).after
              (byteImage d (d._deviceAddress opcode false) false)).after
                (byteImage d address false)) = q at s2
        obtain ⟨q1, q2⟩ := q
        simp only at s2
        subst s2
        cases q1 <;> simp [frameImage, World.after_after, List.flatMap]
      rw [e]
      refine ⟨(d._deviceAddress opcode false, false) :: (address, false) :: sent, by simp, ?_, ?_,
        ?_, ?_⟩
      · simp only [List.map_cons]
        apply (List.prefix_cons_inj _).mpr
        apply (List.prefix_cons_inj _).mpr
        simpa [bufferBytes, List.range_eq_range'] using s1
      · split <;> rfl
      · split <;> rfl
      · split
        · rename_i i hi
          have := s4 i hi
          right; right; right
          exact ⟨i, by omega, rfl, rfl, by simp only [List.length_cons]; omega⟩
        · rename_i hi
          left
          exact ⟨rfl, by simp only [List.length_cons]; have := s3 hi; omega⟩

end Driver

/-! ## Health classification (`_trackIo`) -/

/-- C1. Failure branch of `_trackIo` on an initialized driver: for every non-OK
status `st` the status is returned unchanged, `totalFailures` and
`consecutiveFailures` are each incremented (by the saturating `incrementWrap`:
a counter at its maximum stays there), `totalSuccess` is untouched, `lastError`
becomes `st`, and the state becomes FAULT for PART_MISMATCH and INVALID_CONFIG,
otherwise OFFLINE when the new consecutive count has reached
`offlineThreshold`, otherwise DEGRADED. -/
theorem trackIo_failure (d : Driver) (w : World) (st : Status)
    (hinit : d._initialized = true) (hst : st.code ≠ Err.OK) :
    (d._trackIo st w).st = st ∧
    (d._trackIo st w).drv._totalFailures =
      (if d._totalFailures = 4294967295 then 4294967295 else d._totalFailures + 1) ∧
    (d._trackIo st w).drv._consecutiveFailures =
      (if d._consecutiveFailures = 255 then 255 else d._consecutiveFailures + 1) ∧
    (d._trackIo st w).drv._totalSuccess = d._totalSuccess ∧
    (d._trackIo st w).drv._lastError = st ∧
    (d._trackIo st w).drv._driverState =
      (if st.code = Err.PART_MISMATCH ∨ st.code = Err.INVALID_CONFIG then DriverState.FAULT
       else if (d._trackIo st w).drv._consecutiveFailures ≥ d._config.offlineThreshold
         then DriverState.OFFLINE
       else DriverState.DEGRADED) := by
  have hok : st.ok = false := by simp [Status.ok, hst]
  simp only [Driver._trackIo, hinit, hok, millis, incrementWrap32, incrementWrap8]
  split_ifs <;> simp_all

/-- C1, an instance: the fifth consecutive data NACK with the default threshold
of 5 takes the driver offline. -/
theorem trackIo_failure_witness :
    ({ readyDriver with _consecutiveFailures := 4 } : Driver)._initialized = true ∧
    (Status.Error Err.NACK_DATA "Data byte NACK" 3).code ≠ Err.OK ∧
    (({ readyDriver with _consecutiveFailures := 4 } : Driver)._trackIo
      (Status.Error Err.NACK_DATA "Data byte NACK" 3) deafWorld).drv._consecutiveFailures = 5 ∧
    (({ readyDriver with _consecutiveFailures := 4 } : Driver)._trackIo
      (Status.Error Err.NACK_DATA "Data byte NACK" 3) deafWorld).drv._driverState =
        DriverState.OFFLINE :=
  ⟨by decide, by decide,
    (trackIo_failure _ deafWorld _ (by decide) (by decide)).2.2.1.trans (by decide),
    (trackIo_failure _ deafWorld _ (by decide) (by decide)).2.2.2.2.2.trans (by decide)⟩

/-- C2. Success branch of `_trackIo` on an initialized driver: for every OK
status, `consecutiveFailures` becomes 0, `totalSuccess` is incremented
(saturating), `lastError` becomes `Status::Ok()`, `totalFailures` is unchanged,
and the state becomes READY from every state other than SLEEPING, which is
kept. -/
theorem trackIo_success (d : Driver) (w : World) (st : Status)
    (hinit : d._initialized = true) (hst : st.code = Err.OK) :
    (d._trackIo st w).st = st ∧
    (d._trackIo st w).drv._consecutiveFailures = 0 ∧
    (d._trackIo st w).drv._totalSuccess =
      (if d._totalSuccess = 4294967295 then 4294967295 else d._totalSuccess + 1) ∧
    (d._trackIo st w).drv._lastError = Status.Ok ∧
    (d._trackIo st w).drv._totalFailures = d._totalFailures ∧
    (d._driverState ≠ DriverState.SLEEPING →
      (d._trackIo st w).drv._driverState = DriverState.READY) ∧
    (d._driverState = DriverState.SLEEPING →
      (d._trackIo st w).drv._driverState = DriverState.SLEEPING) := by
  have hok : st.ok = true := by simp [Status.ok, hst]
  simp only [Driver._trackIo, hinit, hok, millis, incrementWrap32, incrementWrap8]
  split_ifs <;> simp_all

/-- C2, an instance: a success on an offline driver with four failures in a
row brings it back to READY with the count cleared. -/
theorem trackIo_success_witness :
    ({ readyDriver with _consecutiveFailures := 4, _driverState := DriverState.OFFLINE }
      : Driver)._initialized = true ∧
    Status.Ok.code = Err.OK ∧
    (({ readyDriver with _consecutiveFailures := 4, _driverState := DriverState.OFFLINE }
      : Driver)._trackIo Status.Ok ackWorld).drv._consecutiveFailures = 0 ∧
    (({ readyDriver with _consecutiveFailures := 4, _driverState := DriverState.OFFLINE }
      : Driver)._trackIo Status.Ok ackWorld).drv._driverState = DriverState.READY :=
  ⟨by decide, by decide,
    (trackIo_success _ ackWorld _ (by decide) (by decide)).2.1,
    (trackIo_success _ ackWorld _ (by decide) (by decide)).2.2.2.2.2.1 (by decide)⟩

/-! ## Refusals before any line activity -/

/-- C6. On a driver that is not initialized, every fallible public operation
other than `begin`, with any arguments (valid or not), returns NOT_INITIALIZED
and leaves the driver (state, health counters, detected part, speed mode) and
the world (no line activity) exactly as they were.  This holds in particular
for a driver that was never begun and for a driver after `end()`. -/
theorem not_initialized_refused (fuel : Nat) (c : Call) (d : Driver) (w : World) :
    (d._initialized = false → refusedOpt (c.run fuel d w) Err.NOT_INITIALIZED d w) ∧
    refusedOpt (c.run fuel ({} : Driver) w) Err.NOT_INITIALIZED {} w ∧
    (∀ w0 : World,
      refusedOpt (c.run fuel (d.«end» w0).1 w) Err.NOT_INITIALIZED (d.«end» w0).1 w) := by
  have key : ∀ e : Driver, e._initialized = false →
      refusedOpt (c.run fuel e w) Err.NOT_INITIALIZED e w := by
    intro e h
    cases c <;>
      simp [Call.run, refusedOpt, Ret.refused, Ret.forget, Driver.probe, Driver.recover,
        Driver.resetAndDiscover, Driver.isPresent, Driver.waitReady, Driver.readCurrentAddress,
        Driver.readEeprom, Driver.writeEepromByte, Driver.writeEepromPage, Driver.readSecurity,
        Driver.writeSecurityUserByte, Driver.writeSecurityUserPage, Driver.lockSecurityRegister,
        Driver.isSecurityLocked, Driver.readSerialNumber, Driver.readManufacturerId,
        Driver.detectPart, Driver.readRomZoneRegister, Driver.isZoneRom, Driver.setZoneRom,
        Driver.freezeRomZones, Driver.areRomZonesFrozen, Driver.setHighSpeed,
        Driver.isHighSpeed, Driver.setStandardSpeed, Driver.isStandardSpeed,
        Driver._checkInitialized, h, Status.ok, Status.Error]
  exact ⟨key d, key {} rfl, fun w0 => key _ rfl⟩

/-- C6, an instance: a read with an out-of-range address, a null buffer and
length 0 on a driver that was never begun is answered NOT_INITIALIZED, with no
event on the line. -/
theorem not_initialized_refused_witness :
    ({} : Driver)._initialized = false ∧
    refusedOpt ((Call.readEeprom 200 none 0).run 0 ({} : Driver) deafWorld)
      Err.NOT_INITIALIZED {} deafWorld :=
  ⟨rfl, (not_initialized_refused 0 (Call.readEeprom 200 none 0) {} deafWorld).1 rfl⟩

/-- C7. Parameter validation is atomic.  On an initialized driver, `readEeprom`
and `writeEepromPage` with a start address of 128 or more, `readSecurity` with a
start address of 32 or more, `writeSecurityUserPage` with a start address
outside 0x10..0x1F, `readRomZoneRegister` / `setZoneRom` / `isZoneRom` with a
zone index of 4 or more, and the read and write calls with a null buffer, a
length of 0 or a length above the limit (128 for `readEeprom`, 32 for
`readSecurity`, 8 for the page writes) return INVALID_PARAM and leave the
driver (state, counters, last error) and the world (no line activity) exactly
as they were. -/
theorem invalid_param_refused (fuel address len zoneIndex value : Nat)
    (data : Option (List Nat)) (d : Driver) (w : World) (hinit : d._initialized = true) :
    (address ≥ 128 →
      (d.readEeprom address data len w).refused Err.INVALID_PARAM d w ∧
      refusedOpt (d.writeEepromPage fuel address data len w) Err.INVALID_PARAM d w) ∧
    (address ≥ 32 → (d.readSecurity address data len w).refused Err.INVALID_PARAM d w) ∧
    (address < 0x10 ∨ address > 0x1F →
      refusedOpt (d.writeSecurityUserPage fuel address data len w) Err.INVALID_PARAM d w) ∧
    (zoneIndex ≥ 4 →
      (d.readRomZoneRegister zoneIndex value w).refused Err.INVALID_PARAM d w ∧
      refusedOpt (d.setZoneRom fuel zoneIndex w) Err.INVALID_PARAM d w ∧
      (d.isZoneRom zoneIndex w).refused Err.INVALID_PARAM d w) ∧
    (data = none ∨ len = 0 ∨ len > 128 →
      (d.readEeprom address data len w).refused Err.INVALID_PARAM d w) ∧
    (data = none ∨ len = 0 ∨ len > 32 →
      (d.readSecurity address data len w).refused Err.INVALID_PARAM d w) ∧
    (data = none ∨ len = 0 ∨ len > 8 →
      refusedOpt (d.writeEepromPage fuel address data len w) Err.INVALID_PARAM d w ∧
      refusedOpt (d.writeSecurityUserPage fuel address data len w) Err.INVALID_PARAM d w) := by
  refine ⟨?_, ?_, ?_, ?_, ?_, ?_, ?_⟩
  · intro h
    have h' : ¬ address < 128 := by omega
    constructor
    · simp [Driver.readEeprom, Ret.refused, Driver._checkInitialized, hinit, Status.ok,
        Status.Ok, Status.Error, Driver._isEepromAddressValid, cmd.EEPROM_SIZE, h']
    · simp [Driver.writeEepromPage, refusedOpt, Ret.refused, Driver._checkInitialized, hinit,
        Status.ok, Status.Ok, Status.Error, Driver._isEepromAddressValid, cmd.EEPROM_SIZE, h']
  · intro h
    have h' : ¬ address < 32 := by omega
    simp [Driver.readSecurity, Ret.refused, Driver._checkInitialized, hinit, Status.ok,
      Status.Ok, Status.Error, Driver._isSecurityAddressValid, cmd.SECURITY_SIZE, h']
  · intro h
    have h' : address < 16 ∨ 31 < address := by omega
    simp [Driver.writeSecurityUserPage, refusedOpt, Ret.refused, Driver._checkInitialized, hinit,
      Status.ok, Status.Ok, Status.Error, Driver._isSecurityUserAddressValid,
      cmd.SECURITY_USER_MIN, cmd.SECURITY_USER_MAX, h']
  · intro h
    have h' : ¬ zoneIndex < 4 := by omega
    refine ⟨?_, ?_, ?_⟩
    · simp [Driver.readRomZoneRegister, Ret.refused, Driver._checkInitialized, hinit, Status.ok,
        Status.Ok, Status.Error, Driver._isZoneIndexValid, cmd.ROM_ZONE_REGISTER_COUNT, h']
    · simp [Driver.setZoneRom, refusedOpt, Ret.refused, Driver._checkInitialized, hinit,
        Status.ok, Status.Ok, Status.Error, Driver._isZoneIndexValid,
        cmd.ROM_ZONE_REGISTER_COUNT, h']
    · simp [Driver.isZoneRom, Driver.readRomZoneRegister, Ret.refused, Driver._checkInitialized,
        hinit, Status.ok, Status.Ok, Status.Error, Driver._isZoneIndexValid,
        cmd.ROM_ZONE_REGISTER_COUNT, h']
  · intro h
    simp only [Driver.readEeprom, Ret.refused, Driver._checkInitialized, hinit, Status.ok,
      Status.Ok, Status.Error, cmd.EEPROM_SIZE]
    cases data with
    | none => split_ifs <;> simp_all
    | some buf =>
      have h2 : len = 0 ∨ len > 128 := by simpa using h
      split_ifs <;> simp_all
  · intro h
    simp only [Driver.readSecurity, Ret.refused, Driver._checkInitialized, hinit, Status.ok,
      Status.Ok, Status.Error, cmd.SECURITY_SIZE]
    cases data with
    | none => split_ifs <;> simp_all
    | some buf =>
      have h2 : len = 0 ∨ len > 32 := by simpa using h
      split_ifs <;> simp_all
  · intro h
    constructor
    · simp only [Driver.writeEepromPage, refusedOpt, Ret.refused, Driver._checkInitialized, hinit,
        Status.ok, Status.Ok, Status.Error, cmd.PAGE_SIZE]
      cases data with
      | none => split_ifs <;> simp_all
      | some buf =>
        have h2 : len = 0 ∨ len > 8 := by simpa using h
        split_ifs <;> simp_all
    · simp only [Driver.writeSecurityUserPage, refusedOpt, Ret.refused, Driver._checkInitialized,
        hinit, Status.ok, Status.Ok, Status.Error, cmd.PAGE_SIZE]
      cases data with
      | none => split_ifs <;> simp_all
      | some buf =>
        have h2 : len = 0 ∨ len > 8 := by simpa using h
        split_ifs <;> simp_all

/-- C7, an instance: on the ready driver a read of nine bytes from address 200
is refused with INVALID_PARAM and nothing changes. -/
theorem invalid_param_refused_witness :
    readyDriver._initialized = true ∧ (200 : Nat) ≥ 128 ∧
    (readyDriver.readEeprom 200 (some [0]) 9 ackWorld).refused Err.INVALID_PARAM readyDriver
      ackWorld :=
  ⟨rfl, by decide,
    ((invalid_param_refused 0 200 9 0 0 (some [0]) readyDriver ackWorld rfl).1 (by decide)).1⟩

theorem World.reaches_refl (w : World) : w.reaches w := ⟨[], (World.after_nil w).symm⟩

theorem World.reaches_trans {a b c : World} (h1 : a.reaches b) (h2 : b.reaches c) :
    a.reaches c := by
  obtain ⟨e1, rfl⟩ := h1
  obtain ⟨e2, rfl⟩ := h2
  exact ⟨e1 ++ e2, World.after_after a e1 e2⟩

theorem World.reaches_after (w : World) (es : List Event) : w.reaches (w.after es) := ⟨es, rfl⟩

theorem World.reaches_after_ne {a b : World} (h : a.reaches b) {es : List Event} (hne : es ≠ []) :
    ∃ es2, es2 ≠ [] ∧ b.after es = a.after es2 := by
  obtain ⟨e1, rfl⟩ := h
  exact ⟨e1 ++ es, by simp [hne], World.after_after a e1 es⟩
namespace Driver

theorem rxByteBits_image (d : Driver) :
    ∀ (bs : List Nat) (acc : Nat × World), ∃ lvls : List Bool,
      lvls.length = bs.length ∧
      (bs.foldl d.rxByteBit acc).2 = acc.2.after (lvls.flatMap (slotImage d)) := by
  intro bs
  induction bs with
  | nil => intro acc; exact ⟨[], rfl, by simp [World.after_nil]⟩
  | cons b bs ih =>
    intro acc
    obtain ⟨lvl, h⟩ := rxBit_image d acc.2
    have e : (d.rxByteBit acc b).2 = acc.2.after (slotImage d lvl) := by
      simp only [rxByteBit, h]
      split_ifs <;> rfl
    obtain ⟨lvls, h1, h2⟩ := ih (d.rxByteBit acc b)
    refine ⟨lvl :: lvls, by simp [h1], ?_⟩
    rw [List.foldl_cons, h2, e, World.after_after]
    simp [List.flatMap]

theorem rxByte_image (ack : Bool) (d : Driver) (w : World) :
    ∃ lvls : List Bool, lvls.length = 8 ∧
      (d.rxByte ack w).2 = w.after (lvls.flatMap (slotImage d) ++ bitImage d (!ack)) := by
  obtain ⟨lvls, h1, h2⟩ := rxByteBits_image d [7, 6, 5, 4, 3, 2, 1, 0] (0, w)
  refine ⟨lvls, by simpa using h1, ?_⟩
  unfold rxByte
  cases ack
  · simp only [txBit1_image, h2]
    simp [World.after_after]
  · simp only [txBit0_image, h2]
    simp [World.after_after]

theorem txByte_world (v : Nat) (d : Driver) (w : World) :
    (d.txByte v w).2 = w.after (byteImage d v (!(d.txByte v w).1)) := by
  obtain ⟨lvl, h⟩ := txByte_image d v w
  rw [h]
  simp

theorem txByte_reaches (v : Nat) (d : Driver) (w : World) : w.reaches (d.txByte v w).2 :=
  ⟨_, txByte_world v d w⟩

theorem rxByte_reaches (ack : Bool) (d : Driver) (w : World) : w.reaches (d.rxByte ack w).2 := by
  obtain ⟨lvls, _, h⟩ := rxByte_image ack d w
  exact ⟨_, h⟩

theorem sendStart_reaches (d : Driver) (w : World) : w.reaches (d._sendStart w) :=
  ⟨_, sendStart_image d w⟩

theorem readRandomLoop_reaches (d : Driver) (len : Nat) :
    ∀ (n i : Nat) (data : List Nat) (w : World),
      w.reaches (d._readRandomLoop len n i data w).2 := by
  intro n
  induction n with
  | zero => intro i data w; exact World.reaches_refl w
  | succ n ih =>
    intro i data w
    simp only [_readRandomLoop]
    exact World.reaches_trans (rxByte_reaches _ d w) (ih _ _ _)

theorem readRandomRaw_world (opcode address : Nat) (data : List Nat) (len : Nat) (d : Driver)
    (w : World) :
    (∃ es, es ≠ [] ∧ (d._readRandomRaw opcode address data len w).world = w.after es) ∧
    (d._readRandomRaw opcode address data len w).drv = d ∧
    ((d._readRandomRaw opcode address data len w).st = Status.Ok ∨
      (d._readRandomRaw opcode address data len w).st.code = Err.NACK_DEVICE_ADDRESS ∨
      (d._readRandomRaw opcode address data len w).st.code = Err.NACK_MEMORY_ADDRESS) := by
  have hg : guardImage d ≠ [] := by simp [guardImage]
  have r0 := sendStart_reaches d w
  have r1 := World.reaches_trans r0 (txByte_reaches (d._deviceAddress opcode false) d _)
  have r2 := World.reaches_trans r1 (txByte_reaches address d _)
  have r3 := World.reaches_trans r2 (sendStart_reaches d _)
  have r4 := World.reaches_trans r3 (txByte_reaches (d._deviceAddress opcode true) d _)
  have r5 := World.reaches_trans r4 (readRandomLoop_reaches d len len 0 data _)
  simp only [_readRandomRaw, sendStop_image]
  split_ifs
  · exact ⟨World.reaches_after_ne r1 hg, rfl, Or.inr (Or.inl rfl)⟩
  · exact ⟨World.reaches_after_ne r2 hg, rfl, Or.inr (Or.inr rfl)⟩
  · exact ⟨World.reaches_after_ne r4 hg, rfl, Or.inr (Or.inl rfl)⟩
  · exact ⟨World.reaches_after_ne r5 hg, rfl, Or.inl rfl⟩

theorem trackIo_world (st : Status) (d : Driver) (w : World) (hinit : d._initialized = true) :
    (d._trackIo st w).world = w.after [Event.millis (w.clock w.trace % 4294967296)] ∧
    (d._trackIo st w).drv._initialized = true ∧
    (d._trackIo st w).drv._config = d._config ∧
    (d._trackIo st w).st = st := by
  simp only [_trackIo, hinit, millis, emit_eq_after]
  split_ifs <;> simp_all

end Driver

/-- C8, counterexample.  On the ready driver with an acknowledging device,
reading 2 bytes from address 127 runs past the end of the 128-byte array
(127 + 2 > 128), yet the call is not refused: it returns OK, fills the
buffer and puts 225 events on the line. -/
theorem readEeprom_past_end_accepted :
    readyDriver._initialized = true ∧ 127 + 2 > 128 ∧
    (readyDriver.readEeprom 127 (some [0xFF, 0xFF]) 2 ackWorld).st = Status.Ok ∧
    (readyDriver.readEeprom 127 (some [0xFF, 0xFF]) 2 ackWorld).out = some [0, 0] ∧
    (readyDriver.readEeprom 127 (some [0xFF, 0xFF]) 2 ackWorld).world.trace.length = 225 := by
  decide

/-- C8, amended.  On an initialized driver `readEeprom` is refused with
INVALID_PARAM, without line activity, when the start address is 128 or more,
the buffer is null, or the length is 0 or more than 128; every other read,
also one with `address + len > 128`, is not refused: its status is not
INVALID_PARAM and the line was used. -/
theorem readEeprom_refused_iff (address len : Nat) (data : Option (List Nat)) (d : Driver)
    (w : World) (hinit : d._initialized = true) :
    ((address ≥ 128 ∨ data = none ∨ len = 0 ∨ len > 128) →
      (d.readEeprom address data len w).refused Err.INVALID_PARAM d w) ∧
    (address < 128 → data ≠ none → 1 ≤ len → len ≤ 128 →
      (d.readEeprom address data len w).st.code ≠ Err.INVALID_PARAM ∧
      (d.readEeprom address data len w).world ≠ w) := by
  constructor
  · intro h
    rcases h with h | h
    · have h' : ¬ address < 128 := by omega
      simp [Driver.readEeprom, Ret.refused, Driver._checkInitialized, hinit, Status.ok,
        Status.Ok, Status.Error, Driver._isEepromAddressValid, cmd.EEPROM_SIZE, h']
    · simp only [Driver.readEeprom, Ret.refused, Driver._checkInitialized, hinit, Status.ok,
        Status.Ok, Status.Error, cmd.EEPROM_SIZE]
      cases data with
      | none => split_ifs <;> simp_all
      | some buf =>
        have h2 : len = 0 ∨ len > 128 := by simpa using h
        split_ifs <;> simp_all
  · intro ha hd h1 h2
    obtain ⟨buf, rfl⟩ := Option.ne_none_iff_exists'.mp hd
    have hl : ¬ (len = 0 ∨ len > 128) := by omega
    obtain ⟨⟨es, hes, hw⟩, hdrv, hst⟩ :=
      Driver.readRandomRaw_world cmd.OPCODE_EEPROM address buf len d w
    have e : d.readEeprom address (some buf) len w =
        ⟨((d._readRandomRaw cmd.OPCODE_EEPROM address buf len w).drv._trackIo
            (d._readRandomRaw cmd.OPCODE_EEPROM address buf len w).st
            (d._readRandomRaw cmd.OPCODE_EEPROM address buf len w).world).st,
          some (d._readRandomRaw cmd.OPCODE_EEPROM address buf len w).out,
          ((d._readRandomRaw cmd.OPCODE_EEPROM address buf len w).drv._trackIo
            (d._readRandomRaw cmd.OPCODE_EEPROM address buf len w).st
            (d._readRandomRaw cmd.OPCODE_EEPROM address buf len w).world).drv,
          ((d._readRandomRaw cmd.OPCODE_EEPROM address buf len w).drv._trackIo
            (d._readRandomRaw cmd.OPCODE_EEPROM address buf len w).st
            (d._readRandomRaw cmd.OPCODE_EEPROM address buf len w).world).world⟩ := by
      simp [Driver.readEeprom, Driver._checkInitialized, hinit, Status.ok, Status.Ok,
        Driver._isEepromAddressValid, cmd.EEPROM_SIZE, ha, hl]
    have ht := Driver.trackIo_world (d._readRandomRaw cmd.OPCODE_EEPROM address buf len w).st
      (d._readRandomRaw cmd.OPCODE_EEPROM address buf len w).drv
      (d._readRandomRaw cmd.OPCODE_EEPROM address buf len w).world (by rw [hdrv]; exact hinit)
    rw [e]
    constructor
    · show (Driver._trackIo _ _ _).st.code ≠ _
      rw [ht.2.2.2]
      rcases hst with h | h | h <;> simp [h, Status.Ok]
    · show (Driver._trackIo _ _ _).world ≠ _
      rw [ht.1, hw, World.after_after]
      exact World.after_ne _ _ (by simp)

/-- C8, amended, an instance: address 127 with length 2 passes the checks. -/
theorem readEeprom_refused_iff_witness :
    readyDriver._initialized = true ∧ (127 : Nat) < 128 ∧ (1 : Nat) ≤ 2 ∧ (2 : Nat) ≤ 128 ∧
    (readyDriver.readEeprom 127 (some [0xFF, 0xFF]) 2 ackWorld).st.code ≠ Err.INVALID_PARAM ∧
    (readyDriver.readEeprom 127 (some [0xFF, 0xFF]) 2 ackWorld).world ≠ ackWorld :=
  ⟨rfl, by decide, by decide, by decide,
    (readEeprom_refused_iff 127 2 (some [0xFF, 0xFF]) readyDriver ackWorld rfl).2 (by decide)
      (by simp) (by decide) (by decide)⟩

namespace Driver

theorem addressOnlyRaw_image (opcode : Nat) (read : Bool) (d : Driver) (w : World) :
    ∃ lvl, d._addressOnlyRaw opcode read w =
      ⟨Status.Ok, !lvl, d, w.after (frameImage d [(d._deviceAddress opcode read, lvl)])⟩ := by
  obtain ⟨lvl, h⟩ := txByte_image d (d._deviceAddress opcode read) (w.after (guardImage d))
  refine ⟨lvl, ?_⟩
  simp only [_addressOnlyRaw, sendStart_image, sendStop_image, h]
  simp [frameImage, World.after_after, List.flatMap]

theorem frameImage_ne_nil (d : Driver) (sent : List (Nat × Bool)) : frameImage d sent ≠ [] := by
  simp [frameImage, guardImage]

/-- When the write-ready loop returns, it returns what `_trackIo` makes of OK or
of BUSY_TIMEOUT, in a world reached from the one it started in by further
events. -/
theorem waitReadyLoop_some (deadline : Nat) :
    ∀ (fuel : Nat) (d : Driver) (w : World) (r : Ret Unit),
      waitReadyLoop deadline fuel d w = some r →
      ∃ st w2, r = d._trackIo st w2 ∧ (∃ es, es ≠ [] ∧ w2 = w.after es) ∧
        (st = Status.Ok ∨ st = Status.Error Err.BUSY_TIMEOUT
          "Timed out waiting for write cycle completion" 0) := by
  intro fuel
  induction fuel with
  | zero => intro d w r h; simp [waitReadyLoop] at h
  | succ fuel ih =>
    intro d w r h
    obtain ⟨lvl, ha⟩ := addressOnlyRaw_image cmd.OPCODE_EEPROM false d w
    simp only [waitReadyLoop, ha, Status.ok, Status.Ok, millis, emit_eq_after,
      delayMicroseconds, World.after_after] at h
    cases lvl with
    | false =>
      simp at h
      exact ⟨Status.Ok, _, h.symm, ⟨_, frameImage_ne_nil d _, rfl⟩, Or.inl rfl⟩
    | true =>
      simp only [Bool.not_true] at h
      split_ifs at h with h1 h2 h3
      all_goals first
        | (simp at h1; done)
        | (simp at h2; done)
        | (simp only [Option.some.injEq] at h
           exact ⟨_, _, h.symm, ⟨_, by simp [frameImage, guardImage], rfl⟩, Or.inr rfl⟩)
        | (obtain ⟨st, w2, e, ⟨es, hes, hw⟩, hst⟩ := ih d _ r h
           exact ⟨st, w2, e, ⟨_, by simp [frameImage, guardImage], hw.trans (World.after_after _ _ _)⟩, hst⟩)

/-- When `waitReady` returns on an initialized driver, it returns what
`_trackIo` makes of OK or of BUSY_TIMEOUT for the driver in state BUSY, in a
world reached by further events. -/
theorem waitReady_some (fuel timeoutMs : Nat) (d : Driver) (w : World) (r : Ret Unit)
    (hinit : d._initialized = true) (h : d.waitReady fuel timeoutMs w = some r) :
    ∃ st w2, r = ({ d with _driverState := DriverState.BUSY } : Driver)._trackIo st w2 ∧
      (∃ es, es ≠ [] ∧ w2 = w.after es) ∧
      (st = Status.Ok ∨ st = Status.Error Err.BUSY_TIMEOUT
        "Timed out waiting for write cycle completion" 0) := by
  simp only [waitReady, _checkInitialized, hinit, Status.ok, Status.Ok, millis,
    emit_eq_after] at h
  simp at h
  obtain ⟨st, w2, e, ⟨es, hes, hw⟩, hst⟩ := waitReadyLoop_some _ fuel _ _ r h
  exact ⟨st, w2, by rw [e]; simp [hinit], ⟨_, by simp, hw.trans (World.after_after _ _ _)⟩, hst⟩

end Driver

/-- The tail shared by the write calls: after a sequential write the call
either tracks the failed write or waits for the write cycle.  The write is one
frame, sent to `address`, that carries the first bytes of the buffer. -/
theorem Driver.write_single_frame (fuel opcode address len : Nat) (bytes : List Nat)
    (d : Driver) (w : World) :
    ∃ sent : List (Nat × Bool), sent ≠ [] ∧
      sent.map Prod.fst <+:
        (d._deviceAddress opcode false :: address :: bufferBytes bytes len) ∧
      ((sent.length = len + 2 ∧
        (if !(d._writeRaw opcode address bytes len w).st.ok then
            some ((d._writeRaw opcode address bytes len w).drv._trackIo
              (d._writeRaw opcode address bytes len w).st
              (d._writeRaw opcode address bytes len w).world)
          else (d._writeRaw opcode address bytes len w).drv.waitReady fuel
            (d._writeRaw opcode address bytes len w).drv._config.writeTimeoutMs
            (d._writeRaw opcode address bytes len w).world) =
          d.waitReady fuel d._config.writeTimeoutMs (w.after (frameImage d sent))) ∨
       (sent.length ≤ len + 2 ∧ ∃ st, (st.code = Err.NACK_DEVICE_ADDRESS ∨ st.code = Err.NACK_MEMORY_ADDRESS ∨
          st.code = Err.NACK_DATA) ∧
        (if !(d._writeRaw opcode address bytes len w).st.ok then
            some ((d._writeRaw opcode address bytes len w).drv._trackIo
              (d._writeRaw opcode address bytes len w).st
              (d._writeRaw opcode address bytes len w).world)
          else (d._writeRaw opcode address bytes len w).drv.waitReady fuel
            (d._writeRaw opcode address bytes len w).drv._config.writeTimeoutMs
            (d._writeRaw opcode address bytes len w).world) =
          some (d._trackIo st (w.after (frameImage d sent))))) := by
  obtain ⟨sent, h1, h2, h3, h4, h5⟩ := Driver.writeRaw_image opcode address bytes len d w
  refine ⟨sent, h1, h2, ?_⟩
  rw [h3, h4]
  rcases h5 with ⟨h, hl⟩ | ⟨h, hl⟩ | ⟨h, hl⟩ | ⟨j, hj, h, _, hl⟩
  · left
    exact ⟨hl, by simp [h, Status.ok, Status.Ok]⟩
  · right
    refine ⟨?_, (d._writeRaw opcode address bytes len w).st, Or.inl h, ?_⟩
    · rw [hl]; omega
    · simp [Status.ok, h]
  · right
    refine ⟨?_, (d._writeRaw opcode address bytes len w).st, Or.inr (Or.inl h), ?_⟩
    · rw [hl]; omega
    · simp [Status.ok, h]
  · right
    refine ⟨?_, (d._writeRaw opcode address bytes len w).st, Or.inr (Or.inr h), ?_⟩
    · rw [hl]; omega
    · simp [Status.ok, h]

/-- C10, counterexample.  On the ready driver with an acknowledging device,
`writeEepromPage(5, data, 8)` is not rejected and returns OK.  What it put on
the line is one sequential-write frame (device address byte 0xA0, memory
address 5, then all eight data bytes) followed by one write-ready poll: the
frame starts at address 5 and carries 8 bytes, and 5 mod 8 + 8 = 13 > 8, so it
crosses the page boundary at address 8 and was not split. -/
theorem writeEepromPage_crosses_page :
    (readyDriver.writeEepromPage 1 5 (some [1, 2, 3, 4, 5, 6, 7, 8]) 8 ackWorld).map
        (fun r => (r.st, r.world.trace)) =
      some (Status.Ok,
        frameImage readyDriver [(0xA0, false), (5, false), (1, false), (2, false), (3, false),
          (4, false), (5, false), (6, false), (7, false), (8, false)] ++
        [Event.millis 0] ++ frameImage readyDriver [(0xA0, false)] ++ [Event.millis 0]) ∧
    ¬ (5 % 8 + 8 ≤ 8) := by
  decide

/-- C10, amended.  A page write that is not rejected is put on the line as one
sequential-write frame, never split: for `writeEepromPage` (address below 128)
and `writeSecurityUserPage` (address in 0x10..0x1F) with a buffer and a length
of 1..8, the bytes transmitted in the frame are a non-empty beginning of: the
write-direction device address byte, the caller's `address`, and the bytes
`data[0] .. data[len-1]`.  When all `len + 2` bytes are acknowledged the call
continues with the write-ready wait, otherwise it tracks the NACK.  The
frame therefore starts at the caller's address and carries up to `len` data
bytes; it stays inside one page only when `address mod 8 + len <= 8`. -/
theorem page_write_single_frame (fuel address len : Nat) (bytes : List Nat) (d : Driver)
    (w : World) (hinit : d._initialized = true) (h1 : 1 ≤ len) (h2 : len ≤ 8) :
    (address < 128 →
      ∃ sent : List (Nat × Bool), sent ≠ [] ∧
        sent.map Prod.fst <+:
          (d._deviceAddress cmd.OPCODE_EEPROM false :: address :: bufferBytes bytes len) ∧
        ((sent.length = len + 2 ∧
          d.writeEepromPage fuel address (some bytes) len w =
            d.waitReady fuel d._config.writeTimeoutMs (w.after (frameImage d sent))) ∨
         (sent.length ≤ len + 2 ∧ ∃ st, (st.code = Err.NACK_DEVICE_ADDRESS ∨ st.code = Err.NACK_MEMORY_ADDRESS ∨
          st.code = Err.NACK_DATA) ∧
          d.writeEepromPage fuel address (some bytes) len w =
            some (d._trackIo st (w.after (frameImage d sent)))))) ∧
    (0x10 ≤ address → address ≤ 0x1F →
      ∃ sent : List (Nat × Bool), sent ≠ [] ∧
        sent.map Prod.fst <+:
          (d._deviceAddress cmd.OPCODE_SECURITY false :: address :: bufferBytes bytes len) ∧
        ((sent.length = len + 2 ∧
          d.writeSecurityUserPage fuel address (some bytes) len w =
            d.waitReady fuel d._config.writeTimeoutMs (w.after (frameImage d sent))) ∨
         (sent.length ≤ len + 2 ∧ ∃ st, (st.code = Err.NACK_DEVICE_ADDRESS ∨ st.code = Err.NACK_MEMORY_ADDRESS ∨
          st.code = Err.NACK_DATA) ∧
          d.writeSecurityUserPage fuel address (some bytes) len w =
            some (d._trackIo st (w.after (frameImage d sent)))))) := by
  have hl : ¬ (len = 0 ∨ len > 8) := by omega
  constructor
  · intro ha
    have e : d.writeEepromPage fuel address (some bytes) len w =
        (if !(d._writeRaw cmd.OPCODE_EEPROM address bytes len w).st.ok then
            some ((d._writeRaw cmd.OPCODE_EEPROM address bytes len w).drv._trackIo
              (d._writeRaw cmd.OPCODE_EEPROM address bytes len w).st
              (d._writeRaw cmd.OPCODE_EEPROM address bytes len w).world)
          else (d._writeRaw cmd.OPCODE_EEPROM address bytes len w).drv.waitReady fuel
            (d._writeRaw cmd.OPCODE_EEPROM address bytes len w).drv._config.writeTimeoutMs
            (d._writeRaw cmd.OPCODE_EEPROM address bytes len w).world) := by
      simp [Driver.writeEepromPage, Driver._checkInitialized, hinit, Status.ok, Status.Ok,
        Driver._isEepromAddressValid, cmd.EEPROM_SIZE, cmd.PAGE_SIZE, ha, hl]
    rw [e]
    exact Driver.write_single_frame fuel cmd.OPCODE_EEPROM address len bytes d w
  · intro ha hb
    have e : d.writeSecurityUserPage fuel address (some bytes) len w =
        (if !(d._writeRaw cmd.OPCODE_SECURITY address bytes len w).st.ok then
            some ((d._writeRaw cmd.OPCODE_SECURITY address bytes len w).drv._trackIo
              (d._writeRaw cmd.OPCODE_SECURITY address bytes len w).st
              (d._writeRaw cmd.OPCODE_SECURITY address bytes len w).world)
          else (d._writeRaw cmd.OPCODE_SECURITY address bytes len w).drv.waitReady fuel
            (d._writeRaw cmd.OPCODE_SECURITY address bytes len w).drv._config.writeTimeoutMs
            (d._writeRaw cmd.OPCODE_SECURITY address bytes len w).world) := by
      simp [Driver.writeSecurityUserPage, Driver._checkInitialized, hinit, Status.ok, Status.Ok,
        Driver._isSecurityUserAddressValid, cmd.SECURITY_USER_MIN, cmd.SECURITY_USER_MAX,
        cmd.PAGE_SIZE, ha, hb, hl]
    rw [e]
    exact Driver.write_single_frame fuel cmd.OPCODE_SECURITY address len bytes d w

/-- C10, amended, an instance: the theorem applies to the write of 8 bytes at
address 5 on the ready driver. -/
theorem page_write_single_frame_witness :
    readyDriver._initialized = true ∧ (1 : Nat) ≤ 8 ∧ (8 : Nat) ≤ 8 ∧ (5 : Nat) < 128 ∧
    ∃ sent : List (Nat × Bool), sent ≠ [] ∧
      sent.map Prod.fst <+:
        (readyDriver._deviceAddress cmd.OPCODE_EEPROM false :: 5 ::
          bufferBytes [1, 2, 3, 4, 5, 6, 7, 8] 8) ∧
      ((sent.length = 8 + 2 ∧
        readyDriver.writeEepromPage 1 5 (some [1, 2, 3, 4, 5, 6, 7, 8]) 8 ackWorld =
          readyDriver.waitReady 1 readyDriver._config.writeTimeoutMs
            (ackWorld.after (frameImage readyDriver sent))) ∨
       (sent.length ≤ 8 + 2 ∧ ∃ st, (st.code = Err.NACK_DEVICE_ADDRESS ∨ st.code = Err.NACK_MEMORY_ADDRESS ∨
          st.code = Err.NACK_DATA) ∧
        readyDriver.writeEepromPage 1 5 (some [1, 2, 3, 4, 5, 6, 7, 8]) 8 ackWorld =
          some (readyDriver._trackIo st (ackWorld.after (frameImage readyDriver sent))))) :=
  ⟨rfl, by decide, by decide, by decide,
    (page_write_single_frame 1 5 8 [1, 2, 3, 4, 5, 6, 7, 8] readyDriver ackWorld rfl
      (by decide) (by decide)).1 (by decide)⟩

/-- C9, counterexample.  On the ready driver with an acknowledging device,
`writeSecurityUserPage(0x1F, data, 2)` covers the addresses 0x1F and 0x20, the
second of which lies outside the user window 0x10..0x1F, yet the call is not
refused: it returns OK after one frame (device address byte 0xB0, memory
address 0x1F, both data bytes) and one write-ready poll. -/
theorem writeSecurityUserPage_past_window :
    (readyDriver.writeSecurityUserPage 1 0x1F (some [0x11, 0x22]) 2 ackWorld).map
        (fun r => (r.st, r.world.trace)) =
      some (Status.Ok,
        frameImage readyDriver [(0xB0, false), (0x1F, false), (0x11, false), (0x22, false)] ++
        [Event.millis 0] ++ frameImage readyDriver [(0xA0, false)] ++ [Event.millis 0]) ∧
    ¬ (0x1F + 2 ≤ 0x1F + 1) := by
  decide

/-- C9, amended.  On an initialized driver `writeSecurityUserPage` (and
`writeSecurityUserByte`) is refused with INVALID_PARAM, without line activity,
whenever the start address lies outside 0x10..0x1F; only the start address is
checked, so a write of 1..8 bytes whose start address is inside the window is
not refused, also when its range runs past 0x1F: if the call returns, its
status is not INVALID_PARAM and the line was used. -/
theorem writeSecurityUser_window (fuel address len value : Nat) (data : Option (List Nat))
    (bytes : List Nat) (d : Driver) (w : World) (hinit : d._initialized = true) :
    (address < 0x10 ∨ address > 0x1F →
      refusedOpt (d.writeSecurityUserPage fuel address data len w) Err.INVALID_PARAM d w ∧
      refusedOpt (d.writeSecurityUserByte fuel address value w) Err.INVALID_PARAM d w) ∧
    (0x10 ≤ address → address ≤ 0x1F → 1 ≤ len → len ≤ 8 →
      ∀ r, d.writeSecurityUserPage fuel address (some bytes) len w = some r →
        r.st.code ≠ Err.INVALID_PARAM ∧ r.world ≠ w) := by
  constructor
  · intro h
    have h' : address < 16 ∨ 31 < address := by omega
    constructor
    · simp [Driver.writeSecurityUserPage, refusedOpt, Ret.refused, Driver._checkInitialized,
        hinit, Status.ok, Status.Ok, Status.Error, Driver._isSecurityUserAddressValid,
        cmd.SECURITY_USER_MIN, cmd.SECURITY_USER_MAX, h']
    · simp [Driver.writeSecurityUserByte, Driver.writeSecurityUserPage, refusedOpt, Ret.refused,
        Driver._checkInitialized, hinit, Status.ok, Status.Ok, Status.Error,
        Driver._isSecurityUserAddressValid, cmd.SECURITY_USER_MIN, cmd.SECURITY_USER_MAX, h']
  · intro ha hb h1 h2 r hr
    have hl : ¬ (len = 0 ∨ len > 8) := by omega
    have e : d.writeSecurityUserPage fuel address (some bytes) len w =
        (if !(d._writeRaw cmd.OPCODE_SECURITY address bytes len w).st.ok then
            some ((d._writeRaw cmd.OPCODE_SECURITY address bytes len w).drv._trackIo
              (d._writeRaw cmd.OPCODE_SECURITY address bytes len w).st
              (d._writeRaw cmd.OPCODE_SECURITY address bytes len w).world)
          else (d._writeRaw cmd.OPCODE_SECURITY address bytes len w).drv.waitReady fuel
            (d._writeRaw cmd.OPCODE_SECURITY address bytes len w).drv._config.writeTimeoutMs
            (d._writeRaw cmd.OPCODE_SECURITY address bytes len w).world) := by
      simp [Driver.writeSecurityUserPage, Driver._checkInitialized, hinit, Status.ok, Status.Ok,
        Driver._isSecurityUserAddressValid, cmd.SECURITY_USER_MIN, cmd.SECURITY_USER_MAX,
        cmd.PAGE_SIZE, ha, hb, hl]
    obtain ⟨sent, _, _, hcase⟩ :=
      Driver.write_single_frame fuel cmd.OPCODE_SECURITY address len bytes d w
    rw [e] at hr
    rcases hcase with ⟨_, hw⟩ | ⟨_, st, hst, hw⟩
    · rw [hw] at hr
      obtain ⟨st, w2, hr2, ⟨es, hes, hw2⟩, hst⟩ :=
        Driver.waitReady_some fuel _ d _ r hinit hr
      have ht := Driver.trackIo_world st ({ d with _driverState := DriverState.BUSY } : Driver)
        w2 hinit
      rw [hr2]
      constructor
      · rw [ht.2.2.2]
        rcases hst with h | h <;> simp [h, Status.Ok, Status.Error]
      · rw [ht.1, hw2, World.after_after, World.after_after]
        exact World.after_ne _ _ (by simp)
    · rw [hw] at hr
      have ht := Driver.trackIo_world st d (w.after (frameImage d sent)) hinit
      simp only [Option.some.injEq] at hr
      rw [← hr]
      constructor
      · rw [ht.2.2.2]
        rcases hst with h | h | h <;> simp [h]
      · rw [ht.1, World.after_after]
        exact World.after_ne _ _ (by simp)

/-- C9, amended, an instance: the write of two bytes at 0x1F on the ready
driver returns, is accepted and uses the line. -/
theorem writeSecurityUser_window_witness :
    readyDriver._initialized = true ∧ 0x10 ≤ 0x1F ∧ 0x1F ≤ 0x1F ∧ 1 ≤ 2 ∧ 2 ≤ 8 ∧
    ∃ r, readyDriver.writeSecurityUserPage 1 0x1F (some [0x11, 0x22]) 2 ackWorld = some r ∧
      r.st.code ≠ Err.INVALID_PARAM ∧ r.world ≠ ackWorld := by
  have hsome :
      (readyDriver.writeSecurityUserPage 1 0x1F (some [0x11, 0x22]) 2 ackWorld).isSome = true := by
    decide
  obtain ⟨r, hr⟩ := Option.isSome_iff_exists.mp hsome
  exact ⟨rfl, by decide, by decide, by decide, by decide, r, hr,
    (writeSecurityUser_window 1 0x1F 2 0 none [0x11, 0x22] readyDriver ackWorld rfl).2
      (by decide) (by decide) (by decide) (by decide) r hr⟩

namespace Driver

theorem resetAndDiscoverRaw_frame (d : Driver) (w : World) :
    ((d._resetAndDiscoverRaw w).st = Status.Ok ∧
        (d._resetAndDiscoverRaw w).drv = d._setSpeedMode SpeedMode.HIGH_SPEED ∨
      (d._resetAndDiscoverRaw w).st =
          Status.Error Err.DISCOVERY_FAILED "Discovery response not detected" 0 ∧
        (d._resetAndDiscoverRaw w).drv = d) ∧
    ∃ es, es ≠ [] ∧ (d._resetAndDiscoverRaw w).world = w.after es := by
  simp only [_resetAndDiscoverRaw, driveLow, releaseLine, _lineLow, _releaseLine, _readLine,
    digitalWrite, digitalRead, delayMicroseconds, emit_eq_after, World.after_after]
  split_ifs
  · exact ⟨Or.inr ⟨rfl, rfl⟩, _, by simp, rfl⟩
  · exact ⟨Or.inl ⟨rfl, rfl⟩, _, by simp, rfl⟩

theorem setSpeedMode_idem (m : SpeedMode) (d : Driver) :
    (d._setSpeedMode m)._setSpeedMode m = d._setSpeedMode m := rfl

/-- The retry loop changes nothing of the driver but, on success, the speed
mode (set to high speed); it only adds events; and its status is OK, the
failure of the last attempt, or (with no attempt) the status passed in. -/
theorem discoverLoop_frame :
    ∀ (n : Nat) (st : Status) (d : Driver) (w : World),
      ((_discoverLoop n st d w).st = Status.Ok ∧
          (_discoverLoop n st d w).drv = d._setSpeedMode SpeedMode.HIGH_SPEED ∨
        ((_discoverLoop n st d w).st = st ∨ (_discoverLoop n st d w).st =
            Status.Error Err.DISCOVERY_FAILED "Discovery response not detected" 0) ∧
          (_discoverLoop n st d w).drv = d) ∧
      w.reaches (_discoverLoop n st d w).world := by
  intro n
  induction n with
  | zero =>
    intro st d w
    exact ⟨Or.inr ⟨Or.inl rfl, rfl⟩, World.reaches_refl w⟩
  | succ n ih =>
    intro st d w
    obtain ⟨hr, es, _, hw⟩ := resetAndDiscoverRaw_frame d w
    simp only [_discoverLoop]
    rcases hr with ⟨h1, h2⟩ | ⟨h1, h2⟩
    · have hok : (d._resetAndDiscoverRaw w).st.ok = true := by rw [h1]; rfl
      simp only [hok, if_true]
      exact ⟨Or.inl ⟨h1, h2⟩, ⟨es, hw⟩⟩
    · have hok : (d._resetAndDiscoverRaw w).st.ok = false := by rw [h1]; rfl
      simp only [hok, Bool.false_eq_true, if_false]
      obtain ⟨hi, hreach⟩ := ih (d._resetAndDiscoverRaw w).st (d._resetAndDiscoverRaw w).drv
        (d._resetAndDiscoverRaw w).world
      rw [h2] at hi hreach ⊢
      refine ⟨?_, World.reaches_trans ⟨es, hw⟩ hreach⟩
      rcases hi with hi | ⟨hi | hi, hd⟩
      · exact Or.inl hi
      · exact Or.inr ⟨Or.inr (hi.trans h1), hd⟩
      · exact Or.inr ⟨Or.inr hi, hd⟩

theorem readManufacturerIdRaw_frame (m : Nat) (d : Driver) (w : World) :
    (d._readManufacturerIdRaw m w).drv = d ∧
    ((d._readManufacturerIdRaw m w).st = Status.Ok ∨
      (d._readManufacturerIdRaw m w).st =
        Status.Error Err.NACK_DEVICE_ADDRESS "Manufacturer ID command NACK" 0) ∧
    w.reaches (d._readManufacturerIdRaw m w).world := by
  have r0 := sendStart_reaches d w
  have r1 := World.reaches_trans r0
    (txByte_reaches (d._deviceAddress cmd.OPCODE_MANUFACTURER_ID true) d _)
  have r2 := World.reaches_trans r1 (rxByte_reaches true d _)
  have r3 := World.reaches_trans r2 (rxByte_reaches true d _)
  have r4 := World.reaches_trans r3 (rxByte_reaches false d _)
  simp only [_readManufacturerIdRaw, sendStop_image]
  split_ifs
  · exact ⟨rfl, Or.inr rfl, World.reaches_trans r1 (World.reaches_after _ _)⟩
  · exact ⟨rfl, Or.inl rfl, World.reaches_trans r4 (World.reaches_after _ _)⟩

theorem addressOnlyRaw_frame (opcode : Nat) (read : Bool) (d : Driver) (w : World) :
    (d._addressOnlyRaw opcode read w).drv = d ∧
    (d._addressOnlyRaw opcode read w).st = Status.Ok ∧
    w.reaches (d._addressOnlyRaw opcode read w).world := by
  obtain ⟨lvl, h⟩ := addressOnlyRaw_image opcode read d w
  rw [h]
  exact ⟨rfl, rfl, World.reaches_after _ _⟩

theorem configurePins_frame (d : Driver) (w : World) :
    ((d._configurePins w).1 = Status.Ok ∨
      ((d._configurePins w).1.code = Err.INVALID_CONFIG ∧ (∃ h, w.gpioOk h = false) ∧
        ((d._configurePins w).1.msg = "Failed to configure sioPin" ∨
          (d._configurePins w).1.msg = "Failed to release sioPin" ∨
          (d._configurePins w).1.msg = "Failed to configure presencePin"))) ∧
    ∃ es, es ≠ [] ∧ (d._configurePins w).2 = w.after es := by
  simp only [_configurePins, pinMode, digitalWrite, emit_eq_after, World.after_after]
  split_ifs with c1 c2 c3 c4 <;>
    first
      | exact ⟨Or.inl rfl, _, by simp, rfl⟩
      | exact ⟨Or.inr ⟨rfl, ⟨_, by simpa using c1⟩, Or.inl rfl⟩, _, by simp, rfl⟩
      | exact ⟨Or.inr ⟨rfl, ⟨_, by simpa using c2⟩, Or.inr (Or.inl rfl)⟩, _, by simp, rfl⟩
      | exact ⟨Or.inr ⟨rfl, ⟨_, by simpa using c4⟩, Or.inr (Or.inr rfl)⟩, _, by simp, rfl⟩

end Driver

namespace Driver

theorem addressOnlyRaw_drv (opcode : Nat) (read : Bool) (d : Driver) (w : World) :
    (d._addressOnlyRaw opcode read w).drv = d := rfl

theorem addressOnlyRaw_st (opcode : Nat) (read : Bool) (d : Driver) (w : World) :
    (d._addressOnlyRaw opcode read w).st = Status.Ok := rfl

theorem addressOnlyRaw_world (opcode : Nat) (read : Bool) (d : Driver) (w : World) :
    (d._addressOnlyRaw opcode read w).world =
      w.after (frameImage d [(d._deviceAddress opcode read,
        !(d._addressOnlyRaw opcode read w).out)]) := by
  obtain ⟨lvl, h⟩ := addressOnlyRaw_image opcode read d w
  rw [h]
  simp

theorem after_strict {w0 : World} {es : List Event} (hes : es ≠ []) (es2 : List Event) :
    ∃ es3, es3 ≠ [] ∧ (w0.after es).after es2 = w0.after es3 :=
  ⟨es ++ es2, by simp [hes], World.after_after _ _ _⟩

theorem beginStartup_passed (config : Config) (detected : PartType) (d : Driver)
    (w0 : World) (es : List Event) (hes : es ≠ [])
    (hdet : detected = PartType.AT21CS01 ∨ detected = PartType.AT21CS11)
    (hspeed : ¬ (config.startupSpeed = SpeedMode.STANDARD_SPEED ∧ detected = PartType.AT21CS11))
    (f1 : d._config = config) (f2 : d._initialized = false) (f4 : d._consecutiveFailures = 0)
    (f5 : d._totalFailures = 0) (f6 : d._totalSuccess = 0) (f7 : d._lastError = Status.Ok) :
    BeginPassed config w0 (d.beginStartup detected (w0.after es)) := by
  unfold beginStartup
  simp only [addressOnlyRaw_drv, addressOnlyRaw_st, addressOnlyRaw_world, millis, emit_eq_after]
  split_ifs with c1 c2 c3
  · exact absurd c2 (by decide)
  · refine ⟨f1, after_strict hes _, f4, f5, f6, f7,
      Or.inr ⟨by simp [Status.Error], f2, Or.inl rfl, ?_⟩⟩
    intro h; simp [Status.Error] at h
  · have c1' : config.startupSpeed = SpeedMode.STANDARD_SPEED := by rw [← f1]; exact c1
    refine ⟨f1, ?_, f4, f5, f6, rfl, Or.inl ⟨rfl, rfl, rfl, hdet, c1'.symm, ?_⟩⟩
    · simp only [World.after_after]
      exact ⟨_, by simp [hes], rfl⟩
    · intro h
      exact absurd ⟨c1', h⟩ hspeed
  · refine ⟨f1, after_strict hes _, f4, f5, f6, rfl, Or.inl ⟨rfl, rfl, rfl, hdet, ?_, ?_⟩⟩
    · have c1' : ¬ config.startupSpeed = SpeedMode.STANDARD_SPEED := by rw [← f1]; exact c1
      cases hc : config.startupSpeed
      · rfl
      · exact absurd hc c1'
    · intro _; rfl

end Driver

namespace Driver

theorem beginIdentify_passed (config : Config) (d : Driver)
    (w0 : World) (es : List Event) (hes : es ≠ [])
    (f1 : d._config = config) (f2 : d._initialized = false) (f4 : d._consecutiveFailures = 0)
    (f5 : d._totalFailures = 0) (f6 : d._totalSuccess = 0) (f7 : d._lastError = Status.Ok) :
    BeginPassed config w0 (d.beginIdentify (w0.after es)) := by
  obtain ⟨hm1, hm2, es2, hw2⟩ := readManufacturerIdRaw_frame 0 d (w0.after es)
  unfold beginIdentify
  generalize d._readManufacturerIdRaw 0 (w0.after es) = m at hm1 hm2 hw2 ⊢
  obtain ⟨mst, mout, mdrv, mw⟩ := m
  simp only at hm1 hm2 hw2 ⊢
  subst hm1 hw2
  have hstrict := @after_strict w0 _ hes es2
  by_cases c1 : (!mst.ok) = true
  · rw [if_pos c1]
    refine ⟨f1, hstrict, f4, f5, f6, f7, Or.inr ⟨?_, f2, Or.inr rfl, ?_⟩⟩
    · rcases hm2 with h | h <;> subst h <;> simp_all [Status.ok, Status.Ok, Status.Error]
    · rcases hm2 with h | h <;> subst h <;> simp [Status.Error, Status.Ok]
  · rw [if_neg c1]
    by_cases hA : mout = cmd.MANUFACTURER_ID_AT21CS01
    · simp only [hA, if_true]
      by_cases c2 : mdrv._config.expectedPart ≠ PartType.UNKNOWN ∧
          mdrv._config.expectedPart ≠ PartType.AT21CS01
      · rw [if_pos c2]
        refine ⟨f1, hstrict, f4, f5, f6, f7,
          Or.inr ⟨by simp [Status.Error], f2, Or.inl rfl, ?_⟩⟩
        intro h; simp [Status.Error] at h
      · rw [if_neg c2, if_neg (by simp)]
        obtain ⟨es3, hes3, hw3⟩ := hstrict
        rw [hw3]
        exact beginStartup_passed config PartType.AT21CS01 mdrv w0 es3 hes3 (Or.inl rfl)
          (by simp) f1 f2 f4 f5 f6 f7
    · by_cases hB : mout = cmd.MANUFACTURER_ID_AT21CS11
      · have hne : ¬ cmd.MANUFACTURER_ID_AT21CS11 = cmd.MANUFACTURER_ID_AT21CS01 := by decide
        subst hB
        simp only [hne, if_false, if_true]
        by_cases c2 : mdrv._config.expectedPart ≠ PartType.UNKNOWN ∧
            mdrv._config.expectedPart ≠ PartType.AT21CS11
        · rw [if_pos c2]
          refine ⟨f1, hstrict, f4, f5, f6, f7,
            Or.inr ⟨by simp [Status.Error], f2, Or.inl rfl, ?_⟩⟩
          intro h; simp [Status.Error] at h
        · rw [if_neg c2]
          by_cases c3 : mdrv._config.startupSpeed = SpeedMode.STANDARD_SPEED ∧ True
          · rw [if_pos c3]
            refine ⟨f1, hstrict, f4, f5, f6, f7,
              Or.inr ⟨by simp [Status.Error], f2, Or.inl rfl, ?_⟩⟩
            intro _; exact Or.inr rfl
          · rw [if_neg c3]
            obtain ⟨es3, hes3, hw3⟩ := hstrict
            rw [hw3]
            exact beginStartup_passed config PartType.AT21CS11 mdrv w0 es3 hes3 (Or.inr rfl)
              (by rw [← f1]; intro h; exact c3 ⟨h.1, trivial⟩) f1 f2 f4 f5 f6 f7
      · simp only [hA, hB, if_false]
        refine ⟨f1, hstrict, f4, f5, f6, f7, Or.inr ⟨by simp [Status.Error], f2, Or.inl rfl, ?_⟩⟩
        intro h; simp [Status.Error] at h

theorem begin_accepted (config : Config) (d : Driver) (w : World)
    (h1 : ¬ config.sioPin < 0) (h2 : ¬ config.sioPin > 63) (h3 : ¬ config.presencePin > 63)
    (h4 : ¬ config.addressBits > 7) (h5 : ¬ config.offlineThreshold = 0)
    (h6 : ¬ config.writeTimeoutMs = 0) :
    BeginPassed config w (d.begin config w) := by
  simp only [begin, h1, h2, h3, h4, h5, h6, if_false]
  have f : ∀ d0 : Driver, d0 = (({ d with
      _config := config
      _initialized := false
      _driverState := DriverState.UNINIT
      _detectedPart := PartType.UNKNOWN } : Driver)._setSpeedMode
        SpeedMode.HIGH_SPEED)._resetHealth →
      d0._config = config ∧ d0._initialized = false ∧ d0._detectedPart = PartType.UNKNOWN ∧
      d0._consecutiveFailures = 0 ∧ d0._totalFailures = 0 ∧ d0._totalSuccess = 0 ∧
      d0._lastError = Status.Ok ∧ d0._speedMode = SpeedMode.HIGH_SPEED := by
    intro d0 h; subst h; exact ⟨rfl, rfl, rfl, rfl, rfl, rfl, rfl, rfl⟩
  generalize (({ d with
      _config := config
      _initialized := false
      _driverState := DriverState.UNINIT
      _detectedPart := PartType.UNKNOWN } : Driver)._setSpeedMode
        SpeedMode.HIGH_SPEED)._resetHealth = d0 at f ⊢
  obtain ⟨f1, f2, f3, f4, f5, f6, f7, f8⟩ := f d0 rfl
  clear f
  obtain ⟨hcp, es0, hes0, hw0⟩ := configurePins_frame d0 w
  generalize d0._configurePins w = cp at hcp hw0 ⊢
  obtain ⟨cst, cw⟩ := cp
  simp only at hcp hw0 ⊢
  subst hw0
  obtain ⟨hr, es1, hw1⟩ := discoverLoop_frame ((d0._config.discoveryRetries + 1) % 256)
    (Status.Error Err.DISCOVERY_FAILED "Discovery failed" 0)
    ({ d0 with _driverState := DriverState.PROBING } : Driver) (w.after es0)
  generalize _discoverLoop ((d0._config.discoveryRetries + 1) % 256)
    (Status.Error Err.DISCOVERY_FAILED "Discovery failed" 0)
    ({ d0 with _driverState := DriverState.PROBING } : Driver) (w.after es0) = r at hr hw1 ⊢
  obtain ⟨rst, ru, rdrv, rw⟩ := r
  simp only at hr hw1 ⊢
  subst hw1
  have g : rdrv._config = config ∧ rdrv._initialized = false ∧
      rdrv._consecutiveFailures = 0 ∧
      rdrv._totalFailures = 0 ∧ rdrv._totalSuccess = 0 ∧ rdrv._lastError = Status.Ok := by
    rcases hr with ⟨_, h⟩ | ⟨_, h⟩ <;> subst h <;>
      exact ⟨f1, f2, f4, f5, f6, f7⟩
  obtain ⟨g1, g2, g4, g5, g6, g7⟩ := g
  have hstrict := @after_strict w _ hes0 es1
  by_cases c1 : (!cst.ok) = true
  · rw [if_pos c1]
    refine ⟨f1, ⟨es0, hes0, rfl⟩, f4, f5, f6, f7, Or.inr ⟨?_, f2, Or.inl rfl, ?_⟩⟩
    · simpa [Status.ok] using c1
    · intro _
      rcases hcp with h | ⟨_, hex, h⟩
      · subst h; simp [Status.ok, Status.Ok] at c1
      · exact Or.inl ⟨hex, h⟩
  · rw [if_neg c1]
    by_cases c2 : (!rst.ok) = true
    · rw [if_pos c2]
      refine ⟨g1, hstrict, g4, g5, g6, g7, Or.inr ⟨by simp [Status.Error], g2, Or.inr rfl, ?_⟩⟩
      intro h; simp [Status.Error] at h
    · rw [if_neg c2]
      obtain ⟨es3, hes3, hw3⟩ := hstrict
      rw [hw3]
      exact beginIdentify_passed config rdrv w es3 hes3 g1 g2 g4 g5 g6 g7

end Driver

/-! ## Initialization -/

/-- C5. `begin(config)` returns INVALID_CONFIG, sets the state to FAULT and
touches neither the rest of the driver nor the platform (no line activity)
whenever `sioPin < 0`, `sioPin > 63`, `presencePin > 63`, `addressBits > 7`,
`offlineThreshold == 0` or `writeTimeoutMs == 0`; the default-constructed
`Config` is rejected in this way.  A configuration that passes these six checks
is not rejected by parameter validation: it is stored in the driver and the
platform is used; if the call still returns INVALID_CONFIG, then either the
platform refused a GPIO call of the pin setup (ESP32 build; never on the
Arduino build) or the detected AT21CS11 does not support the requested
standard speed, which is found out after discovery. -/
theorem begin_validation (config : Config) (d : Driver) (w : World) :
    ((config.sioPin < 0 ∨ config.sioPin > 63 ∨ config.presencePin > 63 ∨
        config.addressBits > 7 ∨ config.offlineThreshold = 0 ∨ config.writeTimeoutMs = 0) →
      (d.begin config w).st.code = Err.INVALID_CONFIG ∧
      (d.begin config w).drv = { d with _driverState := DriverState.FAULT } ∧
      (d.begin config w).world = w) ∧
    ((d.begin {} w).st.code = Err.INVALID_CONFIG ∧
      (d.begin {} w).drv = { d with _driverState := DriverState.FAULT } ∧
      (d.begin {} w).world = w) ∧
    (¬ (config.sioPin < 0 ∨ config.sioPin > 63 ∨ config.presencePin > 63 ∨
        config.addressBits > 7 ∨ config.offlineThreshold = 0 ∨ config.writeTimeoutMs = 0) →
      (d.begin config w).drv._config = config ∧
      (d.begin config w).world ≠ w ∧
      ((d.begin config w).st.code = Err.INVALID_CONFIG →
        ((∃ h, w.gpioOk h = false) ∧
          ((d.begin config w).st.msg = "Failed to configure sioPin" ∨
            (d.begin config w).st.msg = "Failed to release sioPin" ∨
            (d.begin config w).st.msg = "Failed to configure presencePin")) ∨
        (d.begin config w).st.msg = "AT21CS11 does not support Standard Speed")) := by
  refine ⟨?_, ?_, ?_⟩
  · intro h
    unfold Driver.begin
    split_ifs with c1 c2 c3 c4 c5 c6
    · exact ⟨rfl, rfl, rfl⟩
    · exact ⟨rfl, rfl, rfl⟩
    · exact ⟨rfl, rfl, rfl⟩
    · exact ⟨rfl, rfl, rfl⟩
    · exact ⟨rfl, rfl, rfl⟩
    · exact ⟨rfl, rfl, rfl⟩
    · exact absurd h (by simp only [not_or]; exact ⟨c1, c2, c3, c4, c5, c6⟩)
  · exact ⟨rfl, rfl, rfl⟩
  · intro h
    simp only [not_or] at h
    obtain ⟨h1, h2, h3, h4, h5, h6⟩ := h
    obtain ⟨p1, ⟨es, hes, hw⟩, _, _, _, _, p7⟩ := Driver.begin_accepted config d w h1 h2 h3 h4 h5 h6
    refine ⟨p1, ?_, ?_⟩
    · rw [hw]; exact World.after_ne _ _ hes
    · intro hc
      rcases p7 with ⟨hok, _⟩ | ⟨_, _, _, hmsg⟩
      · rw [hok] at hc; exact absurd hc (by decide)
      · exact hmsg hc

/-- C5, an instance: the configuration with `addressBits = 8` is rejected on
the ready driver without any event. -/
theorem begin_validation_witness :
    (({ pin4Config with addressBits := 8 } : Config).addressBits > 7) ∧
    (readyDriver.begin { pin4Config with addressBits := 8 } ackWorld).st.code =
      Err.INVALID_CONFIG ∧
    (readyDriver.begin { pin4Config with addressBits := 8 } ackWorld).drv =
      { readyDriver with _driverState := DriverState.FAULT } ∧
    (readyDriver.begin { pin4Config with addressBits := 8 } ackWorld).world = ackWorld :=
  ⟨by decide,
    (begin_validation { pin4Config with addressBits := 8 } readyDriver ackWorld).1
      (Or.inr (Or.inr (Or.inr (Or.inl (by decide)))))⟩

/-- The ready driver of the examples is what a first `begin(pin4Config)` leaves
on a line with an AT21CS01 attached. -/
theorem begin_bootWorld :
    (({} : Driver).begin pin4Config bootWorld).st = Status.Ok ∧
    (({} : Driver).begin pin4Config bootWorld).drv = readyDriver := by
  decide

/-- C4, the failing input evaluated.  A first `begin(pin4Config)` succeeds and
leaves the ready driver.  A second `begin` with the default-constructed
configuration then returns INVALID_CONFIG with state FAULT, which is case (b),
but the driver stays initialized: the next `readCurrentAddress` is accepted,
returns OK and brings the state back to READY. -/
theorem begin_rejected_stays_initialized :
    (({} : Driver).begin pin4Config bootWorld).st = Status.Ok ∧
    (({} : Driver).begin pin4Config bootWorld).drv = readyDriver ∧
    (readyDriver.begin {} (({} : Driver).begin pin4Config bootWorld).world).st.code =
      Err.INVALID_CONFIG ∧
    (readyDriver.begin {} (({} : Driver).begin pin4Config bootWorld).world).drv._driverState =
      DriverState.FAULT ∧
    (readyDriver.begin {} (({} : Driver).begin pin4Config bootWorld).world).drv._initialized =
      true ∧
    ((readyDriver.begin {} (({} : Driver).begin pin4Config bootWorld).world).drv.readCurrentAddress
      0xFF (({} : Driver).begin pin4Config bootWorld).world).st = Status.Ok ∧
    ((readyDriver.begin {} (({} : Driver).begin pin4Config bootWorld).world).drv.readCurrentAddress
      0xFF (({} : Driver).begin pin4Config bootWorld).world).drv._driverState =
        DriverState.READY := by
  decide

/-- The outcome of `begin`, for every configuration, prior driver and line
behaviour: either the status is OK, the state is READY, the detected part is
AT21CS01 or AT21CS11 and the speed mode is `config.startupSpeed` (high speed
for an AT21CS11), or the status is not OK and the state is FAULT or OFFLINE.
When the driver was not initialized before the call, or the configuration
passes the parameter checks, the driver is initialized afterwards exactly when
the status is OK. -/
theorem begin_outcome (config : Config) (d : Driver) (w : World) :
    (((d.begin config w).st.code = Err.OK ∧
        (d.begin config w).drv._driverState = DriverState.READY ∧
        ((d.begin config w).drv._detectedPart = PartType.AT21CS01 ∨
          (d.begin config w).drv._detectedPart = PartType.AT21CS11) ∧
        (d.begin config w).drv._speedMode = config.startupSpeed ∧
        ((d.begin config w).drv._detectedPart = PartType.AT21CS11 →
          (d.begin config w).drv._speedMode = SpeedMode.HIGH_SPEED)) ∨
      ((d.begin config w).st.code ≠ Err.OK ∧
        ((d.begin config w).drv._driverState = DriverState.FAULT ∨
          (d.begin config w).drv._driverState = DriverState.OFFLINE))) ∧
    ((d._initialized = false ∨
        ¬ (config.sioPin < 0 ∨ config.sioPin > 63 ∨ config.presencePin > 63 ∨
          config.addressBits > 7 ∨ config.offlineThreshold = 0 ∨ config.writeTimeoutMs = 0)) →
      ((d.begin config w).drv._initialized = true ↔ (d.begin config w).st.code = Err.OK)) := by
  by_cases hv : config.sioPin < 0 ∨ config.sioPin > 63 ∨ config.presencePin > 63 ∨
      config.addressBits > 7 ∨ config.offlineThreshold = 0 ∨ config.writeTimeoutMs = 0
  · have key : (d.begin config w).st.code = Err.INVALID_CONFIG ∧
        (d.begin config w).drv = { d with _driverState := DriverState.FAULT } := by
      unfold Driver.begin
      split_ifs with c1 c2 c3 c4 c5 c6
      · exact ⟨rfl, rfl⟩
      · exact ⟨rfl, rfl⟩
      · exact ⟨rfl, rfl⟩
      · exact ⟨rfl, rfl⟩
      · exact ⟨rfl, rfl⟩
      · exact ⟨rfl, rfl⟩
      · exact absurd hv (by simp only [not_or]; exact ⟨c1, c2, c3, c4, c5, c6⟩)
    rw [key.1, key.2]
    refine ⟨Or.inr ⟨by decide, Or.inl rfl⟩, ?_⟩
    intro h
    rcases h with h | h
    · simp [h]
    · exact absurd hv h
  · have hv' := hv
    simp only [not_or] at hv'
    obtain ⟨h1, h2, h3, h4, h5, h6⟩ := hv'
    obtain ⟨_, _, _, _, _, _, p7⟩ := Driver.begin_accepted config d w h1 h2 h3 h4 h5 h6
    rcases p7 with ⟨hok, hi, hs, hp, hsp, h11⟩ | ⟨hne, hi, hs, _⟩
    · refine ⟨Or.inl ⟨by rw [hok]; rfl, hs, hp, hsp, h11⟩, fun _ => ?_⟩
      simp [hi, hok, Status.Ok]
    · refine ⟨Or.inr ⟨hne, hs⟩, fun _ => ?_⟩
      simp [hi, hne]

/-- An instance of `begin_outcome`: the first `begin` on the line with an
AT21CS01 attached starts from a driver that is not initialized. -/
theorem begin_outcome_witness :
    ({} : Driver)._initialized = false ∧
    ((({} : Driver).begin pin4Config bootWorld).drv._initialized = true ↔
      (({} : Driver).begin pin4Config bootWorld).st.code = Err.OK) :=
  ⟨rfl, (begin_outcome pin4Config {} bootWorld).2 (Or.inl rfl)⟩

namespace Driver

theorem sameHealth_refl (d : Driver) : d.sameHealth d :=
  ⟨rfl, rfl, rfl, rfl, rfl, rfl, rfl, rfl, rfl⟩

theorem sameHealth_state (d : Driver) (s : DriverState) :
    d.sameHealth { d with _driverState := s } :=
  ⟨rfl, rfl, rfl, rfl, rfl, rfl, rfl, rfl, rfl⟩

theorem sameHealth_speed (d : Driver) (m : SpeedMode) : d.sameHealth (d._setSpeedMode m) :=
  ⟨rfl, rfl, rfl, rfl, rfl, rfl, rfl, rfl, rfl⟩

theorem sameHealth_part (d : Driver) (p : PartType) :
    d.sameHealth { d with _detectedPart := p } :=
  ⟨rfl, rfl, rfl, rfl, rfl, rfl, rfl, rfl, rfl⟩

theorem sameHealth_trans {a b c : Driver} (h1 : a.sameHealth b) (h2 : b.sameHealth c) :
    a.sameHealth c := by
  obtain ⟨a1, a2, a3, a4, a5, a6, a7, a8, a9⟩ := h1
  obtain ⟨b1, b2, b3, b4, b5, b6, b7, b8, b9⟩ := h2
  exact ⟨b1.trans a1, b2.trans a2, b3.trans a3, b4.trans a4, b5.trans a5, b6.trans a6,
    b7.trans a7, b8.trans a8, b9.trans a9⟩

theorem trackIo_st (st : Status) (d : Driver) (w : World) : (d._trackIo st w).st = st := by
  simp only [_trackIo, millis]
  split_ifs <;> rfl

theorem trackIo_reaches (st : Status) (d : Driver) (w : World) :
    w.reaches (d._trackIo st w).world := by
  simp only [_trackIo, millis, emit_eq_after]
  split_ifs <;> first | exact World.reaches_refl _ | exact World.reaches_after _ _

/-- The retry loop, seen from the health record: same health, same lifecycle
state, more events, and a status that is OK or DISCOVERY_FAILED when the status
passed in is DISCOVERY_FAILED. -/
theorem discoverLoop_health (n : Nat) (st : Status) (d : Driver) (w : World)
    (hst : st.code = Err.DISCOVERY_FAILED) :
    d.sameHealth (_discoverLoop n st d w).drv ∧
    (_discoverLoop n st d w).drv._driverState = d._driverState ∧
    w.reaches (_discoverLoop n st d w).world ∧
    ((_discoverLoop n st d w).st = Status.Ok ∨
      (_discoverLoop n st d w).st.code = Err.DISCOVERY_FAILED) := by
  obtain ⟨h, hw⟩ := discoverLoop_frame n st d w
  rcases h with ⟨h1, h2⟩ | ⟨h1, h2⟩
  · rw [h2]
    exact ⟨sameHealth_speed d _, rfl, hw, Or.inl h1⟩
  · rw [h2]
    refine ⟨sameHealth_refl d, rfl, hw, Or.inr ?_⟩
    rcases h1 with h1 | h1
    · rw [h1]; exact hst
    · rw [h1]; rfl

theorem readCurrentAddressRaw_frame (v : Nat) (d : Driver) (w : World) :
    (d._readCurrentAddressRaw v w).drv = d ∧
    ((d._readCurrentAddressRaw v w).st = Status.Ok ∨
      (d._readCurrentAddressRaw v w).st.code = Err.NACK_DEVICE_ADDRESS) ∧
    w.reaches (d._readCurrentAddressRaw v w).world := by
  have r0 := sendStart_reaches d w
  have r1 := World.reaches_trans r0
    (txByte_reaches (d._deviceAddress cmd.OPCODE_EEPROM true) d _)
  have r2 := World.reaches_trans r1 (rxByte_reaches false d _)
  simp only [_readCurrentAddressRaw, sendStop_image]
  split_ifs
  · exact ⟨rfl, Or.inr rfl, World.reaches_trans r1 (World.reaches_after _ _)⟩
  · exact ⟨rfl, Or.inl rfl, World.reaches_trans r2 (World.reaches_after _ _)⟩

end Driver

/-- Tracking `st` on a driver with the health of `d`, in a world reached from
`w`, is a call that tracked once. -/
theorem TrackedOnce.intro {α : Type} {d e : Driver} {w w2 : World} {st : Status} {r : Ret α}
    (hs : d.sameHealth e)
    (hstate : e._driverState = d._driverState ∨ e._driverState = DriverState.PROBING ∨
      e._driverState = DriverState.BUSY ∨ e._driverState = DriverState.RECOVERING)
    (hw : w.reaches w2) (h1 : r.drv = (e._trackIo st w2).drv)
    (h2 : r.world = (e._trackIo st w2).world) : TrackedOnce d w st r :=
  ⟨e, w2, hs, hstate, hw, h1, h2⟩

/-- A result that is what `_trackIo` left has the shape of a tracked call. -/
theorem CallShape.tracked (c : Call) {d e : Driver} {w w2 : World} (st : Status)
    (hs : d.sameHealth e)
    (hstate : e._driverState = d._driverState ∨ e._driverState = DriverState.PROBING ∨
      e._driverState = DriverState.BUSY ∨ e._driverState = DriverState.RECOVERING)
    (hw : w.reaches w2) : CallShape c d w (e._trackIo st w2) :=
  Or.inl ⟨st, ⟨e, w2, hs, hstate, hw, rfl, rfl⟩, Or.inl (Driver.trackIo_st st e w2)⟩

/-- A refusal that left driver and world alone has the shape of an untracked
call. -/
theorem CallShape.refusal (c : Call) (d : Driver) (w : World) (st : Status)
    (h : st.code = Err.INVALID_PARAM ∨ st.code = Err.UNSUPPORTED_COMMAND) :
    CallShape c d w ⟨st, (), d, w⟩ :=
  Or.inr ⟨⟨Driver.sameHealth_refl d, rfl, World.reaches_refl w⟩,
    h.elim Or.inl (fun h => Or.inr (Or.inl h))⟩

namespace Driver

theorem checkInitialized_ok {d : Driver} (h : d._initialized = true) :
    d._checkInitialized = Status.Ok := by
  simp [_checkInitialized, h]

theorem ok_Ok : Status.Ok.ok = true := rfl

theorem probe_shape (d : Driver) (w : World) (hinit : d._initialized = true) :
    CallShape Call.probe d w (d.probe w) := by
  obtain ⟨h, es, _, hw⟩ := resetAndDiscoverRaw_frame
    ({ d with _driverState := DriverState.PROBING } : Driver) w
  have e : d.probe w =
      ⟨(({ d with _driverState := DriverState.PROBING } : Driver)._resetAndDiscoverRaw w).st, (),
        { (({ d with _driverState := DriverState.PROBING } : Driver)._resetAndDiscoverRaw w).drv
          with _driverState := d._driverState },
        (({ d with _driverState := DriverState.PROBING } : Driver)._resetAndDiscoverRaw w).world⟩ := by
    simp only [probe, checkInitialized_ok hinit, ok_Ok, Bool.not_true, Bool.false_eq_true,
      if_false]
  rw [e]
  refine Or.inr ⟨⟨?_, rfl, ⟨es, hw⟩⟩, Or.inr (Or.inr (Or.inl rfl))⟩
  rcases h with ⟨_, h2⟩ | ⟨_, h2⟩ <;> rw [h2] <;>
    exact ⟨rfl, rfl, rfl, rfl, rfl, rfl, rfl, rfl, rfl⟩

theorem recover_shape (d : Driver) (w : World) (hinit : d._initialized = true) :
    CallShape Call.recover d w (d.recover w) := by
  obtain ⟨l1, l2, l3, _⟩ := discoverLoop_health ((d._config.discoveryRetries + 1) % 256)
    (Status.Error Err.DISCOVERY_FAILED "Discovery failed" 0)
    ({ d with _driverState := DriverState.RECOVERING } : Driver) w rfl
  have hs0 := sameHealth_trans (sameHealth_state d DriverState.RECOVERING) l1
  simp only [recover, checkInitialized_ok hinit, ok_Ok, Bool.not_true, Bool.false_eq_true,
    if_false]
  generalize _discoverLoop ((d._config.discoveryRetries + 1) % 256)
    (Status.Error Err.DISCOVERY_FAILED "Discovery failed" 0)
    ({ d with _driverState := DriverState.RECOVERING } : Driver) w = r at l1 l2 l3 hs0 ⊢
  obtain ⟨m1, _, m3⟩ := readManufacturerIdRaw_frame 0 r.drv r.world
  generalize r.drv._readManufacturerIdRaw 0 r.world = m at m1 m3 ⊢
  have hst : r.drv._driverState = d._driverState ∨ r.drv._driverState = DriverState.PROBING ∨
      r.drv._driverState = DriverState.BUSY ∨ r.drv._driverState = DriverState.RECOVERING :=
    Or.inr (Or.inr (Or.inr l2))
  have hm := World.reaches_trans l3 m3
  split_ifs <;> (try simp only []) <;> (try split_ifs) <;> first
    | exact CallShape.tracked _ _ hs0 hst l3
    | (rw [m1]; exact CallShape.tracked _ _ hs0 hst hm)

theorem resetAndDiscover_shape (d : Driver) (w : World) (hinit : d._initialized = true) :
    CallShape Call.resetAndDiscover d w (d.resetAndDiscover w) := by
  obtain ⟨l1, l2, l3, _⟩ := discoverLoop_health ((d._config.discoveryRetries + 1) % 256)
    (Status.Error Err.DISCOVERY_FAILED "Discovery failed" 0)
    ({ d with _driverState := DriverState.PROBING } : Driver) w rfl
  have hs0 := sameHealth_trans (sameHealth_state d DriverState.PROBING) l1
  simp only [resetAndDiscover, checkInitialized_ok hinit, ok_Ok, Bool.not_true,
    Bool.false_eq_true, if_false]
  exact CallShape.tracked _ _ hs0 (Or.inr (Or.inl l2)) l3

theorem isPresent_shape (d : Driver) (w : World) (hinit : d._initialized = true) :
    CallShape Call.isPresent d w (d.isPresent w).forget := by
  simp only [isPresent, checkInitialized_ok hinit, ok_Ok, Bool.not_true, Bool.false_eq_true,
    if_false, digitalRead, emit_eq_after]
  by_cases hp : d._config.presencePin ≥ 0
  · simp only [hp, if_true]
    obtain ⟨l1, l2, l3, _⟩ := discoverLoop_health ((d._config.discoveryRetries + 1) % 256)
      (Status.Error Err.DISCOVERY_FAILED "Discovery failed" 0)
      ({ d with _driverState := DriverState.PROBING } : Driver)
      (w.after [Event.read (d._config.presencePin % 256).toNat
        (w.level w.trace (d._config.presencePin % 256).toNat)]) rfl
    have hs0 := sameHealth_trans (sameHealth_state d DriverState.PROBING) l1
    have hw := World.reaches_trans (World.reaches_after w _) l3
    split_ifs <;> first
      | exact Or.inr ⟨⟨sameHealth_refl d, rfl, World.reaches_after w _⟩,
          Or.inr (Or.inr (Or.inr ⟨rfl, hp, rfl⟩))⟩
      | exact CallShape.tracked _ _ hs0 (Or.inr (Or.inl l2)) hw
  · simp only [hp, if_false, Bool.not_true, Bool.false_eq_true]
    obtain ⟨l1, l2, l3, _⟩ := discoverLoop_health ((d._config.discoveryRetries + 1) % 256)
      (Status.Error Err.DISCOVERY_FAILED "Discovery failed" 0)
      ({ d with _driverState := DriverState.PROBING } : Driver) w rfl
    have hs0 := sameHealth_trans (sameHealth_state d DriverState.PROBING) l1
    split_ifs <;> exact CallShape.tracked _ _ hs0 (Or.inr (Or.inl l2)) l3

theorem waitReady_shape (c : Call) (fuel timeoutMs : Nat) (d : Driver) (w : World)
    (hinit : d._initialized = true) (r : Ret Unit) (h : d.waitReady fuel timeoutMs w = some r) :
    CallShape c d w r := by
  obtain ⟨st, w2, hr, ⟨es, _, hw⟩, _⟩ := waitReady_some fuel timeoutMs d w r hinit h
  rw [hr]
  exact CallShape.tracked _ _ (sameHealth_state d DriverState.BUSY) (Or.inr (Or.inr (Or.inl rfl)))
    ⟨es, hw⟩

/-- The tail shared by the write calls, after a sequential write that left the
driver alone. -/
theorem writeTail_shape (c : Call) (fuel : Nat) (raw : Ret Unit) (d : Driver) (w : World)
    (hinit : d._initialized = true) (hdrv : raw.drv = d) (hw : w.reaches raw.world)
    (r : Ret Unit)
    (h : (if !raw.st.ok then some (raw.drv._trackIo raw.st raw.world)
      else raw.drv.waitReady fuel raw.drv._config.writeTimeoutMs raw.world) = some r) :
    CallShape c d w r := by
  rw [hdrv] at h
  split_ifs at h
  · simp only [Option.some.injEq] at h
    rw [← h]
    exact CallShape.tracked _ _ (sameHealth_refl d) (Or.inl rfl) hw
  · obtain ⟨st, w2, hr, ⟨es, _, hw2⟩, _⟩ :=
      waitReady_some fuel _ d raw.world r hinit h
    rw [hr]
    exact CallShape.tracked _ _ (sameHealth_state d DriverState.BUSY)
      (Or.inr (Or.inr (Or.inl rfl))) (World.reaches_trans hw ⟨es, hw2⟩)

theorem writeRaw_frame (opcode address : Nat) (data : List Nat) (len : Nat) (d : Driver)
    (w : World) :
    (d._writeRaw opcode address data len w).drv = d ∧
    w.reaches (d._writeRaw opcode address data len w).world := by
  obtain ⟨sent, _, _, h3, h4, _⟩ := writeRaw_image opcode address data len d w
  exact ⟨h4, ⟨_, h3⟩⟩

theorem readCurrentAddress_shape (v : Nat) (d : Driver) (w : World)
    (hinit : d._initialized = true) :
    CallShape (Call.readCurrentAddress v) d w (d.readCurrentAddress v w).forget := by
  obtain ⟨h1, _, h3⟩ := readCurrentAddressRaw_frame v d w
  simp only [readCurrentAddress, checkInitialized_ok hinit, ok_Ok, Bool.not_true,
    Bool.false_eq_true, if_false, Ret.forget, h1]
  exact CallShape.tracked _ _ (sameHealth_refl d) (Or.inl rfl) h3

theorem readManufacturerId_shape (v : Nat) (d : Driver) (w : World)
    (hinit : d._initialized = true) :
    CallShape (Call.readManufacturerId v) d w (d.readManufacturerId v w).forget := by
  obtain ⟨h1, _, h3⟩ := readManufacturerIdRaw_frame v d w
  simp only [readManufacturerId, checkInitialized_ok hinit, ok_Ok, Bool.not_true,
    Bool.false_eq_true, if_false, Ret.forget, h1]
  exact CallShape.tracked _ _ (sameHealth_refl d) (Or.inl rfl) h3

end Driver

/-- A call that went through `_trackIo` once with outcome `st` and then
returned `st2`: the same status, or the failure of an identity check made after
a successful transfer. -/
theorem CallShape.post (c : Call) {d e : Driver} {w w2 : World} (st st2 : Status)
    (hs : d.sameHealth e)
    (hstate : e._driverState = d._driverState ∨ e._driverState = DriverState.PROBING ∨
      e._driverState = DriverState.BUSY ∨ e._driverState = DriverState.RECOVERING)
    (hw : w.reaches w2)
    (h : st2 = st ∨ (st = Status.Ok ∧
      (st2.code = Err.PART_MISMATCH ∨ st2.code = Err.CRC_MISMATCH))) :
    CallShape c d w ⟨st2, (), (e._trackIo st w2).drv, (e._trackIo st w2).world⟩ :=
  Or.inl ⟨st, ⟨e, w2, hs, hstate, hw, rfl, rfl⟩, h⟩

theorem Status.ok_of_not_not {st : Status} (h : ¬ (!st.ok) = true)
    (hst : st = Status.Ok ∨ st.code ≠ Err.OK) : st = Status.Ok := by
  rcases hst with h1 | h1
  · exact h1
  · exfalso
    apply h
    simp [Status.ok, h1]

namespace Driver

theorem readRandomRaw_frame (opcode address : Nat) (data : List Nat) (len : Nat) (d : Driver)
    (w : World) :
    (d._readRandomRaw opcode address data len w).drv = d ∧
    ((d._readRandomRaw opcode address data len w).st = Status.Ok ∨
      (d._readRandomRaw opcode address data len w).st.code ≠ Err.OK) ∧
    w.reaches (d._readRandomRaw opcode address data len w).world := by
  obtain ⟨⟨es, _, hw⟩, hdrv, hst⟩ := readRandomRaw_world opcode address data len d w
  refine ⟨hdrv, ?_, ⟨es, hw⟩⟩
  rcases hst with h | h | h
  · exact Or.inl h
  · exact Or.inr (by rw [h]; decide)
  · exact Or.inr (by rw [h]; decide)

theorem readEeprom_shape (c : Call) (address : Nat) (data : Option (List Nat)) (len : Nat)
    (d : Driver) (w : World) (hinit : d._initialized = true) :
    CallShape c d w (d.readEeprom address data len w).forget := by
  simp only [readEeprom, checkInitialized_ok hinit, ok_Ok, Bool.not_true, Bool.false_eq_true,
    if_false]
  cases data with
  | none => split_ifs <;> exact CallShape.refusal _ _ _ _ (Or.inl rfl)
  | some buf =>
    obtain ⟨h1, _, h3⟩ := readRandomRaw_frame cmd.OPCODE_EEPROM address buf len d w
    simp only [h1]
    split_ifs <;> first
      | exact CallShape.refusal _ _ _ _ (Or.inl rfl)
      | exact CallShape.tracked _ _ (sameHealth_refl d) (Or.inl rfl) h3

theorem readSecurity_shape (c : Call) (address : Nat) (data : Option (List Nat)) (len : Nat)
    (d : Driver) (w : World) (hinit : d._initialized = true) :
    CallShape c d w (d.readSecurity address data len w).forget := by
  simp only [readSecurity, checkInitialized_ok hinit, ok_Ok, Bool.not_true, Bool.false_eq_true,
    if_false]
  cases data with
  | none => split_ifs <;> exact CallShape.refusal _ _ _ _ (Or.inl rfl)
  | some buf =>
    obtain ⟨h1, _, h3⟩ := readRandomRaw_frame cmd.OPCODE_SECURITY address buf len d w
    simp only [h1]
    split_ifs <;> first
      | exact CallShape.refusal _ _ _ _ (Or.inl rfl)
      | exact CallShape.tracked _ _ (sameHealth_refl d) (Or.inl rfl) h3

theorem writeEepromPage_shape (c : Call) (fuel address : Nat) (data : Option (List Nat))
    (len : Nat) (d : Driver) (w : World) (hinit : d._initialized = true) (r : Ret Unit)
    (h : d.writeEepromPage fuel address data len w = some r) : CallShape c d w r := by
  simp only [writeEepromPage, checkInitialized_ok hinit, ok_Ok, Bool.not_true,
    Bool.false_eq_true, if_false] at h
  cases ha : _isEepromAddressValid address
  · simp only [ha, Bool.not_false, if_true, Option.some.injEq] at h
    rw [← h]
    exact CallShape.refusal _ _ _ _ (Or.inl rfl)
  · simp only [ha, Bool.not_true, Bool.false_eq_true, if_false] at h
    cases data with
    | none =>
      simp only [Option.some.injEq] at h
      rw [← h]
      exact CallShape.refusal _ _ _ _ (Or.inl rfl)
    | some bytes =>
      simp only [] at h
      by_cases hl : len = 0 ∨ len > cmd.PAGE_SIZE
      · rw [if_pos hl] at h
        simp only [Option.some.injEq] at h
        rw [← h]
        exact CallShape.refusal _ _ _ _ (Or.inl rfl)
      · rw [if_neg hl] at h
        exact writeTail_shape c fuel _ d w hinit
          (writeRaw_frame cmd.OPCODE_EEPROM address bytes len d w).1
          (writeRaw_frame cmd.OPCODE_EEPROM address bytes len d w).2 r h

theorem writeSecurityUserPage_shape (c : Call) (fuel address : Nat) (data : Option (List Nat))
    (len : Nat) (d : Driver) (w : World) (hinit : d._initialized = true) (r : Ret Unit)
    (h : d.writeSecurityUserPage fuel address data len w = some r) : CallShape c d w r := by
  simp only [writeSecurityUserPage, checkInitialized_ok hinit, ok_Ok, Bool.not_true,
    Bool.false_eq_true, if_false] at h
  cases ha : _isSecurityUserAddressValid address
  · simp only [ha, Bool.not_false, if_true, Option.some.injEq] at h
    rw [← h]
    exact CallShape.refusal _ _ _ _ (Or.inl rfl)
  · simp only [ha, Bool.not_true, Bool.false_eq_true, if_false] at h
    cases data with
    | none =>
      simp only [Option.some.injEq] at h
      rw [← h]
      exact CallShape.refusal _ _ _ _ (Or.inl rfl)
    | some bytes =>
      simp only [] at h
      by_cases hl : len = 0 ∨ len > cmd.PAGE_SIZE
      · rw [if_pos hl] at h
        simp only [Option.some.injEq] at h
        rw [← h]
        exact CallShape.refusal _ _ _ _ (Or.inl rfl)
      · rw [if_neg hl] at h
        exact writeTail_shape c fuel _ d w hinit
          (writeRaw_frame cmd.OPCODE_SECURITY address bytes len d w).1
          (writeRaw_frame cmd.OPCODE_SECURITY address bytes len d w).2 r h

theorem lockSecurityRegister_shape (c : Call) (fuel : Nat) (d : Driver) (w : World)
    (hinit : d._initialized = true) (r : Ret Unit)
    (h : d.lockSecurityRegister fuel w = some r) : CallShape c d w r := by
  simp only [lockSecurityRegister, checkInitialized_ok hinit, ok_Ok, Bool.not_true,
    Bool.false_eq_true, if_false] at h
  exact writeTail_shape c fuel _ d w hinit
    (writeRaw_frame cmd.OPCODE_LOCK_SECURITY cmd.LOCK_SECURITY_ADDRESS [0x00] 1 d w).1
    (writeRaw_frame cmd.OPCODE_LOCK_SECURITY cmd.LOCK_SECURITY_ADDRESS [0x00] 1 d w).2 r h

theorem freezeRomZones_shape (c : Call) (fuel : Nat) (d : Driver) (w : World)
    (hinit : d._initialized = true) (r : Ret Unit)
    (h : d.freezeRomZones fuel w = some r) : CallShape c d w r := by
  simp only [freezeRomZones, checkInitialized_ok hinit, ok_Ok, Bool.not_true,
    Bool.false_eq_true, if_false] at h
  exact writeTail_shape c fuel _ d w hinit
    (writeRaw_frame cmd.OPCODE_FREEZE_ROM cmd.FREEZE_ROM_ADDR [cmd.FREEZE_ROM_DATA] 1 d w).1
    (writeRaw_frame cmd.OPCODE_FREEZE_ROM cmd.FREEZE_ROM_ADDR [cmd.FREEZE_ROM_DATA] 1 d w).2 r h

theorem setZoneRom_shape (c : Call) (fuel zoneIndex : Nat) (d : Driver) (w : World)
    (hinit : d._initialized = true) (r : Ret Unit)
    (h : d.setZoneRom fuel zoneIndex w = some r) : CallShape c d w r := by
  simp only [setZoneRom, checkInitialized_ok hinit, ok_Ok, Bool.not_true,
    Bool.false_eq_true, if_false] at h
  cases ha : _isZoneIndexValid zoneIndex
  · simp only [ha, Bool.not_false, if_true, Option.some.injEq] at h
    rw [← h]
    exact CallShape.refusal _ _ _ _ (Or.inl rfl)
  · simp only [ha, Bool.not_true, Bool.false_eq_true, if_false] at h
    exact writeTail_shape c fuel _ d w hinit
      (writeRaw_frame cmd.OPCODE_ROM_ZONE (cmd.ROM_ZONE_REGISTERS.getD zoneIndex 0)
        [cmd.ROM_ZONE_ROM_VALUE] 1 d w).1
      (writeRaw_frame cmd.OPCODE_ROM_ZONE (cmd.ROM_ZONE_REGISTERS.getD zoneIndex 0)
        [cmd.ROM_ZONE_ROM_VALUE] 1 d w).2 r h

end Driver

namespace Driver

theorem isSecurityLocked_shape (c : Call) (d : Driver) (w : World)
    (hinit : d._initialized = true) : CallShape c d w (d.isSecurityLocked w).forget := by
  obtain ⟨_, _, h3⟩ := addressOnlyRaw_frame cmd.OPCODE_LOCK_SECURITY true d w
  simp only [isSecurityLocked, checkInitialized_ok hinit, ok_Ok, Bool.not_true,
    Bool.false_eq_true, if_false, addressOnlyRaw_drv]
  split_ifs <;> exact CallShape.tracked _ _ (sameHealth_refl d) (Or.inl rfl) h3

theorem areRomZonesFrozen_shape (c : Call) (d : Driver) (w : World)
    (hinit : d._initialized = true) : CallShape c d w (d.areRomZonesFrozen w).forget := by
  obtain ⟨_, _, h3⟩ := addressOnlyRaw_frame cmd.OPCODE_FREEZE_ROM true d w
  simp only [areRomZonesFrozen, checkInitialized_ok hinit, ok_Ok, Bool.not_true,
    Bool.false_eq_true, if_false, addressOnlyRaw_drv]
  split_ifs <;> exact CallShape.tracked _ _ (sameHealth_refl d) (Or.inl rfl) h3

theorem isHighSpeed_shape (c : Call) (d : Driver) (w : World)
    (hinit : d._initialized = true) : CallShape c d w (d.isHighSpeed w).forget := by
  obtain ⟨_, _, h3⟩ := addressOnlyRaw_frame cmd.OPCODE_HIGH_SPEED true d w
  simp only [isHighSpeed, checkInitialized_ok hinit, ok_Ok, Bool.not_true,
    Bool.false_eq_true, if_false, addressOnlyRaw_drv]
  split_ifs <;> exact CallShape.tracked _ _ (sameHealth_refl d) (Or.inl rfl) h3

theorem isStandardSpeed_shape (c : Call) (d : Driver) (w : World)
    (hinit : d._initialized = true) : CallShape c d w (d.isStandardSpeed w).forget := by
  obtain ⟨_, _, h3⟩ := addressOnlyRaw_frame cmd.OPCODE_STANDARD_SPEED true d w
  simp only [isStandardSpeed, checkInitialized_ok hinit, ok_Ok, Bool.not_true,
    Bool.false_eq_true, if_false, addressOnlyRaw_drv]
  split_ifs <;> first
    | exact CallShape.refusal _ _ _ _ (Or.inr rfl)
    | exact CallShape.tracked _ _ (sameHealth_refl d) (Or.inl rfl) h3

theorem setHighSpeed_shape (c : Call) (d : Driver) (w : World)
    (hinit : d._initialized = true) : CallShape c d w (d.setHighSpeed w) := by
  obtain ⟨_, _, h3⟩ := addressOnlyRaw_frame cmd.OPCODE_HIGH_SPEED false d w
  simp only [setHighSpeed, checkInitialized_ok hinit, ok_Ok, Bool.not_true,
    Bool.false_eq_true, if_false, addressOnlyRaw_drv]
  split_ifs <;> exact CallShape.tracked _ _ (sameHealth_refl d) (Or.inl rfl) h3

theorem setStandardSpeed_shape (c : Call) (d : Driver) (w : World)
    (hinit : d._initialized = true) : CallShape c d w (d.setStandardSpeed w) := by
  obtain ⟨_, _, h3⟩ := addressOnlyRaw_frame cmd.OPCODE_STANDARD_SPEED false d w
  simp only [setStandardSpeed, checkInitialized_ok hinit, ok_Ok, Bool.not_true,
    Bool.false_eq_true, if_false, addressOnlyRaw_drv]
  split_ifs <;> exact CallShape.tracked _ _ (sameHealth_refl d) (Or.inl rfl) h3

theorem readRomZoneRegister_shape (c : Call) (zoneIndex value : Nat) (d : Driver) (w : World)
    (hinit : d._initialized = true) :
    CallShape c d w (d.readRomZoneRegister zoneIndex value w).forget := by
  obtain ⟨h1, _, h3⟩ := readRandomRaw_frame cmd.OPCODE_ROM_ZONE
    (cmd.ROM_ZONE_REGISTERS.getD zoneIndex 0) [value] 1 d w
  simp only [readRomZoneRegister, checkInitialized_ok hinit, ok_Ok, Bool.not_true,
    Bool.false_eq_true, if_false, h1]
  split_ifs <;> first
    | exact CallShape.refusal _ _ _ _ (Or.inl rfl)
    | exact CallShape.tracked _ _ (sameHealth_refl d) (Or.inl rfl) h3

theorem isZoneRom_shape (c : Call) (zoneIndex : Nat) (d : Driver) (w : World)
    (hinit : d._initialized = true) : CallShape c d w (d.isZoneRom zoneIndex w).forget := by
  obtain ⟨h1, h2, h3⟩ := readRandomRaw_frame cmd.OPCODE_ROM_ZONE
    (cmd.ROM_ZONE_REGISTERS.getD zoneIndex 0) [0] 1 d w
  simp only [isZoneRom, readRomZoneRegister, checkInitialized_ok hinit, ok_Ok, Bool.not_true,
    Bool.false_eq_true, if_false]
  cases ha : _isZoneIndexValid zoneIndex
  · simp only [Bool.not_false, if_true]
    have e : (!(Status.Error Err.INVALID_PARAM "zoneIndex must be in range 0..3" 0).ok) = true :=
      rfl
    rw [if_pos e]
    exact CallShape.refusal _ _ _ _ (Or.inl rfl)
  · simp only [Bool.not_true, Bool.false_eq_true, if_false, trackIo_st, h1]
    split_ifs with k
    · exact CallShape.post _ _ _ (sameHealth_refl d) (Or.inl rfl) h3 (Or.inl rfl)
    · exact CallShape.post _ _ _ (sameHealth_refl d) (Or.inl rfl) h3
        (Or.inl (Status.ok_of_not_not k h2).symm)

theorem readSerialNumber_shape (c : Call) (serial : SerialNumberInfo) (d : Driver) (w : World)
    (hinit : d._initialized = true) :
    CallShape c d w (d.readSerialNumber serial w).forget := by
  obtain ⟨h1, h2, h3⟩ := readRandomRaw_frame cmd.OPCODE_SECURITY cmd.SECURITY_SERIAL_START
    serial.bytes cmd.SECURITY_SERIAL_SIZE d w
  have hv : _isSecurityAddressValid cmd.SECURITY_SERIAL_START = true := by decide
  have hl : ¬ (cmd.SECURITY_SERIAL_SIZE = 0 ∨ cmd.SECURITY_SERIAL_SIZE > cmd.SECURITY_SIZE) := by
    decide
  simp only [readSerialNumber, readSecurity, checkInitialized_ok hinit, ok_Ok, Bool.not_true,
    Bool.false_eq_true, if_false, hv, hl, trackIo_st, h1]
  split_ifs with k1 k2 k3
  · exact CallShape.post _ _ _ (sameHealth_refl d) (Or.inl rfl) h3 (Or.inl rfl)
  · exact CallShape.post _ _ _ (sameHealth_refl d) (Or.inl rfl) h3
      (Or.inr ⟨Status.ok_of_not_not k1 h2, Or.inl rfl⟩)
  · exact CallShape.post _ _ _ (sameHealth_refl d) (Or.inl rfl) h3
      (Or.inr ⟨Status.ok_of_not_not k1 h2, Or.inr rfl⟩)
  · exact CallShape.post _ _ _ (sameHealth_refl d) (Or.inl rfl) h3
      (Or.inl (Status.ok_of_not_not k1 h2).symm)

theorem detectPart_shape (c : Call) (d : Driver) (w : World)
    (hinit : d._initialized = true) : CallShape c d w (d.detectPart w).forget := by
  obtain ⟨h1, h2, h3⟩ := readManufacturerIdRaw_frame 0 d w
  have h2b : (d._readManufacturerIdRaw 0 w).st = Status.Ok ∨
      (d._readManufacturerIdRaw 0 w).st.code ≠ Err.OK := by
    rcases h2 with h | h
    · exact Or.inl h
    · exact Or.inr (by rw [h]; decide)
  simp only [detectPart, readManufacturerId, checkInitialized_ok hinit, ok_Ok, Bool.not_true,
    Bool.false_eq_true, if_false, trackIo_st, h1]
  split_ifs with k1 k2 k3
  · exact CallShape.post _ _ _ (sameHealth_refl d) (Or.inl rfl) h3 (Or.inl rfl)
  · exact CallShape.post _ _ _ (sameHealth_refl d) (Or.inl rfl) h3
      (Or.inl (Status.ok_of_not_not k1 h2b).symm)
  · exact CallShape.post _ _ _ (sameHealth_refl d) (Or.inl rfl) h3
      (Or.inl (Status.ok_of_not_not k1 h2b).symm)
  · exact CallShape.post _ _ _ (sameHealth_refl d) (Or.inl rfl) h3
      (Or.inr ⟨Status.ok_of_not_not k1 h2b, Or.inl rfl⟩)

end Driver

/-- Every call on an initialized driver has the shape `CallShape`. -/
theorem Call.run_shape (fuel : Nat) (c : Call) (d : Driver) (w : World)
    (hinit : d._initialized = true) (r : Ret Unit) (h : c.run fuel d w = some r) :
    CallShape c d w r := by
  cases c with
  | probe => simp only [Call.run, Option.some.injEq] at h; rw [← h]; exact Driver.probe_shape d w hinit
  | recover =>
    simp only [Call.run, Option.some.injEq] at h; rw [← h]; exact Driver.recover_shape d w hinit
  | resetAndDiscover =>
    simp only [Call.run, Option.some.injEq] at h; rw [← h]
    exact Driver.resetAndDiscover_shape d w hinit
  | isPresent =>
    simp only [Call.run, Option.some.injEq] at h; rw [← h]; exact Driver.isPresent_shape d w hinit
  | waitReady timeoutMs => exact Driver.waitReady_shape _ fuel timeoutMs d w hinit r h
  | readCurrentAddress value =>
    simp only [Call.run, Option.some.injEq] at h; rw [← h]
    exact Driver.readCurrentAddress_shape value d w hinit
  | readEeprom address data len =>
    simp only [Call.run, Option.some.injEq] at h; rw [← h]
    exact Driver.readEeprom_shape _ address data len d w hinit
  | writeEepromByte address value =>
    exact Driver.writeEepromPage_shape _ fuel address (some [value]) 1 d w hinit r h
  | writeEepromPage address data len =>
    exact Driver.writeEepromPage_shape _ fuel address data len d w hinit r h
  | readSecurity address data len =>
    simp only [Call.run, Option.some.injEq] at h; rw [← h]
    exact Driver.readSecurity_shape _ address data len d w hinit
  | writeSecurityUserByte address value =>
    exact Driver.writeSecurityUserPage_shape _ fuel address (some [value]) 1 d w hinit r h
  | writeSecurityUserPage address data len =>
    exact Driver.writeSecurityUserPage_shape _ fuel address data len d w hinit r h
  | lockSecurityRegister => exact Driver.lockSecurityRegister_shape _ fuel d w hinit r h
  | isSecurityLocked =>
    simp only [Call.run, Option.some.injEq] at h; rw [← h]
    exact Driver.isSecurityLocked_shape _ d w hinit
  | readSerialNumber serial =>
    simp only [Call.run, Option.some.injEq] at h; rw [← h]
    exact Driver.readSerialNumber_shape _ serial d w hinit
  | readManufacturerId manufacturerId =>
    simp only [Call.run, Option.some.injEq] at h; rw [← h]
    exact Driver.readManufacturerId_shape manufacturerId d w hinit
  | detectPart =>
    simp only [Call.run, Option.some.injEq] at h; rw [← h]
    exact Driver.detectPart_shape _ d w hinit
  | readRomZoneRegister zoneIndex value =>
    simp only [Call.run, Option.some.injEq] at h; rw [← h]
    exact Driver.readRomZoneRegister_shape _ zoneIndex value d w hinit
  | isZoneRom zoneIndex =>
    simp only [Call.run, Option.some.injEq] at h; rw [← h]
    exact Driver.isZoneRom_shape _ zoneIndex d w hinit
  | setZoneRom zoneIndex => exact Driver.setZoneRom_shape _ fuel zoneIndex d w hinit r h
  | freezeRomZones => exact Driver.freezeRomZones_shape _ fuel d w hinit r h
  | areRomZonesFrozen =>
    simp only [Call.run, Option.some.injEq] at h; rw [← h]
    exact Driver.areRomZonesFrozen_shape _ d w hinit
  | setHighSpeed =>
    simp only [Call.run, Option.some.injEq] at h; rw [← h]
    exact Driver.setHighSpeed_shape _ d w hinit
  | isHighSpeed =>
    simp only [Call.run, Option.some.injEq] at h; rw [← h]
    exact Driver.isHighSpeed_shape _ d w hinit
  | setStandardSpeed =>
    simp only [Call.run, Option.some.injEq] at h; rw [← h]
    exact Driver.setStandardSpeed_shape _ d w hinit
  | isStandardSpeed =>
    simp only [Call.run, Option.some.injEq] at h; rw [← h]
    exact Driver.isStandardSpeed_shape _ d w hinit

/-! ## Consecutive failures and the recovery by a success -/

namespace Driver

theorem isWire_not_ok {st : Status} (h : st.code.isWire) :
    st.ok = false ∧ st.code ≠ Err.PART_MISMATCH ∧ st.code ≠ Err.INVALID_CONFIG := by
  rcases h with h | h | h | h | h <;> simp [Status.ok, h]

/-- What `_trackIo` does to an initialized driver on a wire failure. -/
theorem trackIo_wire_step (st : Status) (e : Driver) (w : World)
    (hinit : e._initialized = true) (hw : st.code.isWire) :
    (e._trackIo st w).drv._initialized = true ∧
    (e._trackIo st w).drv._config = e._config ∧
    (e._trackIo st w).drv._consecutiveFailures = incrementWrap8 e._consecutiveFailures ∧
    (incrementWrap8 e._consecutiveFailures ≥ e._config.offlineThreshold →
      (e._trackIo st w).drv._driverState = DriverState.OFFLINE) ∧
    (incrementWrap8 e._consecutiveFailures < e._config.offlineThreshold →
      (e._trackIo st w).drv._driverState = DriverState.DEGRADED) := by
  obtain ⟨h1, h2, h3⟩ := isWire_not_ok hw
  simp only [_trackIo, hinit, millis, h1, h2, h3, Bool.not_true, Bool.false_eq_true, if_false,
    false_or]
  split_ifs with k
  · exact ⟨rfl, rfl, rfl, fun _ => rfl, fun h => absurd k (Nat.not_le.mpr h)⟩
  · exact ⟨rfl, rfl, rfl, fun h => absurd h k, fun _ => rfl⟩

/-- What `_trackIo` does to an initialized driver, not sleeping, on a success. -/
theorem trackIo_ok_step (st : Status) (e : Driver) (w : World)
    (hinit : e._initialized = true) (hok : st.ok = true)
    (hs : e._driverState ≠ DriverState.SLEEPING) :
    (e._trackIo st w).drv._driverState = DriverState.READY ∧
    (e._trackIo st w).drv._consecutiveFailures = 0 := by
  simp only [_trackIo, hinit, millis, hok, Bool.not_true, Bool.false_eq_true, if_false, if_true,
    ne_eq, hs, not_false_eq_true]
  trivial

end Driver

/-- A call other than `probe` that returns a wire error has counted one more
consecutive failure and left DEGRADED or OFFLINE according to the threshold. -/
theorem Call.run_wire_failure (fuel : Nat) (c : Call) (d : Driver) (w : World) (r : Ret Unit)
    (hinit : d._initialized = true) (hc : c ≠ Call.probe) (h : c.run fuel d w = some r)
    (hw : r.st.code.isWire) :
    r.drv._initialized = true ∧ r.drv._config = d._config ∧
    r.drv._consecutiveFailures = incrementWrap8 d._consecutiveFailures ∧
    (incrementWrap8 d._consecutiveFailures ≥ d._config.offlineThreshold →
      r.drv._driverState = DriverState.OFFLINE) ∧
    (incrementWrap8 d._consecutiveFailures < d._config.offlineThreshold →
      r.drv._driverState = DriverState.DEGRADED) := by
  obtain ⟨n1, n2, n3⟩ := Driver.isWire_not_ok hw
  rcases Call.run_shape fuel c d w hinit r h with ⟨st, ⟨e, w2, hs, _, _, hd, _⟩, hst⟩ | ⟨_, hu⟩
  · have hst2 : r.st = st := by
      rcases hst with k | ⟨_, k | k⟩
      · exact k
      · exact absurd k n2
      · rw [k] at hw
        exact absurd hw (by decide)
    obtain ⟨s1, s2, _, _, _, s6, _⟩ := hs
    have step := Driver.trackIo_wire_step st e w2 (s2.trans hinit) (hst2 ▸ hw)
    rw [← hd, s1, s6] at step
    exact step
  · exfalso
    rcases hu with k | k | k | ⟨_, _, k⟩
    · rw [k] at hw
      exact absurd hw (by decide)
    · rw [k] at hw
      exact absurd hw (by decide)
    · exact hc k
    · rw [k] at n1
      exact absurd n1 (by decide)

/-- A call other than `probe` (and other than `isPresent` with a presence
pin) that returns OK leaves READY with no consecutive failure, unless the
driver was sleeping. -/
theorem Call.run_ok (fuel : Nat) (c : Call) (d : Driver) (w : World) (r : Ret Unit)
    (hinit : d._initialized = true) (hc : c ≠ Call.probe)
    (hp : c = Call.isPresent → d._config.presencePin < 0)
    (hs : d._driverState ≠ DriverState.SLEEPING)
    (h : c.run fuel d w = some r) (hok : r.st.ok = true) :
    r.drv._driverState = DriverState.READY ∧ r.drv._consecutiveFailures = 0 := by
  have hcode : r.st.code = Err.OK := by simpa [Status.ok] using hok
  rcases Call.run_shape fuel c d w hinit r h with ⟨st, ⟨e, w2, hh, hstate, _, hd, _⟩, hst⟩ | ⟨_, hu⟩
  · have hst2 : st.ok = true := by
      rcases hst with k | ⟨k, _⟩
      · rw [← k]; exact hok
      · rw [k]; rfl
    have hns : e._driverState ≠ DriverState.SLEEPING := by
      rcases hstate with k | k | k | k
      · rw [k]; exact hs
      · rw [k]; decide
      · rw [k]; decide
      · rw [k]; decide
    have step := Driver.trackIo_ok_step st e w2 (hh.2.1.trans hinit) hst2 hns
    rw [← hd] at step
    exact step
  · exfalso
    rcases hu with k | k | k | ⟨k1, k2, _⟩
    · rw [k] at hcode
      exact absurd hcode (by decide)
    · rw [k] at hcode
      exact absurd hcode (by decide)
    · exact hc k
    · exact absurd (hp k1) (Int.not_lt.mpr k2)

/-- A run of calls that each return a wire error, from any count of
consecutive failures. -/
theorem runCalls_wire_failures (fuel : Nat) :
    ∀ (cs : List Call) (d : Driver) (w : World) (sts : List Status) (d2 : Driver) (w2 : World),
      d._initialized = true → d._consecutiveFailures ≤ 255 → Call.probe ∉ cs →
      runCalls fuel cs d w = some (sts, d2, w2) → (∀ st ∈ sts, st.code.isWire) →
      d2._initialized = true ∧ d2._config = d._config ∧
      d2._consecutiveFailures = min (d._consecutiveFailures + cs.length) 255 ∧
      (cs = [] → d2 = d) ∧
      (cs ≠ [] → min (d._consecutiveFailures + cs.length) 255 ≥ d._config.offlineThreshold →
        d2._driverState = DriverState.OFFLINE) ∧
      (cs ≠ [] → min (d._consecutiveFailures + cs.length) 255 < d._config.offlineThreshold →
        d2._driverState = DriverState.DEGRADED) := by
  intro cs
  induction cs with
  | nil =>
    intro d w sts d2 w2 hinit hcf _ hrun _
    simp only [runCalls, Option.some.injEq, Prod.mk.injEq] at hrun
    obtain ⟨_, hd, _⟩ := hrun
    subst hd
    refine ⟨hinit, rfl, ?_, fun _ => rfl, fun h => absurd rfl h, fun h => absurd rfl h⟩
    simp only [List.length_nil, Nat.add_zero]
    omega
  | cons c cs ih =>
    intro d w sts d2 w2 hinit hcf hprobe hrun hfail
    have hc : c ≠ Call.probe := fun k => hprobe (k ▸ List.mem_cons_self _ _)
    have hprobe2 : Call.probe ∉ cs := fun k => hprobe (List.mem_cons_of_mem _ k)
    simp only [runCalls] at hrun
    cases hr : c.run fuel d w with
    | none => rw [hr] at hrun; exact absurd hrun (by simp)
    | some r =>
      rw [hr] at hrun
      simp only [] at hrun
      cases hrest : runCalls fuel cs r.drv r.world with
      | none => rw [hrest] at hrun; exact absurd hrun (by simp)
      | some res =>
        obtain ⟨sts1, d3, w3⟩ := res
        rw [hrest] at hrun
        simp only [Option.some.injEq, Prod.mk.injEq] at hrun
        obtain ⟨hsts, hd, _⟩ := hrun
        subst hd
        have hw0 : r.st.code.isWire := hfail r.st (hsts ▸ List.mem_cons_self _ _)
        have hfail2 : ∀ st ∈ sts1, st.code.isWire :=
          fun st k => hfail st (hsts ▸ List.mem_cons_of_mem _ k)
        obtain ⟨a1, a2, a3, a4, a5⟩ := Call.run_wire_failure fuel c d w r hinit hc hr hw0
        have hinc : incrementWrap8 d._consecutiveFailures = min (d._consecutiveFailures + 1) 255 := by
          unfold incrementWrap8
          split_ifs <;> omega
        have hcf2 : r.drv._consecutiveFailures ≤ 255 := by rw [a3, hinc]; omega
        obtain ⟨b1, b2, b3, b4, b5, b6⟩ := ih r.drv r.world sts1 d3 w3 a1 hcf2 hprobe2 hrest hfail2
        have hlen : min (r.drv._consecutiveFailures + cs.length) 255 =
            min (d._consecutiveFailures + (c :: cs).length) 255 := by
          rw [a3, hinc, List.length_cons]
          omega
        rw [hlen, a2] at b5 b6
        rw [hlen] at b3
        refine ⟨b1, b2.trans a2, b3, fun k => absurd k (List.cons_ne_nil _ _), ?_, ?_⟩
        · intro _ hT
          by_cases hnil : cs = []
          · rw [b4 hnil]
            apply a4
            rw [hinc]
            rw [hnil] at hT
            simpa using hT
          · exact b5 hnil hT
        · intro _ hT
          by_cases hnil : cs = []
          · rw [b4 hnil]
            apply a5
            rw [hinc]
            rw [hnil] at hT
            simpa using hT
          · exact b6 hnil hT

/-- C3.  Take an initialized driver in state READY with no consecutive failure
and an offline threshold T in 1..255, and let N calls of public operations
other than `probe` each return a wire error (no presence pulse, a byte not
acknowledged, a write cycle that timed out).  Then the consecutive-failure
count is N (saturating at 255), the state is DEGRADED when 1 <= N < T and
OFFLINE when N >= T; and any one further call that returns OK (other than
`probe`, and other than `isPresent` when a presence pin is configured) leaves
the state READY and the consecutive-failure count 0. -/
theorem tracked_failures (fuel : Nat) (cs : List Call) (d : Driver) (w : World)
    (sts : List Status) (d2 : Driver) (w2 : World)
    (hinit : d._initialized = true) (hready : d._driverState = DriverState.READY)
    (hcf : d._consecutiveFailures = 0)
    (hT1 : 1 ≤ d._config.offlineThreshold) (hT2 : d._config.offlineThreshold ≤ 255)
    (hprobe : Call.probe ∉ cs)
    (hrun : runCalls fuel cs d w = some (sts, d2, w2))
    (hfail : ∀ st ∈ sts, st.code.isWire) :
    d2._consecutiveFailures = min cs.length 255 ∧
    (1 ≤ cs.length → cs.length < d._config.offlineThreshold →
      d2._driverState = DriverState.DEGRADED) ∧
    (d._config.offlineThreshold ≤ cs.length → d2._driverState = DriverState.OFFLINE) ∧
    ∀ (c : Call) (r : Ret Unit), c ≠ Call.probe →
      (c = Call.isPresent → d._config.presencePin < 0) →
      c.run fuel d2 w2 = some r → r.st.ok = true →
      r.drv._driverState = DriverState.READY ∧ r.drv._consecutiveFailures = 0 := by
  obtain ⟨b1, b2, b3, b4, b5, b6⟩ := runCalls_wire_failures fuel cs d w sts d2 w2 hinit
    (by rw [hcf]; omega) hprobe hrun hfail
  rw [hcf, Nat.zero_add] at b3 b5 b6
  have hne : 1 ≤ cs.length → cs ≠ [] := by
    intro h k
    rw [k] at h
    exact absurd h (by decide)
  refine ⟨b3, ?_, ?_, ?_⟩
  · intro h1 h2
    exact b6 (hne h1) (by omega)
  · intro h1
    exact b5 (hne (by omega)) (by omega)
  · intro c r hc hp hr hok
    have hs : d2._driverState ≠ DriverState.SLEEPING := by
      by_cases hnil : cs = []
      · rw [b4 hnil, hready]
        decide
      · by_cases hT : min cs.length 255 ≥ d._config.offlineThreshold
        · rw [b5 hnil hT]
          decide
        · rw [b6 hnil (by omega)]
          decide
    exact Call.run_ok fuel c d2 w2 r b1 hc (by rw [b2]; exact hp) hs hr hok

/-- The five reads on the line that answers late do return. -/
theorem fiveReads_returns : (runCalls 0 fiveReads readyDriver nackFiveWorld).isSome = true := by
  decide

theorem tracked_failures_witness :
    ∃ (sts : List Status) (d2 : Driver) (w2 : World),
      runCalls 0 fiveReads readyDriver nackFiveWorld = some (sts, d2, w2) ∧
      sts.map (fun st => st.code) = List.replicate 5 Err.NACK_DEVICE_ADDRESS ∧
      d2._consecutiveFailures = 5 ∧ d2._driverState = DriverState.OFFLINE ∧
      ∃ r, (Call.readEeprom 0 (some [0]) 1).run 0 d2 w2 = some r ∧ r.st = Status.Ok ∧
        r.drv._driverState = DriverState.READY ∧ r.drv._consecutiveFailures = 0 := by
  have hrun : runCalls 0 fiveReads readyDriver nackFiveWorld =
      some (((runCalls 0 fiveReads readyDriver nackFiveWorld).get fiveReads_returns).1,
        ((runCalls 0 fiveReads readyDriver nackFiveWorld).get fiveReads_returns).2.1,
        ((runCalls 0 fiveReads readyDriver nackFiveWorld).get fiveReads_returns).2.2) :=
    (Option.some_get fiveReads_returns).symm
  have hcodes : (((runCalls 0 fiveReads readyDriver nackFiveWorld).get fiveReads_returns).1).map
      (fun st => st.code) = List.replicate 5 Err.NACK_DEVICE_ADDRESS := by decide
  have hfail : ∀ st ∈ ((runCalls 0 fiveReads readyDriver nackFiveWorld).get fiveReads_returns).1,
      st.code.isWire := by decide
  have hok : ((((runCalls 0 fiveReads readyDriver nackFiveWorld).get fiveReads_returns).2.1).readEeprom 0
      (some [0]) 1 ((runCalls 0 fiveReads readyDriver nackFiveWorld).get fiveReads_returns).2.2).st =
      Status.Ok := by decide
  obtain ⟨h1, _, h3, h4⟩ := tracked_failures 0 fiveReads readyDriver nackFiveWorld _ _ _
    rfl rfl rfl (by decide) (by decide) (by decide) hrun hfail
  obtain ⟨h5, h6⟩ := h4 (Call.readEeprom 0 (some [0]) 1) _ (by decide)
    (fun k => absurd k (by decide)) rfl (by rw [Ret.forget, hok]; rfl)
  exact ⟨_, _, _, hrun, hcodes, h1, h3 (by decide), _, rfl, hok, h5, h6⟩

/-! ## The device address byte -/

theorem deviceAddress_bits :
    ∀ opcode < 16, ∀ a < 8, ∀ r : Bool,
      ((opcode <<< 4) ||| ((a &&& 7) <<< 1) ||| (if r then 1 else 0)) % 256 =
        opcode * 16 + a * 2 + (if r then 1 else 0) := by
  decide

/-- C19.  For every 4-bit opcode, every configured device address `a` in 0..7
and every read flag, `_deviceAddress` is the 8-bit value
`(opcode << 4) | (a << 1) | read`: bits 7:4 are the opcode, bits 3:1 are `a`,
bit 0 is the read flag; and two triples that give the same byte are equal. -/
theorem deviceAddress_layout (opcode : Nat) (read : Bool) (d : Driver)
    (hop : opcode < 16) (ha : d._config.addressBits < 8) :
    d._deviceAddress opcode read =
      (opcode <<< 4) ||| (d._config.addressBits <<< 1) ||| (if read then 1 else 0) ∧
    d._deviceAddress opcode read < 256 ∧
    d._deviceAddress opcode read / 16 = opcode ∧
    d._deviceAddress opcode read / 2 % 8 = d._config.addressBits ∧
    d._deviceAddress opcode read % 2 = (if read then 1 else 0) ∧
    ∀ (opcode2 : Nat) (read2 : Bool) (d2 : Driver), opcode2 < 16 → d2._config.addressBits < 8 →
      d2._deviceAddress opcode2 read2 = d._deviceAddress opcode read →
      opcode2 = opcode ∧ d2._config.addressBits = d._config.addressBits ∧ read2 = read := by
  have key : ∀ (o : Nat) (r : Bool) (e : Driver), o < 16 → e._config.addressBits < 8 →
      e._deviceAddress o r = o * 16 + e._config.addressBits * 2 + (if r then 1 else 0) :=
    fun o r e ho he => deviceAddress_bits o ho _ he r
  have hor : ∀ o < 16, ∀ a < 8, ∀ r : Bool,
      (o <<< 4) ||| (a <<< 1) ||| (if r then 1 else 0) = o * 16 + a * 2 + (if r then 1 else 0) := by
    decide
  have hr : (if read then 1 else 0 : Nat) < 2 := by split_ifs <;> omega
  refine ⟨?_, ?_, ?_, ?_, ?_, ?_⟩
  · rw [key opcode read d hop ha, hor opcode hop _ ha read]
  · rw [key opcode read d hop ha]; omega
  · rw [key opcode read d hop ha]; omega
  · rw [key opcode read d hop ha]; omega
  · rw [key opcode read d hop ha]; omega
  · intro o2 r2 d2 ho2 ha2 h
    rw [key opcode read d hop ha, key o2 r2 d2 ho2 ha2] at h
    have hr2 : (if r2 then 1 else 0 : Nat) < 2 := by split_ifs <;> omega
    have e1 : o2 = opcode := by omega
    have e2 : d2._config.addressBits = d._config.addressBits := by omega
    refine ⟨e1, e2, ?_⟩
    subst e1
    rw [e2] at h
    cases r2 <;> cases read <;> simp at h ⊢

/-- C19, an instance: the EEPROM read byte of the device with address bits 5. -/
theorem deviceAddress_layout_witness :
    ({ _config := { addressBits := 5 } } : Driver)._deviceAddress 0xA true = 0xAB ∧
    ({ _config := { addressBits := 5 } } : Driver)._deviceAddress 0xA true / 16 = 0xA :=
  ⟨by decide,
    (deviceAddress_layout 0xA true { _config := { addressBits := 5 } } (by decide)
      (by decide)).2.2.1⟩

/-! ## The presence check `probe` -/

namespace Driver

/-- One discovery attempt samples the line exactly once. -/
theorem resetAndDiscoverRaw_reads (d : Driver) (w : World) :
    reads (d._resetAndDiscoverRaw w).world.trace = reads w.trace + 1 := by
  simp only [_resetAndDiscoverRaw, driveLow, releaseLine, _lineLow, _releaseLine, _readLine,
    digitalWrite, digitalRead, delayMicroseconds, World.emit, reads]
  split_ifs <;> simp [List.filter_append, List.filter_cons]

/-- What `probe` leaves on an initialized driver. -/
theorem probe_frame (d : Driver) (w : World) (hinit : d._initialized = true) :
    (d.probe w).st = (({ d with _driverState := DriverState.PROBING } : Driver)._resetAndDiscoverRaw w).st ∧
    (d.probe w).world =
      (({ d with _driverState := DriverState.PROBING } : Driver)._resetAndDiscoverRaw w).world ∧
    d.sameHealth (d.probe w).drv ∧ (d.probe w).drv._driverState = d._driverState := by
  simp only [probe, checkInitialized_ok hinit, ok_Ok, Bool.not_true, Bool.false_eq_true, if_false]
  refine ⟨trivial, trivial, ?_, trivial⟩
  rcases (resetAndDiscoverRaw_frame ({ d with _driverState := DriverState.PROBING } : Driver) w).1
    with ⟨_, h⟩ | ⟨_, h⟩
  · rw [h]; exact ⟨rfl, rfl, rfl, rfl, rfl, rfl, rfl, rfl, rfl⟩
  · rw [h]; exact ⟨rfl, rfl, rfl, rfl, rfl, rfl, rfl, rfl, rfl⟩

end Driver

/-- Any number of `probe` calls in a row returns and leaves the health record
and the lifecycle state alone. -/
theorem runCalls_probe (fuel : Nat) :
    ∀ (n : Nat) (d : Driver) (w : World), d._initialized = true →
      ∃ sts d2 w2, runCalls fuel (List.replicate n Call.probe) d w = some (sts, d2, w2) ∧
        sts.length = n ∧ d.sameHealth d2 ∧ d2._driverState = d._driverState ∧
        reads w2.trace = reads w.trace + n := by
  intro n
  induction n with
  | zero =>
    intro d w _
    exact ⟨[], d, w, rfl, rfl, Driver.sameHealth_refl d, rfl, rfl⟩
  | succ n ih =>
    intro d w hinit
    obtain ⟨h1, h2, h3, h4⟩ := Driver.probe_frame d w hinit
    obtain ⟨sts, d2, w2, e, hl, hs, hst, hr⟩ := ih (d.probe w).drv (d.probe w).world
      (h3.2.1.trans hinit)
    refine ⟨(d.probe w).st :: sts, d2, w2, ?_, by simp [hl], Driver.sameHealth_trans h3 hs,
      hst.trans h4, ?_⟩
    · simp only [List.replicate_succ, runCalls, Call.run, e]
    · rw [hr, h2, Driver.resetAndDiscoverRaw_reads]
      omega

/-- C20.  On an initialized driver `probe()` makes exactly one
reset-and-discover attempt, whatever `discoveryRetries` is (its status and the
events on the line are those of one `_resetAndDiscoverRaw`, which samples the
line once), and returns with the lifecycle state of before the call and with
consecutiveFailures, totalFailures, totalSuccess, lastError, lastOkMs and
lastErrorMs unchanged, for every outcome; hence any number `n` of `probe()`
calls in a row returns and leaves the state and the health record unchanged. -/
theorem probe_noninvasive (fuel n : Nat) (d : Driver) (w : World)
    (hinit : d._initialized = true) :
    ((d.probe w).st = (({ d with _driverState := DriverState.PROBING } : Driver)._resetAndDiscoverRaw w).st ∧
      (d.probe w).world =
        (({ d with _driverState := DriverState.PROBING } : Driver)._resetAndDiscoverRaw w).world ∧
      reads (d.probe w).world.trace = reads w.trace + 1) ∧
    ((d.probe w).drv._driverState = d._driverState ∧
      (d.probe w).drv._consecutiveFailures = d._consecutiveFailures ∧
      (d.probe w).drv._totalFailures = d._totalFailures ∧
      (d.probe w).drv._totalSuccess = d._totalSuccess ∧
      (d.probe w).drv._lastError = d._lastError ∧
      (d.probe w).drv._lastOkMs = d._lastOkMs ∧
      (d.probe w).drv._lastErrorMs = d._lastErrorMs) ∧
    ∃ sts d2 w2, runCalls fuel (List.replicate n Call.probe) d w = some (sts, d2, w2) ∧
      sts.length = n ∧ reads w2.trace = reads w.trace + n ∧
      d2._driverState = d._driverState ∧
      d2._consecutiveFailures = d._consecutiveFailures ∧
      d2._totalFailures = d._totalFailures ∧
      d2._totalSuccess = d._totalSuccess ∧
      d2._lastError = d._lastError ∧
      d2._lastOkMs = d._lastOkMs ∧
      d2._lastErrorMs = d._lastErrorMs := by
  obtain ⟨h1, h2, ⟨_, _, a3, a4, a5, a6, a7, a8, _⟩, h4⟩ := Driver.probe_frame d w hinit
  obtain ⟨sts, d2, w2, e, hl, ⟨_, _, b3, b4, b5, b6, b7, b8, _⟩, hst, hr⟩ :=
    runCalls_probe fuel n d w hinit
  refine ⟨⟨h1, h2, ?_⟩, ⟨h4, a6, a7, a8, a5, a3, a4⟩, sts, d2, w2, e, hl, hr, hst, b6, b7, b8, b5,
    b3, b4⟩
  rw [h2, Driver.resetAndDiscoverRaw_reads]

/-- C20, an instance: three probes of the ready driver, in state DEGRADED with
two failures counted, on a line with nothing attached. -/
theorem probe_noninvasive_witness :
    (({ readyDriver with _driverState := DriverState.DEGRADED, _consecutiveFailures := 2 } :
      Driver).probe deafWorld).st.code = Err.DISCOVERY_FAILED ∧
    ∃ sts d2 w2, runCalls 0 (List.replicate 3 Call.probe)
        { readyDriver with _driverState := DriverState.DEGRADED, _consecutiveFailures := 2 }
        deafWorld = some (sts, d2, w2) ∧
      d2._driverState = DriverState.DEGRADED ∧ d2._consecutiveFailures = 2 := by
  obtain ⟨_, _, sts, d2, w2, e, _, _, h1, h2, _⟩ := probe_noninvasive 0 3
    { readyDriver with _driverState := DriverState.DEGRADED, _consecutiveFailures := 2 }
    deafWorld rfl
  exact ⟨by decide, sts, d2, w2, e, h1, h2⟩

/-! ## Vendor ID mismatch -/

/-- From the point after discovery on, `begin` is `beginIdentify`. -/
theorem begin_of_discovered (config : Config) (d : Driver) (w : World) (d1 : Driver)
    (w1 : World) (h : beginDiscovered config d w = some (d1, w1)) :
    d.begin config w = d1.beginIdentify w1 ∧ d1._config = config ∧ d1._initialized = false := by
  simp only [beginDiscovered] at h
  simp only [Driver.begin]
  by_cases c1 : config.sioPin < 0
  · rw [if_pos c1] at h; exact absurd h (by simp)
  rw [if_neg c1] at h ⊢
  by_cases c2 : config.sioPin > 63
  · rw [if_pos c2] at h; exact absurd h (by simp)
  rw [if_neg c2] at h ⊢
  by_cases c3 : config.presencePin > 63
  · rw [if_pos c3] at h; exact absurd h (by simp)
  rw [if_neg c3] at h ⊢
  by_cases c4 : config.addressBits > 0x07
  · rw [if_pos c4] at h; exact absurd h (by simp)
  rw [if_neg c4] at h ⊢
  by_cases c5 : config.offlineThreshold = 0
  · rw [if_pos c5] at h; exact absurd h (by simp)
  rw [if_neg c5] at h ⊢
  by_cases c6 : config.writeTimeoutMs = 0
  · rw [if_pos c6] at h; exact absurd h (by simp)
  rw [if_neg c6] at h ⊢
  have f : ∀ d0 : Driver, d0 = (({ d with
      _config := config
      _initialized := false
      _driverState := DriverState.UNINIT
      _detectedPart := PartType.UNKNOWN } : Driver)._setSpeedMode
        SpeedMode.HIGH_SPEED)._resetHealth →
      d0._config = config ∧ d0._initialized = false := by
    intro d0 h; subst h; exact ⟨rfl, rfl⟩
  generalize (({ d with
      _config := config
      _initialized := false
      _driverState := DriverState.UNINIT
      _detectedPart := PartType.UNKNOWN } : Driver)._setSpeedMode
        SpeedMode.HIGH_SPEED)._resetHealth = d0 at f h ⊢
  obtain ⟨f1, f2⟩ := f d0 rfl
  generalize d0._configurePins w = cp at h ⊢
  obtain ⟨cst, cw⟩ := cp
  simp only at h ⊢
  by_cases c7 : (!cst.ok) = true
  · rw [if_pos c7] at h; exact absurd h (by simp)
  rw [if_neg c7] at h ⊢
  obtain ⟨hr, _⟩ := Driver.discoverLoop_frame ((d0._config.discoveryRetries + 1) % 256)
    (Status.Error Err.DISCOVERY_FAILED "Discovery failed" 0)
    ({ d0 with _driverState := DriverState.PROBING } : Driver) cw
  generalize Driver._discoverLoop ((d0._config.discoveryRetries + 1) % 256)
    (Status.Error Err.DISCOVERY_FAILED "Discovery failed" 0)
    ({ d0 with _driverState := DriverState.PROBING } : Driver) cw = r at h hr ⊢
  by_cases c8 : (!r.st.ok) = true
  · rw [if_pos c8] at h; exact absurd h (by simp)
  rw [if_neg c8] at h ⊢
  simp only [Option.some.injEq, Prod.mk.injEq] at h
  obtain ⟨e1, e2⟩ := h
  subst e1 e2
  refine ⟨rfl, ?_, ?_⟩
  · rcases hr with ⟨_, k⟩ | ⟨_, k⟩ <;> rw [k] <;> exact f1
  · rcases hr with ⟨_, k⟩ | ⟨_, k⟩ <;> rw [k] <;> exact f2

namespace Driver

end Driver

/-- C13, counterexample.  On the ready driver, with a line on which the vendor
ID reads 0x000000, `detectPart` returns PART_MISMATCH with `part == UNKNOWN`,
but the state afterwards is READY, not FAULT, and no failure is counted: the
read itself was tracked as a success. -/
theorem detectPart_unknown_stays_ready :
    (readyDriver.detectPart ackWorld).st =
      Status.Error Err.PART_MISMATCH "Unknown manufacturer ID" 0 ∧
    (readyDriver.detectPart ackWorld).out = PartType.UNKNOWN ∧
    (readyDriver.detectPart ackWorld).drv._driverState = DriverState.READY ∧
    (readyDriver.detectPart ackWorld).drv._driverState ≠ DriverState.FAULT ∧
    (readyDriver.detectPart ackWorld).drv._consecutiveFailures = 0 ∧
    (readyDriver.detectPart ackWorld).drv._totalFailures = 0 ∧
    (readyDriver.detectPart ackWorld).drv._totalSuccess = 1 := by
  decide

/-- C13, amended.  On an initialized driver, whatever its prior state, let the
vendor-ID read of `detectPart()` succeed with the value `id`.  The read is
tracked as a success (no consecutive failure, totalFailures unchanged, state
READY unless the driver was sleeping), also when the classification then fails.
For `id` other than 0x00D200 and 0x00D380 the call returns PART_MISMATCH with
detail `id` and `part == UNKNOWN`; for 0x00D200 it returns OK with AT21CS01 and
for 0x00D380 OK with AT21CS11. -/
theorem detectPart_classifies (d : Driver) (w : World) (hinit : d._initialized = true)
    (hid : (d._readManufacturerIdRaw 0 w).st.ok = true) :
    (d.detectPart w).drv = (d._trackIo Status.Ok (d._readManufacturerIdRaw 0 w).world).drv ∧
    (d.detectPart w).drv._consecutiveFailures = 0 ∧
    (d.detectPart w).drv._totalFailures = d._totalFailures ∧
    (d.detectPart w).drv._totalSuccess = incrementWrap32 d._totalSuccess ∧
    (d._driverState ≠ DriverState.SLEEPING →
      (d.detectPart w).drv._driverState = DriverState.READY) ∧
    ((d._readManufacturerIdRaw 0 w).out ≠ 0x00D200 →
      (d._readManufacturerIdRaw 0 w).out ≠ 0x00D380 →
      (d.detectPart w).st = Status.Error Err.PART_MISMATCH "Unknown manufacturer ID"
        (d._readManufacturerIdRaw 0 w).out ∧
      (d.detectPart w).out = PartType.UNKNOWN) ∧
    ((d._readManufacturerIdRaw 0 w).out = 0x00D200 →
      (d.detectPart w).st = Status.Ok ∧ (d.detectPart w).out = PartType.AT21CS01) ∧
    ((d._readManufacturerIdRaw 0 w).out = 0x00D380 →
      (d.detectPart w).st = Status.Ok ∧ (d.detectPart w).out = PartType.AT21CS11) := by
  obtain ⟨h1, h2, _⟩ := Driver.readManufacturerIdRaw_frame 0 d w
  have hst : (d._readManufacturerIdRaw 0 w).st = Status.Ok := by
    rcases h2 with h | h
    · exact h
    · rw [h] at hid
      exact absurd hid (by decide)
  have hne : ¬ cmd.MANUFACTURER_ID_AT21CS11 = cmd.MANUFACTURER_ID_AT21CS01 := by decide
  have h01 : cmd.MANUFACTURER_ID_AT21CS01 = 0x00D200 := rfl
  have h11 : cmd.MANUFACTURER_ID_AT21CS11 = 0x00D380 := rfl
  have hdrv : (d.detectPart w).drv =
      (d._trackIo Status.Ok (d._readManufacturerIdRaw 0 w).world).drv := by
    simp only [Driver.detectPart, Driver.readManufacturerId, Driver.checkInitialized_ok hinit,
      Driver.ok_Ok, Bool.not_true, Bool.false_eq_true, if_false, h1, hst, Driver.trackIo_st]
    split_ifs <;> rfl
  have htrack : (d._trackIo Status.Ok (d._readManufacturerIdRaw 0 w).world).drv._consecutiveFailures = 0 ∧
      (d._trackIo Status.Ok (d._readManufacturerIdRaw 0 w).world).drv._totalFailures =
        d._totalFailures ∧
      (d._trackIo Status.Ok (d._readManufacturerIdRaw 0 w).world).drv._totalSuccess =
        incrementWrap32 d._totalSuccess ∧
      (d._driverState ≠ DriverState.SLEEPING →
        (d._trackIo Status.Ok (d._readManufacturerIdRaw 0 w).world).drv._driverState =
          DriverState.READY) := by
    simp only [Driver._trackIo, hinit, millis, Driver.ok_Ok, Bool.not_true, Bool.false_eq_true,
      if_false, if_true]
    split_ifs with k
    · exact ⟨rfl, rfl, rfl, fun _ => rfl⟩
    · exact ⟨rfl, rfl, rfl, fun h => absurd h k⟩
  refine ⟨hdrv, by rw [hdrv]; exact htrack.1, by rw [hdrv]; exact htrack.2.1,
    by rw [hdrv]; exact htrack.2.2.1, fun h => by rw [hdrv]; exact htrack.2.2.2 h, ?_, ?_, ?_⟩
  · intro k1 k2
    rw [← h01] at k1
    rw [← h11] at k2
    simp only [Driver.detectPart, Driver.readManufacturerId, Driver.checkInitialized_ok hinit,
      Driver.ok_Ok, Bool.not_true, Bool.false_eq_true, if_false, h1, hst, Driver.trackIo_st,
      if_neg k1, if_neg k2]
    exact ⟨trivial, trivial⟩
  · intro k
    rw [← h01] at k
    simp only [Driver.detectPart, Driver.readManufacturerId, Driver.checkInitialized_ok hinit,
      Driver.ok_Ok, Bool.not_true, Bool.false_eq_true, if_false, h1, hst, Driver.trackIo_st,
      if_pos k]
    exact ⟨trivial, trivial⟩
  · intro k
    rw [← h11] at k
    have k0 : ¬ (d._readManufacturerIdRaw 0 w).out = cmd.MANUFACTURER_ID_AT21CS01 := by
      rw [k]; exact hne
    simp only [Driver.detectPart, Driver.readManufacturerId, Driver.checkInitialized_ok hinit,
      Driver.ok_Ok, Bool.not_true, Bool.false_eq_true, if_false, h1, hst, Driver.trackIo_st,
      if_neg k0, if_pos k]
    exact ⟨trivial, trivial⟩

/-- C13, amended, an instance: in state OFFLINE with five failures counted, on
a line where the vendor ID reads 0x00D200, `detectPart` returns OK with
AT21CS01 and leaves READY. -/
theorem detectPart_classifies_witness :
    (({ readyDriver with _driverState := DriverState.OFFLINE, _consecutiveFailures := 5 } :
      Driver).detectPart partWorld).st = Status.Ok ∧
    (({ readyDriver with _driverState := DriverState.OFFLINE, _consecutiveFailures := 5 } :
      Driver).detectPart partWorld).out = PartType.AT21CS01 ∧
    (({ readyDriver with _driverState := DriverState.OFFLINE, _consecutiveFailures := 5 } :
      Driver).detectPart partWorld).drv._driverState = DriverState.READY :=
  have h := detectPart_classifies
    { readyDriver with _driverState := DriverState.OFFLINE, _consecutiveFailures := 5 } partWorld
    rfl (by decide)
  ⟨(h.2.2.2.2.2.2.1 (by decide)).1, (h.2.2.2.2.2.2.1 (by decide)).2, h.2.2.2.2.1 (by decide)⟩

/-! ## The state FAULT -/

/-- A call on a driver that is not initialized returns and changes nothing. -/
theorem Call.run_uninit (fuel : Nat) (c : Call) (d : Driver) (w : World)
    (h : d._initialized = false) :
    ∃ r, c.run fuel d w = some r ∧ r.st.code = Err.NOT_INITIALIZED ∧ r.drv = d ∧ r.world = w := by
  cases c <;>
    simp [Call.run, Ret.forget, Driver.probe, Driver.recover,
      Driver.resetAndDiscover, Driver.isPresent, Driver.waitReady, Driver.readCurrentAddress,
      Driver.readEeprom, Driver.writeEepromByte, Driver.writeEepromPage, Driver.readSecurity,
      Driver.writeSecurityUserByte, Driver.writeSecurityUserPage, Driver.lockSecurityRegister,
      Driver.isSecurityLocked, Driver.readSerialNumber, Driver.readManufacturerId,
      Driver.detectPart, Driver.readRomZoneRegister, Driver.isZoneRom, Driver.setZoneRom,
      Driver.freezeRomZones, Driver.areRomZonesFrozen, Driver.setHighSpeed,
      Driver.isHighSpeed, Driver.setStandardSpeed, Driver.isStandardSpeed,
      Driver._checkInitialized, h, Status.ok, Status.Error]

/-- The presence gate of `isPresent` on an initialized driver with a presence
pin: when the pin reads inactive the call returns OK with `present == false`
and leaves the driver alone; when it reads active and the call returns OK, the
discovery went through `_trackIo` and the state is READY, unless the driver was
sleeping. -/
theorem Driver.isPresent_gate (d : Driver) (w : World) (hinit : d._initialized = true)
    (hp : d._config.presencePin ≥ 0) :
    ((if d._config.presenceActiveHigh then w.level w.trace (d._config.presencePin % 256).toNat
        else !w.level w.trace (d._config.presencePin % 256).toNat) = false →
      (d.isPresent w).st = Status.Ok ∧ (d.isPresent w).out = false ∧ (d.isPresent w).drv = d ∧
      (d.isPresent w).world = w.after [Event.read (d._config.presencePin % 256).toNat
        (w.level w.trace (d._config.presencePin % 256).toNat)]) ∧
    ((if d._config.presenceActiveHigh then w.level w.trace (d._config.presencePin % 256).toNat
        else !w.level w.trace (d._config.presencePin % 256).toNat) = true →
      (d.isPresent w).st.ok = true → d._driverState ≠ DriverState.SLEEPING →
      (d.isPresent w).drv._driverState = DriverState.READY) := by
  constructor
  · intro hg
    simp only [Driver.isPresent, Driver.checkInitialized_ok hinit, Driver.ok_Ok, Bool.not_true,
      Bool.false_eq_true, if_false, digitalRead, emit_eq_after, hp, if_true, hg, Bool.not_false]
    exact ⟨trivial, trivial, trivial, trivial⟩
  · intro hg hok _
    obtain ⟨l1, l2, _, _⟩ := Driver.discoverLoop_health ((d._config.discoveryRetries + 1) % 256)
      (Status.Error Err.DISCOVERY_FAILED "Discovery failed" 0)
      ({ d with _driverState := DriverState.PROBING } : Driver)
      (w.after [Event.read (d._config.presencePin % 256).toNat
        (w.level w.trace (d._config.presencePin % 256).toNat)]) rfl
    have hi := l1.2.1.trans hinit
    simp only [Driver.isPresent, Driver.checkInitialized_ok hinit, Driver.ok_Ok, Bool.not_true,
      Bool.false_eq_true, if_false, digitalRead, emit_eq_after, hp, if_true, hg] at hok ⊢
    split_ifs at hok ⊢ with k
    · exact (Driver.trackIo_ok_step Status.Ok _ _ hi rfl (by rw [l2]; simp)).1
    · rw [Driver.trackIo_st] at hok
      exact absurd hok k

/-- C14, counterexample.  A `recover()` of the ready driver on a line where the
vendor ID reads 0x000000 returns PART_MISMATCH and leaves FAULT, with the
driver still initialized.  A second `recover()`, on a line with an AT21CS01,
then returns OK and leaves READY; so does a `readCurrentAddress` on a line that
acknowledges: the state FAULT was left without `begin()`. -/
theorem fault_left_by_recover :
    (readyDriver.recover ackWorld).st.code = Err.PART_MISMATCH ∧
    (readyDriver.recover ackWorld).drv._driverState = DriverState.FAULT ∧
    ((readyDriver.recover ackWorld).drv.recover bootWorld).st = Status.Ok ∧
    ((readyDriver.recover ackWorld).drv.recover bootWorld).drv._driverState =
      DriverState.READY ∧
    ((readyDriver.recover ackWorld).drv.readCurrentAddress 0 ackWorld).st = Status.Ok ∧
    ((readyDriver.recover ackWorld).drv.readCurrentAddress 0 ackWorld).drv._driverState =
      DriverState.READY := by
  decide

/-- C14, amended.  Let the lifecycle state be FAULT and let any public
operation other than `begin()` and `end()` return.  If the driver is not
initialized (as `begin()` leaves it when it fails after the parameter checks),
the operation is refused with NOT_INITIALIZED and changes nothing: FAULT is
terminal.  If the driver is initialized (as after a `recover()` that found a
vendor-ID mismatch), `probe()` leaves FAULT, and so does `isPresent()` when a
presence pin is configured and reads inactive: it returns OK and leaves the
driver as it was.  Any other operation that returns OK leaves READY
(`isPresent()` included, both when no presence pin is configured and when the
pin reads active), and one that returns a wire error leaves DEGRADED or
OFFLINE. -/
theorem fault_after_call (fuel : Nat) (c : Call) (d : Driver) (w : World) (r : Ret Unit)
    (hfault : d._driverState = DriverState.FAULT) (hrun : c.run fuel d w = some r) :
    (d._initialized = false → r.st.code = Err.NOT_INITIALIZED ∧ r.drv = d ∧ r.world = w) ∧
    (d._initialized = true →
      (c = Call.probe → r.drv._driverState = DriverState.FAULT) ∧
      (c ≠ Call.probe → (c = Call.isPresent → d._config.presencePin < 0) → r.st.ok = true →
        r.drv._driverState = DriverState.READY) ∧
      (c ≠ Call.probe → r.st.code.isWire →
        r.drv._driverState = DriverState.DEGRADED ∨
          r.drv._driverState = DriverState.OFFLINE) ∧
      (c = Call.isPresent → d._config.presencePin ≥ 0 →
        ((if d._config.presenceActiveHigh
            then w.level w.trace (d._config.presencePin % 256).toNat
            else !w.level w.trace (d._config.presencePin % 256).toNat) = false →
          r.st = Status.Ok ∧ r.drv = d ∧ r.drv._driverState = DriverState.FAULT) ∧
        ((if d._config.presenceActiveHigh
            then w.level w.trace (d._config.presencePin % 256).toNat
            else !w.level w.trace (d._config.presencePin % 256).toNat) = true →
          r.st.ok = true → r.drv._driverState = DriverState.READY))) := by
  constructor
  · intro h
    obtain ⟨r2, e, h1, h2, h3⟩ := Call.run_uninit fuel c d w h
    rw [e] at hrun
    simp only [Option.some.injEq] at hrun
    subst hrun
    exact ⟨h1, h2, h3⟩
  · intro hinit
    refine ⟨?_, ?_, ?_, ?_⟩
    · intro hc
      subst hc
      simp only [Call.run, Option.some.injEq] at hrun
      rw [← hrun, (Driver.probe_frame d w hinit).2.2.2, hfault]
    · intro hc hp hok
      exact (Call.run_ok fuel c d w r hinit hc hp (by rw [hfault]; decide) hrun hok).1
    · intro hc hw
      obtain ⟨_, _, _, a4, a5⟩ := Call.run_wire_failure fuel c d w r hinit hc hrun hw
      by_cases k : incrementWrap8 d._consecutiveFailures ≥ d._config.offlineThreshold
      · exact Or.inr (a4 k)
      · exact Or.inl (a5 (Nat.not_le.mp k))
    · intro hc hp
      subst hc
      simp only [Call.run, Option.some.injEq] at hrun
      obtain ⟨g1, g2⟩ := Driver.isPresent_gate d w hinit hp
      subst hrun
      constructor
      · intro hg
        obtain ⟨b1, _, b3, _⟩ := g1 hg
        refine ⟨b1, b3, ?_⟩
        show (d.isPresent w).drv._driverState = DriverState.FAULT
        rw [b3, hfault]
      · intro hg hok
        exact g2 hg hok (by rw [hfault]; decide)

/-- C14, amended, two instances.  On the initialized driver that a `recover()`
left in FAULT, a further `recover()` on a line with an AT21CS01 returns OK and
leaves READY.  On the driver with a presence pin (pin 5, active high) that a
`recover()` left in FAULT, `isPresent()` with the pin low returns OK and leaves
FAULT. -/
theorem fault_after_call_witness :
    (readyDriver.recover ackWorld).drv._driverState = DriverState.FAULT ∧
    (readyDriver.recover ackWorld).drv._initialized = true ∧
    ((readyDriver.recover ackWorld).drv.recover bootWorld).drv._driverState =
      DriverState.READY ∧
    ((({ readyDriver with _config := { sioPin := 4, presencePin := 5 } } : Driver).recover
        ackWorld).drv.isPresent ackWorld).st = Status.Ok ∧
    ((({ readyDriver with _config := { sioPin := 4, presencePin := 5 } } : Driver).recover
        ackWorld).drv.isPresent ackWorld).drv._driverState = DriverState.FAULT :=
  ⟨by decide, by decide,
    ((fault_after_call 0 Call.recover (readyDriver.recover ackWorld).drv bootWorld
      ((readyDriver.recover ackWorld).drv.recover bootWorld) (by decide) rfl).2 (by decide)).2.1
      (by decide) (fun k => absurd k (by decide)) (by decide),
    ((((fault_after_call 0 Call.isPresent
      (({ readyDriver with _config := { sioPin := 4, presencePin := 5 } } : Driver).recover
        ackWorld).drv ackWorld
      ((({ readyDriver with _config := { sioPin := 4, presencePin := 5 } } : Driver).recover
        ackWorld).drv.isPresent ackWorld).forget (by decide) rfl).2 (by decide)).2.2.2 rfl
      (by decide)).1 (by decide)).1,
    ((((fault_after_call 0 Call.isPresent
      (({ readyDriver with _config := { sioPin := 4, presencePin := 5 } } : Driver).recover
        ackWorld).drv ackWorld
      ((({ readyDriver with _config := { sioPin := 4, presencePin := 5 } } : Driver).recover
        ackWorld).drv.isPresent ackWorld).forget (by decide) rfl).2 (by decide)).2.2.2 rfl
      (by decide)).1 (by decide)).2.2⟩

/-! ## Standard speed and the AT21CS11 -/

/-- C15, counterexample.  The ready driver with an AT21CS11 detected, on a line
that acknowledges every byte: `setStandardSpeed()` returns OK, not
UNSUPPORTED_COMMAND, and the speed mode becomes STANDARD_SPEED, so the detected
part is AT21CS11 while the speed mode is not HIGH_SPEED. -/
theorem setStandardSpeed_acknowledged :
    (({ readyDriver with _detectedPart := PartType.AT21CS11 } : Driver).setStandardSpeed
      ackWorld).st = Status.Ok ∧
    (({ readyDriver with _detectedPart := PartType.AT21CS11 } : Driver).setStandardSpeed
      ackWorld).drv._detectedPart = PartType.AT21CS11 ∧
    (({ readyDriver with _detectedPart := PartType.AT21CS11 } : Driver).setStandardSpeed
      ackWorld).drv._speedMode = SpeedMode.STANDARD_SPEED := by
  decide

/-- C15, amended.  On an initialized driver whose detected part is AT21CS11,
`setStandardSpeed()` sends the Standard Speed opcode; when the opcode is not
acknowledged (as an AT21CS11 answers) it returns UNSUPPORTED_COMMAND, not
NACK_DEVICE_ADDRESS, and the speed mode and timing are unchanged; when the
opcode is acknowledged it returns OK and the speed mode becomes
STANDARD_SPEED.  `begin()` with `startupSpeed == STANDARD_SPEED` that detects
an AT21CS11 (vendor ID 0x00D380) when `expectedPart` is UNKNOWN or AT21CS11 is
rejected with INVALID_CONFIG and leaves FAULT; whenever `begin()` returns OK
with an AT21CS11 detected the speed mode is HIGH_SPEED; and a `begin()` that
detects an AT21CS11 when `expectedPart` is AT21CS01 is rejected with
PART_MISMATCH and leaves FAULT, whatever the startup speed. -/
theorem standard_speed_at21cs11 (d : Driver) (w : World) (config : Config) (d0 : Driver)
    (w0 : World) (d1 : Driver) (w1 : World)
    (hinit : d._initialized = true) (hpart : d._detectedPart = PartType.AT21CS11) :
    ((d._addressOnlyRaw cmd.OPCODE_STANDARD_SPEED false w).out = false →
      (d.setStandardSpeed w).st =
        Status.Error Err.UNSUPPORTED_COMMAND "AT21CS11 does not support Standard Speed" 0 ∧
      (d.setStandardSpeed w).drv._speedMode = d._speedMode ∧
      (d.setStandardSpeed w).drv._timing = d._timing ∧
      (d.setStandardSpeed w).drv._detectedPart = PartType.AT21CS11) ∧
    ((d._addressOnlyRaw cmd.OPCODE_STANDARD_SPEED false w).out = true →
      (d.setStandardSpeed w).st = Status.Ok ∧
      (d.setStandardSpeed w).drv._speedMode = SpeedMode.STANDARD_SPEED) ∧
    (beginDiscovered config d0 w0 = some (d1, w1) →
      (d1._readManufacturerIdRaw 0 w1).st.ok = true →
      (d1._readManufacturerIdRaw 0 w1).out = 0x00D380 →
      config.startupSpeed = SpeedMode.STANDARD_SPEED →
      (config.expectedPart = PartType.UNKNOWN ∨ config.expectedPart = PartType.AT21CS11) →
      (d0.begin config w0).st =
        Status.Error Err.INVALID_CONFIG "AT21CS11 does not support Standard Speed" 0 ∧
      (d0.begin config w0).drv._driverState = DriverState.FAULT ∧
      (d0.begin config w0).drv._initialized = false) ∧
    ((d0.begin config w0).st.code = Err.OK →
      (d0.begin config w0).drv._detectedPart = PartType.AT21CS11 →
      (d0.begin config w0).drv._speedMode = SpeedMode.HIGH_SPEED) ∧
    (beginDiscovered config d0 w0 = some (d1, w1) →
      (d1._readManufacturerIdRaw 0 w1).st.ok = true →
      (d1._readManufacturerIdRaw 0 w1).out = 0x00D380 →
      config.expectedPart = PartType.AT21CS01 →
      (d0.begin config w0).st =
        Status.Error Err.PART_MISMATCH "Detected part does not match expectedPart" 0 ∧
      (d0.begin config w0).drv._driverState = DriverState.FAULT ∧
      (d0.begin config w0).drv._initialized = false) := by
  have hsame : ∀ (st : Status) (e : Driver) (w2 : World),
      (e._trackIo st w2).st = st ∧ (e._trackIo st w2).drv._speedMode = e._speedMode ∧
      (e._trackIo st w2).drv._timing = e._timing ∧
      (e._trackIo st w2).drv._detectedPart = e._detectedPart := by
    intro st e w2
    simp only [Driver._trackIo, millis]
    split_ifs <;> exact ⟨rfl, rfl, rfl, rfl⟩
  refine ⟨?_, ?_, ?_, ?_, ?_⟩
  · intro hnack
    simp only [Driver.setStandardSpeed, Driver.checkInitialized_ok hinit, Driver.ok_Ok,
      Bool.not_true, Bool.false_eq_true, if_false, Driver.addressOnlyRaw_drv,
      Driver.addressOnlyRaw_st, hnack, Bool.not_false, if_true, hpart]
    obtain ⟨t1, t2, t3, t4⟩ := hsame
      (Status.Error Err.UNSUPPORTED_COMMAND "AT21CS11 does not support Standard Speed" 0) d
      (d._addressOnlyRaw cmd.OPCODE_STANDARD_SPEED false w).world
    exact ⟨t1, t2, t3, t4.trans hpart⟩
  · intro hack
    simp only [Driver.setStandardSpeed, Driver.checkInitialized_ok hinit, Driver.ok_Ok,
      Bool.not_true, Bool.false_eq_true, if_false, Driver.addressOnlyRaw_drv,
      Driver.addressOnlyRaw_st, hack]
    obtain ⟨t1, t2, _, _⟩ := hsame Status.Ok (d._setSpeedMode SpeedMode.STANDARD_SPEED)
      (d._addressOnlyRaw cmd.OPCODE_STANDARD_SPEED false w).world
    exact ⟨t1, t2⟩
  · intro h hid hout hspeed hexp
    obtain ⟨e, hc, hi⟩ := begin_of_discovered config d0 w0 d1 w1 h
    have hnot : ¬ (!(d1._readManufacturerIdRaw 0 w1).st.ok) = true := by simp [hid]
    have hdrv : (d1._readManufacturerIdRaw 0 w1).drv = d1 :=
      (Driver.readManufacturerIdRaw_frame 0 d1 w1).1
    have h11 : cmd.MANUFACTURER_ID_AT21CS11 = 0x00D380 := rfl
    have k : (d1._readManufacturerIdRaw 0 w1).out = cmd.MANUFACTURER_ID_AT21CS11 := hout
    have k0 : ¬ (d1._readManufacturerIdRaw 0 w1).out = cmd.MANUFACTURER_ID_AT21CS01 := by
      rw [k]; decide
    have hexp2 : ¬ (config.expectedPart ≠ PartType.UNKNOWN ∧
        config.expectedPart ≠ PartType.AT21CS11) := by
      rintro ⟨a, b⟩
      rcases hexp with x | x
      · exact a x
      · exact b x
    rw [e]
    simp only [Driver.beginIdentify, if_neg hnot, hdrv, hc, if_neg k0, if_pos k, if_neg hexp2,
      hspeed, and_self, if_true]
    exact ⟨trivial, trivial, hi⟩
  · intro hok hp
    rcases (begin_outcome config d0 w0).1 with ⟨_, _, _, _, h⟩ | ⟨h, _⟩
    · exact h hp
    · exact absurd hok h
  · intro h hid hout hexp
    obtain ⟨e, hc, hi⟩ := begin_of_discovered config d0 w0 d1 w1 h
    have hnot : ¬ (!(d1._readManufacturerIdRaw 0 w1).st.ok) = true := by simp [hid]
    have hdrv : (d1._readManufacturerIdRaw 0 w1).drv = d1 :=
      (Driver.readManufacturerIdRaw_frame 0 d1 w1).1
    have k : (d1._readManufacturerIdRaw 0 w1).out = cmd.MANUFACTURER_ID_AT21CS11 := hout
    have k0 : ¬ (d1._readManufacturerIdRaw 0 w1).out = cmd.MANUFACTURER_ID_AT21CS01 := by
      rw [k]; decide
    have hexp2 : config.expectedPart ≠ PartType.UNKNOWN ∧
        config.expectedPart ≠ PartType.AT21CS11 := by
      rw [hexp]; exact ⟨by decide, by decide⟩
    rw [e]
    simp only [Driver.beginIdentify, if_neg hnot, hdrv, hc, if_neg k0, if_pos k, if_pos hexp2]
    exact ⟨trivial, trivial, hi⟩

/-- C15, amended, an instance: the ready driver with an AT21CS11 detected, on a
line with nothing attached. -/
theorem standard_speed_at21cs11_witness :
    (({ readyDriver with _detectedPart := PartType.AT21CS11 } : Driver).setStandardSpeed
      deafWorld).st.code = Err.UNSUPPORTED_COMMAND ∧
    (({ readyDriver with _detectedPart := PartType.AT21CS11 } : Driver).setStandardSpeed
      deafWorld).drv._speedMode = SpeedMode.HIGH_SPEED :=
  have h := (standard_speed_at21cs11 { readyDriver with _detectedPart := PartType.AT21CS11 }
    deafWorld pin4Config {} ackWorld {} ackWorld rfl rfl).1 (by decide)
  ⟨by rw [h.1]; rfl, h.2.1⟩

/-! ## Validation of the identity payload -/

/-- The outcome of `readSerialNumber` in terms of the security-register read
it starts with and of the payload `b` left in the buffer. -/
theorem readSerialNumber_outcome (serial : SerialNumberInfo) (d : Driver) (w : World)
    (r : Ret (Option (List Nat))) (b : List Nat)
    (hr : d.readSecurity cmd.SECURITY_SERIAL_START (some serial.bytes) cmd.SECURITY_SERIAL_SIZE
      w = r) (hb : r.out.getD serial.bytes = b) :
    (r.st.ok = false →
      (d.readSerialNumber serial w).st = r.st ∧
      (d.readSerialNumber serial w).out = { serial with bytes := b }) ∧
    (r.st.ok = true →
      (d.readSerialNumber serial w).out =
        { bytes := b, productIdOk := decide (b.getD 0 0 = 0xA0),
          crcOk := decide (Driver.crc8_31 b 7 = b.getD 7 0) } ∧
      (d.readSerialNumber serial w).st =
        (if b.getD 0 0 = 0xA0 then
          if Driver.crc8_31 b 7 = b.getD 7 0 then Status.Ok
          else Status.Error Err.CRC_MISMATCH "Serial number CRC check failed" 0
        else Status.Error Err.PART_MISMATCH "Serial product ID is not 0xA0" 0)) := by
  simp only [Driver.readSerialNumber]
  rw [hr, hb]
  have e7 : cmd.SECURITY_SERIAL_SIZE - 1 = 7 := rfl
  have eA : cmd.SECURITY_PRODUCT_ID = 0xA0 := rfl
  rw [e7, eA]
  constructor
  · intro h1
    simp only [h1, Bool.not_false, if_true, and_self]
  · intro h1
    by_cases h2 : b.getD 0 0 = 0xA0
    · by_cases h3 : Driver.crc8_31 b 7 = b.getD 7 0
      · simp only [h1, h2, h3, decide_True, Bool.not_true, Bool.false_eq_true, if_false,
          if_true, and_self]
      · simp only [h1, h2, h3, decide_True, decide_False, Bool.not_true, Bool.not_false,
          Bool.false_eq_true, if_false, if_true, and_self]
    · simp only [h1, h2, decide_False, Bool.not_true, Bool.not_false, Bool.false_eq_true,
        if_false, if_true, and_self]

/-- C16, counterexample.  On the ready driver the security-register read
succeeds and delivers the payload `00 00 00 00 00 00 00 01`, whose last byte
differs from `crc8_31` of the first seven (which is 0); `readSerialNumber`
sets `crcOk == false` but returns PART_MISMATCH, not CRC_MISMATCH, because the
first byte is not 0xA0 and the product ID is checked first. -/
theorem serial_crc_masked_by_product_id :
    (readyDriver.readSecurity cmd.SECURITY_SERIAL_START (some blankSerial.bytes)
      cmd.SECURITY_SERIAL_SIZE badSerialWorld).st = Status.Ok ∧
    (readyDriver.readSerialNumber blankSerial badSerialWorld).out.bytes =
      [0, 0, 0, 0, 0, 0, 0, 1] ∧
    Driver.crc8_31 [0, 0, 0, 0, 0, 0, 0, 1] 7 = 0 ∧
    (readyDriver.readSerialNumber blankSerial badSerialWorld).out.crcOk = false ∧
    (readyDriver.readSerialNumber blankSerial badSerialWorld).st =
      Status.Error Err.PART_MISMATCH "Serial product ID is not 0xA0" 0 ∧
    (readyDriver.readSerialNumber blankSerial badSerialWorld).st.code ≠ Err.CRC_MISMATCH := by
  decide

/-- C16, amended.  When the security-register read of `readSerialNumber`
succeeds and the last byte of the payload differs from `crc8_31` of its first
seven bytes, `crcOk` is set to false, and the call returns CRC_MISMATCH
provided the first byte is 0xA0; when the first byte is not 0xA0 the product
ID check, made first, returns PART_MISMATCH. -/
theorem serial_crc_mismatch (serial : SerialNumberInfo) (d : Driver) (w : World)
    (hread : (d.readSecurity cmd.SECURITY_SERIAL_START (some serial.bytes)
      cmd.SECURITY_SERIAL_SIZE w).st.ok = true)
    (hcrc : (d.readSerialNumber serial w).out.bytes.getD 7 0 ≠
      Driver.crc8_31 (d.readSerialNumber serial w).out.bytes 7) :
    (d.readSerialNumber serial w).out.crcOk = false ∧
    ((d.readSerialNumber serial w).out.bytes.getD 0 0 = 0xA0 →
      (d.readSerialNumber serial w).st =
        Status.Error Err.CRC_MISMATCH "Serial number CRC check failed" 0) ∧
    ((d.readSerialNumber serial w).out.bytes.getD 0 0 ≠ 0xA0 →
      (d.readSerialNumber serial w).st =
        Status.Error Err.PART_MISMATCH "Serial product ID is not 0xA0" 0) := by
  obtain ⟨ho, hs⟩ := (readSerialNumber_outcome serial d w _ _ rfl rfl).2 hread
  rw [ho] at hcrc ⊢
  rw [hs]
  have h3 : ¬ Driver.crc8_31 ((d.readSecurity cmd.SECURITY_SERIAL_START (some serial.bytes)
      cmd.SECURITY_SERIAL_SIZE w).out.getD serial.bytes) 7 =
      ((d.readSecurity cmd.SECURITY_SERIAL_START (some serial.bytes)
      cmd.SECURITY_SERIAL_SIZE w).out.getD serial.bytes).getD 7 0 := fun k => hcrc k.symm
  refine ⟨?_, ?_, ?_⟩
  · simp only [h3, decide_False]
  · intro h2
    rw [if_pos h2, if_neg h3]
  · intro h2
    rw [if_neg h2]

/-- C16, amended, an instance: the payload `A0 00 00 00 00 00 00 00` has the
right product ID and a wrong check byte. -/
theorem serial_crc_mismatch_witness :
    (readyDriver.readSerialNumber blankSerial productOnlyWorld).out.bytes =
      [0xA0, 0, 0, 0, 0, 0, 0, 0] ∧
    (readyDriver.readSerialNumber blankSerial productOnlyWorld).st.code = Err.CRC_MISMATCH :=
  ⟨by decide, by
    rw [(serial_crc_mismatch blankSerial readyDriver productOnlyWorld (by decide)
      (by decide)).2.1 (by decide)]
    rfl⟩

/-- C17.  When the security-register read of `readSerialNumber` succeeds,
`productIdOk` reports whether byte 0 of the payload is 0xA0 and `crcOk` whether
byte 7 equals `crc8_31` of bytes 0..6, each independently of the other, and a
payload whose first byte is not 0xA0 gives PART_MISMATCH with
`productIdOk == false`; and `readSerialNumber` returns OK if and only if the
read succeeded, byte 0 is 0xA0 and byte 7 equals `crc8_31` of bytes 0..6. -/
theorem serial_validation (serial : SerialNumberInfo) (d : Driver) (w : World) :
    (d.readSerialNumber serial w).out.bytes =
      (d.readSecurity cmd.SECURITY_SERIAL_START (some serial.bytes) cmd.SECURITY_SERIAL_SIZE
        w).out.getD serial.bytes ∧
    ((d.readSecurity cmd.SECURITY_SERIAL_START (some serial.bytes) cmd.SECURITY_SERIAL_SIZE
        w).st.ok = true →
      (d.readSerialNumber serial w).out.productIdOk =
        decide ((d.readSerialNumber serial w).out.bytes.getD 0 0 = 0xA0) ∧
      (d.readSerialNumber serial w).out.crcOk =
        decide (Driver.crc8_31 (d.readSerialNumber serial w).out.bytes 7 =
          (d.readSerialNumber serial w).out.bytes.getD 7 0) ∧
      ((d.readSerialNumber serial w).out.bytes.getD 0 0 ≠ 0xA0 →
        (d.readSerialNumber serial w).st =
          Status.Error Err.PART_MISMATCH "Serial product ID is not 0xA0" 0 ∧
        (d.readSerialNumber serial w).out.productIdOk = false)) ∧
    ((d.readSerialNumber serial w).st.ok = true ↔
      ((d.readSecurity cmd.SECURITY_SERIAL_START (some serial.bytes) cmd.SECURITY_SERIAL_SIZE
        w).st.ok = true ∧
        (d.readSerialNumber serial w).out.bytes.getD 0 0 = 0xA0 ∧
        (d.readSerialNumber serial w).out.bytes.getD 7 0 =
          Driver.crc8_31 (d.readSerialNumber serial w).out.bytes 7)) := by
  obtain ⟨hf, ht⟩ := readSerialNumber_outcome serial d w _ _ rfl rfl
  cases h1 : (d.readSecurity cmd.SECURITY_SERIAL_START (some serial.bytes)
      cmd.SECURITY_SERIAL_SIZE w).st.ok
  · obtain ⟨hs, ho⟩ := hf h1
    rw [ho, hs, h1]
    exact ⟨rfl, fun k => absurd k (by decide), by simp⟩
  · obtain ⟨ho, hs⟩ := ht h1
    rw [ho, hs]
    refine ⟨rfl, fun _ => ⟨rfl, rfl, fun h2 => ?_⟩, ?_⟩
    · exact ⟨by rw [if_neg h2], by simp only [h2, decide_False]⟩
    · by_cases h2 : ((d.readSecurity cmd.SECURITY_SERIAL_START (some serial.bytes)
          cmd.SECURITY_SERIAL_SIZE w).out.getD serial.bytes).getD 0 0 = 0xA0
      · by_cases h3 : Driver.crc8_31 ((d.readSecurity cmd.SECURITY_SERIAL_START
            (some serial.bytes) cmd.SECURITY_SERIAL_SIZE w).out.getD serial.bytes) 7 =
            ((d.readSecurity cmd.SECURITY_SERIAL_START (some serial.bytes)
              cmd.SECURITY_SERIAL_SIZE w).out.getD serial.bytes).getD 7 0
        · rw [if_pos h2, if_pos h3]
          exact ⟨fun _ => ⟨rfl, h2, h3.symm⟩, fun _ => rfl⟩
        · rw [if_pos h2, if_neg h3]
          exact ⟨fun k => absurd k (by decide), fun k => absurd k.2.2.symm h3⟩
      · rw [if_neg h2]
        exact ⟨fun k => absurd k (by decide), fun k => absurd k.2.1 h2⟩

/-! ## The check byte of the identity payload -/

theorem isPoly_zero : IsPoly 0 0 := by
  intro i
  simp

theorem isPoly_one : IsPoly 1 1 := by
  intro i
  rw [Polynomial.coeff_one]
  cases i with
  | zero => simp
  | succ n => simp [Nat.testBit_succ]

theorem isPoly_xor {a b : Nat} {p q : Polynomial (ZMod 2)} (hp : IsPoly a p) (hq : IsPoly b q) :
    IsPoly (a ^^^ b) (p + q) := by
  intro i
  rw [Polynomial.coeff_add, hp i, hq i, Nat.testBit_xor]
  cases a.testBit i <;> cases b.testBit i <;> decide

theorem isPoly_shift {a : Nat} {p : Polynomial (ZMod 2)} (hp : IsPoly a p) (k : Nat) :
    IsPoly (a <<< k) (Polynomial.X ^ k * p) := by
  intro i
  rw [Polynomial.coeff_X_pow_mul', Nat.testBit_shiftLeft]
  by_cases h : k ≤ i
  · simp [h, hp (i - k)]
  · simp [h]

theorem isPoly_degree_lt {a : Nat} {p : Polynomial (ZMod 2)} (hp : IsPoly a p) {k : Nat}
    (h : a < 2 ^ k) : p.degree < k := by
  rw [Polynomial.degree_lt_iff_coeff_zero]
  intro m hm
  rw [hp m, Nat.testBit_lt_two_pow (lt_of_lt_of_le h (Nat.pow_le_pow_right (by decide) hm))]
  simp

theorem isPoly_exists (a : Nat) : ∃ p, IsPoly a p := by
  induction a using Nat.binaryRec with
  | z => exact ⟨0, isPoly_zero⟩
  | f b n ih =>
    obtain ⟨p, hp⟩ := ih
    refine ⟨Polynomial.X * p + (if b then 1 else 0), ?_⟩
    intro i
    cases i with
    | zero =>
      rw [Polynomial.coeff_add, Polynomial.coeff_X_mul_zero, Nat.testBit_bit_zero]
      cases b <;> simp
    | succ m =>
      rw [Polynomial.coeff_add, Polynomial.coeff_X_mul, Nat.testBit_bit_succ, hp m]
      cases b <;> simp [Polynomial.coeff_one]


/-- The generator `x^8 + x^5 + x^4 + 1`, whose bits are `0x131`. -/
theorem isPoly_generator :
    IsPoly 0x131 (Polynomial.X ^ 8 + Polynomial.X ^ 5 + Polynomial.X ^ 4 + 1) := by
  have h := isPoly_xor (isPoly_shift isPoly_one 8)
    (isPoly_xor (isPoly_shift isPoly_one 5) (isPoly_xor (isPoly_shift isPoly_one 4) isPoly_one))
  have e : (1 <<< 8) ^^^ ((1 <<< 5) ^^^ ((1 <<< 4) ^^^ 1)) = 0x131 := by decide
  rw [e] at h
  convert h using 1
  ring

theorem generator_monic :
    (Polynomial.X ^ 8 + Polynomial.X ^ 5 + Polynomial.X ^ 4 + 1 : Polynomial (ZMod 2)).Monic := by
  have h := isPoly_xor (isPoly_shift isPoly_one 5) (isPoly_xor (isPoly_shift isPoly_one 4) isPoly_one)
  have hd := isPoly_degree_lt h (k := 8) (by decide)
  have e : (Polynomial.X ^ 8 + Polynomial.X ^ 5 + Polynomial.X ^ 4 + 1 : Polynomial (ZMod 2)) =
      Polynomial.X ^ 8 + (Polynomial.X ^ 5 * 1 + (Polynomial.X ^ 4 * 1 + 1)) := by ring
  rw [e]
  exact Polynomial.monic_X_pow_add hd

theorem generator_degree :
    (Polynomial.X ^ 8 + Polynomial.X ^ 5 + Polynomial.X ^ 4 + 1 : Polynomial (ZMod 2)).degree =
      8 := by
  have h := isPoly_xor (isPoly_shift isPoly_one 5) (isPoly_xor (isPoly_shift isPoly_one 4) isPoly_one)
  have hd := isPoly_degree_lt h (k := 8) (by decide)
  have e : (Polynomial.X ^ 8 + Polynomial.X ^ 5 + Polynomial.X ^ 4 + 1 : Polynomial (ZMod 2)) =
      Polynomial.X ^ 8 + (Polynomial.X ^ 5 * 1 + (Polynomial.X ^ 4 * 1 + 1)) := by ring
  rw [e]
  rw [Polynomial.degree_add_eq_left_of_degree_lt (by rw [Polynomial.degree_X_pow]; exact hd),
    Polynomial.degree_X_pow]
  rfl

theorem crc8_31Shift_cases :
    ∀ c < 256, Driver.crc8_31Shift c < 256 ∧
      Driver.crc8_31Shift c = if c < 128 then c <<< 1 else (c <<< 1) ^^^ 0x131 := by
  decide

theorem add_self_poly (p : Polynomial (ZMod 2)) : p + p = 0 :=
  CharTwo.add_self_eq_zero p

/-- One shift of the register multiplies by `x` modulo the generator. -/
theorem crc8_31Shift_poly (c : Nat) (hc : c < 256) (p : Polynomial (ZMod 2)) (hp : IsPoly c p) :
    Driver.crc8_31Shift c < 256 ∧
    IsPoly (Driver.crc8_31Shift c) (Polynomial.modByMonic (Polynomial.X * p)
      (Polynomial.X ^ 8 + Polynomial.X ^ 5 + Polynomial.X ^ 4 + 1)) := by
  obtain ⟨h1, h2⟩ := crc8_31Shift_cases c hc
  refine ⟨h1, ?_⟩
  have hs := isPoly_shift hp 1
  rw [pow_one] at hs
  by_cases k : c < 128
  · rw [if_pos k] at h2
    rw [h2] at h1 ⊢
    have hd := isPoly_degree_lt hs (k := 8) h1
    rw [(Polynomial.modByMonic_eq_self_iff generator_monic).mpr (by rw [generator_degree]; exact hd)]
    exact hs
  · rw [if_neg k] at h2
    rw [h2] at h1 ⊢
    have hr := isPoly_xor hs isPoly_generator
    have hd := isPoly_degree_lt hr (k := 8) h1
    have := (Polynomial.div_modByMonic_unique 1
      (Polynomial.X * p + (Polynomial.X ^ 8 + Polynomial.X ^ 5 + Polynomial.X ^ 4 + 1))
      generator_monic ⟨by rw [mul_one, add_assoc, add_self_poly, add_zero],
        by rw [generator_degree]; exact hd⟩).2
    rw [this]
    exact hr


theorem mul_modByMonic_congr (a q g : Polynomial (ZMod 2)) (hg : g.Monic) :
    Polynomial.modByMonic (a * Polynomial.modByMonic q g) g = Polynomial.modByMonic (a * q) g := by
  have h := Polynomial.modByMonic_add_div q hg
  have e : a * q = a * Polynomial.modByMonic q g + g * (a * Polynomial.divByMonic q g) := by
    conv_lhs => rw [← h]
    ring
  rw [e, Polynomial.add_modByMonic, Polynomial.self_mul_modByMonic hg, add_zero]

/-- What `k` shifts of the register do: multiplication by `x^k` modulo the generator. -/
theorem crc8_31Shift_iterate (k : Nat) (c : Nat) (hc : c < 256) (p : Polynomial (ZMod 2))
    (hp : IsPoly c p) :
    Driver.crc8_31Shift^[k] c < 256 ∧
    IsPoly (Driver.crc8_31Shift^[k] c) (Polynomial.modByMonic (Polynomial.X ^ k * p)
      (Polynomial.X ^ 8 + Polynomial.X ^ 5 + Polynomial.X ^ 4 + 1)) := by
  induction k with
  | zero =>
    refine ⟨hc, ?_⟩
    rw [pow_zero, one_mul,
      (Polynomial.modByMonic_eq_self_iff generator_monic).mpr
        (by rw [generator_degree]; exact isPoly_degree_lt hp (k := 8) hc)]
    exact hp
  | succ k ih =>
    obtain ⟨h1, h2⟩ := ih
    rw [Function.iterate_succ_apply']
    obtain ⟨s1, s2⟩ := crc8_31Shift_poly _ h1 _ h2
    refine ⟨s1, ?_⟩
    rw [mul_modByMonic_congr _ _ _ generator_monic] at s2
    rw [pow_succ, mul_comm (Polynomial.X ^ k) Polynomial.X, mul_assoc]
    exact s2

theorem crc8_31_prefix (M N : List Nat) :
    ∀ n, n ≤ M.length → Driver.crc8_31 (M ++ N) n = Driver.crc8_31 M n := by
  intro n
  induction n with
  | zero => intro _; simp only [Driver.crc8_31, List.range_zero, List.foldl_nil]
  | succ n ih =>
    intro h
    have ih2 := ih (Nat.le_of_succ_le h)
    simp only [Driver.crc8_31] at ih2 ⊢
    rw [List.range_succ, List.foldl_append, List.foldl_append, ih2]
    simp only [List.foldl_cons, List.foldl_nil, Driver.crc8_31Byte]
    rw [List.getD_append _ _ _ _ (Nat.lt_of_succ_le h)]

/-- The register after one more byte. -/
theorem crc8_31_snoc (M : List Nat) (b : Nat) :
    Driver.crc8_31 (M ++ [b]) (M.length + 1) =
      Driver.crc8_31Shift^[8] (Driver.crc8_31 M M.length ^^^ b) := by
  have h := crc8_31_prefix M [b] M.length (Nat.le_refl _)
  simp only [Driver.crc8_31] at h ⊢
  rw [List.range_succ, List.foldl_append, h]
  simp only [List.foldl_cons, List.foldl_nil, Driver.crc8_31Byte]
  rw [List.getD_append_right _ _ _ _ (Nat.le_refl _), Nat.sub_self,
    show [b].getD 0 0 = b from rfl]

theorem msgNat_snoc (M : List Nat) (b : Nat) : msgNat (M ++ [b]) = msgNat M * 256 + b := by
  simp [msgNat, List.foldl_append]

theorem isPoly_snoc {a b : Nat} {p q : Polynomial (ZMod 2)} (hp : IsPoly a p) (hq : IsPoly b q)
    (hb : b < 256) : IsPoly (a * 256 + b) (Polynomial.X ^ 8 * p + q) := by
  have e : a * 256 + b = (a <<< 8) ^^^ b := by
    apply Nat.eq_of_testBit_eq
    intro i
    have h := Nat.testBit_mul_pow_two_add a (i := 8) hb i
    rw [Nat.mul_comm] at h
    rw [show (2:Nat) ^ 8 = 256 from rfl] at h
    rw [h, Nat.testBit_xor, Nat.testBit_shiftLeft]
    by_cases k : i < 8
    · have k2 : ¬ i ≥ 8 := Nat.not_le.mpr k
      simp [k, k2]
    · have k2 : i ≥ 8 := Nat.le_of_not_lt k
      have hbi : b.testBit i = false :=
        Nat.testBit_lt_two_pow (lt_of_lt_of_le hb (Nat.pow_le_pow_right Nat.zero_lt_two k2))
      simp [k, k2, hbi]
  rw [e]
  exact isPoly_xor (isPoly_shift hp 8) hq

/-- The register after the bytes of `M` holds the remainder of `M(x) * x^8`
modulo the generator. -/
theorem crc8_31_remainder (M : List Nat) (hM : ∀ b ∈ M, b < 256) :
    Driver.crc8_31 M M.length < 256 ∧
    ∃ pm pc : Polynomial (ZMod 2), IsPoly (msgNat M) pm ∧ IsPoly (Driver.crc8_31 M M.length) pc ∧
      pc = Polynomial.modByMonic (pm * Polynomial.X ^ 8)
        (Polynomial.X ^ 8 + Polynomial.X ^ 5 + Polynomial.X ^ 4 + 1) := by
  induction M using List.reverseRecOn with
  | nil =>
    exact ⟨by decide, 0, 0, isPoly_zero, isPoly_zero, by rw [zero_mul, Polynomial.zero_modByMonic]⟩
  | append_singleton M b ih =>
    have hb : b < 256 := hM b (by simp)
    obtain ⟨h1, pm, pc, hpm, hpc, e⟩ := ih (fun x hx => hM x (by simp [hx]))
    obtain ⟨q, hq⟩ := isPoly_exists b
    have hx : Driver.crc8_31 M M.length ^^^ b < 256 :=
      Nat.xor_lt_two_pow (n := 8) h1 hb
    obtain ⟨s1, s2⟩ := crc8_31Shift_iterate 8 _ hx _ (isPoly_xor hpc hq)
    rw [List.length_append, List.length_singleton, crc8_31_snoc, msgNat_snoc]
    refine ⟨s1, _, _, isPoly_snoc hpm hq hb, s2, ?_⟩
    rw [e, mul_add, Polynomial.add_modByMonic, mul_modByMonic_congr _ _ _ generator_monic,
      ← Polynomial.add_modByMonic]
    congr 1
    ring


theorem isPoly_unique {a : Nat} {p q : Polynomial (ZMod 2)} (hp : IsPoly a p) (hq : IsPoly a q) :
    p = q :=
  Polynomial.ext fun i => (hp i).trans (hq i).symm

/-- C18.  Read a number as the polynomial over GF(2) whose coefficients are its
bits, and a byte sequence `M` (bytes below 256) as the polynomial `M(x)` whose
coefficients are the bits of the bytes, first byte and most significant bit
first.  Then `crc8_31(M)` is a byte, and its polynomial is the remainder of
`M(x) * x^8` modulo the generator `x^8 + x^5 + x^4 + 1`: initial value 0, no
reflection, no final XOR.  Hence `crc8_31` of the empty sequence is 0, and
`crc8_31` of `M` followed by the byte `crc8_31(M)` is 0. -/
theorem crc8_31_reference (M : List Nat) (hM : ∀ b ∈ M, b < 256) :
    Driver.crc8_31 M M.length < 256 ∧
    (∃ pm pc : Polynomial (ZMod 2), IsPoly (msgNat M) pm ∧
      IsPoly (Driver.crc8_31 M M.length) pc) ∧
    (∀ pm pc : Polynomial (ZMod 2), IsPoly (msgNat M) pm →
      IsPoly (Driver.crc8_31 M M.length) pc →
      pc = Polynomial.modByMonic (pm * Polynomial.X ^ 8)
        (Polynomial.X ^ 8 + Polynomial.X ^ 5 + Polynomial.X ^ 4 + 1)) ∧
    Driver.crc8_31 [] 0 = 0 ∧
    Driver.crc8_31 (M ++ [Driver.crc8_31 M M.length]) (M.length + 1) = 0 := by
  obtain ⟨h1, pm, pc, hpm, hpc, e⟩ := crc8_31_remainder M hM
  refine ⟨h1, ⟨pm, pc, hpm, hpc⟩, ?_, rfl, ?_⟩
  · intro pm2 pc2 h2 h3
    rw [isPoly_unique h2 hpm, isPoly_unique h3 hpc]
    exact e
  · rw [crc8_31_snoc, Nat.xor_self]
    rfl

/-- C18, an instance: a seven-byte payload, its check byte 0x37, and the
payload followed by the check byte. -/
theorem crc8_31_reference_witness :
    Driver.crc8_31 [0xA0, 1, 2, 3, 4, 5, 6] 7 = 0x37 ∧
    Driver.crc8_31 ([0xA0, 1, 2, 3, 4, 5, 6] ++ [Driver.crc8_31 [0xA0, 1, 2, 3, 4, 5, 6] 7]) 8 = 0 :=
  ⟨by decide,
    (crc8_31_reference [0xA0, 1, 2, 3, 4, 5, 6] (by decide)).2.2.2.2⟩

/-! ## The ideal device and the wire images -/

namespace Device

theorem run_append (pin : Nat) (S : Device) (a b : List Event) :
    run pin S (a ++ b) = run pin (run pin S a) b := by
  simp [run, List.foldl_append]

theorem run_nil (pin : Nat) (S : Device) : run pin S [] = S := rfl

theorem run_guard (d : Driver) (S : Device) (hlow : S.low = false)
    (ht : d._timing = HIGH_SPEED_TIMING ∨ d._timing = STANDARD_SPEED_TIMING) :
    run d.sio S (guardImage d) = S.started := by
  rcases ht with h | h <;>
    simp [run, guardImage, step, hlow, h, HIGH_SPEED_TIMING, STANDARD_SPEED_TIMING]

theorem bitIn_low (S : Device) (b : Bool) : (S.bitIn b).low = S.low := by
  unfold bitIn byteIn store
  cases S.phase <;> simp <;> split_ifs <;> rfl

theorem bitIn_pageWrap (S : Device) (b : Bool) : (S.bitIn b).pageWrap = S.pageWrap := by
  unfold bitIn byteIn store
  cases S.phase <;> simp <;> split_ifs <;> rfl

theorem step_pageWrap (pin : Nat) (S : Device) (e : Event) :
    (step pin S e).pageWrap = S.pageWrap := by
  cases e with
  | write q b =>
    cases b <;> simp only [step] <;> split_ifs <;> first | rfl | exact bitIn_pageWrap _ _
  | delayUs us => simp only [step]; split_ifs <;> rfl
  | pinMode _ _ => rfl
  | read _ _ => rfl
  | millis _ => rfl

theorem run_pageWrap (pin : Nat) (es : List Event) :
    ∀ S : Device, (run pin S es).pageWrap = S.pageWrap := by
  induction es with
  | nil => intro S; rfl
  | cons e es ih =>
    intro S
    rw [show run pin S (e :: es) = run pin (step pin S e) es from rfl, ih, step_pageWrap]

/-- The device over one bit sent by the master. -/
theorem run_bit (d : Driver) (S : Device) (b : Bool)
    (ht : d._timing = HIGH_SPEED_TIMING ∨ d._timing = STANDARD_SPEED_TIMING)
    (hlow : S.low = false) (hack : S.ackPending = false)
    (hph : S.phase ≠ DevicePhase.dataOut) :
    run d.sio S (bitImage d b) =
      bitIn { S with low := false, lowUs := 0, driving := false, out := true } b := by
  rcases ht with h | h <;> cases b <;>
    simp [run, bitImage, step, hlow, hack, hph, h, HIGH_SPEED_TIMING, STANDARD_SPEED_TIMING,
      bitIn_low]

end Device

namespace Device

/-- The device over the acknowledge slot of a byte it has received: it pulls
the line low. -/
theorem run_slot_ack (d : Driver) (S : Device)
    (ht : d._timing = HIGH_SPEED_TIMING ∨ d._timing = STANDARD_SPEED_TIMING)
    (hlow : S.low = false) (hack : S.ackPending = true) :
    run d.sio S (slotHead d) =
      { S with low := false, lowUs := 0, driving := false, ackPending := false, out := false } ∧
    ∀ lvl, run d.sio S (slotImage d lvl) =
      { S with low := false, lowUs := 0, driving := false, ackPending := false, out := false } := by
  rcases ht with h | h <;>
    simp [run, slotHead, slotImage, step, hlow, hack, h, HIGH_SPEED_TIMING,
      STANDARD_SPEED_TIMING]

/-- The device over a slot in which it sends a data bit. -/
theorem run_slot_data (d : Driver) (S : Device)
    (ht : d._timing = HIGH_SPEED_TIMING ∨ d._timing = STANDARD_SPEED_TIMING)
    (hlow : S.low = false) (hack : S.ackPending = false)
    (hph : S.phase = DevicePhase.dataOut) :
    (run d.sio S (slotHead d)).out = decide ((S.cell >>> (7 - S.count)) &&& 1 ≠ 0) ∧
    ∀ lvl, run d.sio S (slotImage d lvl) =
      if S.count + 1 = 8 then
        { S with
          low := false
          lowUs := 0
          driving := false
          out := decide ((S.cell >>> (7 - S.count)) &&& 1 ≠ 0)
          phase := DevicePhase.masterAck
          count := 0
          pointer := S.pointer + 1 }
      else
        { S with
          low := false
          lowUs := 0
          driving := false
          out := decide ((S.cell >>> (7 - S.count)) &&& 1 ≠ 0)
          count := S.count + 1 } := by
  rcases ht with h | h <;>
    simp [run, slotHead, slotImage, step, hlow, hack, hph, h, HIGH_SPEED_TIMING,
      STANDARD_SPEED_TIMING] <;> split_ifs <;> simp_all

end Device

theorem Linked.after {pin : Nat} {dev : Device} {w : World} (h : Linked pin dev w)
    (es : List Event) : Linked pin dev (w.after es) := h

namespace Driver

/-- The sampled slot, with the level named. -/
theorem rxBit_level (d : Driver) (w : World) :
    d.rxBit w = (w.level (w.trace ++ slotHead d) d.sio,
      w.after (slotImage d (w.level (w.trace ++ slotHead d) d.sio))) := by
  unfold rxBit slotImage slotHead
  simp only [_lineLow, _releaseLine, _readLine, digitalRead, digitalWrite, delayMicroseconds,
    emit_eq_after, World.after_after]
  split_ifs <;> simp [World.after, List.append_assoc]

/-- The transmitted byte, with the level of the acknowledge slot named. -/
theorem txByte_level (d : Driver) (v : Nat) (w : World) :
    d.txByte v w =
      (!(w.level (w.trace ++
          ([7, 6, 5, 4, 3, 2, 1, 0].flatMap fun b => bitImage d (decide ((v >>> b) &&& 1 ≠ 0))) ++
          slotHead d) d.sio),
        w.after (byteImage d v (w.level (w.trace ++
          ([7, 6, 5, 4, 3, 2, 1, 0].flatMap fun b => bitImage d (decide ((v >>> b) &&& 1 ≠ 0))) ++
          slotHead d) d.sio))) := by
  have hf : [7, 6, 5, 4, 3, 2, 1, 0].foldl (d.txByteBit v) w =
      w.after ([7, 6, 5, 4, 3, 2, 1, 0].flatMap fun b =>
        bitImage d (decide ((v >>> b) &&& 1 ≠ 0))) := by
    simp [List.foldl, txByteBit_image, World.after_after, List.flatMap, List.append_assoc]
  unfold txByte
  simp only [hf, rxBit_level]
  simp [byteImage, World.after, List.append_assoc]

end Driver

namespace Device

/-- The device over some bits of a byte it is receiving, the byte not yet
complete. -/
theorem run_bits (d : Driver) (ph : DevicePhase)
    (ht : d._timing = HIGH_SPEED_TIMING ∨ d._timing = STANDARD_SPEED_TIMING)
    (hph : ph = DevicePhase.devAddr ∨ ph = DevicePhase.memAddr ∨ ph = DevicePhase.dataIn) :
    ∀ (bs : List Bool) (X : Device), X.phase = ph → X.ackPending = false → X.low = false →
      X.lowUs = 0 → X.driving = false → X.count + bs.length < 8 →
      run d.sio X (bs.flatMap (bitImage d)) =
        { X with
          out := if bs = [] then X.out else true
          shift := bs.foldl (fun s b => s * 2 + (if b then 1 else 0)) X.shift
          count := X.count + bs.length } := by
  intro bs
  induction bs with
  | nil => intro X _ _ _ _ _ _; rfl
  | cons b bs ih =>
    intro X h1 h2 h3 h4 h5 h6
    have hne : X.phase ≠ DevicePhase.dataOut := by
      rw [h1]; rcases hph with h | h | h <;> rw [h] <;> decide
    have hk : ¬ X.count + 1 = 8 := by
      simp only [List.length_cons] at h6
      omega
    have e : bitIn { X with low := false, lowUs := 0, driving := false, out := true } b =
        { X with out := true, shift := X.shift * 2 + (if b then 1 else 0),
                 count := X.count + 1 } := by
      obtain ⟨p, a, l, lu, dr, o, sh, c, se, pt, ee, sr⟩ := X
      simp only at h1 h2 h3 h4 h5 hk
      subst h1 h2 h3 h4 h5
      rcases hph with h | h | h <;> subst h <;> simp [bitIn, hk]
    have step := ih
      ({ X with
          out := true
          shift := X.shift * 2 + (if b then 1 else 0)
          count := X.count + 1 } : Device) h1 h2 h3 h4 h5
      (by simp only [List.length_cons] at h6 ⊢; omega)
    rw [List.flatMap_cons, run_append, run_bit d X b ht h3 h2 hne, e, step]
    simp only [List.foldl_cons, List.length_cons, if_true, mk.injEq, true_and, and_true]
    refine ⟨by simp, by omega⟩

theorem byte_of_bits :
    ∀ v < 256,
      ([7, 6, 5, 4, 3, 2, 1].map fun b => decide ((v >>> b) &&& 1 ≠ 0)).foldl
          (fun s b => s * 2 + (if b then 1 else 0)) 0 * 2 +
        (if decide ((v >>> 0) &&& 1 ≠ 0) then 1 else 0) = v := by
  decide

/-- The device over the eight bits of a byte sent by the master. -/
theorem run_byte_bits (d : Driver) (S : Device) (ph : DevicePhase) (v : Nat)
    (ht : d._timing = HIGH_SPEED_TIMING ∨ d._timing = STANDARD_SPEED_TIMING)
    (hph : ph = DevicePhase.devAddr ∨ ph = DevicePhase.memAddr ∨ ph = DevicePhase.dataIn)
    (hR : S.Ready ph) (hv : v < 256) :
    run d.sio S ([7, 6, 5, 4, 3, 2, 1, 0].flatMap fun b =>
      bitImage d (decide ((v >>> b) &&& 1 ≠ 0))) = byteIn { S with out := true } v := by
  obtain ⟨h1, h2, h3, h4, h5, h6, h7⟩ := hR
  have e : ([7, 6, 5, 4, 3, 2, 1, 0].flatMap fun b =>
      bitImage d (decide ((v >>> b) &&& 1 ≠ 0))) =
      ([7, 6, 5, 4, 3, 2, 1].map fun b => decide ((v >>> b) &&& 1 ≠ 0)).flatMap (bitImage d) ++
        bitImage d (decide ((v >>> 0) &&& 1 ≠ 0)) := by
    simp [List.flatMap]
  have hne : ph ≠ DevicePhase.dataOut := by
    rcases hph with h | h | h <;> rw [h] <;> decide
  have hlen : S.count + ([7, 6, 5, 4, 3, 2, 1].map fun b =>
      decide ((v >>> b) &&& 1 ≠ 0)).length < 8 := by
    rw [h6]; simp
  rw [e, run_append, run_bits d ph ht hph _ S h1 h2 h3 h4 h5 hlen]
  rw [run_bit d { S with
      out := if ([7, 6, 5, 4, 3, 2, 1].map fun b => decide ((v >>> b) &&& 1 ≠ 0)) = [] then S.out
        else true
      shift := ([7, 6, 5, 4, 3, 2, 1].map fun b => decide ((v >>> b) &&& 1 ≠ 0)).foldl
        (fun s b => s * 2 + (if b then 1 else 0)) S.shift
      count := S.count + ([7, 6, 5, 4, 3, 2, 1].map fun b =>
        decide ((v >>> b) &&& 1 ≠ 0)).length } _ ht h3 h2 (by rw [h1]; exact hne)]
  have hb := byte_of_bits v hv
  obtain ⟨p, a, l, lu, dr, o, sh, c, se, pt, ee, sr, pw⟩ := S
  simp only at h1 h2 h3 h4 h5 h6 h7
  subst h1 h2 h3 h4 h5 h6 h7
  rcases hph with h | h | h <;> subst h <;>
    simp only [bitIn, List.length_map, List.length_cons, List.length_nil] <;>
    simp only [hb] <;> simp only [byteIn, store] <;> (try split_ifs) <;> rfl

end Device

namespace Device

theorem byteIn_ack (S : Device) (ph : DevicePhase) (v : Nat)
    (hph : ph = DevicePhase.devAddr ∨ ph = DevicePhase.memAddr ∨ ph = DevicePhase.dataIn)
    (hR : S.Ready ph) :
    (byteIn { S with out := true } v).low = false ∧
    (byteIn { S with out := true } v).ackPending = true := by
  obtain ⟨h1, h2, h3, h4, h5, h6, h7⟩ := hR
  obtain ⟨p, a, l, lu, dr, o, sh, c, se, pt, ee, sr, pw⟩ := S
  simp only at h1 h2 h3 h4 h5 h6 h7
  subst h1 h2 h3 h4 h5 h6 h7
  rcases hph with h | h | h <;> subst h <;> simp only [byteIn, store] <;>
    (try split_ifs) <;> first | exact ⟨rfl, rfl⟩ | exact ⟨trivial, rfl⟩ | exact ⟨rfl, trivial⟩ | exact ⟨trivial, trivial⟩

end Device

namespace Driver

/-- A byte sent to the ideal device while it is receiving: the byte is
acknowledged, and the device has taken it in. -/
theorem txByte_linked (d : Driver) (dev : Device) (w : World) (v : Nat) (ph : DevicePhase)
    (hL : Linked d.sio dev w)
    (ht : d._timing = HIGH_SPEED_TIMING ∨ d._timing = STANDARD_SPEED_TIMING)
    (hph : ph = DevicePhase.devAddr ∨ ph = DevicePhase.memAddr ∨ ph = DevicePhase.dataIn)
    (hR : (Device.run d.sio dev w.trace).Ready ph) (hv : v < 256) :
    d.txByte v w = (true, w.after (byteImage d v false)) ∧
    Device.run d.sio dev (w.after (byteImage d v false)).trace =
      (Device.byteIn { Device.run d.sio dev w.trace with out := true } v).acked := by
  obtain ⟨a1, a2⟩ := Device.byteIn_ack _ ph v hph hR
  have hbits := Device.run_byte_bits d _ ph v ht hph hR hv
  obtain ⟨s1, s2⟩ := Device.run_slot_ack d _ ht a1 a2
  have hlvl : w.level (w.trace ++
      ([7, 6, 5, 4, 3, 2, 1, 0].flatMap fun b => bitImage d (decide ((v >>> b) &&& 1 ≠ 0))) ++
      slotHead d) d.sio = false := by
    rw [hL, Device.run_append, Device.run_append, hbits, s1]
  constructor
  · rw [txByte_level, hlvl]
    rfl
  · rw [World.after_trace, byteImage, ← List.append_assoc, Device.run_append, Device.run_append,
      hbits, s2 false]
    rfl

end Driver

namespace Device

theorem sent_facts (S : Device) :
    S.sent.ackPending = S.ackPending ∧ S.sent.low = false ∧ S.sent.lowUs = 0 ∧
    S.sent.driving = false ∧ S.sent.security = S.security ∧ S.sent.eeprom = S.eeprom ∧
    S.sent.securityReg = S.securityReg ∧ S.sent.shift = S.shift ∧
    (¬ S.count + 1 = 8 → S.sent.phase = S.phase ∧ S.sent.count = S.count + 1 ∧
      S.sent.pointer = S.pointer ∧ S.sent.cell = S.cell) ∧
    (S.count + 1 = 8 → S.sent.phase = DevicePhase.masterAck ∧ S.sent.count = 0 ∧
      S.sent.pointer = S.pointer + 1) := by
  unfold sent
  split_ifs with h
  · exact ⟨rfl, rfl, rfl, rfl, rfl, rfl, rfl, rfl, fun k => absurd h k, fun _ => ⟨rfl, rfl, rfl⟩⟩
  · exact ⟨rfl, rfl, rfl, rfl, rfl, rfl, rfl, rfl, fun _ => ⟨rfl, rfl, rfl, rfl⟩,
      fun k => absurd k h⟩

theorem collect_eq :
    ∀ (bits : List Nat) (S : Device) (acc : Nat), S.count + bits.length ≤ 8 →
      S.collect acc bits = assemble S.cell acc bits S.count := by
  intro bits
  induction bits with
  | nil => intro S acc _; rfl
  | cons bit bits ih =>
    intro S acc h
    simp only [List.length_cons] at h
    unfold collect assemble
    cases bits with
    | nil => rfl
    | cons b2 bits2 =>
      simp only [List.length_cons] at h
      obtain ⟨_, _, _, _, _, _, _, _, hs, _⟩ := sent_facts S
      obtain ⟨_, s2, _, s4⟩ := hs (by omega)
      rw [ih S.sent _ (by rw [s2]; simp only [List.length_cons]; omega), s2, s4]
      rfl

theorem assemble_byte : ∀ c < 256, assemble c 0 [7, 6, 5, 4, 3, 2, 1, 0] 0 = c := by
  decide

end Device

namespace Driver

/-- One sampled slot of a byte that the ideal device is sending. -/
theorem rxByteBit_linked (d : Driver) (dev : Device) (w : World) (acc bit : Nat)
    (hL : Linked d.sio dev w)
    (ht : d._timing = HIGH_SPEED_TIMING ∨ d._timing = STANDARD_SPEED_TIMING)
    (hph : (Device.run d.sio dev w.trace).phase = DevicePhase.dataOut)
    (hack : (Device.run d.sio dev w.trace).ackPending = false)
    (hlow : (Device.run d.sio dev w.trace).low = false) :
    d.rxByteBit (acc, w) bit =
      ((if (Device.run d.sio dev w.trace).outBit then (acc ||| ((1 <<< bit) % 256)) % 256
        else acc),
        w.after (slotImage d (Device.run d.sio dev w.trace).outBit)) ∧
    Device.run d.sio dev (w.after (slotImage d (Device.run d.sio dev w.trace).outBit)).trace =
      (Device.run d.sio dev w.trace).sent := by
  obtain ⟨s1, s2⟩ := Device.run_slot_data d _ ht hlow hack hph
  have hlvl : w.level (w.trace ++ slotHead d) d.sio = (Device.run d.sio dev w.trace).outBit := by
    rw [hL, Device.run_append, s1]
    rfl
  constructor
  · simp only [rxByteBit, rxBit_level, hlvl]
    split_ifs <;> rfl
  · rw [World.after_trace, Device.run_append, s2]
    rfl

/-- The sampled slots of a byte that the ideal device is sending. -/
theorem rxByteBits_linked (d : Driver) (dev : Device)
    (ht : d._timing = HIGH_SPEED_TIMING ∨ d._timing = STANDARD_SPEED_TIMING) :
    ∀ (bits : List Nat) (acc : Nat) (w : World), Linked d.sio dev w →
      (bits ≠ [] → (Device.run d.sio dev w.trace).phase = DevicePhase.dataOut) →
      (Device.run d.sio dev w.trace).ackPending = false →
      (Device.run d.sio dev w.trace).low = false →
      (Device.run d.sio dev w.trace).count + bits.length ≤ 8 →
      ∃ es, bits.foldl d.rxByteBit (acc, w) =
          ((Device.run d.sio dev w.trace).collect acc bits, w.after es) ∧
        Device.run d.sio dev (w.trace ++ es) =
          Device.sent^[bits.length] (Device.run d.sio dev w.trace) := by
  intro bits
  induction bits with
  | nil =>
    intro acc w _ _ _ _ _
    exact ⟨[], by simp [Device.collect, World.after_nil], by simp⟩
  | cons bit bits ih =>
    intro acc w hL hph hack hlow hlen
    simp only [List.length_cons] at hlen
    obtain ⟨e1, e2⟩ := rxByteBit_linked d dev w acc bit hL ht (hph (by simp)) hack hlow
    obtain ⟨f1, f2, _, _, _, _, _, _, f9, _⟩ := Device.sent_facts (Device.run d.sio dev w.trace)
    rw [World.after_trace] at e2
    obtain ⟨es, g1, g2⟩ := ih
      (if (Device.run d.sio dev w.trace).outBit then (acc ||| ((1 <<< bit) % 256)) % 256 else acc)
      (w.after (slotImage d (Device.run d.sio dev w.trace).outBit)) hL
      (by
        intro hne
        rw [World.after_trace, e2]
        have hl : 0 < bits.length := List.length_pos.mpr hne
        rw [(f9 (by omega)).1]
        exact hph (by simp))
      (by rw [World.after_trace, e2, f1]; exact hack)
      (by rw [World.after_trace, e2]; exact f2)
      (by
        rw [World.after_trace, e2]
        by_cases hne : bits = []
        · rw [hne]
          simp only [List.length_nil, Nat.add_zero]
          by_cases k : (Device.run d.sio dev w.trace).count + 1 = 8
          · obtain ⟨_, _, _, _, _, _, _, _, _, f10⟩ :=
              Device.sent_facts (Device.run d.sio dev w.trace)
            rw [(f10 k).2.1]
            omega
          · rw [(f9 k).2.1]
            omega
        · have hl : 0 < bits.length := List.length_pos.mpr hne
          rw [(f9 (by omega)).2.1]
          omega)
    rw [World.after_trace, e2] at g1 g2
    refine ⟨slotImage d (Device.run d.sio dev w.trace).outBit ++ es, ?_, ?_⟩
    · rw [List.foldl_cons, e1, g1, World.after_after]
      rfl
    · rw [← List.append_assoc, g2, List.length_cons, Function.iterate_succ_apply]

end Driver

namespace Device

theorem sent_eight (S : Device) (hR : S.Ready DevicePhase.dataOut) :
    sent^[8] S =
      { S with
        out := decide ((S.cell >>> 0) &&& 1 ≠ 0)
        phase := DevicePhase.masterAck
        pointer := S.pointer + 1 } := by
  obtain ⟨h1, h2, h3, h4, h5, h6, h7⟩ := hR
  obtain ⟨p, a, l, lu, dr, o, sh, c, se, pt, ee, sr, pw⟩ := S
  simp only at h1 h2 h3 h4 h5 h6 h7
  subst h1 h2 h3 h4 h5 h6 h7
  simp [Function.iterate_succ, sent, outBit, cell]

end Device

namespace Driver

/-- A byte read from the ideal device while it is sending: the driver receives
the byte under the address pointer, the pointer moves on, and the device
goes on sending after an ACK and stops after a NACK. -/
theorem rxByte_linked (d : Driver) (dev : Device) (w : World) (ack : Bool)
    (hL : Linked d.sio dev w)
    (ht : d._timing = HIGH_SPEED_TIMING ∨ d._timing = STANDARD_SPEED_TIMING)
    (hR : (Device.run d.sio dev w.trace).Ready DevicePhase.dataOut)
    (hc : (Device.run d.sio dev w.trace).cell < 256) :
    ∃ es, d.rxByte ack w = ((Device.run d.sio dev w.trace).cell, w.after es) ∧
      Device.run d.sio dev (w.trace ++ es) =
        if ack then
          { Device.run d.sio dev w.trace with
            out := true
            pointer := (Device.run d.sio dev w.trace).pointer + 1 }
        else
          { Device.run d.sio dev w.trace with
            out := true
            pointer := (Device.run d.sio dev w.trace).pointer + 1
            phase := DevicePhase.idle } := by
  obtain ⟨es, g1, g2⟩ := rxByteBits_linked d dev ht [7, 6, 5, 4, 3, 2, 1, 0] 0 w hL
    (fun _ => hR.1) hR.2.1 hR.2.2.1 (by rw [hR.2.2.2.2.2.1]; decide)
  have hv : (Device.run d.sio dev w.trace).collect 0 [7, 6, 5, 4, 3, 2, 1, 0] =
      (Device.run d.sio dev w.trace).cell := by
    rw [Device.collect_eq _ _ _ (by rw [hR.2.2.2.2.2.1]; decide), hR.2.2.2.2.2.1]
    exact Device.assemble_byte _ hc
  have h8 := Device.sent_eight _ hR
  rw [show ([7, 6, 5, 4, 3, 2, 1, 0] : List Nat).length = 8 from rfl, h8] at g2
  rw [hv] at g1
  obtain ⟨h1, h2, h3, h4, h5, h6, h7⟩ := hR
  refine ⟨es ++ bitImage d (!ack), ?_, ?_⟩
  · unfold rxByte
    simp only [g1]
    cases ack
    · simp only [txBit1_image, World.after_after, Bool.not_false]
      rfl
    · simp only [txBit0_image, World.after_after, Bool.not_true]
      rfl
  · rw [← List.append_assoc, Device.run_append, g2]
    clear g1 g2 hv h8 hc
    generalize Device.run d.sio dev w.trace = S at h1 h2 h3 h4 h5 h6 h7 ⊢
    obtain ⟨p, a, l, lu, dr, o, sh, c, se, pt, ee, sr, pw⟩ := S
    simp only at h1 h2 h3 h4 h5 h6 h7
    subst h1 h2 h3 h4 h5 h6 h7
    rw [Device.run_bit d _ _ ht]
    · cases ack <;> simp [Device.bitIn]
    · rfl
    · rfl
    · simp

end Driver

/-! ## Transactions with the ideal device -/

namespace Driver

/-- A start or stop condition seen by the ideal device. -/
theorem guard_linked (d : Driver) (dev : Device) (w : World) (sec : Bool) (ptr : Nat)
    (ee sr : Nat → Nat)
    (ht : d._timing = HIGH_SPEED_TIMING ∨ d._timing = STANDARD_SPEED_TIMING)
    (hlow : (Device.run d.sio dev w.trace).low = false)
    (h1 : (Device.run d.sio dev w.trace).security = sec)
    (h2 : (Device.run d.sio dev w.trace).pointer = ptr)
    (h3 : (Device.run d.sio dev w.trace).eeprom = ee)
    (h4 : (Device.run d.sio dev w.trace).securityReg = sr) :
    (Device.run d.sio dev (w.after (guardImage d)).trace).Is DevicePhase.devAddr sec ptr ee sr := by
  rw [World.after_trace, Device.run_append, Device.run_guard d _ hlow ht]
  exact ⟨⟨rfl, rfl, hlow, rfl, rfl, rfl, rfl⟩, h1, h2, h3, h4⟩

/-- The device address byte of a memory area, sent to the ideal device. -/
theorem txByte_devAddr (d : Driver) (dev : Device) (w : World) (v : Nat) (sec : Bool)
    (ptr : Nat) (ee sr : Nat → Nat) (hL : Linked d.sio dev w)
    (ht : d._timing = HIGH_SPEED_TIMING ∨ d._timing = STANDARD_SPEED_TIMING)
    (hS : (Device.run d.sio dev w.trace).Is DevicePhase.devAddr sec ptr ee sr) (hv : v < 256)
    (hop : v / 16 = cmd.OPCODE_EEPROM ∨ v / 16 = cmd.OPCODE_SECURITY) :
    d.txByte v w = (true, w.after (byteImage d v false)) ∧
    (Device.run d.sio dev (w.after (byteImage d v false)).trace).Is
      (if v % 2 = 1 then DevicePhase.dataOut else DevicePhase.memAddr)
      (decide (v / 16 = cmd.OPCODE_SECURITY)) ptr ee sr := by
  obtain ⟨hR, h1, h2, h3, h4⟩ := hS
  obtain ⟨e1, e2⟩ := txByte_linked d dev w v _ hL ht (Or.inl rfl) hR hv
  refine ⟨e1, ?_⟩
  rw [e2]
  obtain ⟨r1, r2, r3, r4, r5, r6, r7⟩ := hR
  generalize Device.run d.sio dev w.trace = S at h1 h2 h3 h4 r1 r2 r3 r4 r5 r6 r7 ⊢
  obtain ⟨p, a, l, lu, dr, o, sh, c, se, pt, ee0, sr0, pw⟩ := S
  simp only at h1 h2 h3 h4 r1 r2 r3 r4 r5 r6 r7
  subst h1 h2 h3 h4 r1 r2 r3 r4 r5 r6 r7
  simp only [Device.byteIn, hop, if_true, Device.acked]
  exact ⟨⟨rfl, rfl, rfl, rfl, rfl, rfl, rfl⟩, rfl, rfl, rfl, rfl⟩

/-- The memory address byte, sent to the ideal device. -/
theorem txByte_memAddr (d : Driver) (dev : Device) (w : World) (v : Nat) (sec : Bool)
    (ptr : Nat) (ee sr : Nat → Nat) (hL : Linked d.sio dev w)
    (ht : d._timing = HIGH_SPEED_TIMING ∨ d._timing = STANDARD_SPEED_TIMING)
    (hS : (Device.run d.sio dev w.trace).Is DevicePhase.memAddr sec ptr ee sr) (hv : v < 256) :
    d.txByte v w = (true, w.after (byteImage d v false)) ∧
    (Device.run d.sio dev (w.after (byteImage d v false)).trace).Is DevicePhase.dataIn sec v ee
      sr := by
  obtain ⟨hR, h1, h2, h3, h4⟩ := hS
  obtain ⟨e1, e2⟩ := txByte_linked d dev w v _ hL ht (Or.inr (Or.inl rfl)) hR hv
  refine ⟨e1, ?_⟩
  rw [e2]
  obtain ⟨r1, r2, r3, r4, r5, r6, r7⟩ := hR
  generalize Device.run d.sio dev w.trace = S at h1 h2 h3 h4 r1 r2 r3 r4 r5 r6 r7 ⊢
  obtain ⟨p, a, l, lu, dr, o, sh, c, se, pt, ee0, sr0, pw⟩ := S
  simp only at h1 h2 h3 h4 r1 r2 r3 r4 r5 r6 r7
  subst h1 h2 h3 h4 r1 r2 r3 r4 r5 r6 r7
  exact ⟨⟨rfl, rfl, rfl, rfl, rfl, rfl, rfl⟩, rfl, rfl, rfl, rfl⟩

/-- A data byte, sent to the ideal device: it is stored under the address
pointer (in the security register, only in the upper half). -/
theorem txByte_dataIn (d : Driver) (dev : Device) (w : World) (v : Nat) (sec : Bool)
    (ptr : Nat) (ee sr : Nat → Nat) (hL : Linked d.sio dev w)
    (ht : d._timing = HIGH_SPEED_TIMING ∨ d._timing = STANDARD_SPEED_TIMING)
    (hS : (Device.run d.sio dev w.trace).Is DevicePhase.dataIn sec ptr ee sr) (hv : v < 256)
    (hwin : sec = true → 16 ≤ ptr % 32) :
    d.txByte v w = (true, w.after (byteImage d v false)) ∧
    (Device.run d.sio dev (w.after (byteImage d v false)).trace).Is DevicePhase.dataIn sec
      (nextPointer dev.pageWrap ptr) (if sec then ee else Function.update ee (ptr % 128) v)
      (if sec then Function.update sr (ptr % 32) v else sr) := by
  obtain ⟨hR, h1, h2, h3, h4⟩ := hS
  obtain ⟨e1, e2⟩ := txByte_linked d dev w v _ hL ht (Or.inr (Or.inr rfl)) hR hv
  refine ⟨e1, ?_⟩
  rw [e2]
  obtain ⟨r1, r2, r3, r4, r5, r6, r7⟩ := hR
  have h5 : (Device.run d.sio dev w.trace).pageWrap = dev.pageWrap := Device.run_pageWrap _ _ _
  generalize Device.run d.sio dev w.trace = S at h1 h2 h3 h4 h5 r1 r2 r3 r4 r5 r6 r7 ⊢
  obtain ⟨p, a, l, lu, dr, o, sh, c, se, pt, ee0, sr0, pw⟩ := S
  simp only at h1 h2 h3 h4 h5 r1 r2 r3 r4 r5 r6 r7
  subst h1 h2 h3 h4 h5 r1 r2 r3 r4 r5 r6 r7
  cases se
  · exact ⟨⟨rfl, rfl, rfl, rfl, rfl, rfl, rfl⟩, rfl, rfl, rfl, rfl⟩
  · have hw : pt % 32 ≥ 16 := hwin rfl
    simp only [Device.byteIn, Device.store, if_true, hw, Device.acked]
    exact ⟨⟨rfl, rfl, rfl, rfl, rfl, rfl, rfl⟩, rfl, rfl, rfl, rfl⟩

end Driver

namespace Driver

theorem deviceAddress_parts (opcode : Nat) (read : Bool) (d : Driver) (hop : opcode < 16) :
    d._deviceAddress opcode read < 256 ∧ d._deviceAddress opcode read / 16 = opcode ∧
    d._deviceAddress opcode read % 2 = (if read then 1 else 0) := by
  have key : ∀ o < 16, ∀ m < 8, ∀ r : Bool,
      ((o <<< 4) ||| (m <<< 1) ||| (if r then 1 else 0)) % 256 =
        o * 16 + m * 2 + (if r then 1 else 0) := by
    decide
  have hm : d._config.addressBits &&& 7 < 8 :=
    Nat.lt_of_le_of_lt Nat.and_le_right (by decide)
  have e : d._deviceAddress opcode read =
      opcode * 16 + (d._config.addressBits &&& 7) * 2 + (if read then 1 else 0) :=
    key opcode hop _ hm read
  have hr : (if read then 1 else 0 : Nat) < 2 := by split_ifs <;> omega
  rw [e]
  refine ⟨by omega, by omega, by omega⟩

/-- The transmit loop of a sequential write to the ideal device: every byte is
acknowledged and stored. -/
theorem writeRawLoop_linked (d : Driver) (dev : Device) (data : List Nat) (sec : Bool)
    (ht : d._timing = HIGH_SPEED_TIMING ∨ d._timing = STANDARD_SPEED_TIMING) :
    ∀ (n i : Nat) (w : World) (ptr : Nat) (ee sr : Nat → Nat), Linked d.sio dev w →
      (Device.run d.sio dev w.trace).Is DevicePhase.dataIn sec ptr ee sr →
      (∀ k, k < n → data.getD (i + k) 0 < 256) →
      (sec = true → ∀ k, k < n → 16 ≤ (ptr + k) % 32) →
      (dev.pageWrap = true → ptr % 8 + n ≤ 8) →
      ∃ es q, d._writeRawLoop data n i w = (none, w.after es) ∧
        (Device.run d.sio dev (w.after es).trace).Is DevicePhase.dataIn sec q
          (if sec then ee else writeMem 128 ee ptr ((List.range' i n).map fun k => data.getD k 0))
          (if sec then writeMem 32 sr ptr ((List.range' i n).map fun k => data.getD k 0)
            else sr) := by
  intro n
  induction n with
  | zero =>
    intro i w ptr ee sr _ hS _ _ _
    refine ⟨[], ptr, by simp [_writeRawLoop, World.after_nil], ?_⟩
    rw [World.after_nil]
    cases sec <;> simpa [writeMem] using hS
  | succ n ih =>
    intro i w ptr ee sr hL hS hv hwin hpage
    obtain ⟨e1, e2⟩ := txByte_dataIn d dev w (data.getD i 0) sec ptr ee sr hL ht hS
      (by simpa using hv 0 (Nat.succ_pos n))
      (fun h => by simpa using hwin h 0 (Nat.succ_pos n))
    rcases Nat.eq_zero_or_pos n with h0 | hpos
    · subst h0
      refine ⟨byteImage d (data.getD i 0) false, nextPointer dev.pageWrap ptr, ?_, ?_⟩
      · simp only [_writeRawLoop, e1, Bool.not_true, Bool.false_eq_true, if_false]
      · cases sec <;> simpa [List.range'_succ, writeMem] using e2
    · have hq : nextPointer dev.pageWrap ptr = ptr + 1 := by
        unfold nextPointer
        split_ifs with hw
        · have := hpage hw
          omega
        · rfl
      rw [hq] at e2
      obtain ⟨es, q, g1, g2⟩ := ih (i + 1) (w.after (byteImage d (data.getD i 0) false))
        (ptr + 1) _ _ hL e2
        (fun k hk => by
          have := hv (k + 1) (Nat.succ_lt_succ hk)
          rwa [show i + (k + 1) = i + 1 + k by omega] at this)
        (fun h k hk => by
          have := hwin h (k + 1) (Nat.succ_lt_succ hk)
          rwa [show ptr + (k + 1) = ptr + 1 + k by omega] at this)
        (fun h => by
          have := hpage h
          omega)
      refine ⟨byteImage d (data.getD i 0) false ++ es, q, ?_, ?_⟩
      · simp only [_writeRawLoop, e1, Bool.not_true, Bool.false_eq_true, if_false, g1,
          World.after_after]
      · rw [← World.after_after]
        cases sec <;> simpa [List.range'_succ, writeMem] using g2

end Driver

namespace Driver

/-- A sequential write to a memory area of the ideal device: it returns OK;
afterwards the device waits for the next transaction and holds the bytes. -/
theorem writeRaw_linked (opcode address : Nat) (data : List Nat) (len : Nat) (d : Driver)
    (dev : Device) (w : World) (hL : Linked d.sio dev w)
    (ht : d._timing = HIGH_SPEED_TIMING ∨ d._timing = STANDARD_SPEED_TIMING)
    (hlow : (Device.run d.sio dev w.trace).low = false)
    (hop : opcode = cmd.OPCODE_EEPROM ∨ opcode = cmd.OPCODE_SECURITY) (haddr : address < 256)
    (hv : ∀ k, k < len → data.getD k 0 < 256)
    (hwin : opcode = cmd.OPCODE_SECURITY → ∀ k, k < len → 16 ≤ (address + k) % 32)
    (hpage : dev.pageWrap = true → address % 8 + len ≤ 8) :
    ∃ es q, d._writeRaw opcode address data len w = ⟨Status.Ok, (), d, w.after es⟩ ∧
      (Device.run d.sio dev (w.after es).trace).Is DevicePhase.devAddr
        (decide (opcode = cmd.OPCODE_SECURITY)) q
        (if decide (opcode = cmd.OPCODE_SECURITY) then (Device.run d.sio dev w.trace).eeprom
          else writeMem 128 (Device.run d.sio dev w.trace).eeprom address (bufferBytes data len))
        (if decide (opcode = cmd.OPCODE_SECURITY) then
          writeMem 32 (Device.run d.sio dev w.trace).securityReg address (bufferBytes data len)
          else (Device.run d.sio dev w.trace).securityReg) := by
  have hop16 : opcode < 16 := by rcases hop with h | h <;> rw [h] <;> decide
  obtain ⟨p1, p2, p3⟩ := deviceAddress_parts opcode false d hop16
  have s0 := guard_linked d dev w _ _ _ _ ht hlow rfl rfl rfl rfl
  obtain ⟨a1, a2⟩ := txByte_devAddr d dev (w.after (guardImage d)) (d._deviceAddress opcode false)
    _ _ _ _ hL ht s0 p1 (by rw [p2]; exact hop)
  rw [p2, p3] at a2
  simp only [Bool.false_eq_true, if_false, Nat.zero_ne_one] at a2
  obtain ⟨b1, b2⟩ := txByte_memAddr d dev
    ((w.after (guardImage d)).after (byteImage d (d._deviceAddress opcode false) false)) address
    _ _ _ _ hL ht a2 haddr
  obtain ⟨es, q, c1, c2⟩ := writeRawLoop_linked d dev data _ ht len 0
    (((w.after (guardImage d)).after (byteImage d (d._deviceAddress opcode false) false)).after
      (byteImage d address false)) address _ _ hL b2
    (fun k hk => by simpa using hv k hk)
    (fun h k hk => hwin (by simpa using h) k hk) hpage
  have s1 := guard_linked d dev
    ((((w.after (guardImage d)).after (byteImage d (d._deviceAddress opcode false) false)).after
      (byteImage d address false)).after es) _ _ _ _ ht c2.1.2.2.1 c2.2.1 c2.2.2.1 c2.2.2.2.1
    c2.2.2.2.2
  refine ⟨guardImage d ++ byteImage d (d._deviceAddress opcode false) false ++
    byteImage d address false ++ es ++ guardImage d, q, ?_, ?_⟩
  · simp only [_writeRaw, sendStart_image, sendStop_image, a1, b1, c1, Bool.not_true,
      Bool.false_eq_true, if_false]
    simp only [World.after_after]
  · simp only [World.after_after] at s1
    rw [bufferBytes, List.range_eq_range']
    exact s1

end Driver

theorem fillFrom_length : ∀ (cs buf : List Nat) (i : Nat), (fillFrom buf i cs).length = buf.length := by
  intro cs
  induction cs with
  | nil => intro buf i; rfl
  | cons c cs ih => intro buf i; rw [fillFrom, ih, List.length_set]

theorem fillFrom_getElem? :
    ∀ (cs buf : List Nat) (i j : Nat), i + cs.length ≤ buf.length →
      (fillFrom buf i cs)[j]? = if i ≤ j ∧ j < i + cs.length then cs[j - i]? else buf[j]? := by
  intro cs
  induction cs with
  | nil =>
    intro buf i j _
    have h : ¬ (i ≤ j ∧ j < i + ([] : List Nat).length) := by
      simp only [List.length_nil, Nat.add_zero]; omega
    rw [if_neg h]
    rfl
  | cons c cs ih =>
    intro buf i j h
    simp only [List.length_cons] at h
    rw [fillFrom, ih _ _ _ (by rw [List.length_set]; omega), List.getElem?_set]
    simp only [List.length_cons]
    by_cases h1 : i = j
    · subst h1
      have a1 : ¬ (i + 1 ≤ i ∧ i < i + 1 + cs.length) := by omega
      have a2 : i ≤ i ∧ i < i + (cs.length + 1) := by omega
      have a3 : i < buf.length := by omega
      rw [if_neg a1, if_pos rfl, if_pos a3, if_pos a2, Nat.sub_self]
      simp
    · by_cases h2 : i + 1 ≤ j ∧ j < i + 1 + cs.length
      · have a2 : i ≤ j ∧ j < i + (cs.length + 1) := by omega
        rw [if_pos h2, if_pos a2, show j - i = (j - (i + 1)) + 1 by omega]
        simp
      · have a2 : ¬ (i ≤ j ∧ j < i + (cs.length + 1)) := by omega
        rw [if_neg h2, if_neg h1, if_neg a2]

theorem fillFrom_all (buf cs : List Nat) (h : buf.length = cs.length) : fillFrom buf 0 cs = cs := by
  apply List.ext_getElem?
  intro j
  rw [fillFrom_getElem? cs buf 0 j (by omega)]
  by_cases k : j < cs.length
  · rw [if_pos ⟨Nat.zero_le _, by omega⟩, Nat.sub_zero]
  · rw [if_neg (by omega)]
    rw [List.getElem?_eq_none (by omega), List.getElem?_eq_none (by omega)]

theorem writeMem_other (size : Nat) :
    ∀ (vs : List Nat) (mem : Nat → Nat) (p a : Nat),
      (∀ j, j < vs.length → (p + j) % size ≠ a) → writeMem size mem p vs a = mem a := by
  intro vs
  induction vs with
  | nil => intro mem p a _; rfl
  | cons v vs ih =>
    intro mem p a h
    rw [writeMem, ih _ _ _ (fun j hj => by
      have := h (j + 1) (by simp only [List.length_cons]; omega)
      rwa [show p + (j + 1) = p + 1 + j by omega] at this)]
    have h0 := h 0 (by simp)
    rw [Nat.add_zero] at h0
    exact Function.update_noteq (Ne.symm h0) _ _

theorem writeMem_get (size : Nat) (hs : size = 128 ∨ size = 32) :
    ∀ (vs : List Nat) (mem : Nat → Nat) (p i : Nat), vs.length ≤ 8 → i < vs.length →
      writeMem size mem p vs ((p + i) % size) = vs.getD i 0 := by
  intro vs
  induction vs with
  | nil => intro mem p i _ h; exact absurd h (by simp)
  | cons v vs ih =>
    intro mem p i hl hi
    simp only [List.length_cons] at hl hi
    cases i with
    | zero =>
      rw [writeMem, Nat.add_zero, writeMem_other size vs _ _ _ (fun j hj => by
        rcases hs with h | h <;> subst h <;> omega)]
      simp
    | succ i =>
      rw [writeMem, show p + (i + 1) = p + 1 + i by omega, ih _ _ _ (by omega) (by omega)]
      simp

namespace Device

theorem run_millis (pin : Nat) (S : Device) (t : Nat) : run pin S [Event.millis t] = S := rfl

end Device

namespace Driver

/-- The receive loop of a random read from the ideal device: the bytes under
the address pointer are received in order, the last one answered NACK. -/
theorem readRandomLoop_linked (d : Driver) (dev : Device) (len : Nat) (sec : Bool)
    (ee sr : Nat → Nat)
    (ht : d._timing = HIGH_SPEED_TIMING ∨ d._timing = STANDARD_SPEED_TIMING) :
    ∀ (n i : Nat) (buf : List Nat) (w : World) (ptr : Nat), Linked d.sio dev w → i + n = len →
      (n ≠ 0 → (Device.run d.sio dev w.trace).Is DevicePhase.dataOut sec ptr ee sr) →
      (∀ k, k < n → cellAt sec ee sr (ptr + k) < 256) →
      ∃ es, d._readRandomLoop len n i buf w =
          (fillFrom buf i ((List.range' ptr n).map (cellAt sec ee sr)), w.after es) ∧
        (n ≠ 0 → (Device.run d.sio dev (w.after es).trace).low = false) := by
  intro n
  induction n with
  | zero =>
    intro i buf w ptr _ _ _ _
    exact ⟨[], by simp [_readRandomLoop, fillFrom, World.after_nil], fun h => absurd rfl h⟩
  | succ n ih =>
    intro i buf w ptr hL hlen hS hc
    obtain ⟨hR, h1, h2, h3, h4⟩ := hS (Nat.succ_ne_zero n)
    have hcell : (Device.run d.sio dev w.trace).cell = cellAt sec ee sr ptr := by
      simp only [Device.cell, cellAt, h1, h2, h3, h4]
    obtain ⟨es, e1, e2⟩ := rxByte_linked d dev w (decide (i + 1 < len)) hL ht hR
      (by rw [hcell]; simpa using hc 0 (Nat.succ_pos n))
    rw [hcell] at e1
    have hL2 : Linked d.sio dev (w.after es) := hL
    obtain ⟨es2, g1, g2⟩ := ih (i + 1) (buf.set i (cellAt sec ee sr ptr)) (w.after es) (ptr + 1)
      hL2 (by omega)
      (fun hn => by
        have hlt : i + 1 < len := by omega
        rw [World.after_trace, e2]
        simp only [hlt, decide_True, if_true]
        exact ⟨⟨hR.1, hR.2.1, hR.2.2.1, hR.2.2.2.1, hR.2.2.2.2.1, hR.2.2.2.2.2.1,
          hR.2.2.2.2.2.2⟩, h1, by rw [h2], h3, h4⟩)
      (fun k hk => by
        have := hc (k + 1) (Nat.succ_lt_succ hk)
        rwa [show ptr + (k + 1) = ptr + 1 + k by omega] at this)
    refine ⟨es ++ es2, ?_, ?_⟩
    · simp only [_readRandomLoop, e1, g1, World.after_after, List.range'_succ, List.map_cons,
        fillFrom]
    · intro _
      by_cases hn : n = 0
      · subst hn
        have hes2 : d._readRandomLoop len 0 (i + 1) (buf.set i (cellAt sec ee sr ptr))
            (w.after es) = (buf.set i (cellAt sec ee sr ptr), w.after es) := rfl
        rw [hes2] at g1
        have hw := congrArg (fun x => x.2.trace) g1
        simp only [World.after_trace] at hw
        have hnil : es2 = [] := by
          have := congrArg List.length hw
          simp only [List.length_append] at this
          exact List.length_eq_zero.mp (by omega)
        rw [hnil, List.append_nil, World.after_trace, e2]
        split_ifs <;> exact hR.2.2.1
      · rw [← World.after_after]
        exact g2 hn

end Driver

namespace Driver

/-- A random read from a memory area of the ideal device: it returns OK and
the buffer holds the bytes of the area from `address` on. -/
theorem readRandomRaw_linked (opcode address : Nat) (buf : List Nat) (len : Nat) (d : Driver)
    (dev : Device) (w : World) (hL : Linked d.sio dev w)
    (ht : d._timing = HIGH_SPEED_TIMING ∨ d._timing = STANDARD_SPEED_TIMING)
    (hlow : (Device.run d.sio dev w.trace).low = false)
    (hop : opcode = cmd.OPCODE_EEPROM ∨ opcode = cmd.OPCODE_SECURITY) (haddr : address < 256)
    (hc : ∀ k, k < len → cellAt (decide (opcode = cmd.OPCODE_SECURITY))
      (Device.run d.sio dev w.trace).eeprom (Device.run d.sio dev w.trace).securityReg
      (address + k) < 256) :
    ∃ es, d._readRandomRaw opcode address buf len w =
      ⟨Status.Ok, fillFrom buf 0 ((List.range' address len).map
        (cellAt (decide (opcode = cmd.OPCODE_SECURITY)) (Device.run d.sio dev w.trace).eeprom
          (Device.run d.sio dev w.trace).securityReg)), d, w.after es⟩ := by
  have hop16 : opcode < 16 := by rcases hop with h | h <;> rw [h] <;> decide
  obtain ⟨p1, p2, p3⟩ := deviceAddress_parts opcode false d hop16
  obtain ⟨q1, q2, q3⟩ := deviceAddress_parts opcode true d hop16
  have s0 := guard_linked d dev w _ _ _ _ ht hlow rfl rfl rfl rfl
  obtain ⟨a1, a2⟩ := txByte_devAddr d dev (w.after (guardImage d)) (d._deviceAddress opcode false)
    _ _ _ _ hL ht s0 p1 (by rw [p2]; exact hop)
  rw [p2, p3] at a2
  simp only [Bool.false_eq_true, if_false, Nat.zero_ne_one] at a2
  obtain ⟨b1, b2⟩ := txByte_memAddr d dev
    ((w.after (guardImage d)).after (byteImage d (d._deviceAddress opcode false) false)) address
    _ _ _ _ hL ht a2 haddr
  have s1 := guard_linked d dev
    (((w.after (guardImage d)).after (byteImage d (d._deviceAddress opcode false) false)).after
      (byteImage d address false)) _ _ _ _ ht b2.1.2.2.1 b2.2.1 b2.2.2.1 b2.2.2.2.1 b2.2.2.2.2
  obtain ⟨c1, c2⟩ := txByte_devAddr d dev
    ((((w.after (guardImage d)).after (byteImage d (d._deviceAddress opcode false) false)).after
      (byteImage d address false)).after (guardImage d)) (d._deviceAddress opcode true)
    _ _ _ _ hL ht s1 q1 (by rw [q2]; exact hop)
  rw [q2, q3] at c2
  simp only [if_true] at c2
  obtain ⟨es, l1, _⟩ := readRandomLoop_linked d dev len _ _ _ ht len 0 buf
    (((((w.after (guardImage d)).after (byteImage d (d._deviceAddress opcode false) false)).after
      (byteImage d address false)).after (guardImage d)).after
      (byteImage d (d._deviceAddress opcode true) false)) address hL (by omega) (fun _ => c2) hc
  refine ⟨guardImage d ++ byteImage d (d._deviceAddress opcode false) false ++
    byteImage d address false ++ guardImage d ++
    byteImage d (d._deviceAddress opcode true) false ++ es ++ guardImage d, ?_⟩
  simp only [_readRandomRaw, sendStart_image, sendStop_image, a1, b1, c1, l1, Bool.not_true,
    Bool.false_eq_true, if_false]
  simp only [World.after_after]

/-- An address-only exchange with a memory opcode: the ideal device
acknowledges and waits for the next transaction, its memory unchanged. -/
theorem addressOnlyRaw_linked (opcode : Nat) (d : Driver) (dev : Device) (w : World)
    (hL : Linked d.sio dev w)
    (ht : d._timing = HIGH_SPEED_TIMING ∨ d._timing = STANDARD_SPEED_TIMING)
    (hlow : (Device.run d.sio dev w.trace).low = false)
    (hop : opcode = cmd.OPCODE_EEPROM ∨ opcode = cmd.OPCODE_SECURITY) :
    ∃ es, d._addressOnlyRaw opcode false w = ⟨Status.Ok, true, d, w.after es⟩ ∧
      (Device.run d.sio dev (w.after es).trace).low = false ∧
      (Device.run d.sio dev (w.after es).trace).eeprom = (Device.run d.sio dev w.trace).eeprom ∧
      (Device.run d.sio dev (w.after es).trace).securityReg =
        (Device.run d.sio dev w.trace).securityReg := by
  have hop16 : opcode < 16 := by rcases hop with h | h <;> rw [h] <;> decide
  obtain ⟨p1, p2, p3⟩ := deviceAddress_parts opcode false d hop16
  have s0 := guard_linked d dev w _ _ _ _ ht hlow rfl rfl rfl rfl
  obtain ⟨a1, a2⟩ := txByte_devAddr d dev (w.after (guardImage d)) (d._deviceAddress opcode false)
    _ _ _ _ hL ht s0 p1 (by rw [p2]; exact hop)
  have s1 := guard_linked d dev
    ((w.after (guardImage d)).after (byteImage d (d._deviceAddress opcode false) false))
    _ _ _ _ ht a2.1.2.2.1 a2.2.1 a2.2.2.1 a2.2.2.2.1 a2.2.2.2.2
  refine ⟨guardImage d ++ byteImage d (d._deviceAddress opcode false) false ++ guardImage d,
    ?_, ?_⟩
  · simp only [_addressOnlyRaw, sendStart_image, sendStop_image, a1]
    simp only [World.after_after]
  · simp only [World.after_after] at s1
    exact ⟨s1.1.2.2.1, s1.2.2.2.1, s1.2.2.2.2⟩

/-- What `_trackIo` makes of a success on an initialized driver: one clock
reading; configuration and timing stay. -/
theorem trackIo_ok_linked (d : Driver) (w : World) (hinit : d._initialized = true) :
    ∃ e t, d._trackIo Status.Ok w = ⟨Status.Ok, (), e, w.after [Event.millis t]⟩ ∧
      e._initialized = true ∧ e._config = d._config ∧ e._timing = d._timing := by
  simp only [_trackIo, hinit, millis, emit_eq_after, Bool.not_true, Bool.false_eq_true, if_false,
    ok_Ok, if_true]
  split_ifs <;> exact ⟨_, _, rfl, rfl, rfl, rfl⟩

/-- The write-ready wait with the ideal device: the first poll is acknowledged. -/
theorem waitReady_linked (fuel timeoutMs : Nat) (d : Driver) (dev : Device) (w : World)
    (hinit : d._initialized = true) (hL : Linked d.sio dev w)
    (ht : d._timing = HIGH_SPEED_TIMING ∨ d._timing = STANDARD_SPEED_TIMING)
    (hlow : (Device.run d.sio dev w.trace).low = false) :
    ∃ es e, d.waitReady (fuel + 1) timeoutMs w = some ⟨Status.Ok, (), e, w.after es⟩ ∧
      e._initialized = true ∧ e._config = d._config ∧ e._timing = d._timing ∧
      (Device.run d.sio dev (w.after es).trace).low = false ∧
      (Device.run d.sio dev (w.after es).trace).eeprom = (Device.run d.sio dev w.trace).eeprom ∧
      (Device.run d.sio dev (w.after es).trace).securityReg =
        (Device.run d.sio dev w.trace).securityReg := by
  have hrun : ∀ t, Device.run d.sio dev (w.after [Event.millis t]).trace =
      Device.run d.sio dev w.trace := by
    intro t
    rw [World.after_trace, Device.run_append]
    rfl
  obtain ⟨es, a1, a2, a3, a4⟩ := addressOnlyRaw_linked cmd.OPCODE_EEPROM
    { d with _driverState := DriverState.BUSY } dev
    (w.after [Event.millis (w.clock w.trace % 4294967296)]) hL ht
    (by rw [show Driver.sio { d with _driverState := DriverState.BUSY } = d.sio from rfl, hrun]
        exact hlow) (Or.inl rfl)
  obtain ⟨e, t, b1, b2, b3, b4⟩ := trackIo_ok_linked { d with _driverState := DriverState.BUSY }
    ((w.after [Event.millis (w.clock w.trace % 4294967296)]).after es) hinit
  refine ⟨[Event.millis (w.clock w.trace % 4294967296)] ++ es ++ [Event.millis t], e, ?_, b2, b3,
    b4, ?_⟩
  · simp only [hinit] at a1 b1
    simp only [waitReady, _checkInitialized, hinit, Bool.not_true, Bool.false_eq_true, if_false,
      ok_Ok, millis, emit_eq_after, waitReadyLoop, a1, if_true, b1]
    simp only [World.after_after]
  · rw [show Driver.sio { d with _driverState := DriverState.BUSY } = d.sio from rfl, hrun] at a3 a4
    rw [show Driver.sio { d with _driverState := DriverState.BUSY } = d.sio from rfl] at a2
    rw [← World.after_after, ← World.after_after, World.after_trace, Device.run_append]
    exact ⟨a2, a3, a4⟩

end Driver

theorem bufferBytes_self : ∀ data : List Nat, bufferBytes data data.length = data := by
  intro data
  apply List.ext_getElem?
  intro i
  by_cases h : i < data.length
  · simp [bufferBytes, h, List.getD_eq_getElem?_getD]
  · rw [List.getElem?_eq_none (by simpa [bufferBytes] using h),
      List.getElem?_eq_none (by simpa using h)]

theorem map_range'_eq (f : Nat → Nat) :
    ∀ (data : List Nat) (a : Nat), (∀ k, k < data.length → f (a + k) = data.getD k 0) →
      (List.range' a data.length).map f = data := by
  intro data
  induction data with
  | nil => intro a _; rfl
  | cons x xs ih =>
    intro a h
    have h0 := h 0 (by simp)
    simp only [List.length_cons, List.range'_succ, List.map_cons]
    rw [ih (a + 1) (fun k hk => by
      have := h (k + 1) (by simp only [List.length_cons]; omega)
      rw [show a + (k + 1) = a + 1 + k by omega] at this
      simpa using this)]
    rw [Nat.add_zero] at h0
    rw [h0]
    rfl

theorem getD_lt_of_mem (data : List Nat) (hv : ∀ b ∈ data, b < 256) (k : Nat)
    (hk : k < data.length) : data.getD k 0 < 256 := by
  rw [List.getD_eq_getElem _ _ hk]
  exact hv _ (List.getElem_mem _)

namespace Driver

/-- A sequential write, the write-ready wait and a random read of the same
range, with the ideal device: all three succeed and the read returns the bytes
written.  A paged device needs the range inside one page. -/
theorem round_trip_raw (opcode address fuel timeoutMs : Nat) (data buf : List Nat) (d : Driver)
    (dev : Device) (w : World) (hinit : d._initialized = true)
    (ht : d._timing = HIGH_SPEED_TIMING ∨ d._timing = STANDARD_SPEED_TIMING)
    (hL : Linked d.sio dev w) (hlow : (Device.run d.sio dev w.trace).low = false)
    (hop : opcode = cmd.OPCODE_EEPROM ∨ opcode = cmd.OPCODE_SECURITY) (haddr : address < 256)
    (hlen : data.length ≤ 8) (hbuf : buf.length = data.length) (hv : ∀ b ∈ data, b < 256)
    (hwin : opcode = cmd.OPCODE_SECURITY → ∀ k, k < data.length → 16 ≤ (address + k) % 32)
    (hpage : dev.pageWrap = true → address % 8 + data.length ≤ 8) :
    ∃ w1 e w2 w3, d._writeRaw opcode address data data.length w = ⟨Status.Ok, (), d, w1⟩ ∧
      d.waitReady (fuel + 1) timeoutMs w1 = some ⟨Status.Ok, (), e, w2⟩ ∧
      e._initialized = true ∧
      e._readRandomRaw opcode address buf data.length w2 = ⟨Status.Ok, data, e, w3⟩ := by
  obtain ⟨es, q, a1, a2⟩ := writeRaw_linked opcode address data data.length d dev w hL ht hlow hop
    haddr (fun k hk => getD_lt_of_mem data hv k hk) hwin hpage
  have hL1 : Linked d.sio dev (w.after es) := hL
  obtain ⟨es2, e, b1, b2, b3, b4, b5, b6, b7⟩ := waitReady_linked fuel timeoutMs d dev (w.after es)
    hinit hL1 ht a2.1.2.2.1
  have hsio : e.sio = d.sio := by unfold Driver.sio; rw [b3]
  have hL2 : Linked e.sio dev ((w.after es).after es2) := by rw [hsio]; exact hL
  rw [a2.2.2.2.1] at b6
  rw [a2.2.2.2.2] at b7
  rw [bufferBytes_self] at b6 b7
  have hcell : ∀ k, k < data.length →
      cellAt (decide (opcode = cmd.OPCODE_SECURITY))
        (Device.run e.sio dev ((w.after es).after es2).trace).eeprom
        (Device.run e.sio dev ((w.after es).after es2).trace).securityReg (address + k) =
      data.getD k 0 := by
    intro k hk
    rw [hsio, b6, b7]
    rcases hop with h | h
    · subst h
      simp only [cellAt, show decide (cmd.OPCODE_EEPROM = cmd.OPCODE_SECURITY) = false from rfl,
        Bool.false_eq_true, if_false]
      exact writeMem_get 128 (Or.inl rfl) data _ address k hlen hk
    · subst h
      simp only [cellAt, decide_True, if_true]
      exact writeMem_get 32 (Or.inr rfl) data _ address k hlen hk
  obtain ⟨es3, c1⟩ := readRandomRaw_linked opcode address buf data.length e dev
    ((w.after es).after es2) hL2 (by rw [b4]; exact ht) (by rw [hsio]; exact b5) hop haddr
    (fun k hk => by rw [hcell k hk]; exact getD_lt_of_mem data hv k hk)
  rw [map_range'_eq _ data address hcell, fillFrom_all buf data hbuf] at c1
  exact ⟨_, e, _, _, a1, b1, b2, c1⟩

end Driver

/-! ## Write/read round trip -/

/-- C11, counterexample.  The ready driver with a paged device: the two bytes
1, 2 written with `writeEepromPage` at address 7, the last address of its
page, are accepted with OK, and `readEeprom` of the same range returns OK with
1, 0xFF, not 1, 2: the second byte went to the start of the page and address 8
is still blank. -/
theorem round_trip_fails_across_page :
    ((readyDriver.writeEepromPage 1 7 (some [1, 2]) 2 pagedWorld).map fun r =>
      (r.st, (r.drv.readEeprom 7 (some [0, 0]) 2 r.world).st,
        (r.drv.readEeprom 7 (some [0, 0]) 2 r.world).out)) =
      some (Status.Ok, Status.Ok, some [1, 0xFF]) := by
  decide

/-- C11, amended.  Write/read round trip with an ideal, always-acknowledging
device, paged or linear, the driver initialized and the line idle: for every
address below 128 and every block of 1..8 bytes, `writeEepromPage` returns OK
and `readEeprom` of the same range then returns OK with the buffer equal to
the data, provided that, on a paged device, the block lies inside one 8-byte
page ((address mod 8) + len <= 8); likewise `writeSecurityUserPage` and
`readSecurity` for ranges inside 0x10..0x1F. -/
theorem write_read_round_trip (fuel address : Nat) (data buf : List Nat) (d : Driver)
    (dev : Device) (w : World) (hinit : d._initialized = true)
    (ht : d._timing = HIGH_SPEED_TIMING ∨ d._timing = STANDARD_SPEED_TIMING)
    (hL : Linked d.sio dev w) (hlow : (Device.run d.sio dev w.trace).low = false)
    (hfuel : 0 < fuel) (hlen : 1 ≤ data.length ∧ data.length ≤ 8)
    (hbuf : buf.length = data.length) (hv : ∀ b ∈ data, b < 256)
    (hpage : dev.pageWrap = true → address % 8 + data.length ≤ 8) :
    (address < 128 →
      ∃ r, d.writeEepromPage fuel address (some data) data.length w = some r ∧
        r.st = Status.Ok ∧
        (r.drv.readEeprom address (some buf) data.length r.world).st = Status.Ok ∧
        (r.drv.readEeprom address (some buf) data.length r.world).out = some data) ∧
    (0x10 ≤ address → address + data.length ≤ 0x20 →
      ∃ r, d.writeSecurityUserPage fuel address (some data) data.length w = some r ∧
        r.st = Status.Ok ∧
        (r.drv.readSecurity address (some buf) data.length r.world).st = Status.Ok ∧
        (r.drv.readSecurity address (some buf) data.length r.world).out = some data) := by
  obtain ⟨f, rfl⟩ : ∃ f, fuel = f + 1 := ⟨fuel - 1, by omega⟩
  have hn : ¬ (data.length = 0 ∨ data.length > cmd.PAGE_SIZE) := by
    simp only [cmd.PAGE_SIZE]; omega
  have hn1 : ¬ (data.length = 0 ∨ data.length > cmd.EEPROM_SIZE) := by
    simp only [cmd.EEPROM_SIZE]; omega
  have hn2 : ¬ (data.length = 0 ∨ data.length > cmd.SECURITY_SIZE) := by
    simp only [cmd.SECURITY_SIZE]; omega
  constructor
  · intro ha
    obtain ⟨w1, e, w2, w3, a, b, c, r⟩ := Driver.round_trip_raw cmd.OPCODE_EEPROM address f
      d._config.writeTimeoutMs data buf d dev w hinit ht hL hlow (Or.inl rfl) (by omega) hlen.2
      hbuf hv (fun h => absurd h (by decide)) hpage
    have hva : Driver._isEepromAddressValid address = true := by
      simp only [Driver._isEepromAddressValid, cmd.EEPROM_SIZE, ha, decide_True]
    refine ⟨⟨Status.Ok, (), e, w2⟩, ?_, rfl, ?_, ?_⟩
    · simp only [Driver.writeEepromPage, Driver.checkInitialized_ok hinit, Driver.ok_Ok, hva,
        Bool.not_true, Bool.false_eq_true, if_false, hn, a, b]
    · simp only [Driver.readEeprom, Driver.checkInitialized_ok c, Driver.ok_Ok, hva,
        Bool.not_true, Bool.false_eq_true, if_false, hn1, r, Driver.trackIo_st]
    · simp only [Driver.readEeprom, Driver.checkInitialized_ok c, Driver.ok_Ok, hva,
        Bool.not_true, Bool.false_eq_true, if_false, hn1, r]
  · intro ha hb
    obtain ⟨w1, e, w2, w3, a, b, c, r⟩ := Driver.round_trip_raw cmd.OPCODE_SECURITY address f
      d._config.writeTimeoutMs data buf d dev w hinit ht hL hlow (Or.inr rfl) (by omega) hlen.2
      hbuf hv (fun _ k hk => by omega) hpage
    have hva : Driver._isSecurityUserAddressValid address = true := by
      simp only [Driver._isSecurityUserAddressValid, cmd.SECURITY_USER_MIN, cmd.SECURITY_USER_MAX,
        Bool.and_eq_true, decide_eq_true_eq]
      omega
    have hvb : Driver._isSecurityAddressValid address = true := by
      simp only [Driver._isSecurityAddressValid, cmd.SECURITY_SIZE, decide_eq_true_eq]
      omega
    refine ⟨⟨Status.Ok, (), e, w2⟩, ?_, rfl, ?_, ?_⟩
    · simp only [Driver.writeSecurityUserPage, Driver.checkInitialized_ok hinit, Driver.ok_Ok,
        hva, Bool.not_true, Bool.false_eq_true, if_false, hn, a, b]
    · simp only [Driver.readSecurity, Driver.checkInitialized_ok c, Driver.ok_Ok, hvb,
        Bool.not_true, Bool.false_eq_true, if_false, hn2, r, Driver.trackIo_st]
    · simp only [Driver.readSecurity, Driver.checkInitialized_ok c, Driver.ok_Ok, hvb,
        Bool.not_true, Bool.false_eq_true, if_false, hn2, r]

/-- C11, an instance: the ready driver with a paged device, the block 1, 2, 3
at address 0x15, which ends at the end of its page, in the EEPROM and in the
security register. -/
theorem write_read_round_trip_witness :
    (∃ r, readyDriver.writeEepromPage 1 0x15 (some [1, 2, 3]) 3 pagedWorld = some r ∧
      r.st = Status.Ok ∧
      (r.drv.readEeprom 0x15 (some [0, 0, 0]) 3 r.world).st = Status.Ok ∧
      (r.drv.readEeprom 0x15 (some [0, 0, 0]) 3 r.world).out = some [1, 2, 3]) ∧
    (∃ r, readyDriver.writeSecurityUserPage 1 0x15 (some [1, 2, 3]) 3 pagedWorld = some r ∧
      r.st = Status.Ok ∧
      (r.drv.readSecurity 0x15 (some [0, 0, 0]) 3 r.world).st = Status.Ok ∧
      (r.drv.readSecurity 0x15 (some [0, 0, 0]) 3 r.world).out = some [1, 2, 3]) :=
  have h := write_read_round_trip 1 0x15 [1, 2, 3] [0, 0, 0] readyDriver {} pagedWorld rfl
    (Or.inl rfl) (fun _ => rfl) rfl (by decide) (by decide) rfl (by decide) (fun _ => by decide)
  ⟨h.1 (by decide), h.2 (by decide) (by decide)⟩

/-! ## Status values -/

/-- C25.  `Status::Error(e, m, d)` has code `e`, detail `d` and message `m`
(detail 0 when the call leaves it out and the default 0 is passed),
`Status::Ok()` has code OK, and `ok()` is true exactly when the code is
`Err::OK`. -/
theorem status_construction (e : Err) (m : String) (dt : Int) (s : Status) :
    (Status.Error e m dt).code = e ∧ (Status.Error e m dt).detail = dt ∧
    (Status.Error e m dt).msg = m ∧ (Status.Error e m 0).detail = 0 ∧
    Status.Ok.code = Err.OK ∧ Status.Ok.detail = 0 ∧ Status.Ok.ok = true ∧
    (s.ok = true ↔ s.code = Err.OK) ∧ ((Status.Error e m dt).ok = true ↔ e = Err.OK) := by
  refine ⟨rfl, rfl, rfl, rfl, rfl, rfl, rfl, ?_, ?_⟩
  · simp [Status.ok]
  · simp [Status.ok, Status.Error]

/-! ## Saturating health counters -/

theorem incrementWrap8_facts (v : Nat) :
    v ≤ incrementWrap8 v ∧ incrementWrap8 v ≤ v + 1 ∧ (v ≤ 255 → incrementWrap8 v ≤ 255) ∧
    (v ≠ 255 → incrementWrap8 v = v + 1) := by
  unfold incrementWrap8
  split_ifs with h
  · exact ⟨by omega, by omega, fun _ => by omega, fun _ => rfl⟩
  · exact ⟨by omega, by omega, fun h => h, fun k => absurd k h⟩

theorem incrementWrap32_facts (v : Nat) :
    v ≤ incrementWrap32 v ∧ incrementWrap32 v ≤ v + 1 ∧
    (v ≤ 4294967295 → incrementWrap32 v ≤ 4294967295) ∧
    (v ≠ 4294967295 → incrementWrap32 v = v + 1) := by
  unfold incrementWrap32
  split_ifs with h
  · exact ⟨by omega, by omega, fun _ => by omega, fun _ => rfl⟩
  · exact ⟨by omega, by omega, fun h => h, fun k => absurd k h⟩

namespace Driver

/-- What `_trackIo` does to the counters: no lifetime counter goes down and no
counter leaves its range. -/
theorem trackIo_counters (st : Status) (e : Driver) (w : World) :
    e._totalFailures ≤ (e._trackIo st w).drv._totalFailures ∧
    e._totalSuccess ≤ (e._trackIo st w).drv._totalSuccess ∧
    (e._consecutiveFailures ≤ 255 → (e._trackIo st w).drv._consecutiveFailures ≤ 255) ∧
    (e._totalFailures ≤ 4294967295 → (e._trackIo st w).drv._totalFailures ≤ 4294967295) ∧
    (e._totalSuccess ≤ 4294967295 → (e._trackIo st w).drv._totalSuccess ≤ 4294967295) := by
  obtain ⟨a1, _, a3, _⟩ := incrementWrap8_facts e._consecutiveFailures
  obtain ⟨b1, _, b3, _⟩ := incrementWrap32_facts e._totalFailures
  obtain ⟨c1, _, c3, _⟩ := incrementWrap32_facts e._totalSuccess
  simp only [_trackIo, millis]
  split_ifs <;> exact ⟨by first | exact b1 | exact Nat.le_refl _,
    by first | exact c1 | exact Nat.le_refl _,
    by first | exact a3 | exact fun h => h | exact fun _ => Nat.zero_le _,
    by first | exact b3 | exact fun h => h,
    by first | exact c3 | exact fun h => h⟩

end Driver

/-- One call: no lifetime counter goes down and no counter leaves its range. -/
theorem Call.run_counters (fuel : Nat) (c : Call) (d : Driver) (w : World) (r : Ret Unit)
    (h : c.run fuel d w = some r) :
    d._totalFailures ≤ r.drv._totalFailures ∧ d._totalSuccess ≤ r.drv._totalSuccess ∧
    (d._consecutiveFailures ≤ 255 → r.drv._consecutiveFailures ≤ 255) ∧
    (d._totalFailures ≤ 4294967295 → r.drv._totalFailures ≤ 4294967295) ∧
    (d._totalSuccess ≤ 4294967295 → r.drv._totalSuccess ≤ 4294967295) := by
  by_cases hinit : d._initialized = true
  · rcases Call.run_shape fuel c d w hinit r h with ⟨st, ⟨e, w2, hs, _, _, hd, _⟩, _⟩ | ⟨hu, _⟩
    · obtain ⟨_, _, _, _, _, s6, s7, s8, _⟩ := hs
      have k := Driver.trackIo_counters st e w2
      rw [← hd, s6, s7, s8] at k
      exact k
    · obtain ⟨_, _, _, _, _, s6, s7, s8, _⟩ := hu.1
      rw [s6, s7, s8]
      exact ⟨Nat.le_refl _, Nat.le_refl _, fun h => h, fun h => h, fun h => h⟩
  · obtain ⟨r2, e1, _, e3, _⟩ := Call.run_uninit fuel c d w (by simpa using hinit)
    rw [e1] at h
    cases h
    rw [e3]
    exact ⟨Nat.le_refl _, Nat.le_refl _, fun h => h, fun h => h, fun h => h⟩

/-- C22.  The health counters saturate: `incrementWrap` leaves 255 (8 bits) and
2^32 - 1 (32 bits) as they are and adds one otherwise.  Hence over every
sequence of public operations that returns (`begin()` and `end()`, which reset
the record, apart), on every line and for every driver, totalFailures and
totalSuccess never go down, and consecutiveFailures stays within 8 bits and the
lifetime counters within 32 bits. -/
theorem counters_saturate (fuel : Nat) (cs : List Call) (d d2 : Driver) (w w2 : World)
    (sts : List Status) (h : runCalls fuel cs d w = some (sts, d2, w2)) :
    incrementWrap8 255 = 255 ∧ incrementWrap32 4294967295 = 4294967295 ∧
    (∀ v, v ≠ 255 → incrementWrap8 v = v + 1) ∧
    (∀ v, v ≠ 4294967295 → incrementWrap32 v = v + 1) ∧
    d._totalFailures ≤ d2._totalFailures ∧ d._totalSuccess ≤ d2._totalSuccess ∧
    (d._consecutiveFailures ≤ 255 → d2._consecutiveFailures ≤ 255) ∧
    (d._totalFailures ≤ 4294967295 → d2._totalFailures ≤ 4294967295) ∧
    (d._totalSuccess ≤ 4294967295 → d2._totalSuccess ≤ 4294967295) := by
  refine ⟨rfl, rfl, fun v => (incrementWrap8_facts v).2.2.2,
    fun v => (incrementWrap32_facts v).2.2.2, ?_⟩
  induction cs generalizing d w sts with
  | nil =>
    simp only [runCalls, Option.some.injEq, Prod.mk.injEq] at h
    obtain ⟨_, h2, _⟩ := h
    subst h2
    exact ⟨Nat.le_refl _, Nat.le_refl _, fun h => h, fun h => h, fun h => h⟩
  | cons c cs ih =>
    simp only [runCalls] at h
    cases hc : c.run fuel d w with
    | none => rw [hc] at h; simp at h
    | some r =>
      rw [hc] at h
      simp only at h
      cases hr : runCalls fuel cs r.drv r.world with
      | none => rw [hr] at h; simp at h
      | some t =>
        obtain ⟨sts1, d3, w3⟩ := t
        rw [hr] at h
        simp only [Option.some.injEq, Prod.mk.injEq] at h
        obtain ⟨_, h2, h3⟩ := h
        subst h2 h3
        obtain ⟨a1, a2, a3, a4, a5⟩ := Call.run_counters fuel c d w r hc
        obtain ⟨b1, b2, b3, b4, b5⟩ := ih r.drv r.world sts1 hr
        exact ⟨Nat.le_trans a1 b1, Nat.le_trans a2 b2, fun h => b3 (a3 h), fun h => b4 (a4 h),
          fun h => b5 (a5 h)⟩

/-- C22, an instance: the five reads of the ready driver that are not
acknowledged. -/
theorem counters_saturate_witness :
    ∃ sts d2 w2, runCalls 0 fiveReads readyDriver nackFiveWorld = some (sts, d2, w2) ∧
      readyDriver._totalFailures ≤ d2._totalFailures ∧
      readyDriver._totalSuccess ≤ d2._totalSuccess :=
  have h := Option.some_get fiveReads_returns
  ⟨_, _, _, h.symm, (counters_saturate 0 fiveReads readyDriver _ nackFiveWorld _ _ h.symm).2.2.2.2.1,
    (counters_saturate 0 fiveReads readyDriver _ nackFiveWorld _ _ h.symm).2.2.2.2.2.1⟩
/-! ## Transitional states -/

namespace Driver

/-- After `_trackIo` an initialized driver that is not sleeping is in READY,
DEGRADED, OFFLINE or FAULT, and in DEGRADED or OFFLINE after a timeout. -/
theorem trackIo_stable (st : Status) (e : Driver) (w : World) (hinit : e._initialized = true)
    (hs : e._driverState ≠ DriverState.SLEEPING) :
    (e._trackIo st w).drv._driverState.stable ∧
    (st.code = Err.BUSY_TIMEOUT →
      (e._trackIo st w).drv._driverState = DriverState.DEGRADED ∨
        (e._trackIo st w).drv._driverState = DriverState.OFFLINE) := by
  simp only [_trackIo, hinit, millis, Bool.not_true, Bool.false_eq_true, if_false, ne_eq, hs,
    not_false_eq_true, if_true]
  split_ifs with h1 h2 h3
  · refine ⟨Or.inr (Or.inl rfl), fun h => ?_⟩
    simp [Status.ok, h] at h1
  · refine ⟨Or.inr (Or.inr (Or.inr (Or.inr rfl))), fun h => ?_⟩
    rw [h] at h2
    simp at h2
  · exact ⟨Or.inr (Or.inr (Or.inr (Or.inl rfl))), fun _ => Or.inr rfl⟩
  · exact ⟨Or.inr (Or.inr (Or.inl rfl)), fun _ => Or.inl rfl⟩

/-- The lifecycle state that `begin` leaves is READY, FAULT or OFFLINE. -/
theorem begin_stable (config : Config) (d : Driver) (w : World) :
    (d.begin config w).drv._driverState.stable := by
  by_cases hv : config.sioPin < 0 ∨ config.sioPin > 63 ∨ config.presencePin > 63 ∨
      config.addressBits > 7 ∨ config.offlineThreshold = 0 ∨ config.writeTimeoutMs = 0
  · have key : (d.begin config w).drv = { d with _driverState := DriverState.FAULT } := by
      unfold Driver.begin
      split_ifs with c1 c2 c3 c4 c5 c6
      · rfl
      · rfl
      · rfl
      · rfl
      · rfl
      · rfl
      · exact absurd hv (by simp only [not_or]; exact ⟨c1, c2, c3, c4, c5, c6⟩)
    rw [key]
    exact Or.inr (Or.inr (Or.inr (Or.inr rfl)))
  · simp only [not_or] at hv
    obtain ⟨h1, h2, h3, h4, h5, h6⟩ := hv
    obtain ⟨_, _, _, _, _, _, p7⟩ := begin_accepted config d w h1 h2 h3 h4 h5 h6
    rcases p7 with ⟨_, _, hs, _⟩ | ⟨_, _, hs | hs, _⟩
    · exact Or.inr (Or.inl hs)
    · exact Or.inr (Or.inr (Or.inr (Or.inr hs)))
    · exact Or.inr (Or.inr (Or.inr (Or.inl hs)))

end Driver

theorem DriverState.stable_ne {s : DriverState} (h : s.stable) :
    s ≠ DriverState.SLEEPING ∧ s ≠ DriverState.BUSY ∧ s ≠ DriverState.PROBING ∧
    s ≠ DriverState.INIT_CONFIG ∧ s ≠ DriverState.RECOVERING := by
  rcases h with h | h | h | h | h <;> subst h <;> decide

/-- C24.  Let the lifecycle state be UNINIT, READY, DEGRADED, OFFLINE or FAULT.
After any public operation that returns, the state is again one of these five
(so it is not BUSY, PROBING, INIT_CONFIG or RECOVERING): for each of the calls
of type `Call` (`waitReady`, the writes with their write-ready poll,
`isPresent`, `resetAndDiscover`, `recover` and `probe` among them), for
`begin()` and for `end()`.  A call that returns BUSY_TIMEOUT leaves DEGRADED or
OFFLINE. -/
theorem no_transitional_state (fuel : Nat) (c : Call) (config : Config) (d : Driver)
    (w : World) (hs : d._driverState.stable) :
    (∀ r, c.run fuel d w = some r →
      (r.drv._driverState.stable ∧ r.drv._driverState ≠ DriverState.BUSY ∧
        r.drv._driverState ≠ DriverState.PROBING ∧
        r.drv._driverState ≠ DriverState.INIT_CONFIG ∧
        r.drv._driverState ≠ DriverState.RECOVERING) ∧
      (r.st.code = Err.BUSY_TIMEOUT →
        r.drv._driverState = DriverState.DEGRADED ∨ r.drv._driverState = DriverState.OFFLINE)) ∧
    (d.begin config w).drv._driverState.stable ∧
    (d.«end» w).1._driverState = DriverState.UNINIT := by
  refine ⟨fun r h => ?_, Driver.begin_stable config d w, rfl⟩
  suffices k : r.drv._driverState.stable ∧ (r.st.code = Err.BUSY_TIMEOUT →
      r.drv._driverState = DriverState.DEGRADED ∨ r.drv._driverState = DriverState.OFFLINE) by
    exact ⟨⟨k.1, (DriverState.stable_ne k.1).2⟩, k.2⟩
  by_cases hinit : d._initialized = true
  · rcases Call.run_shape fuel c d w hinit r h with
      ⟨st, ⟨e, w2, hh, hstate, _, hd, _⟩, hst⟩ | ⟨hu, hcode⟩
    · have hne : e._driverState ≠ DriverState.SLEEPING := by
        rcases hstate with k | k | k | k
        · rw [k]; exact (DriverState.stable_ne hs).1
        · rw [k]; decide
        · rw [k]; decide
        · rw [k]; decide
      obtain ⟨t1, t2⟩ := Driver.trackIo_stable st e w2 (hh.2.1.trans hinit) hne
      rw [hd]
      refine ⟨t1, fun hb => t2 ?_⟩
      rcases hst with k | ⟨_, k | k⟩
      · rw [← k]; exact hb
      · rw [hb] at k; exact absurd k (by decide)
      · rw [hb] at k; exact absurd k (by decide)
    · rw [hu.2.1]
      refine ⟨hs, fun hb => ?_⟩
      rcases hcode with k | k | k | ⟨_, _, k⟩
      · rw [hb] at k; exact absurd k (by decide)
      · rw [hb] at k; exact absurd k (by decide)
      · subst k
        simp only [Call.run, Option.some.injEq] at h
        obtain ⟨p1, _⟩ := Driver.probe_frame d w hinit
        rw [h] at p1
        rcases (Driver.resetAndDiscoverRaw_frame
          ({ d with _driverState := DriverState.PROBING } : Driver) w).1 with ⟨q, _⟩ | ⟨q, _⟩
        · rw [p1, q] at hb; exact absurd hb (by decide)
        · rw [p1, q] at hb; exact absurd hb (by decide)
      · rw [k] at hb; exact absurd hb (by decide)
  · obtain ⟨r2, e1, e2, e3, _⟩ := Call.run_uninit fuel c d w (by simpa using hinit)
    rw [e1] at h
    cases h
    rw [e3]
    refine ⟨hs, fun hb => ?_⟩
    rw [hb] at e2
    exact absurd e2 (by decide)

/-- C24, an instance: a write-ready wait of the ready driver, timeout 0, on a
line with nothing attached, where the clock stands at 0: the first poll is not
acknowledged and the deadline has passed. -/
theorem no_transitional_state_witness :
    readyDriver._driverState.stable ∧
    ∃ r, (Call.waitReady 0).run 1 readyDriver deafWorld = some r ∧
      r.st.code = Err.BUSY_TIMEOUT ∧
      (r.drv._driverState = DriverState.DEGRADED ∨ r.drv._driverState = DriverState.OFFLINE) :=
  ⟨Or.inr (Or.inl rfl), ((Call.waitReady 0).run 1 readyDriver deafWorld).get (by decide),
    (Option.some_get _).symm, by decide,
    ((no_transitional_state 1 (Call.waitReady 0) pin4Config readyDriver deafWorld
      (Or.inr (Or.inl rfl))).1 _ (Option.some_get _).symm).2 (by decide)⟩
/-! ## The acknowledge-only queries -/

namespace Driver

/-- An address-only exchange, with the level of the acknowledge slot named. -/
theorem addressOnlyRaw_level (opcode : Nat) (read : Bool) (d : Driver) (w : World) :
    d._addressOnlyRaw opcode read w =
      ⟨Status.Ok, !ackSample d (d._deviceAddress opcode read) w, d,
        w.after (frameImage d [(d._deviceAddress opcode read,
          ackSample d (d._deviceAddress opcode read) w)])⟩ := by
  have hl : d.txByte (d._deviceAddress opcode read) (w.after (guardImage d)) =
      (!ackSample d (d._deviceAddress opcode read) w,
        (w.after (guardImage d)).after (byteImage d (d._deviceAddress opcode read)
          (ackSample d (d._deviceAddress opcode read) w))) :=
    txByte_level d (d._deviceAddress opcode read) (w.after (guardImage d))
  simp only [_addressOnlyRaw, sendStart_image, sendStop_image, hl]
  simp [frameImage, World.after_after, List.flatMap]

/-- What `_trackIo` makes of a success on an initialized driver that is not
sleeping. -/
theorem trackIo_ok_result (e : Driver) (w : World) (hinit : e._initialized = true)
    (hs : e._driverState ≠ DriverState.SLEEPING) :
    (e._trackIo Status.Ok w).st = Status.Ok ∧
    (e._trackIo Status.Ok w).drv._driverState = DriverState.READY ∧
    (e._trackIo Status.Ok w).drv._consecutiveFailures = 0 ∧
    (e._trackIo Status.Ok w).drv._lastError = Status.Ok ∧
    (e._trackIo Status.Ok w).drv._totalSuccess = incrementWrap32 e._totalSuccess ∧
    (e._trackIo Status.Ok w).drv._totalFailures = e._totalFailures := by
  simp [_trackIo, hinit, millis, ok_Ok, hs]

end Driver

/-- C29.  On an initialized driver (not sleeping: no operation sets that
state) and for every line, `isSecurityLocked`, `areRomZonesFrozen` and
`isHighSpeed` return OK and record a success (state READY, consecutiveFailures
0, totalSuccess incremented, totalFailures unchanged); `locked` and `frozen`
are true, and `enabled` is false, exactly when the acknowledge slot of the
address byte is sampled high, that is, when the byte is not acknowledged.  So
on a line that is high whenever sampled (nothing attached) the calls report
locked and frozen, and high speed not enabled, with an OK status. -/
theorem ack_queries_always_ok (d : Driver) (w : World) (hinit : d._initialized = true)
    (hs : d._driverState ≠ DriverState.SLEEPING) :
    ((d.isSecurityLocked w).st = Status.Ok ∧
      (d.isSecurityLocked w).out =
        ackSample d (d._deviceAddress cmd.OPCODE_LOCK_SECURITY true) w ∧
      (d.isSecurityLocked w).drv._driverState = DriverState.READY ∧
      (d.isSecurityLocked w).drv._consecutiveFailures = 0 ∧
      (d.isSecurityLocked w).drv._totalSuccess = incrementWrap32 d._totalSuccess ∧
      (d.isSecurityLocked w).drv._totalFailures = d._totalFailures) ∧
    ((d.areRomZonesFrozen w).st = Status.Ok ∧
      (d.areRomZonesFrozen w).out =
        ackSample d (d._deviceAddress cmd.OPCODE_FREEZE_ROM true) w ∧
      (d.areRomZonesFrozen w).drv._driverState = DriverState.READY ∧
      (d.areRomZonesFrozen w).drv._consecutiveFailures = 0 ∧
      (d.areRomZonesFrozen w).drv._totalSuccess = incrementWrap32 d._totalSuccess ∧
      (d.areRomZonesFrozen w).drv._totalFailures = d._totalFailures) ∧
    ((d.isHighSpeed w).st = Status.Ok ∧
      (d.isHighSpeed w).out = !ackSample d (d._deviceAddress cmd.OPCODE_HIGH_SPEED true) w ∧
      (d.isHighSpeed w).drv._driverState = DriverState.READY ∧
      (d.isHighSpeed w).drv._consecutiveFailures = 0 ∧
      (d.isHighSpeed w).drv._totalSuccess = incrementWrap32 d._totalSuccess ∧
      (d.isHighSpeed w).drv._totalFailures = d._totalFailures) ∧
    ((∀ h p, w.level h p = true) →
      (d.isSecurityLocked w).out = true ∧ (d.areRomZonesFrozen w).out = true ∧
      (d.isHighSpeed w).out = false) := by
  have k := fun w2 => Driver.trackIo_ok_result d w2 hinit hs
  have e1 : d.isSecurityLocked w =
      ⟨(d._trackIo Status.Ok (w.after (frameImage d [(d._deviceAddress cmd.OPCODE_LOCK_SECURITY true,
          ackSample d (d._deviceAddress cmd.OPCODE_LOCK_SECURITY true) w)]))).st,
        ackSample d (d._deviceAddress cmd.OPCODE_LOCK_SECURITY true) w,
        (d._trackIo Status.Ok (w.after (frameImage d [(d._deviceAddress cmd.OPCODE_LOCK_SECURITY true,
          ackSample d (d._deviceAddress cmd.OPCODE_LOCK_SECURITY true) w)]))).drv,
        (d._trackIo Status.Ok (w.after (frameImage d [(d._deviceAddress cmd.OPCODE_LOCK_SECURITY true,
          ackSample d (d._deviceAddress cmd.OPCODE_LOCK_SECURITY true) w)]))).world⟩ := by
    simp only [Driver.isSecurityLocked, Driver.checkInitialized_ok hinit, Driver.ok_Ok,
      Bool.not_true, Bool.false_eq_true, if_false, Driver.addressOnlyRaw_level, Bool.not_not]
  have e2 : d.areRomZonesFrozen w =
      ⟨(d._trackIo Status.Ok (w.after (frameImage d [(d._deviceAddress cmd.OPCODE_FREEZE_ROM true,
          ackSample d (d._deviceAddress cmd.OPCODE_FREEZE_ROM true) w)]))).st,
        ackSample d (d._deviceAddress cmd.OPCODE_FREEZE_ROM true) w,
        (d._trackIo Status.Ok (w.after (frameImage d [(d._deviceAddress cmd.OPCODE_FREEZE_ROM true,
          ackSample d (d._deviceAddress cmd.OPCODE_FREEZE_ROM true) w)]))).drv,
        (d._trackIo Status.Ok (w.after (frameImage d [(d._deviceAddress cmd.OPCODE_FREEZE_ROM true,
          ackSample d (d._deviceAddress cmd.OPCODE_FREEZE_ROM true) w)]))).world⟩ := by
    simp only [Driver.areRomZonesFrozen, Driver.checkInitialized_ok hinit, Driver.ok_Ok,
      Bool.not_true, Bool.false_eq_true, if_false, Driver.addressOnlyRaw_level, Bool.not_not]
  have e3 : d.isHighSpeed w =
      ⟨(d._trackIo Status.Ok (w.after (frameImage d [(d._deviceAddress cmd.OPCODE_HIGH_SPEED true,
          ackSample d (d._deviceAddress cmd.OPCODE_HIGH_SPEED true) w)]))).st,
        !ackSample d (d._deviceAddress cmd.OPCODE_HIGH_SPEED true) w,
        (d._trackIo Status.Ok (w.after (frameImage d [(d._deviceAddress cmd.OPCODE_HIGH_SPEED true,
          ackSample d (d._deviceAddress cmd.OPCODE_HIGH_SPEED true) w)]))).drv,
        (d._trackIo Status.Ok (w.after (frameImage d [(d._deviceAddress cmd.OPCODE_HIGH_SPEED true,
          ackSample d (d._deviceAddress cmd.OPCODE_HIGH_SPEED true) w)]))).world⟩ := by
    simp only [Driver.isHighSpeed, Driver.checkInitialized_ok hinit, Driver.ok_Ok,
      Bool.not_true, Bool.false_eq_true, if_false, Driver.addressOnlyRaw_level]
  rw [e1, e2, e3]
  refine ⟨?_, ?_, ?_, fun hl => ?_⟩
  · obtain ⟨a, b, c, _, f, g⟩ := k (w.after (frameImage d
      [(d._deviceAddress cmd.OPCODE_LOCK_SECURITY true,
        ackSample d (d._deviceAddress cmd.OPCODE_LOCK_SECURITY true) w)]))
    exact ⟨a, rfl, b, c, f, g⟩
  · obtain ⟨a, b, c, _, f, g⟩ := k (w.after (frameImage d
      [(d._deviceAddress cmd.OPCODE_FREEZE_ROM true,
        ackSample d (d._deviceAddress cmd.OPCODE_FREEZE_ROM true) w)]))
    exact ⟨a, rfl, b, c, f, g⟩
  · obtain ⟨a, b, c, _, f, g⟩ := k (w.after (frameImage d
      [(d._deviceAddress cmd.OPCODE_HIGH_SPEED true,
        ackSample d (d._deviceAddress cmd.OPCODE_HIGH_SPEED true) w)]))
    exact ⟨a, rfl, b, c, f, g⟩
  · simp only [ackSample, hl, Bool.not_true]
    exact ⟨trivial, trivial, trivial⟩

/-- C29, an instance: the ready driver on a line with nothing attached reports
the security register locked with an OK status. -/
theorem ack_queries_always_ok_witness :
    (readyDriver.isSecurityLocked deafWorld).st = Status.Ok ∧
    (readyDriver.isSecurityLocked deafWorld).out = true ∧
    (readyDriver.areRomZonesFrozen deafWorld).out = true ∧
    (readyDriver.isHighSpeed deafWorld).out = false :=
  have h := ack_queries_always_ok readyDriver deafWorld rfl (by decide)
  ⟨h.1.1, h.2.2.2 (fun _ _ => rfl)⟩
/-! ## The write-ready poll -/

/-- The deadline test is the sign test of the 32-bit difference. -/
theorem deadlinePassed_iff (n dl : Nat) :
    deadlinePassed n dl = true ↔ 0 ≤ asInt32 ((n : Int) - (dl : Int)) := by
  unfold deadlinePassed asInt32
  rw [decide_eq_true_eq]
  split_ifs with h <;> omega

/-- A deadline `timeoutMs` below 2^31 after the start `s` has passed, at a
reading `n` of the clock, only when `timeoutMs` or more have elapsed, modulo
2^32. -/
theorem deadlinePassed_elapsed (n s timeoutMs : Nat) (hs : s < 4294967296)
    (ht : timeoutMs < 2147483648)
    (h : deadlinePassed n ((s + timeoutMs) % 4294967296) = true) :
    timeoutMs ≤ (n + 4294967296 - s) % 4294967296 := by
  unfold deadlinePassed at h
  rw [decide_eq_true_eq] at h
  omega

theorem World.reaches_after_append (w : World) (a b : List Event) :
    (w.after a).reaches (w.after (a ++ b)) := ⟨b, (World.after_after w a b).symm⟩

namespace Driver

/-- The write-ready loop, when it returns: the status is OK or BUSY_TIMEOUT, at
least one poll was made, and a timeout follows a reading of the clock at which
the deadline had passed. -/
theorem waitReadyLoop_facts (deadline : Nat) :
    ∀ (fuel : Nat) (d : Driver) (w : World) (r : Ret Unit),
      waitReadyLoop deadline fuel d w = some r →
      (r.st = Status.Ok ∨ r.st.code = Err.BUSY_TIMEOUT) ∧
      (w.after (frameImage d [(d._deviceAddress cmd.OPCODE_EEPROM false,
          ackSample d (d._deviceAddress cmd.OPCODE_EEPROM false) w)])).reaches r.world ∧
      (r.st.code = Err.BUSY_TIMEOUT → ∃ n pre post,
        r.world.trace = w.trace ++ pre ++ [Event.millis n] ++ post ∧
        deadlinePassed n deadline = true) := by
  intro fuel
  induction fuel with
  | zero => intro d w r h; simp [waitReadyLoop] at h
  | succ fuel ih =>
    intro d w r h
    simp only [waitReadyLoop, addressOnlyRaw_level, ok_Ok, Bool.not_true, Bool.false_eq_true,
      if_false, millis, emit_eq_after, delayMicroseconds, World.after_after] at h
    by_cases hl : ackSample d (d._deviceAddress cmd.OPCODE_EEPROM false) w = true
    · simp only [hl, Bool.not_true, Bool.false_eq_true, if_false] at h
      split_ifs at h with hp
      · simp only [Option.some.injEq] at h
        obtain ⟨es, hw⟩ := trackIo_reaches
          (Status.Error Err.BUSY_TIMEOUT "Timed out waiting for write cycle completion" 0) d
          (w.after (frameImage d [(d._deviceAddress cmd.OPCODE_EEPROM false, true)] ++
            [Event.millis ((w.after (frameImage d
              [(d._deviceAddress cmd.OPCODE_EEPROM false, true)])).clock
              (w.after (frameImage d
                [(d._deviceAddress cmd.OPCODE_EEPROM false, true)])).trace % 4294967296)]))
        rw [h] at hw
        refine ⟨Or.inr (by rw [← h, trackIo_st]; rfl), ?_, fun _ => ⟨_,
          frameImage d [(d._deviceAddress cmd.OPCODE_EEPROM false, true)], es, ?_, hp⟩⟩
        · rw [hl, hw]
          exact World.reaches_trans ⟨_, (World.after_after _ _ _).symm⟩
            (World.reaches_after _ _)
        · rw [hw]
          simp only [World.after_trace, List.append_assoc]
      · obtain ⟨i1, i2, i3⟩ := ih d _ r h
        refine ⟨i1, ?_, fun hb => ?_⟩
        · rw [hl]
          have i4 := World.reaches_trans (World.reaches_after _ _) i2
          exact World.reaches_trans (World.reaches_after_append w _ _)
            (World.reaches_trans (World.reaches_after_append w _ _) i4)
        · obtain ⟨n, pre, post, e, hn⟩ := i3 hb
          refine ⟨n, frameImage d [(d._deviceAddress cmd.OPCODE_EEPROM false, true)] ++
            [Event.millis ((w.after (frameImage d
              [(d._deviceAddress cmd.OPCODE_EEPROM false, true)])).clock
              (w.after (frameImage d
                [(d._deviceAddress cmd.OPCODE_EEPROM false, true)])).trace % 4294967296)] ++
            [Event.delayUs 100] ++ pre, post, ?_, hn⟩
          rw [e]
          simp only [World.after_trace, List.append_assoc]
    · simp only [Bool.not_eq_true] at hl
      simp only [hl, Bool.not_false, if_true, Option.some.injEq] at h
      obtain ⟨es, hw⟩ := trackIo_reaches Status.Ok d
        (w.after (frameImage d [(d._deviceAddress cmd.OPCODE_EEPROM false, false)]))
      rw [h] at hw
      refine ⟨Or.inl (by rw [← h, trackIo_st]), ⟨es, by rw [hw, hl]⟩, fun hb => ?_⟩
      rw [← h, trackIo_st] at hb
      exact absurd hb (by decide)

end Driver

/-- C30.  Let `waitReady(timeoutMs)` return on an initialized driver, started
when the clock read `s`.  It returns OK or BUSY_TIMEOUT; it has made at least
one address-only poll; and when `timeoutMs < 2^31` it returns BUSY_TIMEOUT only
after a reading `n` of the clock with `(n - s) mod 2^32 >= timeoutMs`, also
when `s + timeoutMs` overflows 32 bits.  When the first poll is acknowledged it
does return, with OK, whatever `timeoutMs` is (0 included).  And
`deadlinePassed(n, d)` holds exactly when the signed 32-bit difference `n - d`
is not negative. -/
theorem waitReady_deadline (fuel timeoutMs : Nat) (d : Driver) (w : World) (r : Ret Unit)
    (hinit : d._initialized = true) (h : d.waitReady fuel timeoutMs w = some r) :
    (r.st = Status.Ok ∨ r.st.code = Err.BUSY_TIMEOUT) ∧
    (∃ lvl es, r.world = ((w.after [Event.millis (w.clock w.trace % 4294967296)]).after
      (frameImage d [(d._deviceAddress cmd.OPCODE_EEPROM false, lvl)])).after es) ∧
    (r.st.code = Err.BUSY_TIMEOUT → timeoutMs < 2147483648 → ∃ n pre post,
      r.world.trace = w.trace ++ [Event.millis (w.clock w.trace % 4294967296)] ++ pre ++
        [Event.millis n] ++ post ∧
      timeoutMs ≤ (n + 4294967296 - w.clock w.trace % 4294967296) % 4294967296) ∧
    (∀ k t w0, ackSample d (d._deviceAddress cmd.OPCODE_EEPROM false)
        (w0.after [Event.millis (w0.clock w0.trace % 4294967296)]) = false →
      ∃ r0, d.waitReady (k + 1) t w0 = some r0 ∧ r0.st = Status.Ok) ∧
    (∀ n dl, deadlinePassed n dl = true ↔ 0 ≤ asInt32 ((n : Int) - (dl : Int))) := by
  have hd : ∀ e : Driver, e = ({ d with _driverState := DriverState.BUSY } : Driver) →
      e._deviceAddress cmd.OPCODE_EEPROM false = d._deviceAddress cmd.OPCODE_EEPROM false ∧
      (∀ sent, frameImage e sent = frameImage d sent) ∧
      (∀ v w1, ackSample e v w1 = ackSample d v w1) := by
    intro e he
    subst he
    exact ⟨rfl, fun _ => rfl, fun _ _ => rfl⟩
  obtain ⟨hd1, hd2, hd3⟩ := hd _ rfl
  refine ⟨?_, ?_, ?_, ?_, deadlinePassed_iff⟩
  · simp only [Driver.waitReady, Driver.checkInitialized_ok hinit, Driver.ok_Ok, Bool.not_true,
      Bool.false_eq_true, if_false, millis, emit_eq_after] at h
    exact (Driver.waitReadyLoop_facts _ fuel _ _ r h).1
  · simp only [Driver.waitReady, Driver.checkInitialized_ok hinit, Driver.ok_Ok, Bool.not_true,
      Bool.false_eq_true, if_false, millis, emit_eq_after] at h
    obtain ⟨es, e⟩ := (Driver.waitReadyLoop_facts _ fuel _ _ r h).2.1
    rw [hd1, hd2] at e
    exact ⟨_, es, e⟩
  · intro hb ht
    simp only [Driver.waitReady, Driver.checkInitialized_ok hinit, Driver.ok_Ok, Bool.not_true,
      Bool.false_eq_true, if_false, millis, emit_eq_after] at h
    obtain ⟨n, pre, post, e, hn⟩ := (Driver.waitReadyLoop_facts _ fuel _ _ r h).2.2 hb
    exact ⟨n, pre, post, e, deadlinePassed_elapsed n _ timeoutMs
      (Nat.mod_lt _ (by decide)) ht hn⟩
  · intro k t w0 ha
    have ha3 : ackSample ({ d with _driverState := DriverState.BUSY } : Driver)
        (({ d with _driverState := DriverState.BUSY } : Driver)._deviceAddress
          cmd.OPCODE_EEPROM false)
        (w0.after [Event.millis (w0.clock w0.trace % 4294967296)]) = false := ha
    refine ⟨({ d with _driverState := DriverState.BUSY } : Driver)._trackIo Status.Ok
      ((w0.after [Event.millis (w0.clock w0.trace % 4294967296)]).after
        (frameImage ({ d with _driverState := DriverState.BUSY } : Driver)
          [((({ d with _driverState := DriverState.BUSY } : Driver)._deviceAddress
            cmd.OPCODE_EEPROM false), false)])), ?_, Driver.trackIo_st _ _ _⟩
    simp only [Driver.waitReady, Driver.checkInitialized_ok hinit, Driver.ok_Ok,
      Bool.not_true, Bool.false_eq_true, if_false, millis, emit_eq_after,
      Driver.waitReadyLoop, Driver.addressOnlyRaw_level, ha3, Bool.not_false, if_true]

/-- C30, an instance: the wait of the ready driver with timeout 0 on the line
that acknowledges every byte, the clock standing at 0. -/
theorem waitReady_deadline_witness :
    ∃ r, readyDriver.waitReady 1 0 ackWorld = some r ∧ r.st = Status.Ok ∧
      ∃ lvl es, r.world = ((ackWorld.after [Event.millis 0]).after
        (frameImage readyDriver [(readyDriver._deviceAddress cmd.OPCODE_EEPROM false, lvl)])).after
          es :=
  have h := (waitReady_deadline 1 0 readyDriver ackWorld _ rfl
    (Option.some_get (by decide : (readyDriver.waitReady 1 0 ackWorld).isSome = true)).symm)
  ⟨_, (Option.some_get _).symm, by decide, h.2.1⟩

/-! ## Discovery retries -/

namespace Driver

theorem attemptsWorld_succ (d : Driver) (n : Nat) (w : World) :
    d.attemptsWorld (n + 1) w = d.attemptsWorld n (d._resetAndDiscoverRaw w).world := rfl

theorem attemptsWorld_reads (d : Driver) :
    ∀ (n : Nat) (w : World), reads (d.attemptsWorld n w).trace = reads w.trace + n := by
  intro n
  induction n with
  | zero => intro w; rfl
  | succ n ih =>
    intro w
    rw [attemptsWorld_succ, ih, resetAndDiscoverRaw_reads]
    omega

/-- The retry loop makes its attempts one after the other and stops at the
first that succeeds: when all `n` fail, it has made `n`; when attempt `k`
(counted from 0) is the first to succeed, it has made `k + 1`. -/
theorem discoverLoop_retries :
    ∀ (n : Nat) (st : Status) (d : Driver) (w : World),
      ((∀ j, j < n → (d._resetAndDiscoverRaw (d.attemptsWorld j w)).st.ok = false) →
        (_discoverLoop n st d w).world = d.attemptsWorld n w ∧
        (_discoverLoop n st d w).drv = d ∧
        (st.ok = false → (_discoverLoop n st d w).st.ok = false)) ∧
      (∀ k, k < n →
        (∀ j, j < k → (d._resetAndDiscoverRaw (d.attemptsWorld j w)).st.ok = false) →
        (d._resetAndDiscoverRaw (d.attemptsWorld k w)).st.ok = true →
        (_discoverLoop n st d w).world = d.attemptsWorld (k + 1) w ∧
        (_discoverLoop n st d w).st = Status.Ok ∧
        (_discoverLoop n st d w).drv = d._setSpeedMode SpeedMode.HIGH_SPEED) := by
  intro n
  induction n with
  | zero =>
    intro st d w
    exact ⟨fun _ => ⟨rfl, rfl, fun h => h⟩, fun k hk => absurd hk (Nat.not_lt_zero k)⟩
  | succ n ih =>
    intro st d w
    have hfr := (resetAndDiscoverRaw_frame d w).1
    constructor
    · intro hf
      have h0 : (d._resetAndDiscoverRaw w).st.ok = false := hf 0 (Nat.succ_pos n)
      have hd : (d._resetAndDiscoverRaw w).drv = d := by
        rcases hfr with ⟨a, _⟩ | ⟨_, b⟩
        · rw [a] at h0; exact absurd h0 (by decide)
        · exact b
      obtain ⟨i1, i2, i3⟩ := (ih (d._resetAndDiscoverRaw w).st d (d._resetAndDiscoverRaw w).world).1
        (fun j hj => by
          have := hf (j + 1) (Nat.succ_lt_succ hj)
          rwa [attemptsWorld_succ] at this)
      simp only [_discoverLoop, h0, Bool.false_eq_true, if_false, hd]
      exact ⟨i1.trans (attemptsWorld_succ d n w).symm, i2, fun _ => i3 h0⟩
    · intro k hk hf hs
      cases k with
      | zero =>
        have h0 : (d._resetAndDiscoverRaw w).st.ok = true := hs
        simp only [_discoverLoop, h0, if_true]
        rcases hfr with ⟨a, b⟩ | ⟨a, _⟩
        · exact ⟨rfl, a, b⟩
        · rw [a] at h0; exact absurd h0 (by decide)
      | succ k =>
        have h0 : (d._resetAndDiscoverRaw w).st.ok = false := hf 0 (Nat.succ_pos k)
        have hd : (d._resetAndDiscoverRaw w).drv = d := by
          rcases hfr with ⟨a, _⟩ | ⟨_, b⟩
          · rw [a] at h0; exact absurd h0 (by decide)
          · exact b
        obtain ⟨i1, i2, i3⟩ :=
          (ih (d._resetAndDiscoverRaw w).st d (d._resetAndDiscoverRaw w).world).2 k
            (Nat.lt_of_succ_lt_succ hk)
            (fun j hj => by
              have := hf (j + 1) (Nat.succ_lt_succ hj)
              rwa [attemptsWorld_succ] at this)
            (by rwa [attemptsWorld_succ] at hs)
        simp only [_discoverLoop, h0, Bool.false_eq_true, if_false, hd]
        exact ⟨i1.trans (attemptsWorld_succ d (k + 1) w).symm, i2, i3⟩

end Driver

/-- From the point where the discovery attempts start, `begin` is the retry
loop, followed by NOT_PRESENT or by the identification. -/
theorem begin_of_probing (config : Config) (d : Driver) (w : World) (d1 : Driver)
    (w1 : World) (h : beginProbing config d w = some (d1, w1)) :
    d1._config = config ∧
    d.begin config w =
      (if !(Driver._discoverLoop ((config.discoveryRetries + 1) % 256)
          (Status.Error Err.DISCOVERY_FAILED "Discovery failed" 0) d1 w1).st.ok then
        ⟨Status.Error Err.NOT_PRESENT "Device did not respond to reset/discovery" 0, (),
          { (Driver._discoverLoop ((config.discoveryRetries + 1) % 256)
              (Status.Error Err.DISCOVERY_FAILED "Discovery failed" 0) d1 w1).drv with
            _driverState := DriverState.OFFLINE },
          (Driver._discoverLoop ((config.discoveryRetries + 1) % 256)
            (Status.Error Err.DISCOVERY_FAILED "Discovery failed" 0) d1 w1).world⟩
      else
        (Driver._discoverLoop ((config.discoveryRetries + 1) % 256)
          (Status.Error Err.DISCOVERY_FAILED "Discovery failed" 0) d1 w1).drv.beginIdentify
          (Driver._discoverLoop ((config.discoveryRetries + 1) % 256)
            (Status.Error Err.DISCOVERY_FAILED "Discovery failed" 0) d1 w1).world) ∧
    beginDiscovered config d w =
      (if !(Driver._discoverLoop ((config.discoveryRetries + 1) % 256)
          (Status.Error Err.DISCOVERY_FAILED "Discovery failed" 0) d1 w1).st.ok then none
      else some ((Driver._discoverLoop ((config.discoveryRetries + 1) % 256)
          (Status.Error Err.DISCOVERY_FAILED "Discovery failed" 0) d1 w1).drv,
        (Driver._discoverLoop ((config.discoveryRetries + 1) % 256)
          (Status.Error Err.DISCOVERY_FAILED "Discovery failed" 0) d1 w1).world)) := by
  simp only [beginProbing] at h
  simp only [Driver.begin, beginDiscovered]
  by_cases c1 : config.sioPin < 0
  · rw [if_pos c1] at h; exact absurd h (by simp)
  rw [if_neg c1] at h ⊢
  rw [if_neg c1]
  by_cases c2 : config.sioPin > 63
  · rw [if_pos c2] at h; exact absurd h (by simp)
  rw [if_neg c2] at h ⊢
  rw [if_neg c2]
  by_cases c3 : config.presencePin > 63
  · rw [if_pos c3] at h; exact absurd h (by simp)
  rw [if_neg c3] at h ⊢
  rw [if_neg c3]
  by_cases c4 : config.addressBits > 0x07
  · rw [if_pos c4] at h; exact absurd h (by simp)
  rw [if_neg c4] at h ⊢
  rw [if_neg c4]
  by_cases c5 : config.offlineThreshold = 0
  · rw [if_pos c5] at h; exact absurd h (by simp)
  rw [if_neg c5] at h ⊢
  rw [if_neg c5]
  by_cases c6 : config.writeTimeoutMs = 0
  · rw [if_pos c6] at h; exact absurd h (by simp)
  rw [if_neg c6] at h ⊢
  rw [if_neg c6]
  have f : ∀ d0 : Driver, d0 = (({ d with
      _config := config
      _initialized := false
      _driverState := DriverState.UNINIT
      _detectedPart := PartType.UNKNOWN } : Driver)._setSpeedMode
        SpeedMode.HIGH_SPEED)._resetHealth → d0._config = config := by
    intro d0 h; subst h; rfl
  generalize (({ d with
      _config := config
      _initialized := false
      _driverState := DriverState.UNINIT
      _detectedPart := PartType.UNKNOWN } : Driver)._setSpeedMode
        SpeedMode.HIGH_SPEED)._resetHealth = d0 at f h ⊢
  have f1 := f d0 rfl
  generalize d0._configurePins w = cp at h ⊢
  obtain ⟨cst, cw⟩ := cp
  simp only at h ⊢
  by_cases c7 : (!cst.ok) = true
  · rw [if_pos c7] at h; exact absurd h (by simp)
  rw [if_neg c7] at h ⊢
  rw [if_neg c7]
  simp only [Option.some.injEq, Prod.mk.injEq] at h
  obtain ⟨h1, h2⟩ := h
  subst h1 h2
  simp only [f1]
  exact ⟨trivial, trivial, trivial⟩

/-- The number of attempts: `discoveryRetries + 1` for 0..254 retries, but 0
for 255 retries, where the 8-bit sum wraps. -/
theorem attempts_count (retries : Nat) :
    (retries < 255 → (retries + 1) % 256 = retries + 1) ∧
    (retries = 255 → (retries + 1) % 256 = 0) := by
  constructor <;> intro h <;> omega

/-- The discovery attempts of `begin(config)`, once the parameter checks and the
pin setup have passed, with `n = (discoveryRetries + 1) mod 256`.  When none of
the `n` attempts detects the device, exactly `n` attempts are made (each
samples the line once) and `begin` returns NOT_PRESENT with the state OFFLINE;
when attempt `k` (counted from 0) is the first to succeed, the vendor ID is
read right after `k + 1` attempts. -/
theorem begin_retries (config : Config) (d : Driver) (w : World) (d1 : Driver) (w1 : World)
    (h : beginProbing config d w = some (d1, w1)) :
    ((∀ j, j < (config.discoveryRetries + 1) % 256 →
        (d1._resetAndDiscoverRaw (d1.attemptsWorld j w1)).st.ok = false) →
      (d.begin config w).st.code = Err.NOT_PRESENT ∧
      (d.begin config w).drv._driverState = DriverState.OFFLINE ∧
      (d.begin config w).world = d1.attemptsWorld ((config.discoveryRetries + 1) % 256) w1 ∧
      reads (d.begin config w).world.trace =
        reads w1.trace + (config.discoveryRetries + 1) % 256) ∧
    (∀ k, k < (config.discoveryRetries + 1) % 256 →
      (∀ j, j < k → (d1._resetAndDiscoverRaw (d1.attemptsWorld j w1)).st.ok = false) →
      (d1._resetAndDiscoverRaw (d1.attemptsWorld k w1)).st.ok = true →
      beginDiscovered config d w =
        some (d1._setSpeedMode SpeedMode.HIGH_SPEED, d1.attemptsWorld (k + 1) w1)) := by
  obtain ⟨_, e1, e2⟩ := begin_of_probing config d w d1 w1 h
  obtain ⟨l1, l2⟩ := Driver.discoverLoop_retries ((config.discoveryRetries + 1) % 256)
    (Status.Error Err.DISCOVERY_FAILED "Discovery failed" 0) d1 w1
  constructor
  · intro hf
    obtain ⟨a, _, c⟩ := l1 hf
    rw [e1, c rfl]
    simp only [Bool.not_false, if_true]
    exact ⟨rfl, trivial, a, by rw [a, Driver.attemptsWorld_reads]⟩
  · intro k hk hf hs
    obtain ⟨a, b, c⟩ := l2 k hk hf hs
    rw [e2, a, b, c]
    rfl

/-- The discovery attempts of `recover()` on an initialized driver, with
`n = (discoveryRetries + 1) mod 256`.  When none of the `n` attempts detects
the device, exactly `n` attempts are made and `recover` returns
DISCOVERY_FAILED through `_trackIo`; when attempt `k` is the first to succeed,
the vendor ID is read right after `k + 1` attempts. -/
theorem recover_retries (d : Driver) (w : World) (hinit : d._initialized = true) :
    ((∀ j, j < (d._config.discoveryRetries + 1) % 256 →
        (({ d with _driverState := DriverState.RECOVERING } : Driver)._resetAndDiscoverRaw
          (({ d with _driverState := DriverState.RECOVERING } : Driver).attemptsWorld j w)).st.ok
          = false) →
      (d.recover w).st.code = Err.DISCOVERY_FAILED ∧
      (d.recover w).drv._consecutiveFailures = incrementWrap8 d._consecutiveFailures ∧
      reads (d.recover w).world.trace =
        reads w.trace + (d._config.discoveryRetries + 1) % 256) ∧
    (∀ k, k < (d._config.discoveryRetries + 1) % 256 →
      (∀ j, j < k →
        (({ d with _driverState := DriverState.RECOVERING } : Driver)._resetAndDiscoverRaw
          (({ d with _driverState := DriverState.RECOVERING } : Driver).attemptsWorld j w)).st.ok
          = false) →
      (({ d with _driverState := DriverState.RECOVERING } : Driver)._resetAndDiscoverRaw
        (({ d with _driverState := DriverState.RECOVERING } : Driver).attemptsWorld k w)).st.ok
        = true →
      recoverDiscovered d w =
        some (({ d with _driverState := DriverState.RECOVERING } : Driver)._setSpeedMode
          SpeedMode.HIGH_SPEED,
          ({ d with _driverState := DriverState.RECOVERING } : Driver).attemptsWorld (k + 1) w)) := by
  obtain ⟨l1, l2⟩ := Driver.discoverLoop_retries ((d._config.discoveryRetries + 1) % 256)
    (Status.Error Err.DISCOVERY_FAILED "Discovery failed" 0)
    ({ d with _driverState := DriverState.RECOVERING } : Driver) w
  obtain ⟨_, _, _, hcode⟩ := Driver.discoverLoop_health ((d._config.discoveryRetries + 1) % 256)
    (Status.Error Err.DISCOVERY_FAILED "Discovery failed" 0)
    ({ d with _driverState := DriverState.RECOVERING } : Driver) w rfl
  constructor
  · intro hf
    obtain ⟨a, b, c⟩ := l1 hf
    have hc : (Driver._discoverLoop ((d._config.discoveryRetries + 1) % 256)
        (Status.Error Err.DISCOVERY_FAILED "Discovery failed" 0)
        ({ d with _driverState := DriverState.RECOVERING } : Driver) w).st.code =
        Err.DISCOVERY_FAILED := by
      rcases hcode with k | k
      · have := c rfl
        rw [k] at this
        exact absurd this (by decide)
      · exact k
    have e : d.recover w = (Driver._discoverLoop ((d._config.discoveryRetries + 1) % 256)
        (Status.Error Err.DISCOVERY_FAILED "Discovery failed" 0)
        ({ d with _driverState := DriverState.RECOVERING } : Driver) w).drv._trackIo
        (Driver._discoverLoop ((d._config.discoveryRetries + 1) % 256)
          (Status.Error Err.DISCOVERY_FAILED "Discovery failed" 0)
          ({ d with _driverState := DriverState.RECOVERING } : Driver) w).st
        (Driver._discoverLoop ((d._config.discoveryRetries + 1) % 256)
          (Status.Error Err.DISCOVERY_FAILED "Discovery failed" 0)
          ({ d with _driverState := DriverState.RECOVERING } : Driver) w).world := by
      simp only [Driver.recover, Driver.checkInitialized_ok hinit, Driver.ok_Ok, Bool.not_true,
        Bool.false_eq_true, if_false, c rfl, Bool.not_false, if_true]
    rw [e, b, a]
    obtain ⟨t1, _, _, _⟩ := Driver.trackIo_world
      (Driver._discoverLoop ((d._config.discoveryRetries + 1) % 256)
        (Status.Error Err.DISCOVERY_FAILED "Discovery failed" 0)
        ({ d with _driverState := DriverState.RECOVERING } : Driver) w).st
      ({ d with _driverState := DriverState.RECOVERING } : Driver)
      (({ d with _driverState := DriverState.RECOVERING } : Driver).attemptsWorld
        ((d._config.discoveryRetries + 1) % 256) w) hinit
    obtain ⟨_, _, t2, _⟩ := Driver.trackIo_wire_step
      (Driver._discoverLoop ((d._config.discoveryRetries + 1) % 256)
        (Status.Error Err.DISCOVERY_FAILED "Discovery failed" 0)
        ({ d with _driverState := DriverState.RECOVERING } : Driver) w).st
      ({ d with _driverState := DriverState.RECOVERING } : Driver)
      (({ d with _driverState := DriverState.RECOVERING } : Driver).attemptsWorld
        ((d._config.discoveryRetries + 1) % 256) w) hinit (Or.inl hc)
    refine ⟨by rw [Driver.trackIo_st]; exact hc, t2, ?_⟩
    rw [t1, World.after_trace]
    have hr := Driver.attemptsWorld_reads ({ d with _driverState := DriverState.RECOVERING } : Driver)
      ((d._config.discoveryRetries + 1) % 256) w
    simp only [reads, List.filter_append, List.length_append] at hr ⊢
    rw [hr]
    rfl
  · intro k hk hf hs
    obtain ⟨a, b, c⟩ := l2 k hk hf hs
    simp only [recoverDiscovered, Driver.checkInitialized_ok hinit, Driver.ok_Ok, Bool.not_true,
      Bool.false_eq_true, if_false, a, b, c]

/-- C21, the failing input.  With `discoveryRetries == 255` the 8-bit number of
attempts `255 + 1` is 0: `begin` on the line with an AT21CS01 attached samples
the line not once and returns NOT_PRESENT with the state OFFLINE, and
`recover` of the ready driver returns DISCOVERY_FAILED without sampling the
line; with the default 2 retries the same `begin` succeeds. -/
theorem discovery_retries_overflow :
    (255 + 1) % 256 = 0 ∧
    (({} : Driver).begin { sioPin := 4, discoveryRetries := 255 } bootWorld).st.code =
      Err.NOT_PRESENT ∧
    (({} : Driver).begin { sioPin := 4, discoveryRetries := 255 } bootWorld).drv._driverState =
      DriverState.OFFLINE ∧
    reads (({} : Driver).begin { sioPin := 4, discoveryRetries := 255 } bootWorld).world.trace
      = 0 ∧
    (({ readyDriver with _config := { sioPin := 4, discoveryRetries := 255 } } :
      Driver).recover bootWorld).st.code = Err.DISCOVERY_FAILED ∧
    reads (({ readyDriver with _config := { sioPin := 4, discoveryRetries := 255 } } :
      Driver).recover bootWorld).world.trace = 0 ∧
    (({} : Driver).begin { sioPin := 4 } bootWorld).st = Status.Ok := by
  decide
/-! ## What `begin` resets -/

namespace Driver

theorem beginStartup_part (config : Config) (detected : PartType) (d : Driver) (w : World)
    (hdet : detected = PartType.AT21CS01 ∨
      ¬ config.startupSpeed = SpeedMode.STANDARD_SPEED)
    (f1 : d._config = config) : BeginPart config (d.beginStartup detected w) := by
  unfold beginStartup
  simp only [addressOnlyRaw_level, ok_Ok, Bool.not_true, Bool.false_eq_true, if_false, millis,
    emit_eq_after]
  split_ifs with c1 c2
  · have c1' : config.startupSpeed = SpeedMode.STANDARD_SPEED := by rw [← f1]; exact c1
    rcases hdet with h | h
    · subst h
      exact Or.inr (Or.inr ⟨rfl, rfl, rfl, c1'⟩)
    · exact absurd c1' h
  · exact Or.inr (Or.inl rfl)
  · exact Or.inr (Or.inl rfl)

theorem beginIdentify_part (config : Config) (d : Driver) (w : World)
    (f1 : d._config = config) (f3 : d._detectedPart = PartType.UNKNOWN) :
    BeginPart config (d.beginIdentify w) := by
  obtain ⟨hm1, _, _⟩ := readManufacturerIdRaw_frame 0 d w
  unfold beginIdentify
  generalize d._readManufacturerIdRaw 0 w = m at hm1 ⊢
  obtain ⟨mst, mout, mdrv, mw⟩ := m
  simp only at hm1 ⊢
  subst hm1
  by_cases c1 : (!mst.ok) = true
  · rw [if_pos c1]
    exact Or.inl f3
  · rw [if_neg c1]
    by_cases hA : mout = cmd.MANUFACTURER_ID_AT21CS01
    · simp only [hA, if_true]
      by_cases c2 : mdrv._config.expectedPart ≠ PartType.UNKNOWN ∧
          mdrv._config.expectedPart ≠ PartType.AT21CS01
      · rw [if_pos c2]
        exact Or.inl f3
      · rw [if_neg c2, if_neg (by simp)]
        exact beginStartup_part config PartType.AT21CS01 mdrv mw (Or.inl rfl) f1
    · by_cases hB : mout = cmd.MANUFACTURER_ID_AT21CS11
      · have hne : ¬ cmd.MANUFACTURER_ID_AT21CS11 = cmd.MANUFACTURER_ID_AT21CS01 := by decide
        subst hB
        simp only [hne, if_false, if_true]
        by_cases c2 : mdrv._config.expectedPart ≠ PartType.UNKNOWN ∧
            mdrv._config.expectedPart ≠ PartType.AT21CS11
        · rw [if_pos c2]
          exact Or.inl f3
        · rw [if_neg c2]
          by_cases c3 : mdrv._config.startupSpeed = SpeedMode.STANDARD_SPEED ∧ True
          · rw [if_pos c3]
            exact Or.inl f3
          · rw [if_neg c3]
            exact beginStartup_part config PartType.AT21CS11 mdrv mw
              (Or.inr (by rw [← f1]; intro h; exact c3 ⟨h, trivial⟩)) f1
      · simp only [hA, hB, if_false]
        exact Or.inl f3

theorem begin_part (config : Config) (d : Driver) (w : World)
    (h1 : ¬ config.sioPin < 0) (h2 : ¬ config.sioPin > 63) (h3 : ¬ config.presencePin > 63)
    (h4 : ¬ config.addressBits > 7) (h5 : ¬ config.offlineThreshold = 0)
    (h6 : ¬ config.writeTimeoutMs = 0) :
    BeginPart config (d.begin config w) := by
  simp only [begin, h1, h2, h3, h4, h5, h6, if_false]
  have f : ∀ d0 : Driver, d0 = (({ d with
      _config := config
      _initialized := false
      _driverState := DriverState.UNINIT
      _detectedPart := PartType.UNKNOWN } : Driver)._setSpeedMode
        SpeedMode.HIGH_SPEED)._resetHealth →
      d0._config = config ∧ d0._detectedPart = PartType.UNKNOWN := by
    intro d0 h; subst h; exact ⟨rfl, rfl⟩
  generalize (({ d with
      _config := config
      _initialized := false
      _driverState := DriverState.UNINIT
      _detectedPart := PartType.UNKNOWN } : Driver)._setSpeedMode
        SpeedMode.HIGH_SPEED)._resetHealth = d0 at f ⊢
  obtain ⟨f1, f3⟩ := f d0 rfl
  clear f
  generalize d0._configurePins w = cp
  obtain ⟨cst, cw⟩ := cp
  simp only
  obtain ⟨hr, _⟩ := discoverLoop_frame ((d0._config.discoveryRetries + 1) % 256)
    (Status.Error Err.DISCOVERY_FAILED "Discovery failed" 0)
    ({ d0 with _driverState := DriverState.PROBING } : Driver) cw
  generalize _discoverLoop ((d0._config.discoveryRetries + 1) % 256)
    (Status.Error Err.DISCOVERY_FAILED "Discovery failed" 0)
    ({ d0 with _driverState := DriverState.PROBING } : Driver) cw = r at hr ⊢
  obtain ⟨rst, ru, rdrv, rw⟩ := r
  simp only at hr ⊢
  have g : rdrv._config = config ∧ rdrv._detectedPart = PartType.UNKNOWN := by
    rcases hr with ⟨_, h⟩ | ⟨_, h⟩ <;> subst h <;> exact ⟨f1, f3⟩
  by_cases c1 : (!cst.ok) = true
  · rw [if_pos c1]
    exact Or.inl f3
  · rw [if_neg c1]
    by_cases c2 : (!rst.ok) = true
    · rw [if_pos c2]
      exact Or.inl g.2
    · rw [if_neg c2]
      exact beginIdentify_part config rdrv rw g.1 g.2

end Driver

/-- C23, counterexample.  `begin` with `startupSpeed == STANDARD_SPEED` on a
line with an AT21CS01 that does not acknowledge the Standard Speed command
fails with NACK_DEVICE_ADDRESS and the state FAULT, not initialized, and the
detected part is AT21CS01, not UNKNOWN: the part was classified and accepted
before the command was sent. -/
theorem begin_keeps_classified_part :
    (({} : Driver).begin { sioPin := 4, startupSpeed := SpeedMode.STANDARD_SPEED }
      nackSpeedWorld).st.code = Err.NACK_DEVICE_ADDRESS ∧
    (({} : Driver).begin { sioPin := 4, startupSpeed := SpeedMode.STANDARD_SPEED }
      nackSpeedWorld).drv._initialized = false ∧
    (({} : Driver).begin { sioPin := 4, startupSpeed := SpeedMode.STANDARD_SPEED }
      nackSpeedWorld).drv._detectedPart = PartType.AT21CS01 := by
  decide

/-- C23, amended.  Every call of `begin()` whose configuration passes the six
parameter checks, whatever its outcome and whatever the driver went through
before, leaves the health record reset (consecutiveFailures, totalFailures and
totalSuccess 0, lastError OK), and the detected part UNKNOWN unless the call
succeeds or fails at the Standard Speed command sent after an AT21CS01 was
classified and accepted. -/
theorem begin_resets (config : Config) (d : Driver) (w : World)
    (h1 : ¬ config.sioPin < 0) (h2 : ¬ config.sioPin > 63) (h3 : ¬ config.presencePin > 63)
    (h4 : ¬ config.addressBits > 7) (h5 : ¬ config.offlineThreshold = 0)
    (h6 : ¬ config.writeTimeoutMs = 0) :
    (d.begin config w).drv._consecutiveFailures = 0 ∧
    (d.begin config w).drv._totalFailures = 0 ∧
    (d.begin config w).drv._totalSuccess = 0 ∧
    (d.begin config w).drv._lastError = Status.Ok ∧
    BeginPart config (d.begin config w) := by
  obtain ⟨_, _, a, b, c, e, _⟩ := Driver.begin_accepted config d w h1 h2 h3 h4 h5 h6
  exact ⟨a, b, c, e, Driver.begin_part config d w h1 h2 h3 h4 h5 h6⟩

/-- C23, an instance: a second `begin` of a driver that has counted failures,
on a line with nothing attached. -/
theorem begin_resets_witness :
    (({ readyDriver with _totalFailures := 3, _consecutiveFailures := 2 } : Driver).begin
      pin4Config deafWorld).drv._totalFailures = 0 ∧
    (({ readyDriver with _totalFailures := 3, _consecutiveFailures := 2 } : Driver).begin
      pin4Config deafWorld).drv._consecutiveFailures = 0 ∧
    BeginPart pin4Config
      (({ readyDriver with _totalFailures := 3, _consecutiveFailures := 2 } : Driver).begin
        pin4Config deafWorld) :=
  have h := begin_resets pin4Config
    ({ readyDriver with _totalFailures := 3, _consecutiveFailures := 2 } : Driver) deafWorld
    (by decide) (by decide) (by decide) (by decide) (by decide) (by decide)
  ⟨h.2.1, h.1, h.2.2.2.2⟩
/-! ## The sequential write on the wire -/

theorem writeFrame_cons (b : Nat) (bytes : List Nat) (k : Nat) :
    writeFrame (b :: bytes) (k + 1) = (b, false) :: writeFrame bytes k := by
  simp [writeFrame]

theorem writeFrame_zero (b : Nat) (bytes : List Nat) :
    writeFrame (b :: bytes) 0 = [(b, true)] := by
  simp [writeFrame]

namespace Driver

/-- The transmit loop of `_writeRaw`, byte by byte: `k` bytes were acknowledged;
either these are all, or byte `i + k` was not acknowledged and nothing was sent
after it. -/
theorem writeRawLoop_bytes (d : Driver) (data : List Nat) :
    ∀ (n i : Nat) (w : World), ∃ k, k ≤ n ∧
      (d._writeRawLoop data n i w).2 =
        w.after ((writeFrame ((List.range' i n).map fun j => data.getD j 0) k).flatMap
          fun p => byteImage d p.1 p.2) ∧
      (((d._writeRawLoop data n i w).1 = none ∧ k = n) ∨
        ((d._writeRawLoop data n i w).1 = some (i + k) ∧ k < n)) := by
  intro n
  induction n with
  | zero =>
    intro i w
    exact ⟨0, Nat.le_refl 0, by simp [_writeRawLoop, writeFrame, World.after_nil],
      Or.inl ⟨rfl, rfl⟩⟩
  | succ n ih =>
    intro i w
    obtain ⟨lvl, h⟩ := txByte_image d (data.getD i 0) w
    cases lvl with
    | true =>
      refine ⟨0, Nat.zero_le _, ?_, Or.inr ⟨?_, Nat.succ_pos n⟩⟩
      · simp only [_writeRawLoop, h, Bool.not_true, Bool.not_false, if_true]
        simp [List.range'_succ, writeFrame_zero, List.flatMap]
      · simp only [_writeRawLoop, h, Bool.not_true, Bool.not_false, if_true, Nat.add_zero]
    | false =>
      obtain ⟨k, hk, e, hc⟩ := ih (i + 1) (w.after (byteImage d (data.getD i 0) false))
      have el : d._writeRawLoop data (n + 1) i w =
          d._writeRawLoop data n (i + 1) (w.after (byteImage d (data.getD i 0) false)) := by
        simp only [_writeRawLoop, h, Bool.not_false, Bool.not_true, Bool.false_eq_true, if_false]
      rw [el]
      refine ⟨k + 1, Nat.succ_le_succ hk, ?_, ?_⟩
      · rw [e, World.after_after]
        simp [List.range'_succ, writeFrame_cons, List.flatMap]
      · rcases hc with ⟨a, b⟩ | ⟨a, b⟩
        · exact Or.inl ⟨a, by rw [b]⟩
        · exact Or.inr ⟨by rw [a]; congr 1; omega, Nat.succ_lt_succ b⟩

end Driver

/-- C26.  `_writeRaw` transmits, between a start and a stop condition and in
this order, the write-direction device-address byte, the memory address byte
and `data[0]`, `data[1]`, ...; with `k` the number of bytes acknowledged, the
transaction consists of these `k` bytes and, when `k < len + 2`, of the next
byte, which was not acknowledged; no byte after that one is transmitted.  The
status tells which byte it was: NACK_DEVICE_ADDRESS for `k = 0`,
NACK_MEMORY_ADDRESS for `k = 1`, NACK_DATA with detail `k - 2` for
`2 <= k < len + 2`; and it is OK exactly when `k = len + 2`, all bytes
acknowledged.  The driver itself is unchanged. -/
theorem writeRaw_sequence (opcode address : Nat) (data : List Nat) (len : Nat) (d : Driver)
    (w : World) :
    ∃ k, k ≤ len + 2 ∧
      (d._writeRaw opcode address data len w).world =
        w.after (frameImage d
          (writeFrame (d._deviceAddress opcode false :: address :: bufferBytes data len) k)) ∧
      (d._writeRaw opcode address data len w).drv = d ∧
      ((k = 0 ∧ (d._writeRaw opcode address data len w).st =
          Status.Error Err.NACK_DEVICE_ADDRESS "Device address NACK" 0) ∨
        (k = 1 ∧ (d._writeRaw opcode address data len w).st =
          Status.Error Err.NACK_MEMORY_ADDRESS "Memory address NACK" 0) ∨
        (2 ≤ k ∧ k < len + 2 ∧ (d._writeRaw opcode address data len w).st =
          Status.Error Err.NACK_DATA "Data byte NACK" ((k - 2 : Nat) : Int)) ∨
        (k = len + 2 ∧ (d._writeRaw opcode address data len w).st = Status.Ok)) ∧
      ((d._writeRaw opcode address data len w).st.ok = true ↔ k = len + 2) := by
  obtain ⟨l0, h0⟩ := Driver.txByte_image d (d._deviceAddress opcode false)
    (w.after (guardImage d))
  cases l0 with
  | true =>
    have e : d._writeRaw opcode address data len w =
        ⟨Status.Error Err.NACK_DEVICE_ADDRESS "Device address NACK" 0, (), d,
          w.after (frameImage d [(d._deviceAddress opcode false, true)])⟩ := by
      simp only [Driver._writeRaw, Driver.sendStart_image, Driver.sendStop_image, h0]
      simp [frameImage, World.after_after, List.flatMap]
    rw [e]
    refine ⟨0, Nat.zero_le _, by rw [writeFrame_zero], rfl, Or.inl ⟨rfl, rfl⟩, ?_⟩
    constructor
    · intro h; simp [Status.ok, Status.Error] at h
    · intro h; omega
  | false =>
    obtain ⟨l1, h1⟩ := Driver.txByte_image d address
      ((w.after (guardImage d)).after (byteImage d (d._deviceAddress opcode false) false))
    cases l1 with
    | true =>
      have e : d._writeRaw opcode address data len w =
          ⟨Status.Error Err.NACK_MEMORY_ADDRESS "Memory address NACK" 0, (), d,
            w.after (frameImage d [(d._deviceAddress opcode false, false), (address, true)])⟩ := by
        simp only [Driver._writeRaw, Driver.sendStart_image, Driver.sendStop_image, h0, h1]
        simp [frameImage, World.after_after, List.flatMap]
      rw [e]
      refine ⟨1, by omega, by rw [writeFrame_cons, writeFrame_zero], rfl,
        Or.inr (Or.inl ⟨rfl, rfl⟩), ?_⟩
      constructor
      · intro h; simp [Status.ok, Status.Error] at h
      · intro h; omega
    | false =>
      obtain ⟨k, hk, e2, hc⟩ := Driver.writeRawLoop_bytes d data len 0
        (((w.after (guardImage d)).after
          (byteImage d (d._deviceAddress opcode false) false)).after (byteImage d address false))
      have hb : ((List.range' 0 len).map fun j => data.getD j 0) = bufferBytes data len := by
        rw [bufferBytes, List.range_eq_range']
      rw [hb] at e2
      generalize hL : d._writeRawLoop data len 0
        (((w.after (guardImage d)).after
          (byteImage d (d._deviceAddress opcode false) false)).after (byteImage d address false))
        = L at e2 hc
      obtain ⟨res, wl⟩ := L
      simp only at e2 hc
      subst e2
      obtain ⟨W, hW⟩ : ∃ W : World, W = ((((w.after (guardImage d)).after
          (byteImage d (d._deviceAddress opcode false) false)).after
          (byteImage d address false)).after
          ((writeFrame (bufferBytes data len) k).flatMap fun p => byteImage d p.1 p.2)).after
          (guardImage d) := ⟨_, rfl⟩
      have hw : W = w.after (frameImage d (writeFrame
          (d._deviceAddress opcode false :: address :: bufferBytes data len) (k + 2))) := by
        rw [hW, writeFrame_cons, writeFrame_cons]
        simp [frameImage, World.after_after, List.flatMap, List.append_assoc]
      rcases hc with ⟨a, b⟩ | ⟨a, b⟩
      · subst a
        have e : d._writeRaw opcode address data len w = ⟨Status.Ok, (), d, W⟩ := by
          rw [hW]
          simp only [Driver._writeRaw, Driver.sendStart_image, Driver.sendStop_image, h0, h1, hL,
            Bool.not_false, Bool.not_true, Bool.false_eq_true, if_false]
        rw [e]
        refine ⟨k + 2, by omega, hw, rfl, Or.inr (Or.inr (Or.inr ⟨by omega, rfl⟩)), ?_⟩
        constructor
        · intro _; omega
        · intro _; rfl
      · subst a
        have e : d._writeRaw opcode address data len w =
            ⟨Status.Error Err.NACK_DATA "Data byte NACK" ((0 + k : Nat) : Int), (), d, W⟩ := by
          rw [hW]
          simp only [Driver._writeRaw, Driver.sendStart_image, Driver.sendStop_image, h0, h1, hL,
            Bool.not_false, Bool.not_true, Bool.false_eq_true, if_false]
        rw [e]
        refine ⟨k + 2, by omega, hw, rfl,
          Or.inr (Or.inr (Or.inl ⟨by omega, by omega, by simp⟩)), ?_⟩
        constructor
        · intro h; simp [Status.ok, Status.Error] at h
        · intro h; omega
/-! ## Byte framing -/

theorem length_eight {α : Type} (l : List α) (h : l.length = 8) :
    ∃ a b c d e f g i, l = [a, b, c, d, e, f, g, i] := by
  rcases l with _ | ⟨a, _ | ⟨b, _ | ⟨c, _ | ⟨d, _ | ⟨e, _ | ⟨f, _ | ⟨g, _ | ⟨i, _ | ⟨x, t⟩⟩⟩⟩⟩⟩⟩⟩⟩
  all_goals first
    | exact ⟨_, _, _, _, _, _, _, _, rfl⟩
    | (simp only [List.length_cons, List.length_nil] at h; omega)

theorem orLevels_byte : ∀ a b c d e f g i : Bool,
    orLevels 0 [a, b, c, d, e, f, g, i] [7, 6, 5, 4, 3, 2, 1, 0] =
      levelsByte [a, b, c, d, e, f, g, i] := by
  decide

theorem levelsByte_bits : ∀ a b c d e f g i : Bool, ∀ k, k < 8 →
    decide ((levelsByte [a, b, c, d, e, f, g, i] >>> (7 - k)) &&& 1 ≠ 0) =
      [a, b, c, d, e, f, g, i].getD k false := by
  decide

theorem levelsByte_replay : ∀ v, v < 256 →
    levelsByte ([7, 6, 5, 4, 3, 2, 1, 0].map fun b => decide ((v >>> b) &&& 1 ≠ 0)) = v := by
  decide

namespace Driver

/-- The loop of `rxByte`: the sampled levels and what is made of them. -/
theorem rxByteBits_value (d : Driver) :
    ∀ (bs : List Nat) (acc : Nat × World), ∃ lvls : List Bool,
      lvls.length = bs.length ∧
      bs.foldl d.rxByteBit acc =
        (orLevels acc.1 lvls bs, acc.2.after (lvls.flatMap (slotImage d))) := by
  intro bs
  induction bs with
  | nil => intro acc; exact ⟨[], rfl, by simp [orLevels, World.after_nil]⟩
  | cons b bs ih =>
    intro acc
    obtain ⟨lvl, h⟩ := rxBit_image d acc.2
    have e : d.rxByteBit acc b =
        (if lvl then (acc.1 ||| ((1 <<< b) % 256)) % 256 else acc.1,
          acc.2.after (slotImage d lvl)) := by
      simp only [rxByteBit, h]
      split_ifs <;> rfl
    obtain ⟨lvls, h1, h2⟩ := ih (d.rxByteBit acc b)
    refine ⟨lvl :: lvls, by simp [h1], ?_⟩
    rw [List.foldl_cons, h2, e]
    simp [orLevels, World.after_after, List.flatMap]

end Driver

/-- C27.  Byte framing is most significant bit first.  `txByte(v)` puts on the
line the eight bits 7, 6, ..., 0 of `v`, a 1 as the short low pulse (`low1Us`)
and a 0 as the long one (`low0Us`), followed by one sampled acknowledge slot,
and returns true exactly when the line was sampled low in that slot.
`rxByte(ack)` samples eight slots, returns the byte whose bit `7 - k` is 1
exactly when the level sampled in slot `k` is high, and then sends a 0 bit when
`ack` is true and a 1 bit otherwise.  So when the sampled levels are the bits
of a byte, most significant first, `rxByte` returns that byte. -/
theorem byte_framing (d : Driver) (v : Nat) (ack : Bool) (w : World) :
    (∃ lvl, d.txByte v w = (!lvl, w.after
      (([7, 6, 5, 4, 3, 2, 1, 0].flatMap fun b => bitImage d (decide ((v >>> b) &&& 1 ≠ 0))) ++
        slotImage d lvl))) ∧
    (∀ one, ∃ rest, bitImage d one =
      [Event.write d.sio false,
        Event.delayUs (if one then d._timing.low1Us else d._timing.low0Us),
        Event.write d.sio true] ++ rest) ∧
    (HIGH_SPEED_TIMING.low1Us < HIGH_SPEED_TIMING.low0Us ∧
      STANDARD_SPEED_TIMING.low1Us < STANDARD_SPEED_TIMING.low0Us) ∧
    (∃ lvls, lvls.length = 8 ∧
      d.rxByte ack w = (levelsByte lvls,
        w.after (lvls.flatMap (slotImage d) ++ bitImage d (!ack))) ∧
      (∀ k, k < 8 → decide ((levelsByte lvls >>> (7 - k)) &&& 1 ≠ 0) = lvls.getD k false)) ∧
    levelsByte ([7, 6, 5, 4, 3, 2, 1, 0].map fun b => decide (((v % 256) >>> b) &&& 1 ≠ 0)) =
      v % 256 := by
  refine ⟨?_, fun one => ⟨_, rfl⟩, ⟨by decide, by decide⟩, ?_,
    levelsByte_replay _ (Nat.mod_lt _ (by decide))⟩
  · obtain ⟨lvl, h⟩ := Driver.txByte_image d v w
    exact ⟨lvl, h⟩
  · obtain ⟨lvls, h1, h2⟩ := Driver.rxByteBits_value d [7, 6, 5, 4, 3, 2, 1, 0] (0, w)
    obtain ⟨a, b, c, e, f, g, i, j, rfl⟩ := length_eight lvls h1
    refine ⟨[a, b, c, e, f, g, i, j], rfl, ?_, levelsByte_bits a b c e f g i j⟩
    unfold Driver.rxByte
    rw [h2, orLevels_byte]
    cases ack
    · simp only [Driver.txBit1_image, World.after_after, Bool.not_false]
      rfl
    · simp only [Driver.txBit0_image, World.after_after, Bool.not_true]
      rfl
/-! ## The page-splitting helper -/

/-- The loop of the helper with the recorder in the place of the driver. -/
theorem pagedLoop_chunks (answer : Nat → Status) (address len : Nat) (bytes : List Nat)
    (hend : address + len ≤ 128) (hbuf : len ≤ bytes.length) :
    ∀ (fuel offset : Nat) (log0 : List (Nat × List Nat)), offset ≤ len → len - offset ≤ fuel →
      ∃ st tail,
        writeEepromBytesPagedLoop (logPage answer) address bytes len fuel offset log0 =
          some (st, log0 ++ tail) ∧
        chunksFrom (address + offset) (bytes.drop offset) tail ∧
        (∀ j, j + 1 < tail.length → (answer (log0.length + j)).ok = true) ∧
        ((st = Status.Ok ∧ (∀ j, j < tail.length → (answer (log0.length + j)).ok = true) ∧
            (tail.map Prod.snd).flatten = (bytes.drop offset).take (len - offset)) ∨
          (tail ≠ [] ∧ st = answer (log0.length + (tail.length - 1)) ∧ st.ok = false ∧
            (tail.map Prod.snd).flatten <+: (bytes.drop offset).take (len - offset))) := by
  intro fuel
  induction fuel with
  | zero =>
    intro offset log0 h1 h2
    have h3 : ¬ offset < len := by omega
    refine ⟨Status.Ok, [], ?_, trivial, fun j hj => absurd hj (Nat.not_lt_zero _),
      Or.inl ⟨rfl, fun j hj => absurd hj (Nat.not_lt_zero _), ?_⟩⟩
    · simp [writeEepromBytesPagedLoop, h3]
    · simp [show len - offset = 0 by omega]
  | succ fuel ih =>
    intro offset log0 h1 h2
    by_cases h3 : offset < len
    · obtain ⟨chunk, hchunk⟩ : ∃ chunk, chunk = (if cmd.PAGE_SIZE -
          ((address + offset) % 65536 % cmd.PAGE_SIZE) % 256 > len - offset then len - offset
          else cmd.PAGE_SIZE - ((address + offset) % 65536 % cmd.PAGE_SIZE) % 256) := ⟨_, rfl⟩
      have hc : 1 ≤ chunk ∧ chunk ≤ len - offset ∧ (address + offset) % 8 + chunk ≤ 8 := by
        rw [hchunk]
        simp only [cmd.PAGE_SIZE]
        split_ifs <;> omega
      have ha : (address + offset) % 65536 % 256 = address + offset := by omega
      have hlen : ((bytes.drop offset).take chunk).length = chunk := by
        rw [List.length_take, List.length_drop]
        omega
      have hstep : writeEepromBytesPagedLoop (logPage answer) address bytes len (fuel + 1) offset
          log0 =
          if !(answer log0.length).ok then
            some (answer log0.length, log0 ++ [(address + offset, (bytes.drop offset).take chunk)])
          else writeEepromBytesPagedLoop (logPage answer) address bytes len fuel (offset + chunk)
            (log0 ++ [(address + offset, (bytes.drop offset).take chunk)]) := by
        rw [hchunk]
        simp only [writeEepromBytesPagedLoop, h3, if_true, logPage, ha]
      have hhead : chunksFrom (address + offset) (bytes.drop offset)
          [(address + offset, (bytes.drop offset).take chunk)] := by
        refine ⟨rfl, ?_, ?_, ?_, trivial⟩
        · intro h
          have := congrArg List.length h
          rw [hlen] at this
          simp at this
          omega
        · show (address + offset) % 8 + ((bytes.drop offset).take chunk).length ≤ 8
          rw [hlen]; exact hc.2.2
        · show (bytes.drop offset).take chunk = (bytes.drop offset).take
            ((bytes.drop offset).take chunk).length
          rw [hlen]
      by_cases hok : (answer log0.length).ok = true
      · obtain ⟨st, tail, e, c1, c2, c3⟩ := ih (offset + chunk)
          (log0 ++ [(address + offset, (bytes.drop offset).take chunk)]) (by omega) (by omega)
        have hl : (log0 ++ [(address + offset, (bytes.drop offset).take chunk)]).length =
            log0.length + 1 := by simp
        rw [hl] at c2 c3
        refine ⟨st, (address + offset, (bytes.drop offset).take chunk) :: tail, ?_, ?_, ?_, ?_⟩
        · rw [hstep, hok]
          simp only [Bool.not_true, Bool.false_eq_true, if_false]
          rw [e, List.append_assoc]
          rfl
        · refine ⟨rfl, hhead.2.1, hhead.2.2.1, hhead.2.2.2.1, ?_⟩
          show chunksFrom (address + offset + ((bytes.drop offset).take chunk).length)
            ((bytes.drop offset).drop ((bytes.drop offset).take chunk).length) tail
          rw [hlen, List.drop_drop, Nat.add_assoc]
          exact c1
        · intro j hj
          cases j with
          | zero => exact hok
          | succ j =>
            have := c2 j (by simp only [List.length_cons] at hj; omega)
            rwa [show log0.length + 1 + j = log0.length + (j + 1) by omega] at this
        · have hsplit : (bytes.drop offset).take (len - offset) =
              (bytes.drop offset).take chunk ++
                (bytes.drop (offset + chunk)).take (len - (offset + chunk)) := by
            rw [show len - offset = chunk + (len - (offset + chunk)) by omega, List.take_add,
              List.drop_drop]
          rcases c3 with ⟨a1, a2, a3⟩ | ⟨a1, a2, a3, a4⟩
          · refine Or.inl ⟨a1, fun j hj => ?_, ?_⟩
            · cases j with
              | zero => exact hok
              | succ j =>
                have := a2 j (by simp only [List.length_cons] at hj; omega)
                rwa [show log0.length + 1 + j = log0.length + (j + 1) by omega] at this
            · rw [hsplit, List.map_cons, List.flatten_cons, a3]
          · refine Or.inr ⟨by simp, ?_, a3, ?_⟩
            · rw [a2]
              have : 0 < tail.length := List.length_pos.mpr a1
              congr 1
              simp only [List.length_cons]
              omega
            · rw [hsplit, List.map_cons, List.flatten_cons]
              exact (List.prefix_append_right_inj _).mpr a4
      · have hok2 : (answer log0.length).ok = false := by simpa using hok
        refine ⟨answer log0.length, [(address + offset, (bytes.drop offset).take chunk)], ?_,
          hhead, fun j hj => ?_, Or.inr ⟨by simp, rfl, hok2, ?_⟩⟩
        · rw [hstep, hok2]
          rfl
        · simp at hj
        · simp only [List.map_cons, List.map_nil, List.flatten_cons, List.flatten_nil, List.append_nil]
          rw [show (bytes.drop offset).take chunk =
            ((bytes.drop offset).take (len - offset)).take chunk by
              rw [List.take_take, Nat.min_eq_left hc.2.1]]
          exact List.take_prefix _ _
    · refine ⟨Status.Ok, [], ?_, trivial, fun j hj => absurd hj (Nat.not_lt_zero _),
        Or.inl ⟨rfl, fun j hj => absurd hj (Nat.not_lt_zero _), ?_⟩⟩
      · simp [writeEepromBytesPagedLoop, h3]
      · simp [show len - offset = 0 by omega]

/-- C28.  The helper `writeEepromBytesPaged(driver, address, data, len)`, with
`address` a byte.  It refuses a null buffer, `len == 0`, `len > 128` and
`address + len > 128` with INVALID_PARAM and without a call of the driver
(whatever the driver is, its state is untouched).  Otherwise, with a buffer of
`len` bytes, it returns, and the `writeEepromPage` calls it has made (seen by a
recorder that answers call `j` with `answer j`) write non-empty chunks with
consecutive start addresses beginning at `address`, each inside one 8-byte page
((start mod 8) + chunkLen <= 8), taken in order from the buffer; all calls but
the last succeeded; and either every call succeeded, the chunks together are
`data[0..len)` and the result is OK, or the last call failed, nothing was
written after it and the result is its status. -/
theorem paged_write_chunks (answer : Nat → Status) (address len : Nat) (bytes : List Nat)
    (haddr : address < 256) :
    (∀ (σ : Type) (write : Nat → List Nat → Nat → σ → Option (Status × σ))
        (data : Option (List Nat)) (s : σ),
      (data = none ∨ len = 0 ∨ len > 128 ∨ address + len > 128) →
      ∃ st, writeEepromBytesPaged write address data len s = some (st, s) ∧
        st.code = Err.INVALID_PARAM) ∧
    (1 ≤ len → address + len ≤ 128 → len ≤ bytes.length →
      ∃ st calls,
        writeEepromBytesPaged (logPage answer) address (some bytes) len [] = some (st, calls) ∧
        chunksFrom address bytes calls ∧
        (∀ j, j + 1 < calls.length → (answer j).ok = true) ∧
        ((st = Status.Ok ∧ (∀ j, j < calls.length → (answer j).ok = true) ∧
            (calls.map Prod.snd).flatten = bytes.take len) ∨
          (calls ≠ [] ∧ st = answer (calls.length - 1) ∧ st.ok = false ∧
            (calls.map Prod.snd).flatten <+: bytes.take len))) := by
  constructor
  · intro σ write data s h
    cases data with
    | none => exact ⟨_, rfl, rfl⟩
    | some b =>
      by_cases c1 : len = 0 ∨ len > cmd.EEPROM_SIZE
      · exact ⟨Status.Error Err.INVALID_PARAM "Invalid EEPROM write buffer/length" 0,
          by simp only [writeEepromBytesPaged, c1, if_true], rfl⟩
      · have c2 : (address + len) % 65536 > cmd.EEPROM_SIZE := by
          simp only [cmd.EEPROM_SIZE, not_or] at c1 ⊢
          rcases h with h | h | h | h
          · exact absurd h (by simp)
          · omega
          · omega
          · omega
        exact ⟨Status.Error Err.INVALID_PARAM "EEPROM write range out of bounds" 0,
          by simp only [writeEepromBytesPaged, c1, c2, if_true, if_false], rfl⟩
  · intro h1 h2 h3
    have c1 : ¬ (len = 0 ∨ len > cmd.EEPROM_SIZE) := by
      simp only [cmd.EEPROM_SIZE]; omega
    have c2 : ¬ (address + len) % 65536 > cmd.EEPROM_SIZE := by
      simp only [cmd.EEPROM_SIZE]; omega
    obtain ⟨st, tail, e, k1, k2, k3⟩ := pagedLoop_chunks answer address len bytes h2 h3 len 0 []
      (Nat.zero_le _) (by omega)
    refine ⟨st, tail, ?_, ?_, ?_, ?_⟩
    · simp only [writeEepromBytesPaged, c1, c2, if_false, e, List.nil_append]
    · simpa using k1
    · simpa using k2
    · simpa using k3

/-- C28, an instance: ten bytes from address 5 are written as the three bytes
up to the page end and seven bytes from address 8. -/
theorem paged_write_chunks_witness :
    (5 : Nat) < 256 ∧
    writeEepromBytesPaged (logPage fun _ => Status.Ok) 5
      (some [1, 2, 3, 4, 5, 6, 7, 8, 9, 10]) 10 [] =
      some (Status.Ok, [(5, [1, 2, 3]), (8, [4, 5, 6, 7, 8, 9, 10])]) ∧
    ∃ st calls, writeEepromBytesPaged (logPage fun _ => Status.Ok) 5
        (some [1, 2, 3, 4, 5, 6, 7, 8, 9, 10]) 10 [] = some (st, calls) ∧
      chunksFrom 5 [1, 2, 3, 4, 5, 6, 7, 8, 9, 10] calls :=
  have h := (paged_write_chunks (fun _ => Status.Ok) 5 10 [1, 2, 3, 4, 5, 6, 7, 8, 9, 10]
    (by decide)).2 (by decide) (by decide) (by decide)
  ⟨by decide, by decide, h.choose, h.choose_spec.choose, h.choose_spec.choose_spec.1,
    h.choose_spec.choose_spec.2.1⟩

end AT21CS
